import Mathlib

/-!
Verification of the highest-number-pairing solver.

The Rust source stores all quantities in `f64`.  The embedding models the
numeric values as exact rationals (`ℚ`): every arithmetic operation the code
performs (addition, subtraction, multiplication, division, absolute value,
comparison, rounding, saturating casts) is translated literally, with the
rounding of `f64::round` (half away from zero) and the saturating behaviour of
Rust float-to-integer casts made explicit.  Where division by zero occurs in
the source (the `sum = 0` run divides by a zero precision, producing an
infinite conversion factor and NaN loop bounds that the saturating cast turns
into 0), the rational convention `1 / 0 = 0` produces the same integer loop
bounds (0 to 0) and the same scanned value (0), so the degenerate run is
modelled faithfully; this is noted again at the definition concerned.
-/

/-- Rounding of `f64::round`: round half away from zero. -/
def round_half_away (q : ℚ) : ℤ :=
  if 0 ≤ q then ⌊q + 1 / 2⌋ else -⌊-q + 1 / 2⌋

/-- Rust float-to-`u32` cast: truncate toward zero, saturating at the bounds
(negative values and NaN go to 0, values at or above `2^32` go to
`u32::MAX`). -/
def rustCastU32 (q : ℚ) : ℕ :=
  if q < 0 then 0 else min ⌊q⌋.toNat 4294967295

/-- Rust float-to-`usize` cast on a 64-bit target: truncate toward zero,
saturating at 0 below and at `usize::MAX = 2^64 - 1` above. -/
def rustCastUsize (z : ℤ) : ℕ :=
  min z.toNat 18446744073709551615

/-- The pair value object of `number_pairing.rs`: a stored number and the
fixed sum; the second number is always derived. -/
structure NumberPairing where
  one_number : ℚ
  sum : ℚ
deriving DecidableEq

namespace NumberPairing

/-- Accessor `first()`. -/
def first (p : NumberPairing) : ℚ := p.one_number

/-- Accessor `second()`: derived as `sum - one_number`. -/
def second (p : NumberPairing) : ℚ := p.sum - p.one_number

/-- `product()` of the two numbers. -/
def product (p : NumberPairing) : ℚ := p.one_number * p.second

/-- `difference()`: absolute difference of the two numbers. -/
def difference (p : NumberPairing) : ℚ := |p.one_number - p.second|

/-- `result()`: the objective score, product times difference. -/
def result (p : NumberPairing) : ℚ := p.product * p.difference

/-- `validate_and_correct_input`: reflect a negative input to its absolute
value, then cap at the sum. -/
def validate_and_correct_input (requested_number : ℚ) (sum : ℚ) : ℚ :=
  let non_negative := |requested_number|
  if non_negative > sum then sum else non_negative

/-- Constructor `new(requested_number, sum)`. -/
def new (requested_number : ℚ) (sum : ℚ) : NumberPairing :=
  ⟨validate_and_correct_input requested_number sum, sum⟩

/-- Method `validate_and_correct`, delegating to the static helper with the
pair's own sum. -/
def validate_and_correct (p : NumberPairing) (requested_number : ℚ) : ℚ :=
  validate_and_correct_input requested_number p.sum

/-- Mutator `set_first`. -/
def set_first (p : NumberPairing) (requested_number : ℚ) : NumberPairing :=
  { p with one_number := p.validate_and_correct requested_number }

/-- Mutator `set_second`. -/
def set_second (p : NumberPairing) (requested_number : ℚ) : NumberPairing :=
  { p with one_number := p.sum - p.validate_and_correct requested_number }

/-- `default_sum()`: the default problem uses sum 8. -/
def default_sum : ℚ := 8

/-- Convenience constructor fixing the default sum. -/
def default (requested_number : ℚ) : NumberPairing :=
  new requested_number default_sum

/-- `minimum_precision()`: the equivalence threshold `1e-10`. -/
def minimum_precision : ℚ := 1 / 10000000000

/-- `difference_from`: absolute distance between two scores. -/
def difference_from (p other : NumberPairing) : ℚ :=
  |p.result - other.result|

/-- `is_equivalent_to`: scores closer than the minimum precision. -/
def is_equivalent_to (p other : NumberPairing) : Bool :=
  p.difference_from other < minimum_precision

/-- The `PartialEq` implementation: equal sums and either equal stored
numbers, or the stored number equals the other's derived second. -/
def eq (p other : NumberPairing) : Bool :=
  (decide (p.sum = other.sum) && decide (p.first = other.first)) ||
    (decide (p.sum = other.sum) && decide (p.first = other.second))

/-- The `Ord` implementation: compare by score alone. -/
def cmp (p other : NumberPairing) : Ordering :=
  if p.result > other.result then Ordering.gt
  else if p.result < other.result then Ordering.lt
  else Ordering.eq

/-- The derived `<` of `PartialOrd`. -/
def lt (p other : NumberPairing) : Bool := p.cmp other == Ordering.lt

/-- The derived `>` of `PartialOrd`. -/
def gt (p other : NumberPairing) : Bool := p.cmp other == Ordering.gt

/-- The derived `<=` of `PartialOrd`. -/
def le (p other : NumberPairing) : Bool := !(p.cmp other == Ordering.gt)

/-- `util::split_float_64`: decompose the absolute value into a whole `u32`
part and a fixed-precision remainder `u32` computed against the rounded
value (as in the source, which subtracts `pos.round()`, not the floor). -/
def split_float_64 (float_64 : ℚ) : ℕ × ℕ :=
  let pos : ℚ := |float_64|
  let whole : ℕ := rustCastU32 pos
  let rem : ℕ := rustCastU32 ((pos - (round_half_away pos : ℚ)) * 100000000)
  (whole, rem)

/-- The data stream the `Hash` implementation feeds to the hasher: the split
of the stored number followed by the split of the sum. -/
def hashData (p : NumberPairing) : List ℕ :=
  let l := split_float_64 p.one_number
  let r := split_float_64 p.sum
  [l.1, l.2, r.1, r.2]

end NumberPairing

/-- The results record of `number_pairing_problem.rs`: best score, the list
of best pairings, and the optional list of other top pairings. -/
structure Results where
  best : ℚ
  best_pairing : List NumberPairing
  other : Option (List NumberPairing)
deriving DecidableEq

/-- The problem object: the sum, the recorded number of rounds used to solve,
and the optional results. -/
structure NumberPairingProblem where
  sum : ℚ
  runs_to_solve : ℕ
  results : Option Results
deriving DecidableEq

/-- The mutable state threaded through the recursive search
(`SolveGlobals` in the source).  The `&mut NumberPairingProblem` reference is
modelled by carrying the two fields the recursion reads or writes through it
(`problem_sum`, `problem_runs_to_solve`).  The extra `converged` flag is a
ghost field set exactly on the branch that assigns `runs_to_solve`
(the convergence branch); it records which exit ended the recursion and
affects nothing else. -/
structure SolveGlobals where
  problem_sum : ℚ
  problem_runs_to_solve : ℕ
  collect_other_results : Bool
  initial_high_value : NumberPairing
  lower_bounds : ℚ
  upper_bounds : ℚ
  overall_best_result : NumberPairing
  best_results : List NumberPairing
  other_results : Option (List NumberPairing)
  run_count : ℕ
  max_runs : ℕ
  converged : Bool
deriving DecidableEq

/-- The three per-round locals of `get_highest_result_of_seq`. -/
structure SeqState where
  seq_best_result : NumberPairing
  best_results_of_seq : List NumberPairing
  other_results_of_seq : Option (List NumberPairing)
deriving DecidableEq

/-- The closure `can_be_added_to_other`: a pairing qualifies for the other
bucket only when it differs from the degenerate zero pairing, the round is
coarse enough, and collection was requested. -/
def can_be_added_to_other (initial_high_value : NumberPairing) (precision : ℚ)
    (collect_other_results : Bool) (pairing : NumberPairing) : Bool :=
  !(pairing.eq initial_high_value) && decide (precision ≥ 1 / 100) &&
    collect_other_results

/-- Push onto the optional other bucket (`Vec::push` under `if let Some`). -/
def push_other (o : Option (List NumberPairing)) (p : NumberPairing) :
    Option (List NumberPairing) :=
  o.map (fun l => l ++ [p])

/-- One iteration of the scan loop body: promote a strictly higher result,
collect an equal one into the round's best list, or file the candidate into
the round's other bucket when eligible. -/
def scan_step (initial_high_value : NumberPairing) (precision : ℚ)
    (collect_other_results : Bool) (st : SeqState) (this_result : NumberPairing) :
    SeqState :=
  if this_result.gt st.seq_best_result then
    { seq_best_result := this_result
      best_results_of_seq := [this_result]
      other_results_of_seq :=
        (st.best_results_of_seq.filter
            (can_be_added_to_other initial_high_value precision collect_other_results)).foldl
          push_other st.other_results_of_seq }
  else if this_result.eq st.seq_best_result then
    { st with best_results_of_seq := st.best_results_of_seq ++ [this_result] }
  else if can_be_added_to_other initial_high_value precision collect_other_results
      this_result then
    { st with other_results_of_seq := push_other st.other_results_of_seq this_result }
  else st

/-- The integer indices `low_bound..=high_bound` stepped by the fixed-point
multiplier `1e8`. -/
def scan_indices (low_bound high_bound : ℕ) : List ℕ :=
  if low_bound ≤ high_bound then
    List.range' low_bound ((high_bound - low_bound) / 100000000 + 1) 100000000
  else []

/-- One complete round of the search: convert the interval ends to
fixed-point integer bounds (at `1e8` sub-unit resolution) and fold the loop
body over every stepped index.  For the degenerate `sum = 0` run the source
divides by a zero precision: the `f64` code produces an infinite conversion,
NaN bounds that the saturating cast turns into `0..=0`, and a scanned value
`0 / inf = 0`; with the rational convention `1 / 0 = 0` the bounds are also
`0..=0` and the scanned value `0 / 0 = 0`, so the round is identical. -/
def scan_round (problem_sum : ℚ) (initial_high_value : NumberPairing)
    (collect_other_results : Bool) (low high precision : ℚ) : SeqState :=
  let multiplier : ℚ := 100000000
  let conversion : ℚ := (1 / precision) * multiplier
  let low_bound := rustCastUsize (round_half_away (low * conversion))
  let high_bound := rustCastUsize (round_half_away (high * conversion))
  (scan_indices low_bound high_bound).foldl
    (fun st (i : ℕ) =>
      scan_step initial_high_value precision collect_other_results st
        (NumberPairing.new ((i : ℚ) / conversion) problem_sum))
    ⟨initial_high_value, [],
      if collect_other_results then some [] else none⟩

/-- The convergence test of line 154: the round best is less than or equal to
the overall best by the total order, or equivalent to it. -/
def condition_to_end_recursion (st : SeqState) (globals : SolveGlobals) : Bool :=
  st.seq_best_result.le globals.overall_best_result ||
    st.seq_best_result.is_equivalent_to globals.overall_best_result

/-- The promotion performed when a round improves on the overall best: the
round best becomes the overall best, the previous global best list is demoted
into the round's other bucket (when eligible), the round's best list replaces
the global one, and the round's other bucket is appended to the global one. -/
def promote_round (precision : ℚ) (st : SeqState) (globals : SolveGlobals) :
    SolveGlobals :=
  let other_seq :=
    (globals.best_results.filter
        (can_be_added_to_other globals.initial_high_value precision
          globals.collect_other_results)).foldl
      push_other st.other_results_of_seq
  { globals with
    overall_best_result := st.seq_best_result
    best_results := st.best_results_of_seq
    other_results :=
      match other_seq, globals.other_results with
      | some o, some og => some (og ++ o)
      | some _, none => globals.other_results
      | none, _ => globals.other_results }

/-- The narrower next precision: the current one divided by four times the
round count. -/
def next_precision (precision : ℚ) (run_count : ℕ) : ℚ :=
  precision / ((run_count * 4 : ℕ) : ℚ)

/-- The next interval's low end: half the current precision below the best
value, snapped to the current low bound. -/
def next_low_value (low precision best_number_of_seq : ℚ) : ℚ :=
  if best_number_of_seq - precision / 2 < low then low
  else best_number_of_seq - precision / 2

/-- The next interval's high end: half the current precision above the best
value, snapped to the current high bound. -/
def next_high_value (high precision best_number_of_seq : ℚ) : ℚ :=
  if high < best_number_of_seq + precision / 2 then high
  else best_number_of_seq + precision / 2

/-- The recursive refinement `get_highest_result_of_seq`.  The Rust function
recurses unboundedly but returns as soon as `run_count` reaches `max_runs`;
here the recursion is driven by a fuel argument that the callers set to
`max_runs - run_count`, which the guard makes equivalent to the unbounded
recursion (see `get_highest_result_of_seq_fuel`). -/
def get_highest_result_of_seq : ℕ → ℚ → ℚ → ℚ → SolveGlobals → SolveGlobals
  | 0, _, _, _, globals => globals
  | fuel + 1, low, high, precision, globals =>
    if globals.max_runs ≤ globals.run_count then globals
    else
      let globals1 := { globals with run_count := globals.run_count + 1 }
      let st :=
        scan_round globals1.problem_sum globals1.initial_high_value
          globals1.collect_other_results low high precision
      if condition_to_end_recursion st globals1 then
        { globals1 with
          problem_runs_to_solve := globals1.run_count
          converged := true }
      else
        let globals2 := promote_round precision st globals1
        let best_number_of_seq := globals2.overall_best_result.first
        get_highest_result_of_seq fuel
          (next_low_value low precision best_number_of_seq)
          (next_high_value high precision best_number_of_seq)
          (next_precision precision globals2.run_count) globals2

/-- The descending sort of the other results
(`sort_unstable_by(|a, b| b.cmp(a))`), modelled as an insertion sort under
the same comparator. -/
def sort_desc (l : List NumberPairing) : List NumberPairing :=
  l.insertionSort (fun a b => ¬(NumberPairing.cmp b a = Ordering.gt))

/-- `Vec::dedup`: drop every element equal (by the `PartialEq` above) to the
last retained one, within runs of consecutive elements. -/
def dedup_consec : List NumberPairing → List NumberPairing
  | [] => []
  | [a] => [a]
  | a :: b :: rest =>
    if a.eq b then dedup_consec (a :: rest) else a :: dedup_consec (b :: rest)
termination_by l => l.length

/-- The globals as `solve` initialises them at lines 84-95 of the source. -/
def NumberPairingProblem.initialGlobals (problem : NumberPairingProblem)
    (collect_other_results : Bool) : SolveGlobals :=
  let sum := problem.sum
  let initial_high_value := NumberPairing.new 0 sum
  { problem_sum := sum
    problem_runs_to_solve := problem.runs_to_solve
    collect_other_results := collect_other_results
    initial_high_value := NumberPairing.new 0 sum
    lower_bounds := 0
    upper_bounds := sum / 2
    overall_best_result := initial_high_value
    best_results := []
    other_results := if collect_other_results then some [] else none
    run_count := 0
    max_runs := 40
    converged := false }

/-- The final globals state of a `solve` run: the recursive refinement applied
to the initial globals, with the initial call of line 203 (`lower_bounds`,
`upper_bounds`, precision `sum / 4`). -/
def NumberPairingProblem.solveRun (problem : NumberPairingProblem)
    (collect_other_results : Bool) : SolveGlobals :=
  let globals := problem.initialGlobals collect_other_results
  get_highest_result_of_seq globals.max_runs globals.lower_bounds
    globals.upper_bounds (problem.sum / 4) globals

/-- Method `solve`: build the globals, run the recursive refinement, then
sort and deduplicate the other bucket and store the assembled results. -/
def NumberPairingProblem.solve (problem : NumberPairingProblem)
    (collect_other_results : Bool) : NumberPairingProblem :=
  let g := problem.solveRun collect_other_results
  let others_sorted := g.other_results.map (fun l => dedup_consec (sort_desc l))
  { problem with
    runs_to_solve := g.problem_runs_to_solve
    results :=
      some ⟨g.overall_best_result.result, g.best_results, others_sorted⟩ }

/-- Constructor `solve_with`: a fresh problem solved immediately. -/
def NumberPairingProblem.solve_with (initial_sum : ℚ)
    (collect_other_results : Bool) : NumberPairingProblem :=
  NumberPairingProblem.solve ⟨initial_sum, 0, none⟩ collect_other_results

/-- Constructor `solve_default`: sum 8, collecting other results. -/
def NumberPairingProblem.solve_default : NumberPairingProblem :=
  NumberPairingProblem.solve_with 8 true


/-!
Scale-invariance layer for the universal analysis of the search path:
the search in normalised coordinates (sum 1), the concrete data of its
eleven possible rounds, and the certificate of score injectivity.
-/

/-- Multiply every stored quantity of a pairing by `s`. -/
def scaleNP (s : ℚ) (p : NumberPairing) : NumberPairing :=
  ⟨s * p.one_number, s * p.sum⟩

/-- Scale a round state componentwise. -/
def scaleSeq (s : ℚ) (st : SeqState) : SeqState :=
  ⟨scaleNP s st.seq_best_result, st.best_results_of_seq.map (scaleNP s),
    st.other_results_of_seq.map (List.map (scaleNP s))⟩

/-- A surrogate precision carrying only the eligibility bit
`precision ≥ 1/100` of `can_be_added_to_other`. -/
def precision_flag (b : Bool) : ℚ := if b then 1 else 0

/-- One scan round in normalised coordinates (sum 1, collection on): the
eligibility test is abstracted to the flag `b`, everything else is the scan
of `scan_round` on the unit problem. -/
def scan_roundF (b : Bool) (low high precision : ℚ) : SeqState :=
  let multiplier : ℚ := 100000000
  let conversion : ℚ := (1 / precision) * multiplier
  let low_bound := rustCastUsize (round_half_away (low * conversion))
  let high_bound := rustCastUsize (round_half_away (high * conversion))
  (scan_indices low_bound high_bound).foldl
    (fun st (i : ℕ) =>
      scan_step ⟨0, 1⟩ (precision_flag b) true st
        (NumberPairing.new ((i : ℚ) / conversion) 1))
    ⟨⟨0, 1⟩, [], some []⟩

/-- The per-round precisions of the search path in normalised (sum 1)
coordinates: round `k` runs at `pval k` times the sum. -/
def pval : ℕ → ℚ
  | 1 => (1/4)
  | 2 => (1/16)
  | 3 => (1/128)
  | 4 => (1/1536)
  | 5 => (1/24576)
  | 6 => (1/491520)
  | 7 => (1/11796480)
  | 8 => (1/330301440)
  | 9 => (1/10569646080)
  | 10 => (1/380507258880)
  | 11 => (1/15220290355200)
  | _ => 0

/-- The eligible other-bucket contributions of rounds 1–10 of the search
path, in push order, in normalised coordinates. -/
def pathO : List (List NumberPairing) :=
  [[⟨(1/2), 1⟩],
    [⟨(1/8), 1⟩, ⟨(1/4), 1⟩, ⟨(5/16), 1⟩, ⟨(3/8), 1⟩, ⟨(1/4), 1⟩],
    [⟨(5/32), 1⟩, ⟨(21/128), 1⟩, ⟨(11/64), 1⟩, ⟨(23/128), 1⟩, ⟨(3/16), 1⟩, ⟨(25/128), 1⟩, ⟨(13/64), 1⟩, ⟨(7/32), 1⟩, ⟨(3/16), 1⟩],
    [⟨(53/256), 1⟩, ⟨(319/1536), 1⟩, ⟨(5/24), 1⟩, ⟨(107/512), 1⟩, ⟨(161/768), 1⟩, ⟨(323/1536), 1⟩, ⟨(27/128), 1⟩, ⟨(163/768), 1⟩, ⟨(109/512), 1⟩, ⟨(41/192), 1⟩, ⟨(329/1536), 1⟩, ⟨(55/256), 1⟩, ⟨(27/128), 1⟩],
    [⟨(649/3072), 1⟩, ⟨(1731/8192), 1⟩, ⟨(5195/24576), 1⟩, ⟨(433/2048), 1⟩, ⟨(5197/24576), 1⟩, ⟨(2599/12288), 1⟩, ⟨(1733/8192), 1⟩, ⟨(325/1536), 1⟩, ⟨(5201/24576), 1⟩, ⟨(867/4096), 1⟩, ⟨(5203/24576), 1⟩, ⟨(1301/6144), 1⟩, ⟨(1735/8192), 1⟩, ⟨(2603/12288), 1⟩, ⟨(5207/24576), 1⟩, ⟨(217/1024), 1⟩, ⟨(325/1536), 1⟩],
    [⟨(103871/491520), 1⟩, ⟨(541/2560), 1⟩, ⟨(103873/491520), 1⟩, ⟨(51937/245760), 1⟩, ⟨(6925/32768), 1⟩, ⟨(25969/122880), 1⟩, ⟨(103877/491520), 1⟩, ⟨(17313/81920), 1⟩, ⟨(103879/491520), 1⟩, ⟨(2597/12288), 1⟩, ⟨(34627/163840), 1⟩, ⟨(51941/245760), 1⟩, ⟨(103883/491520), 1⟩, ⟨(8657/40960), 1⟩, ⟨(20777/98304), 1⟩, ⟨(51943/245760), 1⟩, ⟨(34629/163840), 1⟩, ⟨(6493/30720), 1⟩, ⟨(103889/491520), 1⟩, ⟨(3463/16384), 1⟩, ⟨(2597/12288), 1⟩],
    [⟨(10387/49152), 1⟩, ⟨(2492881/11796480), 1⟩, ⟨(1246441/5898240), 1⟩, ⟨(276987/1310720), 1⟩, ⟨(623221/2949120), 1⟩, ⟨(498577/2359296), 1⟩, ⟨(415481/1966080), 1⟩, ⟨(2492887/11796480), 1⟩, ⟨(311611/1474560), 1⟩, ⟨(830963/3932160), 1⟩, ⟨(2492891/11796480), 1⟩, ⟨(69247/327680), 1⟩, ⟨(10387/49152), 1⟩],
    [⟨(4985779/23592960), 1⟩, ⟨(17450227/82575360), 1⟩, ⟨(69800909/330301440), 1⟩, ⟨(2326697/11010048), 1⟩, ⟨(69800911/330301440), 1⟩, ⟨(4362557/20643840), 1⟩, ⟨(1107951/5242880), 1⟩, ⟨(34900457/165150720), 1⟩, ⟨(13960183/66060288), 1⟩, ⟨(5816743/27525120), 1⟩, ⟨(69800917/330301440), 1⟩, ⟨(34900459/165150720), 1⟩, ⟨(23266973/110100480), 1⟩, ⟨(249289/1179648), 1⟩, ⟨(69800921/330301440), 1⟩, ⟨(3877829/18350080), 1⟩, ⟨(69800923/330301440), 1⟩, ⟨(17450231/82575360), 1⟩, ⟨(4653395/22020096), 1⟩, ⟨(34900463/165150720), 1⟩, ⟨(9971561/47185920), 1⟩, ⟨(727093/3440640), 1⟩, ⟨(69800929/330301440), 1⟩, ⟨(6980093/33030144), 1⟩, ⟨(7755659/36700160), 1⟩, ⟨(17450233/82575360), 1⟩, ⟨(69800933/330301440), 1⟩, ⟨(1661927/7864320), 1⟩, ⟨(249289/1179648), 1⟩],
    [⟨(139601813/660602880), 1⟩, ⟨(248181001/1174405120), 1⟩, ⟨(223362901/1056964608), 1⟩, ⟨(2233629011/10569646080), 1⟩, ⟨(186135751/880803840), 1⟩, ⟨(319089859/1509949440), 1⟩, ⟨(1116814507/5284823040), 1⟩, ⟨(148908601/704643072), 1⟩, ⟨(279203627/1321205760), 1⟩, ⟨(2233629017/10569646080), 1⟩, ⟨(124090501/587202560), 1⟩, ⟨(2233629019/10569646080), 1⟩, ⟨(15954493/75497472), 1⟩, ⟨(744543007/3523215360), 1⟩, ⟨(1116814511/5284823040), 1⟩, ⟨(2233629023/10569646080), 1⟩, ⟨(23266969/110100480), 1⟩, ⟨(446725805/2113929216), 1⟩, ⟨(1116814513/5284823040), 1⟩, ⟨(35454429/167772160), 1⟩, ⟨(558407257/2642411520), 1⟩, ⟨(2233629029/10569646080), 1⟩, ⟨(74454301/352321536), 1⟩, ⟨(2233629031/10569646080), 1⟩, ⟨(279203629/1321205760), 1⟩, ⟨(744543011/3523215360), 1⟩, ⟨(159544931/754974720), 1⟩, ⟨(62045251/293601280), 1⟩, ⟨(2233629037/10569646080), 1⟩, ⟨(1116814519/5284823040), 1⟩, ⟨(744543013/3523215360), 1⟩, ⟨(27920363/132120576), 1⟩, ⟨(23266969/110100480), 1⟩],
    [⟨(1489086023/7046430720), 1⟩, ⟨(80410645243/380507258880), 1⟩, ⟨(20102661311/95126814720), 1⟩, ⟨(765815669/3623878656), 1⟩, ⟨(40205322623/190253629440), 1⟩, ⟨(80410645247/380507258880), 1⟩, ⟨(104701361/495452160), 1⟩, ⟨(80410645249/380507258880), 1⟩, ⟨(8041064525/38050725888), 1⟩, ⟨(8934516139/42278584320), 1⟩, ⟨(2871808759/13589544960), 1⟩, ⟨(80410645253/380507258880), 1⟩, ⟨(13401774209/63417876480), 1⟩, ⟨(16082129051/76101451776), 1⟩, ⟨(10051330657/47563407360), 1⟩, ⟨(26803548419/126835752960), 1⟩, ⟨(40205322629/190253629440), 1⟩, ⟨(11487235037/54358179840), 1⟩, ⟨(446725807/2113929216), 1⟩, ⟨(80410645261/380507258880), 1⟩, ⟨(40205322631/190253629440), 1⟩, ⟨(26803548421/126835752960), 1⟩, ⟨(5025665329/23781703680), 1⟩, ⟨(16082129053/76101451776), 1⟩, ⟨(1914539173/9059696640), 1⟩, ⟨(80410645267/380507258880), 1⟩, ⟨(20102661317/95126814720), 1⟩, ⟨(8041064527/38050725888), 1⟩, ⟨(80410645271/380507258880), 1⟩, ⟨(3350443553/15854469120), 1⟩, ⟨(11487235039/54358179840), 1⟩, ⟨(40205322637/190253629440), 1⟩, ⟨(5360709685/25367150592), 1⟩, ⟨(20102661319/95126814720), 1⟩, ⟨(80410645277/380507258880), 1⟩, ⟨(4467258071/21139292160), 1⟩, ⟨(446725807/2113929216), 1⟩]]

/-- The other bucket accumulated after `J` contributing rounds. -/
def bucketC (J : ℕ) : List NumberPairing := (pathO.take J).flatten

/-- Every number fraction the search path ever files or promotes, sorted
strictly descending by score: the certificate that scores are injective
across the path. -/
def tvalsU : List ℚ :=
  [(2978172047/14092861440), (20102661317/95126814720), (8041064527/38050725888), (80410645267/380507258880), (80410645271/380507258880), (1914539173/9059696640),
    (3350443553/15854469120), (16082129053/76101451776), (11487235039/54358179840), (5025665329/23781703680), (40205322637/190253629440), (26803548421/126835752960),
    (5360709685/25367150592), (40205322631/190253629440), (20102661319/95126814720), (80410645261/380507258880), (80410645277/380507258880), (446725807/2113929216),
    (4467258071/21139292160), (11487235037/54358179840), (40205322629/190253629440), (26803548419/126835752960), (10051330657/47563407360), (16082129051/76101451776),
    (13401774209/63417876480), (80410645253/380507258880), (2871808759/13589544960), (8934516139/42278584320), (8041064525/38050725888), (80410645249/380507258880),
    (104701361/495452160), (80410645247/380507258880), (40205322623/190253629440), (765815669/3623878656), (20102661311/95126814720), (80410645243/380507258880),
    (1489086023/7046430720), (62045251/293601280), (159544931/754974720), (2233629037/10569646080), (744543011/3523215360), (1116814519/5284823040),
    (279203629/1321205760), (744543013/3523215360), (2233629031/10569646080), (27920363/132120576), (74454301/352321536), (2233629029/10569646080),
    (558407257/2642411520), (35454429/167772160), (1116814513/5284823040), (446725805/2113929216), (23266969/110100480), (2233629023/10569646080),
    (1116814511/5284823040), (744543007/3523215360), (15954493/75497472), (2233629019/10569646080), (124090501/587202560), (2233629017/10569646080),
    (279203627/1321205760), (148908601/704643072), (17450227/82575360), (1116814507/5284823040), (319089859/1509949440), (186135751/880803840),
    (2233629011/10569646080), (223362901/1056964608), (248181001/1174405120), (139601813/660602880), (4985779/23592960), (69800909/330301440),
    (2326697/11010048), (69800911/330301440), (4362557/20643840), (1107951/5242880), (34900457/165150720), (13960183/66060288),
    (5816743/27525120), (69800917/330301440), (34900459/165150720), (23266973/110100480), (249289/1179648), (69800921/330301440),
    (3877829/18350080), (830963/3932160), (69800923/330301440), (17450231/82575360), (4653395/22020096), (34900463/165150720),
    (9971561/47185920), (727093/3440640), (69800929/330301440), (6980093/33030144), (7755659/36700160), (17450233/82575360),
    (69800933/330301440), (1661927/7864320), (2492891/11796480), (311611/1474560), (69247/327680), (2492887/11796480),
    (415481/1966080), (498577/2359296), (623221/2949120), (276987/1310720), (1246441/5898240), (2492881/11796480),
    (10387/49152), (103871/491520), (541/2560), (103873/491520), (51937/245760), (6925/32768),
    (25969/122880), (103877/491520), (17313/81920), (103879/491520), (2597/12288), (1731/8192),
    (34627/163840), (51941/245760), (103883/491520), (8657/40960), (20777/98304), (51943/245760),
    (34629/163840), (6493/30720), (103889/491520), (3463/16384), (5195/24576), (649/3072),
    (433/2048), (5197/24576), (2599/12288), (1733/8192), (325/1536), (5201/24576),
    (867/4096), (5203/24576), (27/128), (1301/6144), (1735/8192), (2603/12288),
    (5207/24576), (217/1024), (163/768), (323/1536), (109/512), (161/768),
    (41/192), (107/512), (329/1536), (5/24), (55/256), (319/1536),
    (53/256), (7/32), (13/64), (25/128), (3/16), (23/128),
    (1/4), (11/64), (21/128), (5/32), (1/8), (5/16),
    (3/8), (1229782938247303441/101468602368000000000), (1/2)]

/-- Executable strict-descent check: `chainBA t a` checks descent along
`a :: t`. -/
def chainBA : List ℚ → ℚ → Bool
  | [], _ => true
  | b :: t, a =>
    decide ((NumberPairing.mk b 1).result < (NumberPairing.mk a 1).result) &&
      chainBA t b

/-- Executable strict-descent check for a whole list. -/
def chainB (l : List ℚ) : Bool :=
  match l with
  | [] => true
  | a :: t => chainBA t a

/-!
Unfolding lemmas used to evaluate concrete runs of the search one round at a
time (keeping every single reduction shallow).
-/

/-- Unfold one round's scan into the fold over the concrete index list. -/
theorem scan_round_unfold (problem_sum : ℚ) (init : NumberPairing) (collect : Bool)
    (low high precision : ℚ) (lb hb : ℕ) (ind : List ℕ) (st0 : SeqState)
    (hlb : rustCastUsize (round_half_away (low * ((1 / precision) * 100000000))) = lb)
    (hhb : rustCastUsize (round_half_away (high * ((1 / precision) * 100000000))) = hb)
    (hind : scan_indices lb hb = ind)
    (hst0 : (⟨init, [], if collect then some [] else none⟩ : SeqState) = st0) :
    scan_round problem_sum init collect low high precision =
      ind.foldl
        (fun st (i : ℕ) =>
          scan_step init precision collect st
            (NumberPairing.new ((i : ℚ) / ((1 / precision) * 100000000)) problem_sum))
        st0 := by
  subst hlb hhb hind hst0
  rfl

/-- One recursion step of the search when the round cap has been reached:
the state is returned unchanged. -/
theorem ghrs_step_return (fuel : ℕ) (low high precision : ℚ) (g : SolveGlobals)
    (hguard : g.max_runs ≤ g.run_count) :
    get_highest_result_of_seq (fuel + 1) low high precision g = g := by
  simp only [get_highest_result_of_seq]
  rw [if_pos hguard]

/-- One recursion step of the search when the round's best does not improve on
the overall best (or is equivalent to it): the round count is recorded in
`runs_to_solve` and the recursion stops. -/
theorem ghrs_step_converge (fuel : ℕ) (low high precision : ℚ) (g : SolveGlobals)
    (st : SeqState)
    (hguard : g.run_count < g.max_runs)
    (hscan : scan_round g.problem_sum g.initial_high_value g.collect_other_results
        low high precision = st)
    (hcond : condition_to_end_recursion st
        { g with run_count := g.run_count + 1 } = true) :
    get_highest_result_of_seq (fuel + 1) low high precision g =
      { g with
        run_count := g.run_count + 1
        problem_runs_to_solve := g.run_count + 1
        converged := true } := by
  simp only [get_highest_result_of_seq]
  rw [if_neg (Nat.not_le.mpr hguard), hscan, hcond]
  simp

/-- One recursion step of the search when the round's best improves on the
overall best: the promoted state recurses on the narrower interval. -/
theorem ghrs_step_continue (fuel : ℕ) (low high precision : ℚ) (g : SolveGlobals)
    (st : SeqState) (g2 : SolveGlobals) (nl nh np : ℚ)
    (hguard : g.run_count < g.max_runs)
    (hscan : scan_round g.problem_sum g.initial_high_value g.collect_other_results
        low high precision = st)
    (hcond : condition_to_end_recursion st
        { g with run_count := g.run_count + 1 } = false)
    (hg2 : promote_round precision st { g with run_count := g.run_count + 1 } = g2)
    (hnl : next_low_value low precision g2.overall_best_result.first = nl)
    (hnh : next_high_value high precision g2.overall_best_result.first = nh)
    (hnp : next_precision precision g2.run_count = np) :
    get_highest_result_of_seq (fuel + 1) low high precision g =
      get_highest_result_of_seq fuel nl nh np g2 := by
  simp only [get_highest_result_of_seq]
  rw [if_neg (Nat.not_le.mpr hguard), hscan, hcond]
  simp only [Bool.false_eq_true, if_false]
  rw [hg2, hnl, hnh, hnp]

set_option maxRecDepth 2000

/-!
The scale-transfer lemmas, the concrete evaluation of every round of the
normalised search path, and the resulting characterisation of the other
bucket for an arbitrary sum.
-/

theorem scaleNP_zero (s : ℚ) : scaleNP s ⟨0, 1⟩ = ⟨0, s⟩ := by
  simp [scaleNP]

theorem result_scale (s : ℚ) (hs : 0 ≤ s) (p : NumberPairing) :
    (scaleNP s p).result = s ^ 3 * p.result := by
  simp only [NumberPairing.result, NumberPairing.product, NumberPairing.difference,
    NumberPairing.second, scaleNP]
  rw [show s * p.one_number - (s * p.sum - s * p.one_number)
      = s * (p.one_number - (p.sum - p.one_number)) by ring, abs_mul, abs_of_nonneg hs]
  ring

theorem eq_scale (s : ℚ) (hs : s ≠ 0) (p q : NumberPairing) :
    (scaleNP s p).eq (scaleNP s q) = p.eq q := by
  have h1 : (s * p.sum = s * q.sum) ↔ (p.sum = q.sum) := mul_right_inj' hs
  have h2 : (s * p.one_number = s * q.one_number) ↔ (p.one_number = q.one_number) :=
    mul_right_inj' hs
  have h3 : (s * p.one_number = s * q.sum - s * q.one_number) ↔
      (p.one_number = q.sum - q.one_number) := by
    rw [show s * q.sum - s * q.one_number = s * (q.sum - q.one_number) by ring]
    exact mul_right_inj' hs
  simp only [NumberPairing.eq, NumberPairing.first, NumberPairing.second, scaleNP,
    decide_eq_decide.mpr h1, decide_eq_decide.mpr h2, decide_eq_decide.mpr h3]

theorem cmp_scale (s : ℚ) (hs : 0 < s) (p q : NumberPairing) :
    (scaleNP s p).cmp (scaleNP s q) = p.cmp q := by
  have h3 : (0 : ℚ) < s ^ 3 := by positivity
  simp only [NumberPairing.cmp, result_scale s hs.le, gt_iff_lt, mul_lt_mul_left h3]

theorem gt_scale (s : ℚ) (hs : 0 < s) (p q : NumberPairing) :
    (scaleNP s p).gt (scaleNP s q) = p.gt q := by
  simp [NumberPairing.gt, cmp_scale s hs]

theorem le_scale (s : ℚ) (hs : 0 < s) (p q : NumberPairing) :
    (scaleNP s p).le (scaleNP s q) = p.le q := by
  simp [NumberPairing.le, cmp_scale s hs]

theorem can_be_added_scale (s : ℚ) (hs : s ≠ 0) (i : NumberPairing)
    (prec prec' : ℚ) (c c' : Bool)
    (hb : (decide (prec ≥ 1 / 100) && c) = (decide (prec' ≥ 1 / 100) && c'))
    (p : NumberPairing) :
    can_be_added_to_other (scaleNP s i) prec c (scaleNP s p) =
      can_be_added_to_other i prec' c' p := by
  simp only [can_be_added_to_other, eq_scale s hs, Bool.and_assoc, hb]

theorem push_other_scale (s : ℚ) (o : Option (List NumberPairing))
    (p : NumberPairing) :
    push_other (o.map (List.map (scaleNP s))) (scaleNP s p) =
      (push_other o p).map (List.map (scaleNP s)) := by
  cases o with
  | none => rfl
  | some l => simp [push_other]

theorem foldl_push_other_scale (s : ℚ) (l : List NumberPairing) :
    ∀ o : Option (List NumberPairing),
      (l.map (scaleNP s)).foldl push_other (o.map (List.map (scaleNP s))) =
        (l.foldl push_other o).map (List.map (scaleNP s)) := by
  induction l with
  | nil => intro o; rfl
  | cons a t ih =>
    intro o
    simp only [List.map_cons, List.foldl_cons, push_other_scale, ih]

theorem filter_scale (s : ℚ) (hs : s ≠ 0) (i : NumberPairing)
    (prec prec' : ℚ) (c c' : Bool)
    (hb : (decide (prec ≥ 1 / 100) && c) = (decide (prec' ≥ 1 / 100) && c'))
    (l : List NumberPairing) :
    (l.map (scaleNP s)).filter (can_be_added_to_other (scaleNP s i) prec c) =
      (l.filter (can_be_added_to_other i prec' c')).map (scaleNP s) := by
  induction l with
  | nil => rfl
  | cons a t ih =>
    simp only [List.map_cons, List.filter_cons,
      can_be_added_scale s hs i prec prec' c c' hb]
    cases h : can_be_added_to_other i prec' c' a <;> simp [h, ih]

theorem scan_step_scale (s : ℚ) (hs : 0 < s) (i : NumberPairing)
    (prec prec' : ℚ) (c c' : Bool)
    (hb : (decide (prec ≥ 1 / 100) && c) = (decide (prec' ≥ 1 / 100) && c'))
    (st : SeqState) (this_result : NumberPairing) :
    scan_step (scaleNP s i) prec c (scaleSeq s st) (scaleNP s this_result) =
      scaleSeq s (scan_step i prec' c' st this_result) := by
  simp only [scan_step, scaleSeq, gt_scale s hs, eq_scale s (ne_of_gt hs),
    can_be_added_scale s (ne_of_gt hs) i prec prec' c c' hb]
  split_ifs <;>
    simp [scaleSeq, filter_scale s (ne_of_gt hs) i prec prec' c c' hb,
      foldl_push_other_scale, push_other_scale, List.map_append]

theorem new_scale (s : ℚ) (hs : 0 < s) (x : ℚ) :
    NumberPairing.new (s * x) s = scaleNP s (NumberPairing.new x 1) := by
  simp only [NumberPairing.new, NumberPairing.validate_and_correct_input, scaleNP,
    NumberPairing.mk.injEq]
  rw [abs_mul, abs_of_pos hs]
  have hiff : s * |x| > s ↔ |x| > 1 := by
    constructor <;> intro h <;> nlinarith [abs_nonneg x]
  refine ⟨?_, (mul_one s).symm⟩
  by_cases h : |x| > 1
  · rw [if_pos (hiff.mpr h), if_pos h, mul_one]
  · rw [if_neg (fun hc => h (hiff.mp hc)), if_neg h]

theorem new_zero (s : ℚ) (hs : 0 ≤ s) : NumberPairing.new 0 s = ⟨0, s⟩ := by
  simp only [NumberPairing.new, NumberPairing.validate_and_correct_input, abs_zero]
  rw [if_neg (not_lt.mpr hs)]

theorem precision_flag_decide (b : Bool) :
    decide (precision_flag b ≥ 1 / 100) = b := by
  cases b with
  | false => norm_num [precision_flag]
  | true => norm_num [precision_flag]

theorem scan_fold_scale (s : ℚ) (hs : 0 < s) (i0 : NumberPairing)
    (prec prec' : ℚ) (c c' : Bool)
    (hb : (decide (prec ≥ 1 / 100) && c) = (decide (prec' ≥ 1 / 100) && c'))
    (g : ℕ → NumberPairing) (ind : List ℕ) :
    ∀ st : SeqState,
      ind.foldl (fun st j => scan_step (scaleNP s i0) prec c st (scaleNP s (g j)))
          (scaleSeq s st) =
        scaleSeq s (ind.foldl (fun st j => scan_step i0 prec' c' st (g j)) st) := by
  induction ind with
  | nil => intro st; rfl
  | cons a t ih =>
    intro st
    simp only [List.foldl_cons, scan_step_scale s hs i0 prec prec' c c' hb, ih]

theorem scan_round_scale (s : ℚ) (hs : 0 < s) (b : Bool)
    (low high precision : ℚ) (hp : precision ≠ 0)
    (hb : decide (s * precision ≥ 1 / 100) = b) :
    scan_round s ⟨0, s⟩ true (s * low) (s * high) (s * precision) =
      scaleSeq s (scan_roundF b low high precision) := by
  have hsne : s ≠ 0 := ne_of_gt hs
  have hconv : ∀ x : ℚ, (s * x) * ((1 / (s * precision)) * 100000000) =
      x * ((1 / precision) * 100000000) := by
    intro x; field_simp; ring
  have hnum : ∀ i : ℕ, ((i : ℚ) / ((1 / (s * precision)) * 100000000)) =
      s * ((i : ℚ) / ((1 / precision) * 100000000)) := by
    intro i; field_simp; ring
  simp only [scan_round, scan_roundF, hconv, if_true]
  have hfun : (fun (st : SeqState) (i : ℕ) =>
        scan_step (⟨0, s⟩ : NumberPairing) (s * precision) true st
          (NumberPairing.new ((i : ℚ) / ((1 / (s * precision)) * 100000000)) s)) =
      (fun (st : SeqState) (i : ℕ) =>
        scan_step (scaleNP s ⟨0, 1⟩) (s * precision) true st
          (scaleNP s (NumberPairing.new ((i : ℚ) / ((1 / precision) * 100000000)) 1))) := by
    funext st i
    rw [scaleNP_zero, hnum i, new_scale s hs]
  rw [hfun]
  have hinit : (⟨(⟨0, s⟩ : NumberPairing), [], some []⟩ : SeqState) =
      scaleSeq s ⟨⟨0, 1⟩, [], some []⟩ := by
    simp [scaleSeq, scaleNP]
  rw [hinit]
  exact scan_fold_scale s hs ⟨0, 1⟩ (s * precision) (precision_flag b) true true
    (by rw [hb, precision_flag_decide]) _ _ _

theorem can_be_added_false (i0 : NumberPairing) (c : NumberPairing) :
    can_be_added_to_other i0 (precision_flag false) true c = false := by
  norm_num [can_be_added_to_other, precision_flag]

theorem filter_can_false (i0 : NumberPairing) (l : List NumberPairing) :
    l.filter (can_be_added_to_other i0 (precision_flag false) true) = [] := by
  induction l with
  | nil => rfl
  | cons a t ih => simp [List.filter_cons, can_be_added_false, ih]

theorem scan_step_false (i0 : NumberPairing) (st : SeqState) (c : NumberPairing) :
    scan_step i0 (precision_flag false) true
        { st with other_results_of_seq := some [] } c =
      { scan_step i0 (precision_flag true) true st c with
        other_results_of_seq := some [] } := by
  obtain ⟨sb, bl, o⟩ := st
  simp only [scan_step, can_be_added_false, Bool.false_eq_true, if_false]
  split_ifs with h1 h2 h3 <;> simp [filter_can_false]

theorem scan_roundF_false (low high precision : ℚ) :
    scan_roundF false low high precision =
      { scan_roundF true low high precision with
        other_results_of_seq := some [] } := by
  simp only [scan_roundF]
  have h : ∀ (ind : List ℕ) (st : SeqState),
      ind.foldl
          (fun st (i : ℕ) =>
            scan_step ⟨0, 1⟩ (precision_flag false) true st
              (NumberPairing.new ((i : ℚ) / ((1 / precision) * 100000000)) 1))
          { st with other_results_of_seq := some [] } =
        { ind.foldl
            (fun st (i : ℕ) =>
              scan_step ⟨0, 1⟩ (precision_flag true) true st
                (NumberPairing.new ((i : ℚ) / ((1 / precision) * 100000000)) 1))
            st with
          other_results_of_seq := some [] } := by
    intro ind
    induction ind with
    | nil => intro st; rfl
    | cons a t ih =>
      intro st
      simp only [List.foldl_cons, scan_step_false, ih]
  exact h _ ⟨⟨0, 1⟩, [], some []⟩

theorem scan_roundF_unfold (b : Bool) (low high precision : ℚ) (lb hb : ℕ)
    (ind : List ℕ)
    (hlb : rustCastUsize (round_half_away (low * ((1 / precision) * 100000000))) = lb)
    (hhb : rustCastUsize (round_half_away (high * ((1 / precision) * 100000000))) = hb)
    (hind : scan_indices lb hb = ind) :
    scan_roundF b low high precision =
      ind.foldl
        (fun st (i : ℕ) =>
          scan_step ⟨0, 1⟩ (precision_flag b) true st
            (NumberPairing.new ((i : ℚ) / ((1 / precision) * 100000000)) 1))
        ⟨⟨0, 1⟩, [], some []⟩ := by
  subst hlb hhb hind
  rfl

/-- Concrete evaluation of round 1 of the normalised search path. -/
theorem scanT1_t :
    scan_roundF true 0 (1/2) (1/4) =
      ⟨⟨(1/4), 1⟩, [⟨(1/4), 1⟩], some [⟨(1/2), 1⟩]⟩ := by
  rw [scan_roundF_unfold true 0 (1/2) (1/4)
    0 200000000
    [0, 100000000, 200000000]
    (by with_unfolding_all decide) (by with_unfolding_all decide)
    (by with_unfolding_all decide)]
  norm_num [List.foldl_cons, List.foldl_nil,
    scan_step, precision_flag, NumberPairing.gt, NumberPairing.cmp, NumberPairing.eq,
    NumberPairing.result, NumberPairing.product, NumberPairing.difference,
    NumberPairing.second, NumberPairing.first, can_be_added_to_other, push_other,
    NumberPairing.new, NumberPairing.validate_and_correct_input,
    abs_of_nonneg, abs_of_nonpos,
    show (Ordering.gt == Ordering.gt) = true from rfl,
    show (Ordering.lt == Ordering.gt) = false from rfl,
    show (Ordering.eq == Ordering.gt) = false from rfl]

/-- The same round with the eligibility flag off files nothing. -/
theorem scanT1_f :
    scan_roundF false 0 (1/2) (1/4) =
      ⟨⟨(1/4), 1⟩, [⟨(1/4), 1⟩], some []⟩ := by
  rw [scan_roundF_false, scanT1_t]

/-- Concrete evaluation of round 2 of the normalised search path. -/
theorem scanT2_t :
    scan_roundF true (1/8) (3/8) (1/16) =
      ⟨⟨(3/16), 1⟩, [⟨(3/16), 1⟩], some [⟨(1/8), 1⟩, ⟨(1/4), 1⟩, ⟨(5/16), 1⟩, ⟨(3/8), 1⟩]⟩ := by
  rw [scan_roundF_unfold true (1/8) (3/8) (1/16)
    200000000 600000000
    [200000000, 300000000, 400000000, 500000000, 600000000]
    (by with_unfolding_all decide) (by with_unfolding_all decide)
    (by with_unfolding_all decide)]
  norm_num [List.foldl_cons, List.foldl_nil,
    scan_step, precision_flag, NumberPairing.gt, NumberPairing.cmp, NumberPairing.eq,
    NumberPairing.result, NumberPairing.product, NumberPairing.difference,
    NumberPairing.second, NumberPairing.first, can_be_added_to_other, push_other,
    NumberPairing.new, NumberPairing.validate_and_correct_input,
    abs_of_nonneg, abs_of_nonpos,
    show (Ordering.gt == Ordering.gt) = true from rfl,
    show (Ordering.lt == Ordering.gt) = false from rfl,
    show (Ordering.eq == Ordering.gt) = false from rfl]

/-- The same round with the eligibility flag off files nothing. -/
theorem scanT2_f :
    scan_roundF false (1/8) (3/8) (1/16) =
      ⟨⟨(3/16), 1⟩, [⟨(3/16), 1⟩], some []⟩ := by
  rw [scan_roundF_false, scanT2_t]

/-- Concrete evaluation of round 3 of the normalised search path. -/
theorem scanT3_t :
    scan_roundF true (5/32) (7/32) (1/128) =
      ⟨⟨(27/128), 1⟩, [⟨(27/128), 1⟩], some [⟨(5/32), 1⟩, ⟨(21/128), 1⟩, ⟨(11/64), 1⟩, ⟨(23/128), 1⟩, ⟨(3/16), 1⟩, ⟨(25/128), 1⟩, ⟨(13/64), 1⟩, ⟨(7/32), 1⟩]⟩ := by
  rw [scan_roundF_unfold true (5/32) (7/32) (1/128)
    2000000000 2800000000
    [2000000000, 2100000000, 2200000000, 2300000000, 2400000000, 2500000000, 2600000000, 2700000000, 2800000000]
    (by with_unfolding_all decide) (by with_unfolding_all decide)
    (by with_unfolding_all decide)]
  norm_num [List.foldl_cons, List.foldl_nil,
    scan_step, precision_flag, NumberPairing.gt, NumberPairing.cmp, NumberPairing.eq,
    NumberPairing.result, NumberPairing.product, NumberPairing.difference,
    NumberPairing.second, NumberPairing.first, can_be_added_to_other, push_other,
    NumberPairing.new, NumberPairing.validate_and_correct_input,
    abs_of_nonneg, abs_of_nonpos,
    show (Ordering.gt == Ordering.gt) = true from rfl,
    show (Ordering.lt == Ordering.gt) = false from rfl,
    show (Ordering.eq == Ordering.gt) = false from rfl]

/-- The same round with the eligibility flag off files nothing. -/
theorem scanT3_f :
    scan_roundF false (5/32) (7/32) (1/128) =
      ⟨⟨(27/128), 1⟩, [⟨(27/128), 1⟩], some []⟩ := by
  rw [scan_roundF_false, scanT3_t]

/-- Concrete evaluation of round 4 of the normalised search path. -/
theorem scanT4_t :
    scan_roundF true (53/256) (55/256) (1/1536) =
      ⟨⟨(325/1536), 1⟩, [⟨(325/1536), 1⟩], some [⟨(53/256), 1⟩, ⟨(319/1536), 1⟩, ⟨(5/24), 1⟩, ⟨(107/512), 1⟩, ⟨(161/768), 1⟩, ⟨(323/1536), 1⟩, ⟨(27/128), 1⟩, ⟨(163/768), 1⟩, ⟨(109/512), 1⟩, ⟨(41/192), 1⟩, ⟨(329/1536), 1⟩, ⟨(55/256), 1⟩]⟩ := by
  rw [scan_roundF_unfold true (53/256) (55/256) (1/1536)
    31800000000 33000000000
    [31800000000, 31900000000, 32000000000, 32100000000, 32200000000, 32300000000, 32400000000, 32500000000, 32600000000, 32700000000, 32800000000, 32900000000, 33000000000]
    (by with_unfolding_all decide) (by with_unfolding_all decide)
    (by with_unfolding_all decide)]
  norm_num [List.foldl_cons, List.foldl_nil,
    scan_step, precision_flag, NumberPairing.gt, NumberPairing.cmp, NumberPairing.eq,
    NumberPairing.result, NumberPairing.product, NumberPairing.difference,
    NumberPairing.second, NumberPairing.first, can_be_added_to_other, push_other,
    NumberPairing.new, NumberPairing.validate_and_correct_input,
    abs_of_nonneg, abs_of_nonpos,
    show (Ordering.gt == Ordering.gt) = true from rfl,
    show (Ordering.lt == Ordering.gt) = false from rfl,
    show (Ordering.eq == Ordering.gt) = false from rfl]

/-- The same round with the eligibility flag off files nothing. -/
theorem scanT4_f :
    scan_roundF false (53/256) (55/256) (1/1536) =
      ⟨⟨(325/1536), 1⟩, [⟨(325/1536), 1⟩], some []⟩ := by
  rw [scan_roundF_false, scanT4_t]

/-- Concrete evaluation of round 5 of the normalised search path. -/
theorem scanT5_t :
    scan_roundF true (649/3072) (217/1024) (1/24576) =
      ⟨⟨(2597/12288), 1⟩, [⟨(2597/12288), 1⟩], some [⟨(649/3072), 1⟩, ⟨(1731/8192), 1⟩, ⟨(5195/24576), 1⟩, ⟨(433/2048), 1⟩, ⟨(5197/24576), 1⟩, ⟨(2599/12288), 1⟩, ⟨(1733/8192), 1⟩, ⟨(325/1536), 1⟩, ⟨(5201/24576), 1⟩, ⟨(867/4096), 1⟩, ⟨(5203/24576), 1⟩, ⟨(1301/6144), 1⟩, ⟨(1735/8192), 1⟩, ⟨(2603/12288), 1⟩, ⟨(5207/24576), 1⟩, ⟨(217/1024), 1⟩]⟩ := by
  rw [scan_roundF_unfold true (649/3072) (217/1024) (1/24576)
    519200000000 520800000000
    [519200000000, 519300000000, 519400000000, 519500000000, 519600000000, 519700000000, 519800000000, 519900000000, 520000000000, 520100000000, 520200000000, 520300000000, 520400000000, 520500000000, 520600000000, 520700000000, 520800000000]
    (by with_unfolding_all decide) (by with_unfolding_all decide)
    (by with_unfolding_all decide)]
  norm_num [List.foldl_cons, List.foldl_nil,
    scan_step, precision_flag, NumberPairing.gt, NumberPairing.cmp, NumberPairing.eq,
    NumberPairing.result, NumberPairing.product, NumberPairing.difference,
    NumberPairing.second, NumberPairing.first, can_be_added_to_other, push_other,
    NumberPairing.new, NumberPairing.validate_and_correct_input,
    abs_of_nonneg, abs_of_nonpos,
    show (Ordering.gt == Ordering.gt) = true from rfl,
    show (Ordering.lt == Ordering.gt) = false from rfl,
    show (Ordering.eq == Ordering.gt) = false from rfl]

/-- The same round with the eligibility flag off files nothing. -/
theorem scanT5_f :
    scan_roundF false (649/3072) (217/1024) (1/24576) =
      ⟨⟨(2597/12288), 1⟩, [⟨(2597/12288), 1⟩], some []⟩ := by
  rw [scan_roundF_false, scanT5_t]

/-- Concrete evaluation of round 6 of the normalised search path. -/
theorem scanT6_t :
    scan_roundF true (10387/49152) (3463/16384) (1/491520) =
      ⟨⟨(10387/49152), 1⟩, [⟨(10387/49152), 1⟩], some [⟨(103871/491520), 1⟩, ⟨(541/2560), 1⟩, ⟨(103873/491520), 1⟩, ⟨(51937/245760), 1⟩, ⟨(6925/32768), 1⟩, ⟨(25969/122880), 1⟩, ⟨(103877/491520), 1⟩, ⟨(17313/81920), 1⟩, ⟨(103879/491520), 1⟩, ⟨(2597/12288), 1⟩, ⟨(34627/163840), 1⟩, ⟨(51941/245760), 1⟩, ⟨(103883/491520), 1⟩, ⟨(8657/40960), 1⟩, ⟨(20777/98304), 1⟩, ⟨(51943/245760), 1⟩, ⟨(34629/163840), 1⟩, ⟨(6493/30720), 1⟩, ⟨(103889/491520), 1⟩, ⟨(3463/16384), 1⟩]⟩ := by
  rw [scan_roundF_unfold true (10387/49152) (3463/16384) (1/491520)
    10387000000000 10389000000000
    [10387000000000, 10387100000000, 10387200000000, 10387300000000, 10387400000000, 10387500000000, 10387600000000, 10387700000000, 10387800000000, 10387900000000, 10388000000000, 10388100000000, 10388200000000, 10388300000000, 10388400000000, 10388500000000, 10388600000000, 10388700000000, 10388800000000, 10388900000000, 10389000000000]
    (by with_unfolding_all decide) (by with_unfolding_all decide)
    (by with_unfolding_all decide)]
  norm_num [List.foldl_cons, List.foldl_nil,
    scan_step, precision_flag, NumberPairing.gt, NumberPairing.cmp, NumberPairing.eq,
    NumberPairing.result, NumberPairing.product, NumberPairing.difference,
    NumberPairing.second, NumberPairing.first, can_be_added_to_other, push_other,
    NumberPairing.new, NumberPairing.validate_and_correct_input,
    abs_of_nonneg, abs_of_nonpos,
    show (Ordering.gt == Ordering.gt) = true from rfl,
    show (Ordering.lt == Ordering.gt) = false from rfl,
    show (Ordering.eq == Ordering.gt) = false from rfl]

/-- The same round with the eligibility flag off files nothing. -/
theorem scanT6_f :
    scan_roundF false (10387/49152) (3463/16384) (1/491520) =
      ⟨⟨(10387/49152), 1⟩, [⟨(10387/49152), 1⟩], some []⟩ := by
  rw [scan_roundF_false, scanT6_t]

/-- Concrete evaluation of round 7 of the normalised search path. -/
theorem scanT7_t :
    scan_roundF true (10387/49152) (69247/327680) (1/11796480) =
      ⟨⟨(249289/1179648), 1⟩, [⟨(249289/1179648), 1⟩], some [⟨(10387/49152), 1⟩, ⟨(2492881/11796480), 1⟩, ⟨(1246441/5898240), 1⟩, ⟨(276987/1310720), 1⟩, ⟨(623221/2949120), 1⟩, ⟨(498577/2359296), 1⟩, ⟨(415481/1966080), 1⟩, ⟨(2492887/11796480), 1⟩, ⟨(311611/1474560), 1⟩, ⟨(830963/3932160), 1⟩, ⟨(2492891/11796480), 1⟩, ⟨(69247/327680), 1⟩]⟩ := by
  rw [scan_roundF_unfold true (10387/49152) (69247/327680) (1/11796480)
    249288000000000 249289200000000
    [249288000000000, 249288100000000, 249288200000000, 249288300000000, 249288400000000, 249288500000000, 249288600000000, 249288700000000, 249288800000000, 249288900000000, 249289000000000, 249289100000000, 249289200000000]
    (by with_unfolding_all decide) (by with_unfolding_all decide)
    (by with_unfolding_all decide)]
  norm_num [List.foldl_cons, List.foldl_nil,
    scan_step, precision_flag, NumberPairing.gt, NumberPairing.cmp, NumberPairing.eq,
    NumberPairing.result, NumberPairing.product, NumberPairing.difference,
    NumberPairing.second, NumberPairing.first, can_be_added_to_other, push_other,
    NumberPairing.new, NumberPairing.validate_and_correct_input,
    abs_of_nonneg, abs_of_nonpos,
    show (Ordering.gt == Ordering.gt) = true from rfl,
    show (Ordering.lt == Ordering.gt) = false from rfl,
    show (Ordering.eq == Ordering.gt) = false from rfl]

/-- The same round with the eligibility flag off files nothing. -/
theorem scanT7_f :
    scan_roundF false (10387/49152) (69247/327680) (1/11796480) =
      ⟨⟨(249289/1179648), 1⟩, [⟨(249289/1179648), 1⟩], some []⟩ := by
  rw [scan_roundF_false, scanT7_t]

/-- Concrete evaluation of round 8 of the normalised search path. -/
theorem scanT8_t :
    scan_roundF true (4985779/23592960) (1661927/7864320) (1/330301440) =
      ⟨⟨(23266969/110100480), 1⟩, [⟨(23266969/110100480), 1⟩], some [⟨(4985779/23592960), 1⟩, ⟨(17450227/82575360), 1⟩, ⟨(69800909/330301440), 1⟩, ⟨(2326697/11010048), 1⟩, ⟨(69800911/330301440), 1⟩, ⟨(4362557/20643840), 1⟩, ⟨(1107951/5242880), 1⟩, ⟨(34900457/165150720), 1⟩, ⟨(13960183/66060288), 1⟩, ⟨(5816743/27525120), 1⟩, ⟨(69800917/330301440), 1⟩, ⟨(34900459/165150720), 1⟩, ⟨(23266973/110100480), 1⟩, ⟨(249289/1179648), 1⟩, ⟨(69800921/330301440), 1⟩, ⟨(3877829/18350080), 1⟩, ⟨(69800923/330301440), 1⟩, ⟨(17450231/82575360), 1⟩, ⟨(4653395/22020096), 1⟩, ⟨(34900463/165150720), 1⟩, ⟨(9971561/47185920), 1⟩, ⟨(727093/3440640), 1⟩, ⟨(69800929/330301440), 1⟩, ⟨(6980093/33030144), 1⟩, ⟨(7755659/36700160), 1⟩, ⟨(17450233/82575360), 1⟩, ⟨(69800933/330301440), 1⟩, ⟨(1661927/7864320), 1⟩]⟩ := by
  rw [scan_roundF_unfold true (4985779/23592960) (1661927/7864320) (1/330301440)
    6980090600000000 6980093400000000
    [6980090600000000, 6980090700000000, 6980090800000000, 6980090900000000, 6980091000000000, 6980091100000000, 6980091200000000, 6980091300000000, 6980091400000000, 6980091500000000, 6980091600000000, 6980091700000000, 6980091800000000, 6980091900000000, 6980092000000000, 6980092100000000, 6980092200000000, 6980092300000000, 6980092400000000, 6980092500000000, 6980092600000000, 6980092700000000, 6980092800000000, 6980092900000000, 6980093000000000, 6980093100000000, 6980093200000000, 6980093300000000, 6980093400000000]
    (by with_unfolding_all decide) (by with_unfolding_all decide)
    (by with_unfolding_all decide)]
  norm_num [List.foldl_cons, List.foldl_nil,
    scan_step, precision_flag, NumberPairing.gt, NumberPairing.cmp, NumberPairing.eq,
    NumberPairing.result, NumberPairing.product, NumberPairing.difference,
    NumberPairing.second, NumberPairing.first, can_be_added_to_other, push_other,
    NumberPairing.new, NumberPairing.validate_and_correct_input,
    abs_of_nonneg, abs_of_nonpos,
    show (Ordering.gt == Ordering.gt) = true from rfl,
    show (Ordering.lt == Ordering.gt) = false from rfl,
    show (Ordering.eq == Ordering.gt) = false from rfl]

/-- The same round with the eligibility flag off files nothing. -/
theorem scanT8_f :
    scan_roundF false (4985779/23592960) (1661927/7864320) (1/330301440) =
      ⟨⟨(23266969/110100480), 1⟩, [⟨(23266969/110100480), 1⟩], some []⟩ := by
  rw [scan_roundF_false, scanT8_t]

/-- Concrete evaluation of round 9 of the normalised search path. -/
theorem scanT9_t :
    scan_roundF true (139601813/660602880) (27920363/132120576) (1/10569646080) =
      ⟨⟨(446725807/2113929216), 1⟩, [⟨(446725807/2113929216), 1⟩], some [⟨(139601813/660602880), 1⟩, ⟨(248181001/1174405120), 1⟩, ⟨(223362901/1056964608), 1⟩, ⟨(2233629011/10569646080), 1⟩, ⟨(186135751/880803840), 1⟩, ⟨(319089859/1509949440), 1⟩, ⟨(1116814507/5284823040), 1⟩, ⟨(148908601/704643072), 1⟩, ⟨(279203627/1321205760), 1⟩, ⟨(2233629017/10569646080), 1⟩, ⟨(124090501/587202560), 1⟩, ⟨(2233629019/10569646080), 1⟩, ⟨(15954493/75497472), 1⟩, ⟨(744543007/3523215360), 1⟩, ⟨(1116814511/5284823040), 1⟩, ⟨(2233629023/10569646080), 1⟩, ⟨(23266969/110100480), 1⟩, ⟨(446725805/2113929216), 1⟩, ⟨(1116814513/5284823040), 1⟩, ⟨(35454429/167772160), 1⟩, ⟨(558407257/2642411520), 1⟩, ⟨(2233629029/10569646080), 1⟩, ⟨(74454301/352321536), 1⟩, ⟨(2233629031/10569646080), 1⟩, ⟨(279203629/1321205760), 1⟩, ⟨(744543011/3523215360), 1⟩, ⟨(159544931/754974720), 1⟩, ⟨(62045251/293601280), 1⟩, ⟨(2233629037/10569646080), 1⟩, ⟨(1116814519/5284823040), 1⟩, ⟨(744543013/3523215360), 1⟩, ⟨(27920363/132120576), 1⟩]⟩ := by
  rw [scan_roundF_unfold true (139601813/660602880) (27920363/132120576) (1/10569646080)
    223362900800000000 223362904000000000
    [223362900800000000, 223362900900000000, 223362901000000000, 223362901100000000, 223362901200000000, 223362901300000000, 223362901400000000, 223362901500000000, 223362901600000000, 223362901700000000, 223362901800000000, 223362901900000000, 223362902000000000, 223362902100000000, 223362902200000000, 223362902300000000, 223362902400000000, 223362902500000000, 223362902600000000, 223362902700000000, 223362902800000000, 223362902900000000, 223362903000000000, 223362903100000000, 223362903200000000, 223362903300000000, 223362903400000000, 223362903500000000, 223362903600000000, 223362903700000000, 223362903800000000, 223362903900000000, 223362904000000000]
    (by with_unfolding_all decide) (by with_unfolding_all decide)
    (by with_unfolding_all decide)]
  norm_num [List.foldl_cons, List.foldl_nil,
    scan_step, precision_flag, NumberPairing.gt, NumberPairing.cmp, NumberPairing.eq,
    NumberPairing.result, NumberPairing.product, NumberPairing.difference,
    NumberPairing.second, NumberPairing.first, can_be_added_to_other, push_other,
    NumberPairing.new, NumberPairing.validate_and_correct_input,
    abs_of_nonneg, abs_of_nonpos,
    show (Ordering.gt == Ordering.gt) = true from rfl,
    show (Ordering.lt == Ordering.gt) = false from rfl,
    show (Ordering.eq == Ordering.gt) = false from rfl]

/-- The same round with the eligibility flag off files nothing. -/
theorem scanT9_f :
    scan_roundF false (139601813/660602880) (27920363/132120576) (1/10569646080) =
      ⟨⟨(446725807/2113929216), 1⟩, [⟨(446725807/2113929216), 1⟩], some []⟩ := by
  rw [scan_roundF_false, scanT9_t]

/-- Concrete evaluation of round 10 of the normalised search path. -/
theorem scanT10_t :
    scan_roundF true (1489086023/7046430720) (4467258071/21139292160) (1/380507258880) =
      ⟨⟨(2978172047/14092861440), 1⟩, [⟨(2978172047/14092861440), 1⟩], some [⟨(1489086023/7046430720), 1⟩, ⟨(80410645243/380507258880), 1⟩, ⟨(20102661311/95126814720), 1⟩, ⟨(765815669/3623878656), 1⟩, ⟨(40205322623/190253629440), 1⟩, ⟨(80410645247/380507258880), 1⟩, ⟨(104701361/495452160), 1⟩, ⟨(80410645249/380507258880), 1⟩, ⟨(8041064525/38050725888), 1⟩, ⟨(8934516139/42278584320), 1⟩, ⟨(2871808759/13589544960), 1⟩, ⟨(80410645253/380507258880), 1⟩, ⟨(13401774209/63417876480), 1⟩, ⟨(16082129051/76101451776), 1⟩, ⟨(10051330657/47563407360), 1⟩, ⟨(26803548419/126835752960), 1⟩, ⟨(40205322629/190253629440), 1⟩, ⟨(11487235037/54358179840), 1⟩, ⟨(446725807/2113929216), 1⟩, ⟨(80410645261/380507258880), 1⟩, ⟨(40205322631/190253629440), 1⟩, ⟨(26803548421/126835752960), 1⟩, ⟨(5025665329/23781703680), 1⟩, ⟨(16082129053/76101451776), 1⟩, ⟨(1914539173/9059696640), 1⟩, ⟨(80410645267/380507258880), 1⟩, ⟨(20102661317/95126814720), 1⟩, ⟨(8041064527/38050725888), 1⟩, ⟨(80410645271/380507258880), 1⟩, ⟨(3350443553/15854469120), 1⟩, ⟨(11487235039/54358179840), 1⟩, ⟨(40205322637/190253629440), 1⟩, ⟨(5360709685/25367150592), 1⟩, ⟨(20102661319/95126814720), 1⟩, ⟨(80410645277/380507258880), 1⟩, ⟨(4467258071/21139292160), 1⟩]⟩ := by
  rw [scan_roundF_unfold true (1489086023/7046430720) (4467258071/21139292160) (1/380507258880)
    8041064524200000000 8041064527800000000
    [8041064524200000000, 8041064524300000000, 8041064524400000000, 8041064524500000000, 8041064524600000000, 8041064524700000000, 8041064524800000000, 8041064524900000000, 8041064525000000000, 8041064525100000000, 8041064525200000000, 8041064525300000000, 8041064525400000000, 8041064525500000000, 8041064525600000000, 8041064525700000000, 8041064525800000000, 8041064525900000000, 8041064526000000000, 8041064526100000000, 8041064526200000000, 8041064526300000000, 8041064526400000000, 8041064526500000000, 8041064526600000000, 8041064526700000000, 8041064526800000000, 8041064526900000000, 8041064527000000000, 8041064527100000000, 8041064527200000000, 8041064527300000000, 8041064527400000000, 8041064527500000000, 8041064527600000000, 8041064527700000000, 8041064527800000000]
    (by with_unfolding_all decide) (by with_unfolding_all decide)
    (by with_unfolding_all decide)]
  norm_num [List.foldl_cons, List.foldl_nil,
    scan_step, precision_flag, NumberPairing.gt, NumberPairing.cmp, NumberPairing.eq,
    NumberPairing.result, NumberPairing.product, NumberPairing.difference,
    NumberPairing.second, NumberPairing.first, can_be_added_to_other, push_other,
    NumberPairing.new, NumberPairing.validate_and_correct_input,
    abs_of_nonneg, abs_of_nonpos,
    show (Ordering.gt == Ordering.gt) = true from rfl,
    show (Ordering.lt == Ordering.gt) = false from rfl,
    show (Ordering.eq == Ordering.gt) = false from rfl]

/-- The same round with the eligibility flag off files nothing. -/
theorem scanT10_f :
    scan_roundF false (1489086023/7046430720) (4467258071/21139292160) (1/380507258880) =
      ⟨⟨(2978172047/14092861440), 1⟩, [⟨(2978172047/14092861440), 1⟩], some []⟩ := by
  rw [scan_roundF_false, scanT10_t]

/-- Concrete evaluation of round 11 of the normalised search path. -/
theorem scanT11_t :
    scan_roundF true (160821290537/761014517760) (22974470077/108716359680) (1/15220290355200) =
      ⟨⟨(1229782938247303441/101468602368000000000), 1⟩, [⟨(1229782938247303441/101468602368000000000), 1⟩], some []⟩ := by
  rw [scan_roundF_unfold true (160821290537/761014517760) (22974470077/108716359680) (1/15220290355200)
    18446744073709551615 18446744073709551615
    [18446744073709551615]
    (by with_unfolding_all decide) (by with_unfolding_all decide)
    (by with_unfolding_all decide)]
  norm_num [List.foldl_cons, List.foldl_nil,
    scan_step, precision_flag, NumberPairing.gt, NumberPairing.cmp, NumberPairing.eq,
    NumberPairing.result, NumberPairing.product, NumberPairing.difference,
    NumberPairing.second, NumberPairing.first, can_be_added_to_other, push_other,
    NumberPairing.new, NumberPairing.validate_and_correct_input,
    abs_of_nonneg, abs_of_nonpos,
    show (Ordering.gt == Ordering.gt) = true from rfl,
    show (Ordering.lt == Ordering.gt) = false from rfl,
    show (Ordering.eq == Ordering.gt) = false from rfl]

/-- The same round with the eligibility flag off files nothing. -/
theorem scanT11_f :
    scan_roundF false (160821290537/761014517760) (22974470077/108716359680) (1/15220290355200) =
      ⟨⟨(1229782938247303441/101468602368000000000), 1⟩, [⟨(1229782938247303441/101468602368000000000), 1⟩], some []⟩ := by
  rw [scan_roundF_false, scanT11_t]

theorem foldl_push_other_eq (fl : List NumberPairing) :
    ∀ acc : List NumberPairing, fl.foldl push_other (some acc) = some (acc ++ fl) := by
  induction fl with
  | nil => intro acc; simp
  | cons a t ih =>
    intro acc
    simp [List.foldl_cons, push_other, ih, List.append_assoc]

theorem promote_round_scale (s : ℚ) (hs : 0 < s) (prec : ℚ) (b : Bool)
    (hb : decide (prec ≥ 1 / 100) = b)
    (st : SeqState) (osT : List NumberPairing)
    (hsto : st.other_results_of_seq = some osT)
    (g : SolveGlobals) (bl og : List NumberPairing)
    (hinit : g.initial_high_value = ⟨0, s⟩)
    (hcoll : g.collect_other_results = true)
    (hbest : g.best_results = bl.map (scaleNP s))
    (hother : g.other_results = some (og.map (scaleNP s))) :
    promote_round prec (scaleSeq s st) g =
      { g with
        overall_best_result := scaleNP s st.seq_best_result
        best_results := st.best_results_of_seq.map (scaleNP s)
        other_results := some ((og ++ (osT ++
          bl.filter (can_be_added_to_other ⟨0, 1⟩ (precision_flag b) true))).map
            (scaleNP s)) } := by
  have hcan := filter_scale s (ne_of_gt hs) ⟨0, 1⟩ prec (precision_flag b) true true
    (by rw [hb, precision_flag_decide]) bl
  rw [scaleNP_zero] at hcan
  simp only [promote_round, hinit, hcoll, hbest, hother, scaleSeq, hsto,
    Option.map_some', hcan, foldl_push_other_eq, List.map_append]

theorem cond_scale (s : ℚ) (hs : 0 < s) (st : SeqState) (g : SolveGlobals)
    (q : NumberPairing) (hov : g.overall_best_result = scaleNP s q) :
    condition_to_end_recursion (scaleSeq s st) g =
      (st.seq_best_result.le q ||
        (scaleNP s st.seq_best_result).is_equivalent_to (scaleNP s q)) := by
  simp only [condition_to_end_recursion, scaleSeq, hov, le_scale s hs]

theorem np_cmp_gt_iff (a b : NumberPairing) :
    NumberPairing.cmp a b = Ordering.gt ↔ b.result < a.result := by
  unfold NumberPairing.cmp
  split_ifs with h1 h2
  · exact iff_of_true rfl h1
  · exact iff_of_false (by simp) h1
  · exact iff_of_false (by simp) h1

theorem eq_result (a b : NumberPairing) (h : a.eq b = true) :
    a.result = b.result := by
  simp only [NumberPairing.eq, Bool.or_eq_true, Bool.and_eq_true, decide_eq_true_eq,
    NumberPairing.first, NumberPairing.second] at h
  simp only [NumberPairing.result, NumberPairing.product, NumberPairing.difference,
    NumberPairing.second]
  rcases h with ⟨hsum, hone⟩ | ⟨hsum, hone⟩
  · rw [hsum, hone]
  · rw [hsum, hone, show b.sum - (b.sum - b.one_number) = b.one_number by ring,
      abs_sub_comm]
    ring

theorem sort_desc_sorted (l : List NumberPairing) :
    (sort_desc l).Pairwise (fun a b => b.result ≤ a.result) := by
  haveI htot : IsTotal NumberPairing
      (fun a b => ¬(NumberPairing.cmp b a = Ordering.gt)) := by
    constructor
    intro a b
    by_cases h : NumberPairing.cmp b a = Ordering.gt
    · right
      rw [np_cmp_gt_iff] at h ⊢
      exact lt_asymm h
    · left; exact h
  haveI htr : IsTrans NumberPairing
      (fun a b => ¬(NumberPairing.cmp b a = Ordering.gt)) := by
    constructor
    intro a b c hab hbc
    rw [np_cmp_gt_iff] at hab hbc ⊢
    intro hlt
    exact hab (lt_of_lt_of_le hlt (not_lt.mp hbc))
  have hs := List.sorted_insertionSort
    (fun a b => ¬(NumberPairing.cmp b a = Ordering.gt)) l
  refine List.Pairwise.imp ?_ hs
  intro a b h
  exact not_lt.mp ((np_cmp_gt_iff b a).not.mp h)

theorem dedup_consec_cons : ∀ (n : ℕ) (t : List NumberPairing), t.length ≤ n →
    ∀ x, ∃ t', dedup_consec (x :: t) = x :: t' := by
  intro n
  induction n with
  | zero =>
    intro t ht x
    rw [List.length_eq_zero.mp (Nat.le_zero.mp ht)]
    exact ⟨[], by simp [dedup_consec]⟩
  | succ n ih =>
    intro t ht x
    match t with
    | [] => exact ⟨[], by simp [dedup_consec]⟩
    | c :: r =>
      by_cases h : x.eq c = true
      · obtain ⟨t', ht'⟩ := ih r (by simpa using Nat.le_of_succ_le_succ ht) x
        exact ⟨t', by rw [show dedup_consec (x :: c :: r) = dedup_consec (x :: r) by
          simp [dedup_consec, h], ht']⟩
      · exact ⟨dedup_consec (c :: r), by simp [dedup_consec, h]⟩

theorem dedup_consec_chain : ∀ (n : ℕ) (l : List NumberPairing), l.length ≤ n →
    l.Pairwise (fun a b => b.result ≤ a.result) →
    (∀ a ∈ l, ∀ b ∈ l, a.result = b.result → a.eq b = true) →
    (dedup_consec l).Chain' (fun a b => b.result < a.result) := by
  intro n
  induction n with
  | zero =>
    intro l hl _ _
    rw [List.length_eq_zero.mp (Nat.le_zero.mp hl)]
    simp [dedup_consec]
  | succ n ih =>
    intro l hl hsort hK
    match l with
    | [] => simp [dedup_consec]
    | [a] => simp [dedup_consec]
    | a :: b :: rest =>
      obtain ⟨ha, hsort2⟩ := List.pairwise_cons.mp hsort
      by_cases h : a.eq b = true
      · have hstep : dedup_consec (a :: b :: rest) = dedup_consec (a :: rest) := by
          simp [dedup_consec, h]
        have hsub : ∀ x ∈ a :: rest, x ∈ a :: b :: rest := by
          intro x hx
          rcases List.mem_cons.mp hx with rfl | hx
          · exact List.mem_cons_self _ _
          · exact List.mem_cons_of_mem _ (List.mem_cons_of_mem _ hx)
        rw [hstep]
        refine ih (a :: rest) (by simpa using Nat.le_of_succ_le_succ hl) ?_ ?_
        · refine List.pairwise_cons.mpr ⟨?_, (List.pairwise_cons.mp hsort2).2⟩
          intro y hy
          exact ha y (List.mem_cons_of_mem b hy)
        · intro x hx y hy hxy
          exact hK x (hsub x hx) y (hsub y hy) hxy
      · have hstep : dedup_consec (a :: b :: rest) = a :: dedup_consec (b :: rest) := by
          simp [dedup_consec, h]
        obtain ⟨t', ht'⟩ := dedup_consec_cons rest.length rest le_rfl b
        have hchain := ih (b :: rest) (by simpa using Nat.le_of_succ_le_succ hl) hsort2
          (fun x hx y hy hxy => hK x (List.mem_cons_of_mem a hx) y
            (List.mem_cons_of_mem a hy) hxy)
        have hab : b.result < a.result := by
          rcases lt_or_eq_of_le (ha b (List.mem_cons_self b rest)) with hlt | heq
          · exact hlt
          · exact absurd (hK a (List.mem_cons_self _ _) b
              (List.mem_cons_of_mem a (List.mem_cons_self b rest)) heq.symm) h
        rw [hstep, ht']
        rw [ht'] at hchain
        exact List.chain'_cons.mpr ⟨hab, hchain⟩

theorem chain_result_pairwise (l : List NumberPairing)
    (h : l.Chain' (fun a b => b.result < a.result)) :
    l.Pairwise (fun a b => a.eq b = false) := by
  haveI : IsTrans NumberPairing (fun a b => b.result < a.result) :=
    ⟨fun a b c h1 h2 => lt_trans h2 h1⟩
  have hp : l.Pairwise (fun a b => b.result < a.result) :=
    List.chain'_iff_pairwise.mp h
  refine hp.imp ?_
  intro a b hlt
  cases hab : a.eq b
  · rfl
  · exact absurd (eq_result a b hab)
      (by intro hr; rw [hr] at hlt; exact lt_irrefl _ hlt)

theorem pairwise_lt_result_inj : ∀ (U : List ℚ),
    U.Pairwise (fun a b =>
      (NumberPairing.mk b 1).result < (NumberPairing.mk a 1).result) →
    ∀ x ∈ U, ∀ y ∈ U,
      (NumberPairing.mk x 1).result = (NumberPairing.mk y 1).result → x = y := by
  intro U hU
  induction U with
  | nil => simp
  | cons a t ih =>
    obtain ⟨ha, ht⟩ := List.pairwise_cons.mp hU
    intro x hx y hy hxy
    rcases List.mem_cons.mp hx with rfl | hx'
    · rcases List.mem_cons.mp hy with rfl | hy'
      · rfl
      · exact absurd hxy (ne_of_gt (ha y hy'))
    · rcases List.mem_cons.mp hy with rfl | hy'
      · exact absurd hxy.symm (ne_of_gt (ha x hx'))
      · exact ih ht x hx' y hy' hxy

theorem bucketC_mem_mono (J : ℕ) : ∀ p ∈ bucketC J, p ∈ bucketC 10 := by
  intro p hp
  rcases List.mem_flatten.mp hp with ⟨l, hl, hpl⟩
  refine List.mem_flatten.mpr ⟨l, ?_, hpl⟩
  rw [show pathO.take 10 = pathO from rfl]
  exact List.take_subset J pathO hl

theorem chain_scale (s : ℚ) (hs : 0 < s) (l : List NumberPairing)
    (h : l.Chain' (fun a b => b.result < a.result)) :
    (l.map (scaleNP s)).Chain' (fun a b => b.result < a.result) := by
  rw [List.chain'_map]
  refine h.imp ?_
  intro a b hab
  rw [result_scale s hs.le, result_scale s hs.le]
  exact mul_lt_mul_of_pos_left hab (by positivity)

theorem pairwise_ne_scale (s : ℚ) (hs : s ≠ 0) (l : List NumberPairing)
    (h : l.Pairwise (fun a b => a.eq b = false)) :
    (l.map (scaleNP s)).Pairwise (fun a b => a.eq b = false) := by
  rw [List.pairwise_map]
  refine h.imp ?_
  intro a b hab
  rw [eq_scale s hs]
  exact hab

theorem orderedInsert_scale (s : ℚ) (hs : 0 < s) (a : NumberPairing) :
    ∀ l : List NumberPairing,
      (l.map (scaleNP s)).orderedInsert
          (fun a b => ¬(NumberPairing.cmp b a = Ordering.gt)) (scaleNP s a) =
        (l.orderedInsert (fun a b => ¬(NumberPairing.cmp b a = Ordering.gt))
          a).map (scaleNP s) := by
  intro l
  induction l with
  | nil => rfl
  | cons c t ih =>
    simp only [List.orderedInsert, List.map_cons, cmp_scale s hs]
    by_cases h : ¬(NumberPairing.cmp c a = Ordering.gt)
    · rw [if_pos h, if_pos h]
      simp
    · rw [if_neg h, if_neg h, List.map_cons, ih]

theorem sort_desc_scale (s : ℚ) (hs : 0 < s) (l : List NumberPairing) :
    sort_desc (l.map (scaleNP s)) = (sort_desc l).map (scaleNP s) := by
  simp only [sort_desc]
  induction l with
  | nil => rfl
  | cons a t ih =>
    simp only [List.map_cons, List.insertionSort, ih, orderedInsert_scale s hs]

theorem dedup_consec_scale_aux (s : ℚ) (hs : s ≠ 0) :
    ∀ (n : ℕ) (l : List NumberPairing), l.length ≤ n →
      dedup_consec (l.map (scaleNP s)) = (dedup_consec l).map (scaleNP s) := by
  intro n
  induction n with
  | zero =>
    intro l hl
    rw [List.length_eq_zero.mp (Nat.le_zero.mp hl)]
    simp [dedup_consec]
  | succ n ih =>
    intro l hl
    match l with
    | [] => simp [dedup_consec]
    | [a] => simp [dedup_consec]
    | a :: b :: rest =>
      simp only [List.map_cons, dedup_consec, eq_scale s hs]
      by_cases h : a.eq b = true
      · rw [if_pos h, if_pos h, ← List.map_cons,
          ih (a :: rest) (by simpa using Nat.le_of_succ_le_succ hl)]
      · rw [if_neg h, if_neg h, ← List.map_cons,
          ih (b :: rest) (by simpa using Nat.le_of_succ_le_succ hl),
          List.map_cons]

theorem dedup_consec_scale (s : ℚ) (hs : s ≠ 0) (l : List NumberPairing) :
    dedup_consec (l.map (scaleNP s)) = (dedup_consec l).map (scaleNP s) :=
  dedup_consec_scale_aux s hs l.length l le_rfl

theorem chainBA_iff : ∀ (t : List ℚ) (a : ℚ), chainBA t a = true ↔
    (a :: t).Chain' (fun a b =>
      (NumberPairing.mk b 1).result < (NumberPairing.mk a 1).result) := by
  intro t
  induction t with
  | nil => intro a; simp [chainBA]
  | cons b t' ih =>
    intro a
    simp only [chainBA, Bool.and_eq_true, decide_eq_true_eq, List.chain'_cons]
    rw [ih b]

theorem chainB_iff (l : List ℚ) : chainB l = true ↔
    l.Chain' (fun a b =>
      (NumberPairing.mk b 1).result < (NumberPairing.mk a 1).result) := by
  cases l with
  | nil => simp [chainB]
  | cons a t => exact chainBA_iff t a

set_option maxRecDepth 8000 in
theorem tvalsU_chain :
    tvalsU.Chain' (fun a b =>
      (NumberPairing.mk b 1).result < (NumberPairing.mk a 1).result) :=
  (chainB_iff tvalsU).mp (by with_unfolding_all decide)


theorem tvalsU_length : tvalsU.length = 171 := rfl

theorem tU_mem1 : (((20102661317/95126814720) : ℚ)) ∈ tvalsU := by
  have h : tvalsU.get ⟨1, by rw [tvalsU_length]; norm_num⟩ = (20102661317/95126814720) := rfl
  exact h ▸ List.get_mem tvalsU _ _

theorem tU_mem2 : (((8041064527/38050725888) : ℚ)) ∈ tvalsU := by
  have h : tvalsU.get ⟨2, by rw [tvalsU_length]; norm_num⟩ = (8041064527/38050725888) := rfl
  exact h ▸ List.get_mem tvalsU _ _

theorem tU_mem3 : (((80410645267/380507258880) : ℚ)) ∈ tvalsU := by
  have h : tvalsU.get ⟨3, by rw [tvalsU_length]; norm_num⟩ = (80410645267/380507258880) := rfl
  exact h ▸ List.get_mem tvalsU _ _

theorem tU_mem4 : (((80410645271/380507258880) : ℚ)) ∈ tvalsU := by
  have h : tvalsU.get ⟨4, by rw [tvalsU_length]; norm_num⟩ = (80410645271/380507258880) := rfl
  exact h ▸ List.get_mem tvalsU _ _

theorem tU_mem5 : (((1914539173/9059696640) : ℚ)) ∈ tvalsU := by
  have h : tvalsU.get ⟨5, by rw [tvalsU_length]; norm_num⟩ = (1914539173/9059696640) := rfl
  exact h ▸ List.get_mem tvalsU _ _

theorem tU_mem6 : (((3350443553/15854469120) : ℚ)) ∈ tvalsU := by
  have h : tvalsU.get ⟨6, by rw [tvalsU_length]; norm_num⟩ = (3350443553/15854469120) := rfl
  exact h ▸ List.get_mem tvalsU _ _

theorem tU_mem7 : (((16082129053/76101451776) : ℚ)) ∈ tvalsU := by
  have h : tvalsU.get ⟨7, by rw [tvalsU_length]; norm_num⟩ = (16082129053/76101451776) := rfl
  exact h ▸ List.get_mem tvalsU _ _

theorem tU_mem8 : (((11487235039/54358179840) : ℚ)) ∈ tvalsU := by
  have h : tvalsU.get ⟨8, by rw [tvalsU_length]; norm_num⟩ = (11487235039/54358179840) := rfl
  exact h ▸ List.get_mem tvalsU _ _

theorem tU_mem9 : (((5025665329/23781703680) : ℚ)) ∈ tvalsU := by
  have h : tvalsU.get ⟨9, by rw [tvalsU_length]; norm_num⟩ = (5025665329/23781703680) := rfl
  exact h ▸ List.get_mem tvalsU _ _

theorem tU_mem10 : (((40205322637/190253629440) : ℚ)) ∈ tvalsU := by
  have h : tvalsU.get ⟨10, by rw [tvalsU_length]; norm_num⟩ = (40205322637/190253629440) := rfl
  exact h ▸ List.get_mem tvalsU _ _

theorem tU_mem11 : (((26803548421/126835752960) : ℚ)) ∈ tvalsU := by
  have h : tvalsU.get ⟨11, by rw [tvalsU_length]; norm_num⟩ = (26803548421/126835752960) := rfl
  exact h ▸ List.get_mem tvalsU _ _

theorem tU_mem12 : (((5360709685/25367150592) : ℚ)) ∈ tvalsU := by
  have h : tvalsU.get ⟨12, by rw [tvalsU_length]; norm_num⟩ = (5360709685/25367150592) := rfl
  exact h ▸ List.get_mem tvalsU _ _

theorem tU_mem13 : (((40205322631/190253629440) : ℚ)) ∈ tvalsU := by
  have h : tvalsU.get ⟨13, by rw [tvalsU_length]; norm_num⟩ = (40205322631/190253629440) := rfl
  exact h ▸ List.get_mem tvalsU _ _

theorem tU_mem14 : (((20102661319/95126814720) : ℚ)) ∈ tvalsU := by
  have h : tvalsU.get ⟨14, by rw [tvalsU_length]; norm_num⟩ = (20102661319/95126814720) := rfl
  exact h ▸ List.get_mem tvalsU _ _

theorem tU_mem15 : (((80410645261/380507258880) : ℚ)) ∈ tvalsU := by
  have h : tvalsU.get ⟨15, by rw [tvalsU_length]; norm_num⟩ = (80410645261/380507258880) := rfl
  exact h ▸ List.get_mem tvalsU _ _

theorem tU_mem16 : (((80410645277/380507258880) : ℚ)) ∈ tvalsU := by
  have h : tvalsU.get ⟨16, by rw [tvalsU_length]; norm_num⟩ = (80410645277/380507258880) := rfl
  exact h ▸ List.get_mem tvalsU _ _

theorem tU_mem17 : (((446725807/2113929216) : ℚ)) ∈ tvalsU := by
  have h : tvalsU.get ⟨17, by rw [tvalsU_length]; norm_num⟩ = (446725807/2113929216) := rfl
  exact h ▸ List.get_mem tvalsU _ _

theorem tU_mem18 : (((4467258071/21139292160) : ℚ)) ∈ tvalsU := by
  have h : tvalsU.get ⟨18, by rw [tvalsU_length]; norm_num⟩ = (4467258071/21139292160) := rfl
  exact h ▸ List.get_mem tvalsU _ _

theorem tU_mem19 : (((11487235037/54358179840) : ℚ)) ∈ tvalsU := by
  have h : tvalsU.get ⟨19, by rw [tvalsU_length]; norm_num⟩ = (11487235037/54358179840) := rfl
  exact h ▸ List.get_mem tvalsU _ _

theorem tU_mem20 : (((40205322629/190253629440) : ℚ)) ∈ tvalsU := by
  have h : tvalsU.get ⟨20, by rw [tvalsU_length]; norm_num⟩ = (40205322629/190253629440) := rfl
  exact h ▸ List.get_mem tvalsU _ _

theorem tU_mem21 : (((26803548419/126835752960) : ℚ)) ∈ tvalsU := by
  have h : tvalsU.get ⟨21, by rw [tvalsU_length]; norm_num⟩ = (26803548419/126835752960) := rfl
  exact h ▸ List.get_mem tvalsU _ _

theorem tU_mem22 : (((10051330657/47563407360) : ℚ)) ∈ tvalsU := by
  have h : tvalsU.get ⟨22, by rw [tvalsU_length]; norm_num⟩ = (10051330657/47563407360) := rfl
  exact h ▸ List.get_mem tvalsU _ _

theorem tU_mem23 : (((16082129051/76101451776) : ℚ)) ∈ tvalsU := by
  have h : tvalsU.get ⟨23, by rw [tvalsU_length]; norm_num⟩ = (16082129051/76101451776) := rfl
  exact h ▸ List.get_mem tvalsU _ _

theorem tU_mem24 : (((13401774209/63417876480) : ℚ)) ∈ tvalsU := by
  have h : tvalsU.get ⟨24, by rw [tvalsU_length]; norm_num⟩ = (13401774209/63417876480) := rfl
  exact h ▸ List.get_mem tvalsU _ _

theorem tU_mem25 : (((80410645253/380507258880) : ℚ)) ∈ tvalsU := by
  have h : tvalsU.get ⟨25, by rw [tvalsU_length]; norm_num⟩ = (80410645253/380507258880) := rfl
  exact h ▸ List.get_mem tvalsU _ _

theorem tU_mem26 : (((2871808759/13589544960) : ℚ)) ∈ tvalsU := by
  have h : tvalsU.get ⟨26, by rw [tvalsU_length]; norm_num⟩ = (2871808759/13589544960) := rfl
  exact h ▸ List.get_mem tvalsU _ _

theorem tU_mem27 : (((8934516139/42278584320) : ℚ)) ∈ tvalsU := by
  have h : tvalsU.get ⟨27, by rw [tvalsU_length]; norm_num⟩ = (8934516139/42278584320) := rfl
  exact h ▸ List.get_mem tvalsU _ _

theorem tU_mem28 : (((8041064525/38050725888) : ℚ)) ∈ tvalsU := by
  have h : tvalsU.get ⟨28, by rw [tvalsU_length]; norm_num⟩ = (8041064525/38050725888) := rfl
  exact h ▸ List.get_mem tvalsU _ _

theorem tU_mem29 : (((80410645249/380507258880) : ℚ)) ∈ tvalsU := by
  have h : tvalsU.get ⟨29, by rw [tvalsU_length]; norm_num⟩ = (80410645249/380507258880) := rfl
  exact h ▸ List.get_mem tvalsU _ _

theorem tU_mem30 : (((104701361/495452160) : ℚ)) ∈ tvalsU := by
  have h : tvalsU.get ⟨30, by rw [tvalsU_length]; norm_num⟩ = (104701361/495452160) := rfl
  exact h ▸ List.get_mem tvalsU _ _

theorem tU_mem31 : (((80410645247/380507258880) : ℚ)) ∈ tvalsU := by
  have h : tvalsU.get ⟨31, by rw [tvalsU_length]; norm_num⟩ = (80410645247/380507258880) := rfl
  exact h ▸ List.get_mem tvalsU _ _

theorem tU_mem32 : (((40205322623/190253629440) : ℚ)) ∈ tvalsU := by
  have h : tvalsU.get ⟨32, by rw [tvalsU_length]; norm_num⟩ = (40205322623/190253629440) := rfl
  exact h ▸ List.get_mem tvalsU _ _

theorem tU_mem33 : (((765815669/3623878656) : ℚ)) ∈ tvalsU := by
  have h : tvalsU.get ⟨33, by rw [tvalsU_length]; norm_num⟩ = (765815669/3623878656) := rfl
  exact h ▸ List.get_mem tvalsU _ _

theorem tU_mem34 : (((20102661311/95126814720) : ℚ)) ∈ tvalsU := by
  have h : tvalsU.get ⟨34, by rw [tvalsU_length]; norm_num⟩ = (20102661311/95126814720) := rfl
  exact h ▸ List.get_mem tvalsU _ _

theorem tU_mem35 : (((80410645243/380507258880) : ℚ)) ∈ tvalsU := by
  have h : tvalsU.get ⟨35, by rw [tvalsU_length]; norm_num⟩ = (80410645243/380507258880) := rfl
  exact h ▸ List.get_mem tvalsU _ _

theorem tU_mem36 : (((1489086023/7046430720) : ℚ)) ∈ tvalsU := by
  have h : tvalsU.get ⟨36, by rw [tvalsU_length]; norm_num⟩ = (1489086023/7046430720) := rfl
  exact h ▸ List.get_mem tvalsU _ _

theorem tU_mem37 : (((62045251/293601280) : ℚ)) ∈ tvalsU := by
  have h : tvalsU.get ⟨37, by rw [tvalsU_length]; norm_num⟩ = (62045251/293601280) := rfl
  exact h ▸ List.get_mem tvalsU _ _

theorem tU_mem38 : (((159544931/754974720) : ℚ)) ∈ tvalsU := by
  have h : tvalsU.get ⟨38, by rw [tvalsU_length]; norm_num⟩ = (159544931/754974720) := rfl
  exact h ▸ List.get_mem tvalsU _ _

theorem tU_mem39 : (((2233629037/10569646080) : ℚ)) ∈ tvalsU := by
  have h : tvalsU.get ⟨39, by rw [tvalsU_length]; norm_num⟩ = (2233629037/10569646080) := rfl
  exact h ▸ List.get_mem tvalsU _ _

theorem tU_mem40 : (((744543011/3523215360) : ℚ)) ∈ tvalsU := by
  have h : tvalsU.get ⟨40, by rw [tvalsU_length]; norm_num⟩ = (744543011/3523215360) := rfl
  exact h ▸ List.get_mem tvalsU _ _

theorem tU_mem41 : (((1116814519/5284823040) : ℚ)) ∈ tvalsU := by
  have h : tvalsU.get ⟨41, by rw [tvalsU_length]; norm_num⟩ = (1116814519/5284823040) := rfl
  exact h ▸ List.get_mem tvalsU _ _

theorem tU_mem42 : (((279203629/1321205760) : ℚ)) ∈ tvalsU := by
  have h : tvalsU.get ⟨42, by rw [tvalsU_length]; norm_num⟩ = (279203629/1321205760) := rfl
  exact h ▸ List.get_mem tvalsU _ _

theorem tU_mem43 : (((744543013/3523215360) : ℚ)) ∈ tvalsU := by
  have h : tvalsU.get ⟨43, by rw [tvalsU_length]; norm_num⟩ = (744543013/3523215360) := rfl
  exact h ▸ List.get_mem tvalsU _ _

theorem tU_mem44 : (((2233629031/10569646080) : ℚ)) ∈ tvalsU := by
  have h : tvalsU.get ⟨44, by rw [tvalsU_length]; norm_num⟩ = (2233629031/10569646080) := rfl
  exact h ▸ List.get_mem tvalsU _ _

theorem tU_mem45 : (((27920363/132120576) : ℚ)) ∈ tvalsU := by
  have h : tvalsU.get ⟨45, by rw [tvalsU_length]; norm_num⟩ = (27920363/132120576) := rfl
  exact h ▸ List.get_mem tvalsU _ _

theorem tU_mem46 : (((74454301/352321536) : ℚ)) ∈ tvalsU := by
  have h : tvalsU.get ⟨46, by rw [tvalsU_length]; norm_num⟩ = (74454301/352321536) := rfl
  exact h ▸ List.get_mem tvalsU _ _

theorem tU_mem47 : (((2233629029/10569646080) : ℚ)) ∈ tvalsU := by
  have h : tvalsU.get ⟨47, by rw [tvalsU_length]; norm_num⟩ = (2233629029/10569646080) := rfl
  exact h ▸ List.get_mem tvalsU _ _

theorem tU_mem48 : (((558407257/2642411520) : ℚ)) ∈ tvalsU := by
  have h : tvalsU.get ⟨48, by rw [tvalsU_length]; norm_num⟩ = (558407257/2642411520) := rfl
  exact h ▸ List.get_mem tvalsU _ _

theorem tU_mem49 : (((35454429/167772160) : ℚ)) ∈ tvalsU := by
  have h : tvalsU.get ⟨49, by rw [tvalsU_length]; norm_num⟩ = (35454429/167772160) := rfl
  exact h ▸ List.get_mem tvalsU _ _

theorem tU_mem50 : (((1116814513/5284823040) : ℚ)) ∈ tvalsU := by
  have h : tvalsU.get ⟨50, by rw [tvalsU_length]; norm_num⟩ = (1116814513/5284823040) := rfl
  exact h ▸ List.get_mem tvalsU _ _

theorem tU_mem51 : (((446725805/2113929216) : ℚ)) ∈ tvalsU := by
  have h : tvalsU.get ⟨51, by rw [tvalsU_length]; norm_num⟩ = (446725805/2113929216) := rfl
  exact h ▸ List.get_mem tvalsU _ _

theorem tU_mem52 : (((23266969/110100480) : ℚ)) ∈ tvalsU := by
  have h : tvalsU.get ⟨52, by rw [tvalsU_length]; norm_num⟩ = (23266969/110100480) := rfl
  exact h ▸ List.get_mem tvalsU _ _

theorem tU_mem53 : (((2233629023/10569646080) : ℚ)) ∈ tvalsU := by
  have h : tvalsU.get ⟨53, by rw [tvalsU_length]; norm_num⟩ = (2233629023/10569646080) := rfl
  exact h ▸ List.get_mem tvalsU _ _

theorem tU_mem54 : (((1116814511/5284823040) : ℚ)) ∈ tvalsU := by
  have h : tvalsU.get ⟨54, by rw [tvalsU_length]; norm_num⟩ = (1116814511/5284823040) := rfl
  exact h ▸ List.get_mem tvalsU _ _

theorem tU_mem55 : (((744543007/3523215360) : ℚ)) ∈ tvalsU := by
  have h : tvalsU.get ⟨55, by rw [tvalsU_length]; norm_num⟩ = (744543007/3523215360) := rfl
  exact h ▸ List.get_mem tvalsU _ _

theorem tU_mem56 : (((15954493/75497472) : ℚ)) ∈ tvalsU := by
  have h : tvalsU.get ⟨56, by rw [tvalsU_length]; norm_num⟩ = (15954493/75497472) := rfl
  exact h ▸ List.get_mem tvalsU _ _

theorem tU_mem57 : (((2233629019/10569646080) : ℚ)) ∈ tvalsU := by
  have h : tvalsU.get ⟨57, by rw [tvalsU_length]; norm_num⟩ = (2233629019/10569646080) := rfl
  exact h ▸ List.get_mem tvalsU _ _

theorem tU_mem58 : (((124090501/587202560) : ℚ)) ∈ tvalsU := by
  have h : tvalsU.get ⟨58, by rw [tvalsU_length]; norm_num⟩ = (124090501/587202560) := rfl
  exact h ▸ List.get_mem tvalsU _ _

theorem tU_mem59 : (((2233629017/10569646080) : ℚ)) ∈ tvalsU := by
  have h : tvalsU.get ⟨59, by rw [tvalsU_length]; norm_num⟩ = (2233629017/10569646080) := rfl
  exact h ▸ List.get_mem tvalsU _ _

theorem tU_mem60 : (((279203627/1321205760) : ℚ)) ∈ tvalsU := by
  have h : tvalsU.get ⟨60, by rw [tvalsU_length]; norm_num⟩ = (279203627/1321205760) := rfl
  exact h ▸ List.get_mem tvalsU _ _

theorem tU_mem61 : (((148908601/704643072) : ℚ)) ∈ tvalsU := by
  have h : tvalsU.get ⟨61, by rw [tvalsU_length]; norm_num⟩ = (148908601/704643072) := rfl
  exact h ▸ List.get_mem tvalsU _ _

theorem tU_mem62 : (((17450227/82575360) : ℚ)) ∈ tvalsU := by
  have h : tvalsU.get ⟨62, by rw [tvalsU_length]; norm_num⟩ = (17450227/82575360) := rfl
  exact h ▸ List.get_mem tvalsU _ _

theorem tU_mem63 : (((1116814507/5284823040) : ℚ)) ∈ tvalsU := by
  have h : tvalsU.get ⟨63, by rw [tvalsU_length]; norm_num⟩ = (1116814507/5284823040) := rfl
  exact h ▸ List.get_mem tvalsU _ _

theorem tU_mem64 : (((319089859/1509949440) : ℚ)) ∈ tvalsU := by
  have h : tvalsU.get ⟨64, by rw [tvalsU_length]; norm_num⟩ = (319089859/1509949440) := rfl
  exact h ▸ List.get_mem tvalsU _ _

theorem tU_mem65 : (((186135751/880803840) : ℚ)) ∈ tvalsU := by
  have h : tvalsU.get ⟨65, by rw [tvalsU_length]; norm_num⟩ = (186135751/880803840) := rfl
  exact h ▸ List.get_mem tvalsU _ _

theorem tU_mem66 : (((2233629011/10569646080) : ℚ)) ∈ tvalsU := by
  have h : tvalsU.get ⟨66, by rw [tvalsU_length]; norm_num⟩ = (2233629011/10569646080) := rfl
  exact h ▸ List.get_mem tvalsU _ _

theorem tU_mem67 : (((223362901/1056964608) : ℚ)) ∈ tvalsU := by
  have h : tvalsU.get ⟨67, by rw [tvalsU_length]; norm_num⟩ = (223362901/1056964608) := rfl
  exact h ▸ List.get_mem tvalsU _ _

theorem tU_mem68 : (((248181001/1174405120) : ℚ)) ∈ tvalsU := by
  have h : tvalsU.get ⟨68, by rw [tvalsU_length]; norm_num⟩ = (248181001/1174405120) := rfl
  exact h ▸ List.get_mem tvalsU _ _

theorem tU_mem69 : (((139601813/660602880) : ℚ)) ∈ tvalsU := by
  have h : tvalsU.get ⟨69, by rw [tvalsU_length]; norm_num⟩ = (139601813/660602880) := rfl
  exact h ▸ List.get_mem tvalsU _ _

theorem tU_mem70 : (((4985779/23592960) : ℚ)) ∈ tvalsU := by
  have h : tvalsU.get ⟨70, by rw [tvalsU_length]; norm_num⟩ = (4985779/23592960) := rfl
  exact h ▸ List.get_mem tvalsU _ _

theorem tU_mem71 : (((69800909/330301440) : ℚ)) ∈ tvalsU := by
  have h : tvalsU.get ⟨71, by rw [tvalsU_length]; norm_num⟩ = (69800909/330301440) := rfl
  exact h ▸ List.get_mem tvalsU _ _

theorem tU_mem72 : (((2326697/11010048) : ℚ)) ∈ tvalsU := by
  have h : tvalsU.get ⟨72, by rw [tvalsU_length]; norm_num⟩ = (2326697/11010048) := rfl
  exact h ▸ List.get_mem tvalsU _ _

theorem tU_mem73 : (((69800911/330301440) : ℚ)) ∈ tvalsU := by
  have h : tvalsU.get ⟨73, by rw [tvalsU_length]; norm_num⟩ = (69800911/330301440) := rfl
  exact h ▸ List.get_mem tvalsU _ _

theorem tU_mem74 : (((4362557/20643840) : ℚ)) ∈ tvalsU := by
  have h : tvalsU.get ⟨74, by rw [tvalsU_length]; norm_num⟩ = (4362557/20643840) := rfl
  exact h ▸ List.get_mem tvalsU _ _

theorem tU_mem75 : (((1107951/5242880) : ℚ)) ∈ tvalsU := by
  have h : tvalsU.get ⟨75, by rw [tvalsU_length]; norm_num⟩ = (1107951/5242880) := rfl
  exact h ▸ List.get_mem tvalsU _ _

theorem tU_mem76 : (((34900457/165150720) : ℚ)) ∈ tvalsU := by
  have h : tvalsU.get ⟨76, by rw [tvalsU_length]; norm_num⟩ = (34900457/165150720) := rfl
  exact h ▸ List.get_mem tvalsU _ _

theorem tU_mem77 : (((13960183/66060288) : ℚ)) ∈ tvalsU := by
  have h : tvalsU.get ⟨77, by rw [tvalsU_length]; norm_num⟩ = (13960183/66060288) := rfl
  exact h ▸ List.get_mem tvalsU _ _

theorem tU_mem78 : (((5816743/27525120) : ℚ)) ∈ tvalsU := by
  have h : tvalsU.get ⟨78, by rw [tvalsU_length]; norm_num⟩ = (5816743/27525120) := rfl
  exact h ▸ List.get_mem tvalsU _ _

theorem tU_mem79 : (((69800917/330301440) : ℚ)) ∈ tvalsU := by
  have h : tvalsU.get ⟨79, by rw [tvalsU_length]; norm_num⟩ = (69800917/330301440) := rfl
  exact h ▸ List.get_mem tvalsU _ _

theorem tU_mem80 : (((34900459/165150720) : ℚ)) ∈ tvalsU := by
  have h : tvalsU.get ⟨80, by rw [tvalsU_length]; norm_num⟩ = (34900459/165150720) := rfl
  exact h ▸ List.get_mem tvalsU _ _

theorem tU_mem81 : (((23266973/110100480) : ℚ)) ∈ tvalsU := by
  have h : tvalsU.get ⟨81, by rw [tvalsU_length]; norm_num⟩ = (23266973/110100480) := rfl
  exact h ▸ List.get_mem tvalsU _ _

theorem tU_mem82 : (((249289/1179648) : ℚ)) ∈ tvalsU := by
  have h : tvalsU.get ⟨82, by rw [tvalsU_length]; norm_num⟩ = (249289/1179648) := rfl
  exact h ▸ List.get_mem tvalsU _ _

theorem tU_mem83 : (((69800921/330301440) : ℚ)) ∈ tvalsU := by
  have h : tvalsU.get ⟨83, by rw [tvalsU_length]; norm_num⟩ = (69800921/330301440) := rfl
  exact h ▸ List.get_mem tvalsU _ _

theorem tU_mem84 : (((3877829/18350080) : ℚ)) ∈ tvalsU := by
  have h : tvalsU.get ⟨84, by rw [tvalsU_length]; norm_num⟩ = (3877829/18350080) := rfl
  exact h ▸ List.get_mem tvalsU _ _

theorem tU_mem85 : (((830963/3932160) : ℚ)) ∈ tvalsU := by
  have h : tvalsU.get ⟨85, by rw [tvalsU_length]; norm_num⟩ = (830963/3932160) := rfl
  exact h ▸ List.get_mem tvalsU _ _

theorem tU_mem86 : (((69800923/330301440) : ℚ)) ∈ tvalsU := by
  have h : tvalsU.get ⟨86, by rw [tvalsU_length]; norm_num⟩ = (69800923/330301440) := rfl
  exact h ▸ List.get_mem tvalsU _ _

theorem tU_mem87 : (((17450231/82575360) : ℚ)) ∈ tvalsU := by
  have h : tvalsU.get ⟨87, by rw [tvalsU_length]; norm_num⟩ = (17450231/82575360) := rfl
  exact h ▸ List.get_mem tvalsU _ _

theorem tU_mem88 : (((4653395/22020096) : ℚ)) ∈ tvalsU := by
  have h : tvalsU.get ⟨88, by rw [tvalsU_length]; norm_num⟩ = (4653395/22020096) := rfl
  exact h ▸ List.get_mem tvalsU _ _

theorem tU_mem89 : (((34900463/165150720) : ℚ)) ∈ tvalsU := by
  have h : tvalsU.get ⟨89, by rw [tvalsU_length]; norm_num⟩ = (34900463/165150720) := rfl
  exact h ▸ List.get_mem tvalsU _ _

theorem tU_mem90 : (((9971561/47185920) : ℚ)) ∈ tvalsU := by
  have h : tvalsU.get ⟨90, by rw [tvalsU_length]; norm_num⟩ = (9971561/47185920) := rfl
  exact h ▸ List.get_mem tvalsU _ _

theorem tU_mem91 : (((727093/3440640) : ℚ)) ∈ tvalsU := by
  have h : tvalsU.get ⟨91, by rw [tvalsU_length]; norm_num⟩ = (727093/3440640) := rfl
  exact h ▸ List.get_mem tvalsU _ _

theorem tU_mem92 : (((69800929/330301440) : ℚ)) ∈ tvalsU := by
  have h : tvalsU.get ⟨92, by rw [tvalsU_length]; norm_num⟩ = (69800929/330301440) := rfl
  exact h ▸ List.get_mem tvalsU _ _

theorem tU_mem93 : (((6980093/33030144) : ℚ)) ∈ tvalsU := by
  have h : tvalsU.get ⟨93, by rw [tvalsU_length]; norm_num⟩ = (6980093/33030144) := rfl
  exact h ▸ List.get_mem tvalsU _ _

theorem tU_mem94 : (((7755659/36700160) : ℚ)) ∈ tvalsU := by
  have h : tvalsU.get ⟨94, by rw [tvalsU_length]; norm_num⟩ = (7755659/36700160) := rfl
  exact h ▸ List.get_mem tvalsU _ _

theorem tU_mem95 : (((17450233/82575360) : ℚ)) ∈ tvalsU := by
  have h : tvalsU.get ⟨95, by rw [tvalsU_length]; norm_num⟩ = (17450233/82575360) := rfl
  exact h ▸ List.get_mem tvalsU _ _

theorem tU_mem96 : (((69800933/330301440) : ℚ)) ∈ tvalsU := by
  have h : tvalsU.get ⟨96, by rw [tvalsU_length]; norm_num⟩ = (69800933/330301440) := rfl
  exact h ▸ List.get_mem tvalsU _ _

theorem tU_mem97 : (((1661927/7864320) : ℚ)) ∈ tvalsU := by
  have h : tvalsU.get ⟨97, by rw [tvalsU_length]; norm_num⟩ = (1661927/7864320) := rfl
  exact h ▸ List.get_mem tvalsU _ _

theorem tU_mem98 : (((2492891/11796480) : ℚ)) ∈ tvalsU := by
  have h : tvalsU.get ⟨98, by rw [tvalsU_length]; norm_num⟩ = (2492891/11796480) := rfl
  exact h ▸ List.get_mem tvalsU _ _

theorem tU_mem99 : (((311611/1474560) : ℚ)) ∈ tvalsU := by
  have h : tvalsU.get ⟨99, by rw [tvalsU_length]; norm_num⟩ = (311611/1474560) := rfl
  exact h ▸ List.get_mem tvalsU _ _

theorem tU_mem100 : (((69247/327680) : ℚ)) ∈ tvalsU := by
  have h : tvalsU.get ⟨100, by rw [tvalsU_length]; norm_num⟩ = (69247/327680) := rfl
  exact h ▸ List.get_mem tvalsU _ _

theorem tU_mem101 : (((2492887/11796480) : ℚ)) ∈ tvalsU := by
  have h : tvalsU.get ⟨101, by rw [tvalsU_length]; norm_num⟩ = (2492887/11796480) := rfl
  exact h ▸ List.get_mem tvalsU _ _

theorem tU_mem102 : (((415481/1966080) : ℚ)) ∈ tvalsU := by
  have h : tvalsU.get ⟨102, by rw [tvalsU_length]; norm_num⟩ = (415481/1966080) := rfl
  exact h ▸ List.get_mem tvalsU _ _

theorem tU_mem103 : (((498577/2359296) : ℚ)) ∈ tvalsU := by
  have h : tvalsU.get ⟨103, by rw [tvalsU_length]; norm_num⟩ = (498577/2359296) := rfl
  exact h ▸ List.get_mem tvalsU _ _

theorem tU_mem104 : (((623221/2949120) : ℚ)) ∈ tvalsU := by
  have h : tvalsU.get ⟨104, by rw [tvalsU_length]; norm_num⟩ = (623221/2949120) := rfl
  exact h ▸ List.get_mem tvalsU _ _

theorem tU_mem105 : (((276987/1310720) : ℚ)) ∈ tvalsU := by
  have h : tvalsU.get ⟨105, by rw [tvalsU_length]; norm_num⟩ = (276987/1310720) := rfl
  exact h ▸ List.get_mem tvalsU _ _

theorem tU_mem106 : (((1246441/5898240) : ℚ)) ∈ tvalsU := by
  have h : tvalsU.get ⟨106, by rw [tvalsU_length]; norm_num⟩ = (1246441/5898240) := rfl
  exact h ▸ List.get_mem tvalsU _ _

theorem tU_mem107 : (((2492881/11796480) : ℚ)) ∈ tvalsU := by
  have h : tvalsU.get ⟨107, by rw [tvalsU_length]; norm_num⟩ = (2492881/11796480) := rfl
  exact h ▸ List.get_mem tvalsU _ _

theorem tU_mem108 : (((10387/49152) : ℚ)) ∈ tvalsU := by
  have h : tvalsU.get ⟨108, by rw [tvalsU_length]; norm_num⟩ = (10387/49152) := rfl
  exact h ▸ List.get_mem tvalsU _ _

theorem tU_mem109 : (((103871/491520) : ℚ)) ∈ tvalsU := by
  have h : tvalsU.get ⟨109, by rw [tvalsU_length]; norm_num⟩ = (103871/491520) := rfl
  exact h ▸ List.get_mem tvalsU _ _

theorem tU_mem110 : (((541/2560) : ℚ)) ∈ tvalsU := by
  have h : tvalsU.get ⟨110, by rw [tvalsU_length]; norm_num⟩ = (541/2560) := rfl
  exact h ▸ List.get_mem tvalsU _ _

theorem tU_mem111 : (((103873/491520) : ℚ)) ∈ tvalsU := by
  have h : tvalsU.get ⟨111, by rw [tvalsU_length]; norm_num⟩ = (103873/491520) := rfl
  exact h ▸ List.get_mem tvalsU _ _

theorem tU_mem112 : (((51937/245760) : ℚ)) ∈ tvalsU := by
  have h : tvalsU.get ⟨112, by rw [tvalsU_length]; norm_num⟩ = (51937/245760) := rfl
  exact h ▸ List.get_mem tvalsU _ _

theorem tU_mem113 : (((6925/32768) : ℚ)) ∈ tvalsU := by
  have h : tvalsU.get ⟨113, by rw [tvalsU_length]; norm_num⟩ = (6925/32768) := rfl
  exact h ▸ List.get_mem tvalsU _ _

theorem tU_mem114 : (((25969/122880) : ℚ)) ∈ tvalsU := by
  have h : tvalsU.get ⟨114, by rw [tvalsU_length]; norm_num⟩ = (25969/122880) := rfl
  exact h ▸ List.get_mem tvalsU _ _

theorem tU_mem115 : (((103877/491520) : ℚ)) ∈ tvalsU := by
  have h : tvalsU.get ⟨115, by rw [tvalsU_length]; norm_num⟩ = (103877/491520) := rfl
  exact h ▸ List.get_mem tvalsU _ _

theorem tU_mem116 : (((17313/81920) : ℚ)) ∈ tvalsU := by
  have h : tvalsU.get ⟨116, by rw [tvalsU_length]; norm_num⟩ = (17313/81920) := rfl
  exact h ▸ List.get_mem tvalsU _ _

theorem tU_mem117 : (((103879/491520) : ℚ)) ∈ tvalsU := by
  have h : tvalsU.get ⟨117, by rw [tvalsU_length]; norm_num⟩ = (103879/491520) := rfl
  exact h ▸ List.get_mem tvalsU _ _

theorem tU_mem118 : (((2597/12288) : ℚ)) ∈ tvalsU := by
  have h : tvalsU.get ⟨118, by rw [tvalsU_length]; norm_num⟩ = (2597/12288) := rfl
  exact h ▸ List.get_mem tvalsU _ _

theorem tU_mem119 : (((1731/8192) : ℚ)) ∈ tvalsU := by
  have h : tvalsU.get ⟨119, by rw [tvalsU_length]; norm_num⟩ = (1731/8192) := rfl
  exact h ▸ List.get_mem tvalsU _ _

theorem tU_mem120 : (((34627/163840) : ℚ)) ∈ tvalsU := by
  have h : tvalsU.get ⟨120, by rw [tvalsU_length]; norm_num⟩ = (34627/163840) := rfl
  exact h ▸ List.get_mem tvalsU _ _

theorem tU_mem121 : (((51941/245760) : ℚ)) ∈ tvalsU := by
  have h : tvalsU.get ⟨121, by rw [tvalsU_length]; norm_num⟩ = (51941/245760) := rfl
  exact h ▸ List.get_mem tvalsU _ _

theorem tU_mem122 : (((103883/491520) : ℚ)) ∈ tvalsU := by
  have h : tvalsU.get ⟨122, by rw [tvalsU_length]; norm_num⟩ = (103883/491520) := rfl
  exact h ▸ List.get_mem tvalsU _ _

theorem tU_mem123 : (((8657/40960) : ℚ)) ∈ tvalsU := by
  have h : tvalsU.get ⟨123, by rw [tvalsU_length]; norm_num⟩ = (8657/40960) := rfl
  exact h ▸ List.get_mem tvalsU _ _

theorem tU_mem124 : (((20777/98304) : ℚ)) ∈ tvalsU := by
  have h : tvalsU.get ⟨124, by rw [tvalsU_length]; norm_num⟩ = (20777/98304) := rfl
  exact h ▸ List.get_mem tvalsU _ _

theorem tU_mem125 : (((51943/245760) : ℚ)) ∈ tvalsU := by
  have h : tvalsU.get ⟨125, by rw [tvalsU_length]; norm_num⟩ = (51943/245760) := rfl
  exact h ▸ List.get_mem tvalsU _ _

theorem tU_mem126 : (((34629/163840) : ℚ)) ∈ tvalsU := by
  have h : tvalsU.get ⟨126, by rw [tvalsU_length]; norm_num⟩ = (34629/163840) := rfl
  exact h ▸ List.get_mem tvalsU _ _

theorem tU_mem127 : (((6493/30720) : ℚ)) ∈ tvalsU := by
  have h : tvalsU.get ⟨127, by rw [tvalsU_length]; norm_num⟩ = (6493/30720) := rfl
  exact h ▸ List.get_mem tvalsU _ _

theorem tU_mem128 : (((103889/491520) : ℚ)) ∈ tvalsU := by
  have h : tvalsU.get ⟨128, by rw [tvalsU_length]; norm_num⟩ = (103889/491520) := rfl
  exact h ▸ List.get_mem tvalsU _ _

theorem tU_mem129 : (((3463/16384) : ℚ)) ∈ tvalsU := by
  have h : tvalsU.get ⟨129, by rw [tvalsU_length]; norm_num⟩ = (3463/16384) := rfl
  exact h ▸ List.get_mem tvalsU _ _

theorem tU_mem130 : (((5195/24576) : ℚ)) ∈ tvalsU := by
  have h : tvalsU.get ⟨130, by rw [tvalsU_length]; norm_num⟩ = (5195/24576) := rfl
  exact h ▸ List.get_mem tvalsU _ _

theorem tU_mem131 : (((649/3072) : ℚ)) ∈ tvalsU := by
  have h : tvalsU.get ⟨131, by rw [tvalsU_length]; norm_num⟩ = (649/3072) := rfl
  exact h ▸ List.get_mem tvalsU _ _

theorem tU_mem132 : (((433/2048) : ℚ)) ∈ tvalsU := by
  have h : tvalsU.get ⟨132, by rw [tvalsU_length]; norm_num⟩ = (433/2048) := rfl
  exact h ▸ List.get_mem tvalsU _ _

theorem tU_mem133 : (((5197/24576) : ℚ)) ∈ tvalsU := by
  have h : tvalsU.get ⟨133, by rw [tvalsU_length]; norm_num⟩ = (5197/24576) := rfl
  exact h ▸ List.get_mem tvalsU _ _

theorem tU_mem134 : (((2599/12288) : ℚ)) ∈ tvalsU := by
  have h : tvalsU.get ⟨134, by rw [tvalsU_length]; norm_num⟩ = (2599/12288) := rfl
  exact h ▸ List.get_mem tvalsU _ _

theorem tU_mem135 : (((1733/8192) : ℚ)) ∈ tvalsU := by
  have h : tvalsU.get ⟨135, by rw [tvalsU_length]; norm_num⟩ = (1733/8192) := rfl
  exact h ▸ List.get_mem tvalsU _ _

theorem tU_mem136 : (((325/1536) : ℚ)) ∈ tvalsU := by
  have h : tvalsU.get ⟨136, by rw [tvalsU_length]; norm_num⟩ = (325/1536) := rfl
  exact h ▸ List.get_mem tvalsU _ _

theorem tU_mem137 : (((5201/24576) : ℚ)) ∈ tvalsU := by
  have h : tvalsU.get ⟨137, by rw [tvalsU_length]; norm_num⟩ = (5201/24576) := rfl
  exact h ▸ List.get_mem tvalsU _ _

theorem tU_mem138 : (((867/4096) : ℚ)) ∈ tvalsU := by
  have h : tvalsU.get ⟨138, by rw [tvalsU_length]; norm_num⟩ = (867/4096) := rfl
  exact h ▸ List.get_mem tvalsU _ _

theorem tU_mem139 : (((5203/24576) : ℚ)) ∈ tvalsU := by
  have h : tvalsU.get ⟨139, by rw [tvalsU_length]; norm_num⟩ = (5203/24576) := rfl
  exact h ▸ List.get_mem tvalsU _ _

theorem tU_mem140 : (((27/128) : ℚ)) ∈ tvalsU := by
  have h : tvalsU.get ⟨140, by rw [tvalsU_length]; norm_num⟩ = (27/128) := rfl
  exact h ▸ List.get_mem tvalsU _ _

theorem tU_mem141 : (((1301/6144) : ℚ)) ∈ tvalsU := by
  have h : tvalsU.get ⟨141, by rw [tvalsU_length]; norm_num⟩ = (1301/6144) := rfl
  exact h ▸ List.get_mem tvalsU _ _

theorem tU_mem142 : (((1735/8192) : ℚ)) ∈ tvalsU := by
  have h : tvalsU.get ⟨142, by rw [tvalsU_length]; norm_num⟩ = (1735/8192) := rfl
  exact h ▸ List.get_mem tvalsU _ _

theorem tU_mem143 : (((2603/12288) : ℚ)) ∈ tvalsU := by
  have h : tvalsU.get ⟨143, by rw [tvalsU_length]; norm_num⟩ = (2603/12288) := rfl
  exact h ▸ List.get_mem tvalsU _ _

theorem tU_mem144 : (((5207/24576) : ℚ)) ∈ tvalsU := by
  have h : tvalsU.get ⟨144, by rw [tvalsU_length]; norm_num⟩ = (5207/24576) := rfl
  exact h ▸ List.get_mem tvalsU _ _

theorem tU_mem145 : (((217/1024) : ℚ)) ∈ tvalsU := by
  have h : tvalsU.get ⟨145, by rw [tvalsU_length]; norm_num⟩ = (217/1024) := rfl
  exact h ▸ List.get_mem tvalsU _ _

theorem tU_mem146 : (((163/768) : ℚ)) ∈ tvalsU := by
  have h : tvalsU.get ⟨146, by rw [tvalsU_length]; norm_num⟩ = (163/768) := rfl
  exact h ▸ List.get_mem tvalsU _ _

theorem tU_mem147 : (((323/1536) : ℚ)) ∈ tvalsU := by
  have h : tvalsU.get ⟨147, by rw [tvalsU_length]; norm_num⟩ = (323/1536) := rfl
  exact h ▸ List.get_mem tvalsU _ _

theorem tU_mem148 : (((109/512) : ℚ)) ∈ tvalsU := by
  have h : tvalsU.get ⟨148, by rw [tvalsU_length]; norm_num⟩ = (109/512) := rfl
  exact h ▸ List.get_mem tvalsU _ _

theorem tU_mem149 : (((161/768) : ℚ)) ∈ tvalsU := by
  have h : tvalsU.get ⟨149, by rw [tvalsU_length]; norm_num⟩ = (161/768) := rfl
  exact h ▸ List.get_mem tvalsU _ _

theorem tU_mem150 : (((41/192) : ℚ)) ∈ tvalsU := by
  have h : tvalsU.get ⟨150, by rw [tvalsU_length]; norm_num⟩ = (41/192) := rfl
  exact h ▸ List.get_mem tvalsU _ _

theorem tU_mem151 : (((107/512) : ℚ)) ∈ tvalsU := by
  have h : tvalsU.get ⟨151, by rw [tvalsU_length]; norm_num⟩ = (107/512) := rfl
  exact h ▸ List.get_mem tvalsU _ _

theorem tU_mem152 : (((329/1536) : ℚ)) ∈ tvalsU := by
  have h : tvalsU.get ⟨152, by rw [tvalsU_length]; norm_num⟩ = (329/1536) := rfl
  exact h ▸ List.get_mem tvalsU _ _

theorem tU_mem153 : (((5/24) : ℚ)) ∈ tvalsU := by
  have h : tvalsU.get ⟨153, by rw [tvalsU_length]; norm_num⟩ = (5/24) := rfl
  exact h ▸ List.get_mem tvalsU _ _

theorem tU_mem154 : (((55/256) : ℚ)) ∈ tvalsU := by
  have h : tvalsU.get ⟨154, by rw [tvalsU_length]; norm_num⟩ = (55/256) := rfl
  exact h ▸ List.get_mem tvalsU _ _

theorem tU_mem155 : (((319/1536) : ℚ)) ∈ tvalsU := by
  have h : tvalsU.get ⟨155, by rw [tvalsU_length]; norm_num⟩ = (319/1536) := rfl
  exact h ▸ List.get_mem tvalsU _ _

theorem tU_mem156 : (((53/256) : ℚ)) ∈ tvalsU := by
  have h : tvalsU.get ⟨156, by rw [tvalsU_length]; norm_num⟩ = (53/256) := rfl
  exact h ▸ List.get_mem tvalsU _ _

theorem tU_mem157 : (((7/32) : ℚ)) ∈ tvalsU := by
  have h : tvalsU.get ⟨157, by rw [tvalsU_length]; norm_num⟩ = (7/32) := rfl
  exact h ▸ List.get_mem tvalsU _ _

theorem tU_mem158 : (((13/64) : ℚ)) ∈ tvalsU := by
  have h : tvalsU.get ⟨158, by rw [tvalsU_length]; norm_num⟩ = (13/64) := rfl
  exact h ▸ List.get_mem tvalsU _ _

theorem tU_mem159 : (((25/128) : ℚ)) ∈ tvalsU := by
  have h : tvalsU.get ⟨159, by rw [tvalsU_length]; norm_num⟩ = (25/128) := rfl
  exact h ▸ List.get_mem tvalsU _ _

theorem tU_mem160 : (((3/16) : ℚ)) ∈ tvalsU := by
  have h : tvalsU.get ⟨160, by rw [tvalsU_length]; norm_num⟩ = (3/16) := rfl
  exact h ▸ List.get_mem tvalsU _ _

theorem tU_mem161 : (((23/128) : ℚ)) ∈ tvalsU := by
  have h : tvalsU.get ⟨161, by rw [tvalsU_length]; norm_num⟩ = (23/128) := rfl
  exact h ▸ List.get_mem tvalsU _ _

theorem tU_mem162 : (((1/4) : ℚ)) ∈ tvalsU := by
  have h : tvalsU.get ⟨162, by rw [tvalsU_length]; norm_num⟩ = (1/4) := rfl
  exact h ▸ List.get_mem tvalsU _ _

theorem tU_mem163 : (((11/64) : ℚ)) ∈ tvalsU := by
  have h : tvalsU.get ⟨163, by rw [tvalsU_length]; norm_num⟩ = (11/64) := rfl
  exact h ▸ List.get_mem tvalsU _ _

theorem tU_mem164 : (((21/128) : ℚ)) ∈ tvalsU := by
  have h : tvalsU.get ⟨164, by rw [tvalsU_length]; norm_num⟩ = (21/128) := rfl
  exact h ▸ List.get_mem tvalsU _ _

theorem tU_mem165 : (((5/32) : ℚ)) ∈ tvalsU := by
  have h : tvalsU.get ⟨165, by rw [tvalsU_length]; norm_num⟩ = (5/32) := rfl
  exact h ▸ List.get_mem tvalsU _ _

theorem tU_mem166 : (((1/8) : ℚ)) ∈ tvalsU := by
  have h : tvalsU.get ⟨166, by rw [tvalsU_length]; norm_num⟩ = (1/8) := rfl
  exact h ▸ List.get_mem tvalsU _ _

theorem tU_mem167 : (((5/16) : ℚ)) ∈ tvalsU := by
  have h : tvalsU.get ⟨167, by rw [tvalsU_length]; norm_num⟩ = (5/16) := rfl
  exact h ▸ List.get_mem tvalsU _ _

theorem tU_mem168 : (((3/8) : ℚ)) ∈ tvalsU := by
  have h : tvalsU.get ⟨168, by rw [tvalsU_length]; norm_num⟩ = (3/8) := rfl
  exact h ▸ List.get_mem tvalsU _ _

theorem tU_mem170 : (((1/2) : ℚ)) ∈ tvalsU := by
  have h : tvalsU.get ⟨170, by rw [tvalsU_length]; norm_num⟩ = (1/2) := rfl
  exact h ▸ List.get_mem tvalsU _ _

/-- Every pairing the path ever files has sum 1 and a stored number in
the certificate list. -/
theorem bucket10_mem : ∀ p ∈ bucketC 10, p.sum = 1 ∧ p.first ∈ tvalsU := by
  rw [show bucketC 10 = pathO.flatten from rfl]
  simp only [pathO, List.flatten_cons, List.flatten_nil, List.cons_append,
    List.nil_append, List.append_nil]
  simp only [List.forall_mem_cons, List.forall_mem_nil, and_true,
    eq_self_iff_true, true_and]
  exact ⟨tU_mem170,
    tU_mem166,
    tU_mem162,
    tU_mem167,
    tU_mem168,
    tU_mem162,
    tU_mem165,
    tU_mem164,
    tU_mem163,
    tU_mem161,
    tU_mem160,
    tU_mem159,
    tU_mem158,
    tU_mem157,
    tU_mem160,
    tU_mem156,
    tU_mem155,
    tU_mem153,
    tU_mem151,
    tU_mem149,
    tU_mem147,
    tU_mem140,
    tU_mem146,
    tU_mem148,
    tU_mem150,
    tU_mem152,
    tU_mem154,
    tU_mem140,
    tU_mem131,
    tU_mem119,
    tU_mem130,
    tU_mem132,
    tU_mem133,
    tU_mem134,
    tU_mem135,
    tU_mem136,
    tU_mem137,
    tU_mem138,
    tU_mem139,
    tU_mem141,
    tU_mem142,
    tU_mem143,
    tU_mem144,
    tU_mem145,
    tU_mem136,
    tU_mem109,
    tU_mem110,
    tU_mem111,
    tU_mem112,
    tU_mem113,
    tU_mem114,
    tU_mem115,
    tU_mem116,
    tU_mem117,
    tU_mem118,
    tU_mem120,
    tU_mem121,
    tU_mem122,
    tU_mem123,
    tU_mem124,
    tU_mem125,
    tU_mem126,
    tU_mem127,
    tU_mem128,
    tU_mem129,
    tU_mem118,
    tU_mem108,
    tU_mem107,
    tU_mem106,
    tU_mem105,
    tU_mem104,
    tU_mem103,
    tU_mem102,
    tU_mem101,
    tU_mem99,
    tU_mem85,
    tU_mem98,
    tU_mem100,
    tU_mem108,
    tU_mem70,
    tU_mem62,
    tU_mem71,
    tU_mem72,
    tU_mem73,
    tU_mem74,
    tU_mem75,
    tU_mem76,
    tU_mem77,
    tU_mem78,
    tU_mem79,
    tU_mem80,
    tU_mem81,
    tU_mem82,
    tU_mem83,
    tU_mem84,
    tU_mem86,
    tU_mem87,
    tU_mem88,
    tU_mem89,
    tU_mem90,
    tU_mem91,
    tU_mem92,
    tU_mem93,
    tU_mem94,
    tU_mem95,
    tU_mem96,
    tU_mem97,
    tU_mem82,
    tU_mem69,
    tU_mem68,
    tU_mem67,
    tU_mem66,
    tU_mem65,
    tU_mem64,
    tU_mem63,
    tU_mem61,
    tU_mem60,
    tU_mem59,
    tU_mem58,
    tU_mem57,
    tU_mem56,
    tU_mem55,
    tU_mem54,
    tU_mem53,
    tU_mem52,
    tU_mem51,
    tU_mem50,
    tU_mem49,
    tU_mem48,
    tU_mem47,
    tU_mem46,
    tU_mem44,
    tU_mem42,
    tU_mem40,
    tU_mem38,
    tU_mem37,
    tU_mem39,
    tU_mem41,
    tU_mem43,
    tU_mem45,
    tU_mem52,
    tU_mem36,
    tU_mem35,
    tU_mem34,
    tU_mem33,
    tU_mem32,
    tU_mem31,
    tU_mem30,
    tU_mem29,
    tU_mem28,
    tU_mem27,
    tU_mem26,
    tU_mem25,
    tU_mem24,
    tU_mem23,
    tU_mem22,
    tU_mem21,
    tU_mem20,
    tU_mem19,
    tU_mem17,
    tU_mem15,
    tU_mem13,
    tU_mem11,
    tU_mem9,
    tU_mem7,
    tU_mem5,
    tU_mem3,
    tU_mem1,
    tU_mem2,
    tU_mem4,
    tU_mem6,
    tU_mem8,
    tU_mem10,
    tU_mem12,
    tU_mem14,
    tU_mem16,
    tU_mem18,
    tU_mem17,
    fun x hx => absurd hx (List.not_mem_nil x)⟩

theorem bucket_K (J : ℕ) :
    ∀ a ∈ bucketC J, ∀ b ∈ bucketC J, a.result = b.result → a.eq b = true := by
  intro a ha b hb hab
  obtain ⟨ha1, haU⟩ := bucket10_mem a (bucketC_mem_mono J a ha)
  obtain ⟨hb1, hbU⟩ := bucket10_mem b (bucketC_mem_mono J b hb)
  have hpw : tvalsU.Pairwise (fun a b =>
      (NumberPairing.mk b 1).result < (NumberPairing.mk a 1).result) := by
    haveI : IsTrans ℚ (fun a b =>
        (NumberPairing.mk b 1).result < (NumberPairing.mk a 1).result) :=
      ⟨fun a b c h1 h2 => lt_trans h2 h1⟩
    exact List.chain'_iff_pairwise.mp tvalsU_chain
  obtain ⟨a1, a2⟩ := a
  obtain ⟨b1, b2⟩ := b
  simp only [NumberPairing.first] at haU hbU
  simp only at ha1 hb1
  subst ha1
  subst hb1
  have hinj := pairwise_lt_result_inj tvalsU hpw a1 haU b1 hbU hab
  subst hinj
  simp [NumberPairing.eq, NumberPairing.first]

theorem bucket_props (J : ℕ) :
    (dedup_consec (sort_desc (bucketC J))).Chain'
        (fun a b => b.result < a.result) ∧
      (dedup_consec (sort_desc (bucketC J))).Pairwise
        (fun a b => a.eq b = false) := by
  have hsorted := sort_desc_sorted (bucketC J)
  have hperm : ∀ x ∈ sort_desc (bucketC J), x ∈ bucketC J := by
    intro x hx
    exact (List.perm_insertionSort _ (bucketC J)).mem_iff.mp hx
  have hK : ∀ a ∈ sort_desc (bucketC J), ∀ b ∈ sort_desc (bucketC J),
      a.result = b.result → a.eq b = true :=
    fun a ha b hb => bucket_K J a (hperm a ha) b (hperm b hb)
  have hchain := dedup_consec_chain (sort_desc (bucketC J)).length _ le_rfl
    hsorted hK
  exact ⟨hchain, chain_result_pairwise _ hchain⟩

/-- Round 11 of the search path: the scan is saturated and its best cannot
beat the round-10 best, so the recursion stops with the bucket unchanged. -/
theorem path_step11 (s : ℚ) (hs : 0 < s) (og : List NumberPairing) (J : ℕ)
    (hog : og = (bucketC J).map (scaleNP s))
    (hJ : J ≤ 10)
    (_hflag : ∀ j, J < j → j ≤ 10 → ¬((1 : ℚ) / 100 ≤ s * pval j)) :
    ∃ J', J ≤ J' ∧ J' ≤ 10 ∧
      (get_highest_result_of_seq 30 (s * (160821290537/761014517760)) (s * (22974470077/108716359680)) (s * (1/15220290355200))
          ⟨s, 0, true, ⟨0, s⟩, 0, s / 2, scaleNP s ⟨(2978172047/14092861440), 1⟩, [scaleNP s ⟨(2978172047/14092861440), 1⟩], some og, 10, 40, false⟩).other_results
        = some ((bucketC J').map (scaleNP s)) := by
  have hle : (NumberPairing.mk (1229782938247303441/101468602368000000000) 1).le ⟨(2978172047/14092861440), 1⟩ = true := by
    norm_num [NumberPairing.le, NumberPairing.cmp, NumberPairing.result,
      NumberPairing.product, NumberPairing.difference, NumberPairing.second,
      NumberPairing.first, abs_of_nonneg, abs_of_nonpos,
      show (Ordering.gt == Ordering.gt) = true from rfl,
      show (Ordering.lt == Ordering.gt) = false from rfl,
      show (Ordering.eq == Ordering.gt) = false from rfl]
  by_cases hbk : (1 : ℚ) / 100 ≤ s * (1/15220290355200)
  · have hb' : decide (s * (1/15220290355200) ≥ 1 / 100) = true := decide_eq_true hbk
    have hscan := (scan_round_scale s hs true (160821290537/761014517760) (22974470077/108716359680) (1/15220290355200)
      (by norm_num) hb').trans (congrArg (scaleSeq s) scanT11_t)
    have hcond0 := cond_scale s hs ⟨⟨(1229782938247303441/101468602368000000000), 1⟩, [⟨(1229782938247303441/101468602368000000000), 1⟩], some []⟩
      ⟨s, 0, true, ⟨0, s⟩, 0, s / 2, scaleNP s ⟨(2978172047/14092861440), 1⟩, [scaleNP s ⟨(2978172047/14092861440), 1⟩], some og, 11, 40, false⟩ ⟨(2978172047/14092861440), 1⟩ rfl
    have hstep : get_highest_result_of_seq 30 (s * (160821290537/761014517760)) (s * (22974470077/108716359680)) (s * (1/15220290355200))
        ⟨s, 0, true, ⟨0, s⟩, 0, s / 2, scaleNP s ⟨(2978172047/14092861440), 1⟩, [scaleNP s ⟨(2978172047/14092861440), 1⟩], some og, 10, 40, false⟩ =
        ⟨s, 11, true, ⟨0, s⟩, 0, s / 2, scaleNP s ⟨(2978172047/14092861440), 1⟩, [scaleNP s ⟨(2978172047/14092861440), 1⟩], some og, 11, 40, true⟩ :=
      ghrs_step_converge 29 (s * (160821290537/761014517760)) (s * (22974470077/108716359680)) (s * (1/15220290355200)) _ _
        (by norm_num) hscan (by rw [hcond0, hle]; exact Bool.true_or _)
    rw [hstep]
    exact ⟨J, le_rfl, hJ, by rw [hog]⟩
  · have hb' : decide (s * (1/15220290355200) ≥ 1 / 100) = false := decide_eq_false hbk
    have hscan := (scan_round_scale s hs false (160821290537/761014517760) (22974470077/108716359680) (1/15220290355200)
      (by norm_num) hb').trans (congrArg (scaleSeq s) scanT11_f)
    have hcond0 := cond_scale s hs ⟨⟨(1229782938247303441/101468602368000000000), 1⟩, [⟨(1229782938247303441/101468602368000000000), 1⟩], some []⟩
      ⟨s, 0, true, ⟨0, s⟩, 0, s / 2, scaleNP s ⟨(2978172047/14092861440), 1⟩, [scaleNP s ⟨(2978172047/14092861440), 1⟩], some og, 11, 40, false⟩ ⟨(2978172047/14092861440), 1⟩ rfl
    have hstep : get_highest_result_of_seq 30 (s * (160821290537/761014517760)) (s * (22974470077/108716359680)) (s * (1/15220290355200))
        ⟨s, 0, true, ⟨0, s⟩, 0, s / 2, scaleNP s ⟨(2978172047/14092861440), 1⟩, [scaleNP s ⟨(2978172047/14092861440), 1⟩], some og, 10, 40, false⟩ =
        ⟨s, 11, true, ⟨0, s⟩, 0, s / 2, scaleNP s ⟨(2978172047/14092861440), 1⟩, [scaleNP s ⟨(2978172047/14092861440), 1⟩], some og, 11, 40, true⟩ :=
      ghrs_step_converge 29 (s * (160821290537/761014517760)) (s * (22974470077/108716359680)) (s * (1/15220290355200)) _ _
        (by norm_num) hscan (by rw [hcond0, hle]; exact Bool.true_or _)
    rw [hstep]
    exact ⟨J, le_rfl, hJ, by rw [hog]⟩

/-- Round 10 of the search path: either the round converges here, or the
bucket grows by exactly the round-10 contribution (when eligible) and the
search continues into round 11. -/
theorem path_step10 (s : ℚ) (hs : 0 < s) (og : List NumberPairing) (J : ℕ)
    (hog : og = (bucketC J).map (scaleNP s))
    (hJ : J ≤ 9)
    (hflag : ∀ j, J < j → j ≤ 9 → ¬((1 : ℚ) / 100 ≤ s * pval j)) :
    ∃ J', J ≤ J' ∧ J' ≤ 10 ∧
      (get_highest_result_of_seq 31 (s * (1489086023/7046430720)) (s * (4467258071/21139292160)) (s * (1/380507258880))
          ⟨s, 0, true, ⟨0, s⟩, 0, s / 2, scaleNP s ⟨(446725807/2113929216), 1⟩, [scaleNP s ⟨(446725807/2113929216), 1⟩], some og, 9, 40, false⟩).other_results
        = some ((bucketC J').map (scaleNP s)) := by
  have hle : (NumberPairing.mk (2978172047/14092861440) 1).le ⟨(446725807/2113929216), 1⟩ = false := by
    norm_num [NumberPairing.le, NumberPairing.cmp, NumberPairing.result,
      NumberPairing.product, NumberPairing.difference, NumberPairing.second,
      NumberPairing.first, abs_of_nonneg, abs_of_nonpos,
      show (Ordering.gt == Ordering.gt) = true from rfl,
      show (Ordering.lt == Ordering.gt) = false from rfl,
      show (Ordering.eq == Ordering.gt) = false from rfl]
  have hnl : next_low_value (s * (1489086023/7046430720)) (s * (1/380507258880)) (s * (2978172047/14092861440)) = s * (160821290537/761014517760) := by
    rw [next_low_value, if_neg (by rw [show s * (2978172047/14092861440) - s * (1/380507258880) / 2 = s * ((160821290537/761014517760) : ℚ) by ring]; exact not_lt.mpr (mul_le_mul_of_nonneg_left (by norm_num) hs.le))]; ring
  have hnh : next_high_value (s * (4467258071/21139292160)) (s * (1/380507258880)) (s * (2978172047/14092861440)) = s * (22974470077/108716359680) := by
    rw [next_high_value, if_neg (by rw [show s * (2978172047/14092861440) + s * (1/380507258880) / 2 = s * ((22974470077/108716359680) : ℚ) by ring]; exact not_lt.mpr (mul_le_mul_of_nonneg_left (by norm_num) hs.le))]; ring
  have hnp : next_precision (s * (1/380507258880)) 10 = s * (1/15220290355200) := by
    simp only [next_precision]
    push_cast
    ring
  by_cases hbk : (1 : ℚ) / 100 ≤ s * (1/380507258880)
  · have hJeq : J = 9 := by
      by_contra hne
      have hpm : ∀ j, 1 ≤ j → j ≤ 9 → pval 10 ≤ pval j := by
        intro j hj1 hj2
        interval_cases j
        all_goals norm_num [pval]
      refine hflag (J + 1) (Nat.lt_succ_self J) (by omega) ?_
      have h2 := hpm (J + 1) (by omega) (by omega)
      have h3 := mul_le_mul_of_nonneg_left h2 hs.le
      have h4 : pval 10 = (1/380507258880) := rfl
      rw [h4] at h3
      exact le_trans hbk h3
    subst hJeq
    subst hog
    have hb' : decide (s * (1/380507258880) ≥ 1 / 100) = true := decide_eq_true hbk
    have hscan := (scan_round_scale s hs true (1489086023/7046430720) (4467258071/21139292160) (1/380507258880)
      (by norm_num) hb').trans (congrArg (scaleSeq s) scanT10_t)
    have hcond0 := cond_scale s hs ⟨⟨(2978172047/14092861440), 1⟩, [⟨(2978172047/14092861440), 1⟩], some [⟨(1489086023/7046430720), 1⟩, ⟨(80410645243/380507258880), 1⟩, ⟨(20102661311/95126814720), 1⟩, ⟨(765815669/3623878656), 1⟩, ⟨(40205322623/190253629440), 1⟩, ⟨(80410645247/380507258880), 1⟩, ⟨(104701361/495452160), 1⟩, ⟨(80410645249/380507258880), 1⟩, ⟨(8041064525/38050725888), 1⟩, ⟨(8934516139/42278584320), 1⟩, ⟨(2871808759/13589544960), 1⟩, ⟨(80410645253/380507258880), 1⟩, ⟨(13401774209/63417876480), 1⟩, ⟨(16082129051/76101451776), 1⟩, ⟨(10051330657/47563407360), 1⟩, ⟨(26803548419/126835752960), 1⟩, ⟨(40205322629/190253629440), 1⟩, ⟨(11487235037/54358179840), 1⟩, ⟨(446725807/2113929216), 1⟩, ⟨(80410645261/380507258880), 1⟩, ⟨(40205322631/190253629440), 1⟩, ⟨(26803548421/126835752960), 1⟩, ⟨(5025665329/23781703680), 1⟩, ⟨(16082129053/76101451776), 1⟩, ⟨(1914539173/9059696640), 1⟩, ⟨(80410645267/380507258880), 1⟩, ⟨(20102661317/95126814720), 1⟩, ⟨(8041064527/38050725888), 1⟩, ⟨(80410645271/380507258880), 1⟩, ⟨(3350443553/15854469120), 1⟩, ⟨(11487235039/54358179840), 1⟩, ⟨(40205322637/190253629440), 1⟩, ⟨(5360709685/25367150592), 1⟩, ⟨(20102661319/95126814720), 1⟩, ⟨(80410645277/380507258880), 1⟩, ⟨(4467258071/21139292160), 1⟩]⟩
      ⟨s, 0, true, ⟨0, s⟩, 0, s / 2, scaleNP s ⟨(446725807/2113929216), 1⟩, [scaleNP s ⟨(446725807/2113929216), 1⟩], some ((bucketC 9).map (scaleNP s)), 10, 40, false⟩ ⟨(446725807/2113929216), 1⟩ rfl
    by_cases hcv : (scaleNP s ⟨(2978172047/14092861440), 1⟩).is_equivalent_to (scaleNP s ⟨(446725807/2113929216), 1⟩) = true
    · have hstep : get_highest_result_of_seq 31 (s * (1489086023/7046430720)) (s * (4467258071/21139292160))
          (s * (1/380507258880)) ⟨s, 0, true, ⟨0, s⟩, 0, s / 2, scaleNP s ⟨(446725807/2113929216), 1⟩, [scaleNP s ⟨(446725807/2113929216), 1⟩], some ((bucketC 9).map (scaleNP s)), 9, 40, false⟩ =
          ⟨s, 10, true, ⟨0, s⟩, 0, s / 2, scaleNP s ⟨(446725807/2113929216), 1⟩, [scaleNP s ⟨(446725807/2113929216), 1⟩], some ((bucketC 9).map (scaleNP s)), 10, 40, true⟩ :=
        ghrs_step_converge 30 (s * (1489086023/7046430720)) (s * (4467258071/21139292160)) (s * (1/380507258880)) _ _
          (by norm_num) hscan (by rw [hcond0, hle, Bool.false_or]; exact hcv)
      rw [hstep]
      exact ⟨9, le_rfl, by norm_num, rfl⟩
    · have hcond : condition_to_end_recursion
          (scaleSeq s ⟨⟨(2978172047/14092861440), 1⟩, [⟨(2978172047/14092861440), 1⟩], some [⟨(1489086023/7046430720), 1⟩, ⟨(80410645243/380507258880), 1⟩, ⟨(20102661311/95126814720), 1⟩, ⟨(765815669/3623878656), 1⟩, ⟨(40205322623/190253629440), 1⟩, ⟨(80410645247/380507258880), 1⟩, ⟨(104701361/495452160), 1⟩, ⟨(80410645249/380507258880), 1⟩, ⟨(8041064525/38050725888), 1⟩, ⟨(8934516139/42278584320), 1⟩, ⟨(2871808759/13589544960), 1⟩, ⟨(80410645253/380507258880), 1⟩, ⟨(13401774209/63417876480), 1⟩, ⟨(16082129051/76101451776), 1⟩, ⟨(10051330657/47563407360), 1⟩, ⟨(26803548419/126835752960), 1⟩, ⟨(40205322629/190253629440), 1⟩, ⟨(11487235037/54358179840), 1⟩, ⟨(446725807/2113929216), 1⟩, ⟨(80410645261/380507258880), 1⟩, ⟨(40205322631/190253629440), 1⟩, ⟨(26803548421/126835752960), 1⟩, ⟨(5025665329/23781703680), 1⟩, ⟨(16082129053/76101451776), 1⟩, ⟨(1914539173/9059696640), 1⟩, ⟨(80410645267/380507258880), 1⟩, ⟨(20102661317/95126814720), 1⟩, ⟨(8041064527/38050725888), 1⟩, ⟨(80410645271/380507258880), 1⟩, ⟨(3350443553/15854469120), 1⟩, ⟨(11487235039/54358179840), 1⟩, ⟨(40205322637/190253629440), 1⟩, ⟨(5360709685/25367150592), 1⟩, ⟨(20102661319/95126814720), 1⟩, ⟨(80410645277/380507258880), 1⟩, ⟨(4467258071/21139292160), 1⟩]⟩)
          ⟨s, 0, true, ⟨0, s⟩, 0, s / 2, scaleNP s ⟨(446725807/2113929216), 1⟩, [scaleNP s ⟨(446725807/2113929216), 1⟩], some ((bucketC 9).map (scaleNP s)), 10, 40, false⟩ = false := by
        rw [hcond0, hle, Bool.false_or]
        exact Bool.eq_false_iff.mpr hcv
      have hfl : [(⟨(446725807/2113929216), 1⟩ : NumberPairing)].filter
          (can_be_added_to_other ⟨0, 1⟩ (precision_flag true) true) =
          [⟨(446725807/2113929216), 1⟩] := by
        norm_num [List.filter, can_be_added_to_other, precision_flag,
          NumberPairing.eq, NumberPairing.first, NumberPairing.second]
      have hbEq : bucketC 9 ++ ([⟨(1489086023/7046430720), 1⟩, ⟨(80410645243/380507258880), 1⟩, ⟨(20102661311/95126814720), 1⟩, ⟨(765815669/3623878656), 1⟩, ⟨(40205322623/190253629440), 1⟩, ⟨(80410645247/380507258880), 1⟩, ⟨(104701361/495452160), 1⟩, ⟨(80410645249/380507258880), 1⟩, ⟨(8041064525/38050725888), 1⟩, ⟨(8934516139/42278584320), 1⟩, ⟨(2871808759/13589544960), 1⟩, ⟨(80410645253/380507258880), 1⟩, ⟨(13401774209/63417876480), 1⟩, ⟨(16082129051/76101451776), 1⟩, ⟨(10051330657/47563407360), 1⟩, ⟨(26803548419/126835752960), 1⟩, ⟨(40205322629/190253629440), 1⟩, ⟨(11487235037/54358179840), 1⟩, ⟨(446725807/2113929216), 1⟩, ⟨(80410645261/380507258880), 1⟩, ⟨(40205322631/190253629440), 1⟩, ⟨(26803548421/126835752960), 1⟩, ⟨(5025665329/23781703680), 1⟩, ⟨(16082129053/76101451776), 1⟩, ⟨(1914539173/9059696640), 1⟩, ⟨(80410645267/380507258880), 1⟩, ⟨(20102661317/95126814720), 1⟩, ⟨(8041064527/38050725888), 1⟩, ⟨(80410645271/380507258880), 1⟩, ⟨(3350443553/15854469120), 1⟩, ⟨(11487235039/54358179840), 1⟩, ⟨(40205322637/190253629440), 1⟩, ⟨(5360709685/25367150592), 1⟩, ⟨(20102661319/95126814720), 1⟩, ⟨(80410645277/380507258880), 1⟩, ⟨(4467258071/21139292160), 1⟩] ++ [(⟨(446725807/2113929216), 1⟩ : NumberPairing)]) =
          bucketC 10 := rfl
      have hg2 : promote_round (s * (1/380507258880))
          (scaleSeq s ⟨⟨(2978172047/14092861440), 1⟩, [⟨(2978172047/14092861440), 1⟩], some [⟨(1489086023/7046430720), 1⟩, ⟨(80410645243/380507258880), 1⟩, ⟨(20102661311/95126814720), 1⟩, ⟨(765815669/3623878656), 1⟩, ⟨(40205322623/190253629440), 1⟩, ⟨(80410645247/380507258880), 1⟩, ⟨(104701361/495452160), 1⟩, ⟨(80410645249/380507258880), 1⟩, ⟨(8041064525/38050725888), 1⟩, ⟨(8934516139/42278584320), 1⟩, ⟨(2871808759/13589544960), 1⟩, ⟨(80410645253/380507258880), 1⟩, ⟨(13401774209/63417876480), 1⟩, ⟨(16082129051/76101451776), 1⟩, ⟨(10051330657/47563407360), 1⟩, ⟨(26803548419/126835752960), 1⟩, ⟨(40205322629/190253629440), 1⟩, ⟨(11487235037/54358179840), 1⟩, ⟨(446725807/2113929216), 1⟩, ⟨(80410645261/380507258880), 1⟩, ⟨(40205322631/190253629440), 1⟩, ⟨(26803548421/126835752960), 1⟩, ⟨(5025665329/23781703680), 1⟩, ⟨(16082129053/76101451776), 1⟩, ⟨(1914539173/9059696640), 1⟩, ⟨(80410645267/380507258880), 1⟩, ⟨(20102661317/95126814720), 1⟩, ⟨(8041064527/38050725888), 1⟩, ⟨(80410645271/380507258880), 1⟩, ⟨(3350443553/15854469120), 1⟩, ⟨(11487235039/54358179840), 1⟩, ⟨(40205322637/190253629440), 1⟩, ⟨(5360709685/25367150592), 1⟩, ⟨(20102661319/95126814720), 1⟩, ⟨(80410645277/380507258880), 1⟩, ⟨(4467258071/21139292160), 1⟩]⟩) ⟨s, 0, true, ⟨0, s⟩, 0, s / 2, scaleNP s ⟨(446725807/2113929216), 1⟩, [scaleNP s ⟨(446725807/2113929216), 1⟩], some ((bucketC 9).map (scaleNP s)), 10, 40, false⟩ =
          ⟨s, 0, true, ⟨0, s⟩, 0, s / 2, scaleNP s ⟨(2978172047/14092861440), 1⟩, [scaleNP s ⟨(2978172047/14092861440), 1⟩], some ((bucketC 10).map (scaleNP s)), 10, 40, false⟩ := by
        rw [promote_round_scale s hs (s * (1/380507258880)) true hb' _ [⟨(1489086023/7046430720), 1⟩, ⟨(80410645243/380507258880), 1⟩, ⟨(20102661311/95126814720), 1⟩, ⟨(765815669/3623878656), 1⟩, ⟨(40205322623/190253629440), 1⟩, ⟨(80410645247/380507258880), 1⟩, ⟨(104701361/495452160), 1⟩, ⟨(80410645249/380507258880), 1⟩, ⟨(8041064525/38050725888), 1⟩, ⟨(8934516139/42278584320), 1⟩, ⟨(2871808759/13589544960), 1⟩, ⟨(80410645253/380507258880), 1⟩, ⟨(13401774209/63417876480), 1⟩, ⟨(16082129051/76101451776), 1⟩, ⟨(10051330657/47563407360), 1⟩, ⟨(26803548419/126835752960), 1⟩, ⟨(40205322629/190253629440), 1⟩, ⟨(11487235037/54358179840), 1⟩, ⟨(446725807/2113929216), 1⟩, ⟨(80410645261/380507258880), 1⟩, ⟨(40205322631/190253629440), 1⟩, ⟨(26803548421/126835752960), 1⟩, ⟨(5025665329/23781703680), 1⟩, ⟨(16082129053/76101451776), 1⟩, ⟨(1914539173/9059696640), 1⟩, ⟨(80410645267/380507258880), 1⟩, ⟨(20102661317/95126814720), 1⟩, ⟨(8041064527/38050725888), 1⟩, ⟨(80410645271/380507258880), 1⟩, ⟨(3350443553/15854469120), 1⟩, ⟨(11487235039/54358179840), 1⟩, ⟨(40205322637/190253629440), 1⟩, ⟨(5360709685/25367150592), 1⟩, ⟨(20102661319/95126814720), 1⟩, ⟨(80410645277/380507258880), 1⟩, ⟨(4467258071/21139292160), 1⟩] rfl _
          [⟨(446725807/2113929216), 1⟩] (bucketC 9) rfl rfl rfl rfl, hfl, hbEq]
        rfl
      have hstep : get_highest_result_of_seq 31 (s * (1489086023/7046430720)) (s * (4467258071/21139292160))
          (s * (1/380507258880)) ⟨s, 0, true, ⟨0, s⟩, 0, s / 2, scaleNP s ⟨(446725807/2113929216), 1⟩, [scaleNP s ⟨(446725807/2113929216), 1⟩], some ((bucketC 9).map (scaleNP s)), 9, 40, false⟩ =
          get_highest_result_of_seq 30 (s * (160821290537/761014517760)) (s * (22974470077/108716359680)) (s * (1/15220290355200))
            ⟨s, 0, true, ⟨0, s⟩, 0, s / 2, scaleNP s ⟨(2978172047/14092861440), 1⟩, [scaleNP s ⟨(2978172047/14092861440), 1⟩], some ((bucketC 10).map (scaleNP s)), 10, 40, false⟩ :=
        ghrs_step_continue 30 (s * (1489086023/7046430720)) (s * (4467258071/21139292160)) (s * (1/380507258880)) _ _ _
          (s * (160821290537/761014517760)) (s * (22974470077/108716359680)) (s * (1/15220290355200)) (by norm_num) hscan hcond hg2
          hnl hnh hnp
      rw [hstep]
      obtain ⟨J', h1, h2, h3⟩ := path_step11 s hs
        ((bucketC 10).map (scaleNP s)) 10 rfl le_rfl
        (fun j hj1 hj2 => absurd (Nat.lt_of_lt_of_le hj1 hj2) (lt_irrefl _))
      exact ⟨J', by omega, h2, h3⟩
  · have hb' : decide (s * (1/380507258880) ≥ 1 / 100) = false := decide_eq_false hbk
    have hscan := (scan_round_scale s hs false (1489086023/7046430720) (4467258071/21139292160) (1/380507258880)
      (by norm_num) hb').trans (congrArg (scaleSeq s) scanT10_f)
    have hcond0 := cond_scale s hs ⟨⟨(2978172047/14092861440), 1⟩, [⟨(2978172047/14092861440), 1⟩], some []⟩
      ⟨s, 0, true, ⟨0, s⟩, 0, s / 2, scaleNP s ⟨(446725807/2113929216), 1⟩, [scaleNP s ⟨(446725807/2113929216), 1⟩], some og, 10, 40, false⟩ ⟨(446725807/2113929216), 1⟩ rfl
    by_cases hcv : (scaleNP s ⟨(2978172047/14092861440), 1⟩).is_equivalent_to (scaleNP s ⟨(446725807/2113929216), 1⟩) = true
    · have hstep : get_highest_result_of_seq 31 (s * (1489086023/7046430720)) (s * (4467258071/21139292160))
          (s * (1/380507258880)) ⟨s, 0, true, ⟨0, s⟩, 0, s / 2, scaleNP s ⟨(446725807/2113929216), 1⟩, [scaleNP s ⟨(446725807/2113929216), 1⟩], some og, 9, 40, false⟩ =
          ⟨s, 10, true, ⟨0, s⟩, 0, s / 2, scaleNP s ⟨(446725807/2113929216), 1⟩, [scaleNP s ⟨(446725807/2113929216), 1⟩], some og, 10, 40, true⟩ :=
        ghrs_step_converge 30 (s * (1489086023/7046430720)) (s * (4467258071/21139292160)) (s * (1/380507258880)) _ _
          (by norm_num) hscan (by rw [hcond0, hle, Bool.false_or]; exact hcv)
      rw [hstep]
      exact ⟨J, le_rfl, by omega, by rw [hog]⟩
    · have hcond : condition_to_end_recursion
          (scaleSeq s ⟨⟨(2978172047/14092861440), 1⟩, [⟨(2978172047/14092861440), 1⟩], some []⟩)
          ⟨s, 0, true, ⟨0, s⟩, 0, s / 2, scaleNP s ⟨(446725807/2113929216), 1⟩, [scaleNP s ⟨(446725807/2113929216), 1⟩], some og, 10, 40, false⟩ = false := by
        rw [hcond0, hle, Bool.false_or]
        exact Bool.eq_false_iff.mpr hcv
      have hg2 : promote_round (s * (1/380507258880))
          (scaleSeq s ⟨⟨(2978172047/14092861440), 1⟩, [⟨(2978172047/14092861440), 1⟩], some []⟩) ⟨s, 0, true, ⟨0, s⟩, 0, s / 2, scaleNP s ⟨(446725807/2113929216), 1⟩, [scaleNP s ⟨(446725807/2113929216), 1⟩], some og, 10, 40, false⟩ =
          ⟨s, 0, true, ⟨0, s⟩, 0, s / 2, scaleNP s ⟨(2978172047/14092861440), 1⟩, [scaleNP s ⟨(2978172047/14092861440), 1⟩], some og, 10, 40, false⟩ := by
        rw [promote_round_scale s hs (s * (1/380507258880)) false hb' _ [] rfl _
          [⟨(446725807/2113929216), 1⟩] (bucketC J) rfl rfl rfl (by rw [hog]), filter_can_false]
        simp only [List.append_nil]
        rw [← hog]
        rfl
      have hstep : get_highest_result_of_seq 31 (s * (1489086023/7046430720)) (s * (4467258071/21139292160))
          (s * (1/380507258880)) ⟨s, 0, true, ⟨0, s⟩, 0, s / 2, scaleNP s ⟨(446725807/2113929216), 1⟩, [scaleNP s ⟨(446725807/2113929216), 1⟩], some og, 9, 40, false⟩ =
          get_highest_result_of_seq 30 (s * (160821290537/761014517760)) (s * (22974470077/108716359680)) (s * (1/15220290355200))
            ⟨s, 0, true, ⟨0, s⟩, 0, s / 2, scaleNP s ⟨(2978172047/14092861440), 1⟩, [scaleNP s ⟨(2978172047/14092861440), 1⟩], some og, 10, 40, false⟩ :=
        ghrs_step_continue 30 (s * (1489086023/7046430720)) (s * (4467258071/21139292160)) (s * (1/380507258880)) _ _ _
          (s * (160821290537/761014517760)) (s * (22974470077/108716359680)) (s * (1/15220290355200)) (by norm_num) hscan hcond hg2
          hnl hnh hnp
      rw [hstep]
      obtain ⟨J', h1, h2, h3⟩ := path_step11 s hs og J hog (by omega)
        (fun j hj1 hj2 => by
          rcases Nat.lt_or_ge j 10 with hlt | hge
          · exact hflag j hj1 (by omega)
          · have hjk : j = 10 := by omega
            subst hjk
            exact hbk)
      exact ⟨J', h1, h2, h3⟩

/-- Round 9 of the search path: either the round converges here, or the
bucket grows by exactly the round-9 contribution (when eligible) and the
search continues into round 10. -/
theorem path_step9 (s : ℚ) (hs : 0 < s) (og : List NumberPairing) (J : ℕ)
    (hog : og = (bucketC J).map (scaleNP s))
    (hJ : J ≤ 8)
    (hflag : ∀ j, J < j → j ≤ 8 → ¬((1 : ℚ) / 100 ≤ s * pval j)) :
    ∃ J', J ≤ J' ∧ J' ≤ 10 ∧
      (get_highest_result_of_seq 32 (s * (139601813/660602880)) (s * (27920363/132120576)) (s * (1/10569646080))
          ⟨s, 0, true, ⟨0, s⟩, 0, s / 2, scaleNP s ⟨(23266969/110100480), 1⟩, [scaleNP s ⟨(23266969/110100480), 1⟩], some og, 8, 40, false⟩).other_results
        = some ((bucketC J').map (scaleNP s)) := by
  have hle : (NumberPairing.mk (446725807/2113929216) 1).le ⟨(23266969/110100480), 1⟩ = false := by
    norm_num [NumberPairing.le, NumberPairing.cmp, NumberPairing.result,
      NumberPairing.product, NumberPairing.difference, NumberPairing.second,
      NumberPairing.first, abs_of_nonneg, abs_of_nonpos,
      show (Ordering.gt == Ordering.gt) = true from rfl,
      show (Ordering.lt == Ordering.gt) = false from rfl,
      show (Ordering.eq == Ordering.gt) = false from rfl]
  have hnl : next_low_value (s * (139601813/660602880)) (s * (1/10569646080)) (s * (446725807/2113929216)) = s * (1489086023/7046430720) := by
    rw [next_low_value, if_neg (by rw [show s * (446725807/2113929216) - s * (1/10569646080) / 2 = s * ((1489086023/7046430720) : ℚ) by ring]; exact not_lt.mpr (mul_le_mul_of_nonneg_left (by norm_num) hs.le))]; ring
  have hnh : next_high_value (s * (27920363/132120576)) (s * (1/10569646080)) (s * (446725807/2113929216)) = s * (4467258071/21139292160) := by
    rw [next_high_value, if_neg (by rw [show s * (446725807/2113929216) + s * (1/10569646080) / 2 = s * ((4467258071/21139292160) : ℚ) by ring]; exact not_lt.mpr (mul_le_mul_of_nonneg_left (by norm_num) hs.le))]; ring
  have hnp : next_precision (s * (1/10569646080)) 9 = s * (1/380507258880) := by
    simp only [next_precision]
    push_cast
    ring
  by_cases hbk : (1 : ℚ) / 100 ≤ s * (1/10569646080)
  · have hJeq : J = 8 := by
      by_contra hne
      have hpm : ∀ j, 1 ≤ j → j ≤ 8 → pval 9 ≤ pval j := by
        intro j hj1 hj2
        interval_cases j
        all_goals norm_num [pval]
      refine hflag (J + 1) (Nat.lt_succ_self J) (by omega) ?_
      have h2 := hpm (J + 1) (by omega) (by omega)
      have h3 := mul_le_mul_of_nonneg_left h2 hs.le
      have h4 : pval 9 = (1/10569646080) := rfl
      rw [h4] at h3
      exact le_trans hbk h3
    subst hJeq
    subst hog
    have hb' : decide (s * (1/10569646080) ≥ 1 / 100) = true := decide_eq_true hbk
    have hscan := (scan_round_scale s hs true (139601813/660602880) (27920363/132120576) (1/10569646080)
      (by norm_num) hb').trans (congrArg (scaleSeq s) scanT9_t)
    have hcond0 := cond_scale s hs ⟨⟨(446725807/2113929216), 1⟩, [⟨(446725807/2113929216), 1⟩], some [⟨(139601813/660602880), 1⟩, ⟨(248181001/1174405120), 1⟩, ⟨(223362901/1056964608), 1⟩, ⟨(2233629011/10569646080), 1⟩, ⟨(186135751/880803840), 1⟩, ⟨(319089859/1509949440), 1⟩, ⟨(1116814507/5284823040), 1⟩, ⟨(148908601/704643072), 1⟩, ⟨(279203627/1321205760), 1⟩, ⟨(2233629017/10569646080), 1⟩, ⟨(124090501/587202560), 1⟩, ⟨(2233629019/10569646080), 1⟩, ⟨(15954493/75497472), 1⟩, ⟨(744543007/3523215360), 1⟩, ⟨(1116814511/5284823040), 1⟩, ⟨(2233629023/10569646080), 1⟩, ⟨(23266969/110100480), 1⟩, ⟨(446725805/2113929216), 1⟩, ⟨(1116814513/5284823040), 1⟩, ⟨(35454429/167772160), 1⟩, ⟨(558407257/2642411520), 1⟩, ⟨(2233629029/10569646080), 1⟩, ⟨(74454301/352321536), 1⟩, ⟨(2233629031/10569646080), 1⟩, ⟨(279203629/1321205760), 1⟩, ⟨(744543011/3523215360), 1⟩, ⟨(159544931/754974720), 1⟩, ⟨(62045251/293601280), 1⟩, ⟨(2233629037/10569646080), 1⟩, ⟨(1116814519/5284823040), 1⟩, ⟨(744543013/3523215360), 1⟩, ⟨(27920363/132120576), 1⟩]⟩
      ⟨s, 0, true, ⟨0, s⟩, 0, s / 2, scaleNP s ⟨(23266969/110100480), 1⟩, [scaleNP s ⟨(23266969/110100480), 1⟩], some ((bucketC 8).map (scaleNP s)), 9, 40, false⟩ ⟨(23266969/110100480), 1⟩ rfl
    by_cases hcv : (scaleNP s ⟨(446725807/2113929216), 1⟩).is_equivalent_to (scaleNP s ⟨(23266969/110100480), 1⟩) = true
    · have hstep : get_highest_result_of_seq 32 (s * (139601813/660602880)) (s * (27920363/132120576))
          (s * (1/10569646080)) ⟨s, 0, true, ⟨0, s⟩, 0, s / 2, scaleNP s ⟨(23266969/110100480), 1⟩, [scaleNP s ⟨(23266969/110100480), 1⟩], some ((bucketC 8).map (scaleNP s)), 8, 40, false⟩ =
          ⟨s, 9, true, ⟨0, s⟩, 0, s / 2, scaleNP s ⟨(23266969/110100480), 1⟩, [scaleNP s ⟨(23266969/110100480), 1⟩], some ((bucketC 8).map (scaleNP s)), 9, 40, true⟩ :=
        ghrs_step_converge 31 (s * (139601813/660602880)) (s * (27920363/132120576)) (s * (1/10569646080)) _ _
          (by norm_num) hscan (by rw [hcond0, hle, Bool.false_or]; exact hcv)
      rw [hstep]
      exact ⟨8, le_rfl, by norm_num, rfl⟩
    · have hcond : condition_to_end_recursion
          (scaleSeq s ⟨⟨(446725807/2113929216), 1⟩, [⟨(446725807/2113929216), 1⟩], some [⟨(139601813/660602880), 1⟩, ⟨(248181001/1174405120), 1⟩, ⟨(223362901/1056964608), 1⟩, ⟨(2233629011/10569646080), 1⟩, ⟨(186135751/880803840), 1⟩, ⟨(319089859/1509949440), 1⟩, ⟨(1116814507/5284823040), 1⟩, ⟨(148908601/704643072), 1⟩, ⟨(279203627/1321205760), 1⟩, ⟨(2233629017/10569646080), 1⟩, ⟨(124090501/587202560), 1⟩, ⟨(2233629019/10569646080), 1⟩, ⟨(15954493/75497472), 1⟩, ⟨(744543007/3523215360), 1⟩, ⟨(1116814511/5284823040), 1⟩, ⟨(2233629023/10569646080), 1⟩, ⟨(23266969/110100480), 1⟩, ⟨(446725805/2113929216), 1⟩, ⟨(1116814513/5284823040), 1⟩, ⟨(35454429/167772160), 1⟩, ⟨(558407257/2642411520), 1⟩, ⟨(2233629029/10569646080), 1⟩, ⟨(74454301/352321536), 1⟩, ⟨(2233629031/10569646080), 1⟩, ⟨(279203629/1321205760), 1⟩, ⟨(744543011/3523215360), 1⟩, ⟨(159544931/754974720), 1⟩, ⟨(62045251/293601280), 1⟩, ⟨(2233629037/10569646080), 1⟩, ⟨(1116814519/5284823040), 1⟩, ⟨(744543013/3523215360), 1⟩, ⟨(27920363/132120576), 1⟩]⟩)
          ⟨s, 0, true, ⟨0, s⟩, 0, s / 2, scaleNP s ⟨(23266969/110100480), 1⟩, [scaleNP s ⟨(23266969/110100480), 1⟩], some ((bucketC 8).map (scaleNP s)), 9, 40, false⟩ = false := by
        rw [hcond0, hle, Bool.false_or]
        exact Bool.eq_false_iff.mpr hcv
      have hfl : [(⟨(23266969/110100480), 1⟩ : NumberPairing)].filter
          (can_be_added_to_other ⟨0, 1⟩ (precision_flag true) true) =
          [⟨(23266969/110100480), 1⟩] := by
        norm_num [List.filter, can_be_added_to_other, precision_flag,
          NumberPairing.eq, NumberPairing.first, NumberPairing.second]
      have hbEq : bucketC 8 ++ ([⟨(139601813/660602880), 1⟩, ⟨(248181001/1174405120), 1⟩, ⟨(223362901/1056964608), 1⟩, ⟨(2233629011/10569646080), 1⟩, ⟨(186135751/880803840), 1⟩, ⟨(319089859/1509949440), 1⟩, ⟨(1116814507/5284823040), 1⟩, ⟨(148908601/704643072), 1⟩, ⟨(279203627/1321205760), 1⟩, ⟨(2233629017/10569646080), 1⟩, ⟨(124090501/587202560), 1⟩, ⟨(2233629019/10569646080), 1⟩, ⟨(15954493/75497472), 1⟩, ⟨(744543007/3523215360), 1⟩, ⟨(1116814511/5284823040), 1⟩, ⟨(2233629023/10569646080), 1⟩, ⟨(23266969/110100480), 1⟩, ⟨(446725805/2113929216), 1⟩, ⟨(1116814513/5284823040), 1⟩, ⟨(35454429/167772160), 1⟩, ⟨(558407257/2642411520), 1⟩, ⟨(2233629029/10569646080), 1⟩, ⟨(74454301/352321536), 1⟩, ⟨(2233629031/10569646080), 1⟩, ⟨(279203629/1321205760), 1⟩, ⟨(744543011/3523215360), 1⟩, ⟨(159544931/754974720), 1⟩, ⟨(62045251/293601280), 1⟩, ⟨(2233629037/10569646080), 1⟩, ⟨(1116814519/5284823040), 1⟩, ⟨(744543013/3523215360), 1⟩, ⟨(27920363/132120576), 1⟩] ++ [(⟨(23266969/110100480), 1⟩ : NumberPairing)]) =
          bucketC 9 := rfl
      have hg2 : promote_round (s * (1/10569646080))
          (scaleSeq s ⟨⟨(446725807/2113929216), 1⟩, [⟨(446725807/2113929216), 1⟩], some [⟨(139601813/660602880), 1⟩, ⟨(248181001/1174405120), 1⟩, ⟨(223362901/1056964608), 1⟩, ⟨(2233629011/10569646080), 1⟩, ⟨(186135751/880803840), 1⟩, ⟨(319089859/1509949440), 1⟩, ⟨(1116814507/5284823040), 1⟩, ⟨(148908601/704643072), 1⟩, ⟨(279203627/1321205760), 1⟩, ⟨(2233629017/10569646080), 1⟩, ⟨(124090501/587202560), 1⟩, ⟨(2233629019/10569646080), 1⟩, ⟨(15954493/75497472), 1⟩, ⟨(744543007/3523215360), 1⟩, ⟨(1116814511/5284823040), 1⟩, ⟨(2233629023/10569646080), 1⟩, ⟨(23266969/110100480), 1⟩, ⟨(446725805/2113929216), 1⟩, ⟨(1116814513/5284823040), 1⟩, ⟨(35454429/167772160), 1⟩, ⟨(558407257/2642411520), 1⟩, ⟨(2233629029/10569646080), 1⟩, ⟨(74454301/352321536), 1⟩, ⟨(2233629031/10569646080), 1⟩, ⟨(279203629/1321205760), 1⟩, ⟨(744543011/3523215360), 1⟩, ⟨(159544931/754974720), 1⟩, ⟨(62045251/293601280), 1⟩, ⟨(2233629037/10569646080), 1⟩, ⟨(1116814519/5284823040), 1⟩, ⟨(744543013/3523215360), 1⟩, ⟨(27920363/132120576), 1⟩]⟩) ⟨s, 0, true, ⟨0, s⟩, 0, s / 2, scaleNP s ⟨(23266969/110100480), 1⟩, [scaleNP s ⟨(23266969/110100480), 1⟩], some ((bucketC 8).map (scaleNP s)), 9, 40, false⟩ =
          ⟨s, 0, true, ⟨0, s⟩, 0, s / 2, scaleNP s ⟨(446725807/2113929216), 1⟩, [scaleNP s ⟨(446725807/2113929216), 1⟩], some ((bucketC 9).map (scaleNP s)), 9, 40, false⟩ := by
        rw [promote_round_scale s hs (s * (1/10569646080)) true hb' _ [⟨(139601813/660602880), 1⟩, ⟨(248181001/1174405120), 1⟩, ⟨(223362901/1056964608), 1⟩, ⟨(2233629011/10569646080), 1⟩, ⟨(186135751/880803840), 1⟩, ⟨(319089859/1509949440), 1⟩, ⟨(1116814507/5284823040), 1⟩, ⟨(148908601/704643072), 1⟩, ⟨(279203627/1321205760), 1⟩, ⟨(2233629017/10569646080), 1⟩, ⟨(124090501/587202560), 1⟩, ⟨(2233629019/10569646080), 1⟩, ⟨(15954493/75497472), 1⟩, ⟨(744543007/3523215360), 1⟩, ⟨(1116814511/5284823040), 1⟩, ⟨(2233629023/10569646080), 1⟩, ⟨(23266969/110100480), 1⟩, ⟨(446725805/2113929216), 1⟩, ⟨(1116814513/5284823040), 1⟩, ⟨(35454429/167772160), 1⟩, ⟨(558407257/2642411520), 1⟩, ⟨(2233629029/10569646080), 1⟩, ⟨(74454301/352321536), 1⟩, ⟨(2233629031/10569646080), 1⟩, ⟨(279203629/1321205760), 1⟩, ⟨(744543011/3523215360), 1⟩, ⟨(159544931/754974720), 1⟩, ⟨(62045251/293601280), 1⟩, ⟨(2233629037/10569646080), 1⟩, ⟨(1116814519/5284823040), 1⟩, ⟨(744543013/3523215360), 1⟩, ⟨(27920363/132120576), 1⟩] rfl _
          [⟨(23266969/110100480), 1⟩] (bucketC 8) rfl rfl rfl rfl, hfl, hbEq]
        rfl
      have hstep : get_highest_result_of_seq 32 (s * (139601813/660602880)) (s * (27920363/132120576))
          (s * (1/10569646080)) ⟨s, 0, true, ⟨0, s⟩, 0, s / 2, scaleNP s ⟨(23266969/110100480), 1⟩, [scaleNP s ⟨(23266969/110100480), 1⟩], some ((bucketC 8).map (scaleNP s)), 8, 40, false⟩ =
          get_highest_result_of_seq 31 (s * (1489086023/7046430720)) (s * (4467258071/21139292160)) (s * (1/380507258880))
            ⟨s, 0, true, ⟨0, s⟩, 0, s / 2, scaleNP s ⟨(446725807/2113929216), 1⟩, [scaleNP s ⟨(446725807/2113929216), 1⟩], some ((bucketC 9).map (scaleNP s)), 9, 40, false⟩ :=
        ghrs_step_continue 31 (s * (139601813/660602880)) (s * (27920363/132120576)) (s * (1/10569646080)) _ _ _
          (s * (1489086023/7046430720)) (s * (4467258071/21139292160)) (s * (1/380507258880)) (by norm_num) hscan hcond hg2
          hnl hnh hnp
      rw [hstep]
      obtain ⟨J', h1, h2, h3⟩ := path_step10 s hs
        ((bucketC 9).map (scaleNP s)) 9 rfl le_rfl
        (fun j hj1 hj2 => absurd (Nat.lt_of_lt_of_le hj1 hj2) (lt_irrefl _))
      exact ⟨J', by omega, h2, h3⟩
  · have hb' : decide (s * (1/10569646080) ≥ 1 / 100) = false := decide_eq_false hbk
    have hscan := (scan_round_scale s hs false (139601813/660602880) (27920363/132120576) (1/10569646080)
      (by norm_num) hb').trans (congrArg (scaleSeq s) scanT9_f)
    have hcond0 := cond_scale s hs ⟨⟨(446725807/2113929216), 1⟩, [⟨(446725807/2113929216), 1⟩], some []⟩
      ⟨s, 0, true, ⟨0, s⟩, 0, s / 2, scaleNP s ⟨(23266969/110100480), 1⟩, [scaleNP s ⟨(23266969/110100480), 1⟩], some og, 9, 40, false⟩ ⟨(23266969/110100480), 1⟩ rfl
    by_cases hcv : (scaleNP s ⟨(446725807/2113929216), 1⟩).is_equivalent_to (scaleNP s ⟨(23266969/110100480), 1⟩) = true
    · have hstep : get_highest_result_of_seq 32 (s * (139601813/660602880)) (s * (27920363/132120576))
          (s * (1/10569646080)) ⟨s, 0, true, ⟨0, s⟩, 0, s / 2, scaleNP s ⟨(23266969/110100480), 1⟩, [scaleNP s ⟨(23266969/110100480), 1⟩], some og, 8, 40, false⟩ =
          ⟨s, 9, true, ⟨0, s⟩, 0, s / 2, scaleNP s ⟨(23266969/110100480), 1⟩, [scaleNP s ⟨(23266969/110100480), 1⟩], some og, 9, 40, true⟩ :=
        ghrs_step_converge 31 (s * (139601813/660602880)) (s * (27920363/132120576)) (s * (1/10569646080)) _ _
          (by norm_num) hscan (by rw [hcond0, hle, Bool.false_or]; exact hcv)
      rw [hstep]
      exact ⟨J, le_rfl, by omega, by rw [hog]⟩
    · have hcond : condition_to_end_recursion
          (scaleSeq s ⟨⟨(446725807/2113929216), 1⟩, [⟨(446725807/2113929216), 1⟩], some []⟩)
          ⟨s, 0, true, ⟨0, s⟩, 0, s / 2, scaleNP s ⟨(23266969/110100480), 1⟩, [scaleNP s ⟨(23266969/110100480), 1⟩], some og, 9, 40, false⟩ = false := by
        rw [hcond0, hle, Bool.false_or]
        exact Bool.eq_false_iff.mpr hcv
      have hg2 : promote_round (s * (1/10569646080))
          (scaleSeq s ⟨⟨(446725807/2113929216), 1⟩, [⟨(446725807/2113929216), 1⟩], some []⟩) ⟨s, 0, true, ⟨0, s⟩, 0, s / 2, scaleNP s ⟨(23266969/110100480), 1⟩, [scaleNP s ⟨(23266969/110100480), 1⟩], some og, 9, 40, false⟩ =
          ⟨s, 0, true, ⟨0, s⟩, 0, s / 2, scaleNP s ⟨(446725807/2113929216), 1⟩, [scaleNP s ⟨(446725807/2113929216), 1⟩], some og, 9, 40, false⟩ := by
        rw [promote_round_scale s hs (s * (1/10569646080)) false hb' _ [] rfl _
          [⟨(23266969/110100480), 1⟩] (bucketC J) rfl rfl rfl (by rw [hog]), filter_can_false]
        simp only [List.append_nil]
        rw [← hog]
        rfl
      have hstep : get_highest_result_of_seq 32 (s * (139601813/660602880)) (s * (27920363/132120576))
          (s * (1/10569646080)) ⟨s, 0, true, ⟨0, s⟩, 0, s / 2, scaleNP s ⟨(23266969/110100480), 1⟩, [scaleNP s ⟨(23266969/110100480), 1⟩], some og, 8, 40, false⟩ =
          get_highest_result_of_seq 31 (s * (1489086023/7046430720)) (s * (4467258071/21139292160)) (s * (1/380507258880))
            ⟨s, 0, true, ⟨0, s⟩, 0, s / 2, scaleNP s ⟨(446725807/2113929216), 1⟩, [scaleNP s ⟨(446725807/2113929216), 1⟩], some og, 9, 40, false⟩ :=
        ghrs_step_continue 31 (s * (139601813/660602880)) (s * (27920363/132120576)) (s * (1/10569646080)) _ _ _
          (s * (1489086023/7046430720)) (s * (4467258071/21139292160)) (s * (1/380507258880)) (by norm_num) hscan hcond hg2
          hnl hnh hnp
      rw [hstep]
      obtain ⟨J', h1, h2, h3⟩ := path_step10 s hs og J hog (by omega)
        (fun j hj1 hj2 => by
          rcases Nat.lt_or_ge j 9 with hlt | hge
          · exact hflag j hj1 (by omega)
          · have hjk : j = 9 := by omega
            subst hjk
            exact hbk)
      exact ⟨J', h1, h2, h3⟩

/-- Round 8 of the search path: either the round converges here, or the
bucket grows by exactly the round-8 contribution (when eligible) and the
search continues into round 9. -/
theorem path_step8 (s : ℚ) (hs : 0 < s) (og : List NumberPairing) (J : ℕ)
    (hog : og = (bucketC J).map (scaleNP s))
    (hJ : J ≤ 7)
    (hflag : ∀ j, J < j → j ≤ 7 → ¬((1 : ℚ) / 100 ≤ s * pval j)) :
    ∃ J', J ≤ J' ∧ J' ≤ 10 ∧
      (get_highest_result_of_seq 33 (s * (4985779/23592960)) (s * (1661927/7864320)) (s * (1/330301440))
          ⟨s, 0, true, ⟨0, s⟩, 0, s / 2, scaleNP s ⟨(249289/1179648), 1⟩, [scaleNP s ⟨(249289/1179648), 1⟩], some og, 7, 40, false⟩).other_results
        = some ((bucketC J').map (scaleNP s)) := by
  have hle : (NumberPairing.mk (23266969/110100480) 1).le ⟨(249289/1179648), 1⟩ = false := by
    norm_num [NumberPairing.le, NumberPairing.cmp, NumberPairing.result,
      NumberPairing.product, NumberPairing.difference, NumberPairing.second,
      NumberPairing.first, abs_of_nonneg, abs_of_nonpos,
      show (Ordering.gt == Ordering.gt) = true from rfl,
      show (Ordering.lt == Ordering.gt) = false from rfl,
      show (Ordering.eq == Ordering.gt) = false from rfl]
  have hnl : next_low_value (s * (4985779/23592960)) (s * (1/330301440)) (s * (23266969/110100480)) = s * (139601813/660602880) := by
    rw [next_low_value, if_neg (by rw [show s * (23266969/110100480) - s * (1/330301440) / 2 = s * ((139601813/660602880) : ℚ) by ring]; exact not_lt.mpr (mul_le_mul_of_nonneg_left (by norm_num) hs.le))]; ring
  have hnh : next_high_value (s * (1661927/7864320)) (s * (1/330301440)) (s * (23266969/110100480)) = s * (27920363/132120576) := by
    rw [next_high_value, if_neg (by rw [show s * (23266969/110100480) + s * (1/330301440) / 2 = s * ((27920363/132120576) : ℚ) by ring]; exact not_lt.mpr (mul_le_mul_of_nonneg_left (by norm_num) hs.le))]; ring
  have hnp : next_precision (s * (1/330301440)) 8 = s * (1/10569646080) := by
    simp only [next_precision]
    push_cast
    ring
  by_cases hbk : (1 : ℚ) / 100 ≤ s * (1/330301440)
  · have hJeq : J = 7 := by
      by_contra hne
      have hpm : ∀ j, 1 ≤ j → j ≤ 7 → pval 8 ≤ pval j := by
        intro j hj1 hj2
        interval_cases j
        all_goals norm_num [pval]
      refine hflag (J + 1) (Nat.lt_succ_self J) (by omega) ?_
      have h2 := hpm (J + 1) (by omega) (by omega)
      have h3 := mul_le_mul_of_nonneg_left h2 hs.le
      have h4 : pval 8 = (1/330301440) := rfl
      rw [h4] at h3
      exact le_trans hbk h3
    subst hJeq
    subst hog
    have hb' : decide (s * (1/330301440) ≥ 1 / 100) = true := decide_eq_true hbk
    have hscan := (scan_round_scale s hs true (4985779/23592960) (1661927/7864320) (1/330301440)
      (by norm_num) hb').trans (congrArg (scaleSeq s) scanT8_t)
    have hcond0 := cond_scale s hs ⟨⟨(23266969/110100480), 1⟩, [⟨(23266969/110100480), 1⟩], some [⟨(4985779/23592960), 1⟩, ⟨(17450227/82575360), 1⟩, ⟨(69800909/330301440), 1⟩, ⟨(2326697/11010048), 1⟩, ⟨(69800911/330301440), 1⟩, ⟨(4362557/20643840), 1⟩, ⟨(1107951/5242880), 1⟩, ⟨(34900457/165150720), 1⟩, ⟨(13960183/66060288), 1⟩, ⟨(5816743/27525120), 1⟩, ⟨(69800917/330301440), 1⟩, ⟨(34900459/165150720), 1⟩, ⟨(23266973/110100480), 1⟩, ⟨(249289/1179648), 1⟩, ⟨(69800921/330301440), 1⟩, ⟨(3877829/18350080), 1⟩, ⟨(69800923/330301440), 1⟩, ⟨(17450231/82575360), 1⟩, ⟨(4653395/22020096), 1⟩, ⟨(34900463/165150720), 1⟩, ⟨(9971561/47185920), 1⟩, ⟨(727093/3440640), 1⟩, ⟨(69800929/330301440), 1⟩, ⟨(6980093/33030144), 1⟩, ⟨(7755659/36700160), 1⟩, ⟨(17450233/82575360), 1⟩, ⟨(69800933/330301440), 1⟩, ⟨(1661927/7864320), 1⟩]⟩
      ⟨s, 0, true, ⟨0, s⟩, 0, s / 2, scaleNP s ⟨(249289/1179648), 1⟩, [scaleNP s ⟨(249289/1179648), 1⟩], some ((bucketC 7).map (scaleNP s)), 8, 40, false⟩ ⟨(249289/1179648), 1⟩ rfl
    by_cases hcv : (scaleNP s ⟨(23266969/110100480), 1⟩).is_equivalent_to (scaleNP s ⟨(249289/1179648), 1⟩) = true
    · have hstep : get_highest_result_of_seq 33 (s * (4985779/23592960)) (s * (1661927/7864320))
          (s * (1/330301440)) ⟨s, 0, true, ⟨0, s⟩, 0, s / 2, scaleNP s ⟨(249289/1179648), 1⟩, [scaleNP s ⟨(249289/1179648), 1⟩], some ((bucketC 7).map (scaleNP s)), 7, 40, false⟩ =
          ⟨s, 8, true, ⟨0, s⟩, 0, s / 2, scaleNP s ⟨(249289/1179648), 1⟩, [scaleNP s ⟨(249289/1179648), 1⟩], some ((bucketC 7).map (scaleNP s)), 8, 40, true⟩ :=
        ghrs_step_converge 32 (s * (4985779/23592960)) (s * (1661927/7864320)) (s * (1/330301440)) _ _
          (by norm_num) hscan (by rw [hcond0, hle, Bool.false_or]; exact hcv)
      rw [hstep]
      exact ⟨7, le_rfl, by norm_num, rfl⟩
    · have hcond : condition_to_end_recursion
          (scaleSeq s ⟨⟨(23266969/110100480), 1⟩, [⟨(23266969/110100480), 1⟩], some [⟨(4985779/23592960), 1⟩, ⟨(17450227/82575360), 1⟩, ⟨(69800909/330301440), 1⟩, ⟨(2326697/11010048), 1⟩, ⟨(69800911/330301440), 1⟩, ⟨(4362557/20643840), 1⟩, ⟨(1107951/5242880), 1⟩, ⟨(34900457/165150720), 1⟩, ⟨(13960183/66060288), 1⟩, ⟨(5816743/27525120), 1⟩, ⟨(69800917/330301440), 1⟩, ⟨(34900459/165150720), 1⟩, ⟨(23266973/110100480), 1⟩, ⟨(249289/1179648), 1⟩, ⟨(69800921/330301440), 1⟩, ⟨(3877829/18350080), 1⟩, ⟨(69800923/330301440), 1⟩, ⟨(17450231/82575360), 1⟩, ⟨(4653395/22020096), 1⟩, ⟨(34900463/165150720), 1⟩, ⟨(9971561/47185920), 1⟩, ⟨(727093/3440640), 1⟩, ⟨(69800929/330301440), 1⟩, ⟨(6980093/33030144), 1⟩, ⟨(7755659/36700160), 1⟩, ⟨(17450233/82575360), 1⟩, ⟨(69800933/330301440), 1⟩, ⟨(1661927/7864320), 1⟩]⟩)
          ⟨s, 0, true, ⟨0, s⟩, 0, s / 2, scaleNP s ⟨(249289/1179648), 1⟩, [scaleNP s ⟨(249289/1179648), 1⟩], some ((bucketC 7).map (scaleNP s)), 8, 40, false⟩ = false := by
        rw [hcond0, hle, Bool.false_or]
        exact Bool.eq_false_iff.mpr hcv
      have hfl : [(⟨(249289/1179648), 1⟩ : NumberPairing)].filter
          (can_be_added_to_other ⟨0, 1⟩ (precision_flag true) true) =
          [⟨(249289/1179648), 1⟩] := by
        norm_num [List.filter, can_be_added_to_other, precision_flag,
          NumberPairing.eq, NumberPairing.first, NumberPairing.second]
      have hbEq : bucketC 7 ++ ([⟨(4985779/23592960), 1⟩, ⟨(17450227/82575360), 1⟩, ⟨(69800909/330301440), 1⟩, ⟨(2326697/11010048), 1⟩, ⟨(69800911/330301440), 1⟩, ⟨(4362557/20643840), 1⟩, ⟨(1107951/5242880), 1⟩, ⟨(34900457/165150720), 1⟩, ⟨(13960183/66060288), 1⟩, ⟨(5816743/27525120), 1⟩, ⟨(69800917/330301440), 1⟩, ⟨(34900459/165150720), 1⟩, ⟨(23266973/110100480), 1⟩, ⟨(249289/1179648), 1⟩, ⟨(69800921/330301440), 1⟩, ⟨(3877829/18350080), 1⟩, ⟨(69800923/330301440), 1⟩, ⟨(17450231/82575360), 1⟩, ⟨(4653395/22020096), 1⟩, ⟨(34900463/165150720), 1⟩, ⟨(9971561/47185920), 1⟩, ⟨(727093/3440640), 1⟩, ⟨(69800929/330301440), 1⟩, ⟨(6980093/33030144), 1⟩, ⟨(7755659/36700160), 1⟩, ⟨(17450233/82575360), 1⟩, ⟨(69800933/330301440), 1⟩, ⟨(1661927/7864320), 1⟩] ++ [(⟨(249289/1179648), 1⟩ : NumberPairing)]) =
          bucketC 8 := rfl
      have hg2 : promote_round (s * (1/330301440))
          (scaleSeq s ⟨⟨(23266969/110100480), 1⟩, [⟨(23266969/110100480), 1⟩], some [⟨(4985779/23592960), 1⟩, ⟨(17450227/82575360), 1⟩, ⟨(69800909/330301440), 1⟩, ⟨(2326697/11010048), 1⟩, ⟨(69800911/330301440), 1⟩, ⟨(4362557/20643840), 1⟩, ⟨(1107951/5242880), 1⟩, ⟨(34900457/165150720), 1⟩, ⟨(13960183/66060288), 1⟩, ⟨(5816743/27525120), 1⟩, ⟨(69800917/330301440), 1⟩, ⟨(34900459/165150720), 1⟩, ⟨(23266973/110100480), 1⟩, ⟨(249289/1179648), 1⟩, ⟨(69800921/330301440), 1⟩, ⟨(3877829/18350080), 1⟩, ⟨(69800923/330301440), 1⟩, ⟨(17450231/82575360), 1⟩, ⟨(4653395/22020096), 1⟩, ⟨(34900463/165150720), 1⟩, ⟨(9971561/47185920), 1⟩, ⟨(727093/3440640), 1⟩, ⟨(69800929/330301440), 1⟩, ⟨(6980093/33030144), 1⟩, ⟨(7755659/36700160), 1⟩, ⟨(17450233/82575360), 1⟩, ⟨(69800933/330301440), 1⟩, ⟨(1661927/7864320), 1⟩]⟩) ⟨s, 0, true, ⟨0, s⟩, 0, s / 2, scaleNP s ⟨(249289/1179648), 1⟩, [scaleNP s ⟨(249289/1179648), 1⟩], some ((bucketC 7).map (scaleNP s)), 8, 40, false⟩ =
          ⟨s, 0, true, ⟨0, s⟩, 0, s / 2, scaleNP s ⟨(23266969/110100480), 1⟩, [scaleNP s ⟨(23266969/110100480), 1⟩], some ((bucketC 8).map (scaleNP s)), 8, 40, false⟩ := by
        rw [promote_round_scale s hs (s * (1/330301440)) true hb' _ [⟨(4985779/23592960), 1⟩, ⟨(17450227/82575360), 1⟩, ⟨(69800909/330301440), 1⟩, ⟨(2326697/11010048), 1⟩, ⟨(69800911/330301440), 1⟩, ⟨(4362557/20643840), 1⟩, ⟨(1107951/5242880), 1⟩, ⟨(34900457/165150720), 1⟩, ⟨(13960183/66060288), 1⟩, ⟨(5816743/27525120), 1⟩, ⟨(69800917/330301440), 1⟩, ⟨(34900459/165150720), 1⟩, ⟨(23266973/110100480), 1⟩, ⟨(249289/1179648), 1⟩, ⟨(69800921/330301440), 1⟩, ⟨(3877829/18350080), 1⟩, ⟨(69800923/330301440), 1⟩, ⟨(17450231/82575360), 1⟩, ⟨(4653395/22020096), 1⟩, ⟨(34900463/165150720), 1⟩, ⟨(9971561/47185920), 1⟩, ⟨(727093/3440640), 1⟩, ⟨(69800929/330301440), 1⟩, ⟨(6980093/33030144), 1⟩, ⟨(7755659/36700160), 1⟩, ⟨(17450233/82575360), 1⟩, ⟨(69800933/330301440), 1⟩, ⟨(1661927/7864320), 1⟩] rfl _
          [⟨(249289/1179648), 1⟩] (bucketC 7) rfl rfl rfl rfl, hfl, hbEq]
        rfl
      have hstep : get_highest_result_of_seq 33 (s * (4985779/23592960)) (s * (1661927/7864320))
          (s * (1/330301440)) ⟨s, 0, true, ⟨0, s⟩, 0, s / 2, scaleNP s ⟨(249289/1179648), 1⟩, [scaleNP s ⟨(249289/1179648), 1⟩], some ((bucketC 7).map (scaleNP s)), 7, 40, false⟩ =
          get_highest_result_of_seq 32 (s * (139601813/660602880)) (s * (27920363/132120576)) (s * (1/10569646080))
            ⟨s, 0, true, ⟨0, s⟩, 0, s / 2, scaleNP s ⟨(23266969/110100480), 1⟩, [scaleNP s ⟨(23266969/110100480), 1⟩], some ((bucketC 8).map (scaleNP s)), 8, 40, false⟩ :=
        ghrs_step_continue 32 (s * (4985779/23592960)) (s * (1661927/7864320)) (s * (1/330301440)) _ _ _
          (s * (139601813/660602880)) (s * (27920363/132120576)) (s * (1/10569646080)) (by norm_num) hscan hcond hg2
          hnl hnh hnp
      rw [hstep]
      obtain ⟨J', h1, h2, h3⟩ := path_step9 s hs
        ((bucketC 8).map (scaleNP s)) 8 rfl le_rfl
        (fun j hj1 hj2 => absurd (Nat.lt_of_lt_of_le hj1 hj2) (lt_irrefl _))
      exact ⟨J', by omega, h2, h3⟩
  · have hb' : decide (s * (1/330301440) ≥ 1 / 100) = false := decide_eq_false hbk
    have hscan := (scan_round_scale s hs false (4985779/23592960) (1661927/7864320) (1/330301440)
      (by norm_num) hb').trans (congrArg (scaleSeq s) scanT8_f)
    have hcond0 := cond_scale s hs ⟨⟨(23266969/110100480), 1⟩, [⟨(23266969/110100480), 1⟩], some []⟩
      ⟨s, 0, true, ⟨0, s⟩, 0, s / 2, scaleNP s ⟨(249289/1179648), 1⟩, [scaleNP s ⟨(249289/1179648), 1⟩], some og, 8, 40, false⟩ ⟨(249289/1179648), 1⟩ rfl
    by_cases hcv : (scaleNP s ⟨(23266969/110100480), 1⟩).is_equivalent_to (scaleNP s ⟨(249289/1179648), 1⟩) = true
    · have hstep : get_highest_result_of_seq 33 (s * (4985779/23592960)) (s * (1661927/7864320))
          (s * (1/330301440)) ⟨s, 0, true, ⟨0, s⟩, 0, s / 2, scaleNP s ⟨(249289/1179648), 1⟩, [scaleNP s ⟨(249289/1179648), 1⟩], some og, 7, 40, false⟩ =
          ⟨s, 8, true, ⟨0, s⟩, 0, s / 2, scaleNP s ⟨(249289/1179648), 1⟩, [scaleNP s ⟨(249289/1179648), 1⟩], some og, 8, 40, true⟩ :=
        ghrs_step_converge 32 (s * (4985779/23592960)) (s * (1661927/7864320)) (s * (1/330301440)) _ _
          (by norm_num) hscan (by rw [hcond0, hle, Bool.false_or]; exact hcv)
      rw [hstep]
      exact ⟨J, le_rfl, by omega, by rw [hog]⟩
    · have hcond : condition_to_end_recursion
          (scaleSeq s ⟨⟨(23266969/110100480), 1⟩, [⟨(23266969/110100480), 1⟩], some []⟩)
          ⟨s, 0, true, ⟨0, s⟩, 0, s / 2, scaleNP s ⟨(249289/1179648), 1⟩, [scaleNP s ⟨(249289/1179648), 1⟩], some og, 8, 40, false⟩ = false := by
        rw [hcond0, hle, Bool.false_or]
        exact Bool.eq_false_iff.mpr hcv
      have hg2 : promote_round (s * (1/330301440))
          (scaleSeq s ⟨⟨(23266969/110100480), 1⟩, [⟨(23266969/110100480), 1⟩], some []⟩) ⟨s, 0, true, ⟨0, s⟩, 0, s / 2, scaleNP s ⟨(249289/1179648), 1⟩, [scaleNP s ⟨(249289/1179648), 1⟩], some og, 8, 40, false⟩ =
          ⟨s, 0, true, ⟨0, s⟩, 0, s / 2, scaleNP s ⟨(23266969/110100480), 1⟩, [scaleNP s ⟨(23266969/110100480), 1⟩], some og, 8, 40, false⟩ := by
        rw [promote_round_scale s hs (s * (1/330301440)) false hb' _ [] rfl _
          [⟨(249289/1179648), 1⟩] (bucketC J) rfl rfl rfl (by rw [hog]), filter_can_false]
        simp only [List.append_nil]
        rw [← hog]
        rfl
      have hstep : get_highest_result_of_seq 33 (s * (4985779/23592960)) (s * (1661927/7864320))
          (s * (1/330301440)) ⟨s, 0, true, ⟨0, s⟩, 0, s / 2, scaleNP s ⟨(249289/1179648), 1⟩, [scaleNP s ⟨(249289/1179648), 1⟩], some og, 7, 40, false⟩ =
          get_highest_result_of_seq 32 (s * (139601813/660602880)) (s * (27920363/132120576)) (s * (1/10569646080))
            ⟨s, 0, true, ⟨0, s⟩, 0, s / 2, scaleNP s ⟨(23266969/110100480), 1⟩, [scaleNP s ⟨(23266969/110100480), 1⟩], some og, 8, 40, false⟩ :=
        ghrs_step_continue 32 (s * (4985779/23592960)) (s * (1661927/7864320)) (s * (1/330301440)) _ _ _
          (s * (139601813/660602880)) (s * (27920363/132120576)) (s * (1/10569646080)) (by norm_num) hscan hcond hg2
          hnl hnh hnp
      rw [hstep]
      obtain ⟨J', h1, h2, h3⟩ := path_step9 s hs og J hog (by omega)
        (fun j hj1 hj2 => by
          rcases Nat.lt_or_ge j 8 with hlt | hge
          · exact hflag j hj1 (by omega)
          · have hjk : j = 8 := by omega
            subst hjk
            exact hbk)
      exact ⟨J', h1, h2, h3⟩

/-- Round 7 of the search path: either the round converges here, or the
bucket grows by exactly the round-7 contribution (when eligible) and the
search continues into round 8. -/
theorem path_step7 (s : ℚ) (hs : 0 < s) (og : List NumberPairing) (J : ℕ)
    (hog : og = (bucketC J).map (scaleNP s))
    (hJ : J ≤ 6)
    (hflag : ∀ j, J < j → j ≤ 6 → ¬((1 : ℚ) / 100 ≤ s * pval j)) :
    ∃ J', J ≤ J' ∧ J' ≤ 10 ∧
      (get_highest_result_of_seq 34 (s * (10387/49152)) (s * (69247/327680)) (s * (1/11796480))
          ⟨s, 0, true, ⟨0, s⟩, 0, s / 2, scaleNP s ⟨(10387/49152), 1⟩, [scaleNP s ⟨(10387/49152), 1⟩], some og, 6, 40, false⟩).other_results
        = some ((bucketC J').map (scaleNP s)) := by
  have hle : (NumberPairing.mk (249289/1179648) 1).le ⟨(10387/49152), 1⟩ = false := by
    norm_num [NumberPairing.le, NumberPairing.cmp, NumberPairing.result,
      NumberPairing.product, NumberPairing.difference, NumberPairing.second,
      NumberPairing.first, abs_of_nonneg, abs_of_nonpos,
      show (Ordering.gt == Ordering.gt) = true from rfl,
      show (Ordering.lt == Ordering.gt) = false from rfl,
      show (Ordering.eq == Ordering.gt) = false from rfl]
  have hnl : next_low_value (s * (10387/49152)) (s * (1/11796480)) (s * (249289/1179648)) = s * (4985779/23592960) := by
    rw [next_low_value, if_neg (by rw [show s * (249289/1179648) - s * (1/11796480) / 2 = s * ((4985779/23592960) : ℚ) by ring]; exact not_lt.mpr (mul_le_mul_of_nonneg_left (by norm_num) hs.le))]; ring
  have hnh : next_high_value (s * (69247/327680)) (s * (1/11796480)) (s * (249289/1179648)) = s * (1661927/7864320) := by
    rw [next_high_value, if_neg (by rw [show s * (249289/1179648) + s * (1/11796480) / 2 = s * ((1661927/7864320) : ℚ) by ring]; exact not_lt.mpr (mul_le_mul_of_nonneg_left (by norm_num) hs.le))]; ring
  have hnp : next_precision (s * (1/11796480)) 7 = s * (1/330301440) := by
    simp only [next_precision]
    push_cast
    ring
  by_cases hbk : (1 : ℚ) / 100 ≤ s * (1/11796480)
  · have hJeq : J = 6 := by
      by_contra hne
      have hpm : ∀ j, 1 ≤ j → j ≤ 6 → pval 7 ≤ pval j := by
        intro j hj1 hj2
        interval_cases j
        all_goals norm_num [pval]
      refine hflag (J + 1) (Nat.lt_succ_self J) (by omega) ?_
      have h2 := hpm (J + 1) (by omega) (by omega)
      have h3 := mul_le_mul_of_nonneg_left h2 hs.le
      have h4 : pval 7 = (1/11796480) := rfl
      rw [h4] at h3
      exact le_trans hbk h3
    subst hJeq
    subst hog
    have hb' : decide (s * (1/11796480) ≥ 1 / 100) = true := decide_eq_true hbk
    have hscan := (scan_round_scale s hs true (10387/49152) (69247/327680) (1/11796480)
      (by norm_num) hb').trans (congrArg (scaleSeq s) scanT7_t)
    have hcond0 := cond_scale s hs ⟨⟨(249289/1179648), 1⟩, [⟨(249289/1179648), 1⟩], some [⟨(10387/49152), 1⟩, ⟨(2492881/11796480), 1⟩, ⟨(1246441/5898240), 1⟩, ⟨(276987/1310720), 1⟩, ⟨(623221/2949120), 1⟩, ⟨(498577/2359296), 1⟩, ⟨(415481/1966080), 1⟩, ⟨(2492887/11796480), 1⟩, ⟨(311611/1474560), 1⟩, ⟨(830963/3932160), 1⟩, ⟨(2492891/11796480), 1⟩, ⟨(69247/327680), 1⟩]⟩
      ⟨s, 0, true, ⟨0, s⟩, 0, s / 2, scaleNP s ⟨(10387/49152), 1⟩, [scaleNP s ⟨(10387/49152), 1⟩], some ((bucketC 6).map (scaleNP s)), 7, 40, false⟩ ⟨(10387/49152), 1⟩ rfl
    by_cases hcv : (scaleNP s ⟨(249289/1179648), 1⟩).is_equivalent_to (scaleNP s ⟨(10387/49152), 1⟩) = true
    · have hstep : get_highest_result_of_seq 34 (s * (10387/49152)) (s * (69247/327680))
          (s * (1/11796480)) ⟨s, 0, true, ⟨0, s⟩, 0, s / 2, scaleNP s ⟨(10387/49152), 1⟩, [scaleNP s ⟨(10387/49152), 1⟩], some ((bucketC 6).map (scaleNP s)), 6, 40, false⟩ =
          ⟨s, 7, true, ⟨0, s⟩, 0, s / 2, scaleNP s ⟨(10387/49152), 1⟩, [scaleNP s ⟨(10387/49152), 1⟩], some ((bucketC 6).map (scaleNP s)), 7, 40, true⟩ :=
        ghrs_step_converge 33 (s * (10387/49152)) (s * (69247/327680)) (s * (1/11796480)) _ _
          (by norm_num) hscan (by rw [hcond0, hle, Bool.false_or]; exact hcv)
      rw [hstep]
      exact ⟨6, le_rfl, by norm_num, rfl⟩
    · have hcond : condition_to_end_recursion
          (scaleSeq s ⟨⟨(249289/1179648), 1⟩, [⟨(249289/1179648), 1⟩], some [⟨(10387/49152), 1⟩, ⟨(2492881/11796480), 1⟩, ⟨(1246441/5898240), 1⟩, ⟨(276987/1310720), 1⟩, ⟨(623221/2949120), 1⟩, ⟨(498577/2359296), 1⟩, ⟨(415481/1966080), 1⟩, ⟨(2492887/11796480), 1⟩, ⟨(311611/1474560), 1⟩, ⟨(830963/3932160), 1⟩, ⟨(2492891/11796480), 1⟩, ⟨(69247/327680), 1⟩]⟩)
          ⟨s, 0, true, ⟨0, s⟩, 0, s / 2, scaleNP s ⟨(10387/49152), 1⟩, [scaleNP s ⟨(10387/49152), 1⟩], some ((bucketC 6).map (scaleNP s)), 7, 40, false⟩ = false := by
        rw [hcond0, hle, Bool.false_or]
        exact Bool.eq_false_iff.mpr hcv
      have hfl : [(⟨(10387/49152), 1⟩ : NumberPairing)].filter
          (can_be_added_to_other ⟨0, 1⟩ (precision_flag true) true) =
          [⟨(10387/49152), 1⟩] := by
        norm_num [List.filter, can_be_added_to_other, precision_flag,
          NumberPairing.eq, NumberPairing.first, NumberPairing.second]
      have hbEq : bucketC 6 ++ ([⟨(10387/49152), 1⟩, ⟨(2492881/11796480), 1⟩, ⟨(1246441/5898240), 1⟩, ⟨(276987/1310720), 1⟩, ⟨(623221/2949120), 1⟩, ⟨(498577/2359296), 1⟩, ⟨(415481/1966080), 1⟩, ⟨(2492887/11796480), 1⟩, ⟨(311611/1474560), 1⟩, ⟨(830963/3932160), 1⟩, ⟨(2492891/11796480), 1⟩, ⟨(69247/327680), 1⟩] ++ [(⟨(10387/49152), 1⟩ : NumberPairing)]) =
          bucketC 7 := rfl
      have hg2 : promote_round (s * (1/11796480))
          (scaleSeq s ⟨⟨(249289/1179648), 1⟩, [⟨(249289/1179648), 1⟩], some [⟨(10387/49152), 1⟩, ⟨(2492881/11796480), 1⟩, ⟨(1246441/5898240), 1⟩, ⟨(276987/1310720), 1⟩, ⟨(623221/2949120), 1⟩, ⟨(498577/2359296), 1⟩, ⟨(415481/1966080), 1⟩, ⟨(2492887/11796480), 1⟩, ⟨(311611/1474560), 1⟩, ⟨(830963/3932160), 1⟩, ⟨(2492891/11796480), 1⟩, ⟨(69247/327680), 1⟩]⟩) ⟨s, 0, true, ⟨0, s⟩, 0, s / 2, scaleNP s ⟨(10387/49152), 1⟩, [scaleNP s ⟨(10387/49152), 1⟩], some ((bucketC 6).map (scaleNP s)), 7, 40, false⟩ =
          ⟨s, 0, true, ⟨0, s⟩, 0, s / 2, scaleNP s ⟨(249289/1179648), 1⟩, [scaleNP s ⟨(249289/1179648), 1⟩], some ((bucketC 7).map (scaleNP s)), 7, 40, false⟩ := by
        rw [promote_round_scale s hs (s * (1/11796480)) true hb' _ [⟨(10387/49152), 1⟩, ⟨(2492881/11796480), 1⟩, ⟨(1246441/5898240), 1⟩, ⟨(276987/1310720), 1⟩, ⟨(623221/2949120), 1⟩, ⟨(498577/2359296), 1⟩, ⟨(415481/1966080), 1⟩, ⟨(2492887/11796480), 1⟩, ⟨(311611/1474560), 1⟩, ⟨(830963/3932160), 1⟩, ⟨(2492891/11796480), 1⟩, ⟨(69247/327680), 1⟩] rfl _
          [⟨(10387/49152), 1⟩] (bucketC 6) rfl rfl rfl rfl, hfl, hbEq]
        rfl
      have hstep : get_highest_result_of_seq 34 (s * (10387/49152)) (s * (69247/327680))
          (s * (1/11796480)) ⟨s, 0, true, ⟨0, s⟩, 0, s / 2, scaleNP s ⟨(10387/49152), 1⟩, [scaleNP s ⟨(10387/49152), 1⟩], some ((bucketC 6).map (scaleNP s)), 6, 40, false⟩ =
          get_highest_result_of_seq 33 (s * (4985779/23592960)) (s * (1661927/7864320)) (s * (1/330301440))
            ⟨s, 0, true, ⟨0, s⟩, 0, s / 2, scaleNP s ⟨(249289/1179648), 1⟩, [scaleNP s ⟨(249289/1179648), 1⟩], some ((bucketC 7).map (scaleNP s)), 7, 40, false⟩ :=
        ghrs_step_continue 33 (s * (10387/49152)) (s * (69247/327680)) (s * (1/11796480)) _ _ _
          (s * (4985779/23592960)) (s * (1661927/7864320)) (s * (1/330301440)) (by norm_num) hscan hcond hg2
          hnl hnh hnp
      rw [hstep]
      obtain ⟨J', h1, h2, h3⟩ := path_step8 s hs
        ((bucketC 7).map (scaleNP s)) 7 rfl le_rfl
        (fun j hj1 hj2 => absurd (Nat.lt_of_lt_of_le hj1 hj2) (lt_irrefl _))
      exact ⟨J', by omega, h2, h3⟩
  · have hb' : decide (s * (1/11796480) ≥ 1 / 100) = false := decide_eq_false hbk
    have hscan := (scan_round_scale s hs false (10387/49152) (69247/327680) (1/11796480)
      (by norm_num) hb').trans (congrArg (scaleSeq s) scanT7_f)
    have hcond0 := cond_scale s hs ⟨⟨(249289/1179648), 1⟩, [⟨(249289/1179648), 1⟩], some []⟩
      ⟨s, 0, true, ⟨0, s⟩, 0, s / 2, scaleNP s ⟨(10387/49152), 1⟩, [scaleNP s ⟨(10387/49152), 1⟩], some og, 7, 40, false⟩ ⟨(10387/49152), 1⟩ rfl
    by_cases hcv : (scaleNP s ⟨(249289/1179648), 1⟩).is_equivalent_to (scaleNP s ⟨(10387/49152), 1⟩) = true
    · have hstep : get_highest_result_of_seq 34 (s * (10387/49152)) (s * (69247/327680))
          (s * (1/11796480)) ⟨s, 0, true, ⟨0, s⟩, 0, s / 2, scaleNP s ⟨(10387/49152), 1⟩, [scaleNP s ⟨(10387/49152), 1⟩], some og, 6, 40, false⟩ =
          ⟨s, 7, true, ⟨0, s⟩, 0, s / 2, scaleNP s ⟨(10387/49152), 1⟩, [scaleNP s ⟨(10387/49152), 1⟩], some og, 7, 40, true⟩ :=
        ghrs_step_converge 33 (s * (10387/49152)) (s * (69247/327680)) (s * (1/11796480)) _ _
          (by norm_num) hscan (by rw [hcond0, hle, Bool.false_or]; exact hcv)
      rw [hstep]
      exact ⟨J, le_rfl, by omega, by rw [hog]⟩
    · have hcond : condition_to_end_recursion
          (scaleSeq s ⟨⟨(249289/1179648), 1⟩, [⟨(249289/1179648), 1⟩], some []⟩)
          ⟨s, 0, true, ⟨0, s⟩, 0, s / 2, scaleNP s ⟨(10387/49152), 1⟩, [scaleNP s ⟨(10387/49152), 1⟩], some og, 7, 40, false⟩ = false := by
        rw [hcond0, hle, Bool.false_or]
        exact Bool.eq_false_iff.mpr hcv
      have hg2 : promote_round (s * (1/11796480))
          (scaleSeq s ⟨⟨(249289/1179648), 1⟩, [⟨(249289/1179648), 1⟩], some []⟩) ⟨s, 0, true, ⟨0, s⟩, 0, s / 2, scaleNP s ⟨(10387/49152), 1⟩, [scaleNP s ⟨(10387/49152), 1⟩], some og, 7, 40, false⟩ =
          ⟨s, 0, true, ⟨0, s⟩, 0, s / 2, scaleNP s ⟨(249289/1179648), 1⟩, [scaleNP s ⟨(249289/1179648), 1⟩], some og, 7, 40, false⟩ := by
        rw [promote_round_scale s hs (s * (1/11796480)) false hb' _ [] rfl _
          [⟨(10387/49152), 1⟩] (bucketC J) rfl rfl rfl (by rw [hog]), filter_can_false]
        simp only [List.append_nil]
        rw [← hog]
        rfl
      have hstep : get_highest_result_of_seq 34 (s * (10387/49152)) (s * (69247/327680))
          (s * (1/11796480)) ⟨s, 0, true, ⟨0, s⟩, 0, s / 2, scaleNP s ⟨(10387/49152), 1⟩, [scaleNP s ⟨(10387/49152), 1⟩], some og, 6, 40, false⟩ =
          get_highest_result_of_seq 33 (s * (4985779/23592960)) (s * (1661927/7864320)) (s * (1/330301440))
            ⟨s, 0, true, ⟨0, s⟩, 0, s / 2, scaleNP s ⟨(249289/1179648), 1⟩, [scaleNP s ⟨(249289/1179648), 1⟩], some og, 7, 40, false⟩ :=
        ghrs_step_continue 33 (s * (10387/49152)) (s * (69247/327680)) (s * (1/11796480)) _ _ _
          (s * (4985779/23592960)) (s * (1661927/7864320)) (s * (1/330301440)) (by norm_num) hscan hcond hg2
          hnl hnh hnp
      rw [hstep]
      obtain ⟨J', h1, h2, h3⟩ := path_step8 s hs og J hog (by omega)
        (fun j hj1 hj2 => by
          rcases Nat.lt_or_ge j 7 with hlt | hge
          · exact hflag j hj1 (by omega)
          · have hjk : j = 7 := by omega
            subst hjk
            exact hbk)
      exact ⟨J', h1, h2, h3⟩

/-- Round 6 of the search path: either the round converges here, or the
bucket grows by exactly the round-6 contribution (when eligible) and the
search continues into round 7. -/
theorem path_step6 (s : ℚ) (hs : 0 < s) (og : List NumberPairing) (J : ℕ)
    (hog : og = (bucketC J).map (scaleNP s))
    (hJ : J ≤ 5)
    (hflag : ∀ j, J < j → j ≤ 5 → ¬((1 : ℚ) / 100 ≤ s * pval j)) :
    ∃ J', J ≤ J' ∧ J' ≤ 10 ∧
      (get_highest_result_of_seq 35 (s * (10387/49152)) (s * (3463/16384)) (s * (1/491520))
          ⟨s, 0, true, ⟨0, s⟩, 0, s / 2, scaleNP s ⟨(2597/12288), 1⟩, [scaleNP s ⟨(2597/12288), 1⟩], some og, 5, 40, false⟩).other_results
        = some ((bucketC J').map (scaleNP s)) := by
  have hle : (NumberPairing.mk (10387/49152) 1).le ⟨(2597/12288), 1⟩ = false := by
    norm_num [NumberPairing.le, NumberPairing.cmp, NumberPairing.result,
      NumberPairing.product, NumberPairing.difference, NumberPairing.second,
      NumberPairing.first, abs_of_nonneg, abs_of_nonpos,
      show (Ordering.gt == Ordering.gt) = true from rfl,
      show (Ordering.lt == Ordering.gt) = false from rfl,
      show (Ordering.eq == Ordering.gt) = false from rfl]
  have hnl : next_low_value (s * (10387/49152)) (s * (1/491520)) (s * (10387/49152)) = s * (10387/49152) := by
    rw [next_low_value, if_pos (by rw [show s * (10387/49152) - s * (1/491520) / 2 = s * ((207739/983040) : ℚ) by ring]; exact mul_lt_mul_of_pos_left (by norm_num) hs)]
  have hnh : next_high_value (s * (3463/16384)) (s * (1/491520)) (s * (10387/49152)) = s * (69247/327680) := by
    rw [next_high_value, if_neg (by rw [show s * (10387/49152) + s * (1/491520) / 2 = s * ((69247/327680) : ℚ) by ring]; exact not_lt.mpr (mul_le_mul_of_nonneg_left (by norm_num) hs.le))]; ring
  have hnp : next_precision (s * (1/491520)) 6 = s * (1/11796480) := by
    simp only [next_precision]
    push_cast
    ring
  by_cases hbk : (1 : ℚ) / 100 ≤ s * (1/491520)
  · have hJeq : J = 5 := by
      by_contra hne
      have hpm : ∀ j, 1 ≤ j → j ≤ 5 → pval 6 ≤ pval j := by
        intro j hj1 hj2
        interval_cases j
        all_goals norm_num [pval]
      refine hflag (J + 1) (Nat.lt_succ_self J) (by omega) ?_
      have h2 := hpm (J + 1) (by omega) (by omega)
      have h3 := mul_le_mul_of_nonneg_left h2 hs.le
      have h4 : pval 6 = (1/491520) := rfl
      rw [h4] at h3
      exact le_trans hbk h3
    subst hJeq
    subst hog
    have hb' : decide (s * (1/491520) ≥ 1 / 100) = true := decide_eq_true hbk
    have hscan := (scan_round_scale s hs true (10387/49152) (3463/16384) (1/491520)
      (by norm_num) hb').trans (congrArg (scaleSeq s) scanT6_t)
    have hcond0 := cond_scale s hs ⟨⟨(10387/49152), 1⟩, [⟨(10387/49152), 1⟩], some [⟨(103871/491520), 1⟩, ⟨(541/2560), 1⟩, ⟨(103873/491520), 1⟩, ⟨(51937/245760), 1⟩, ⟨(6925/32768), 1⟩, ⟨(25969/122880), 1⟩, ⟨(103877/491520), 1⟩, ⟨(17313/81920), 1⟩, ⟨(103879/491520), 1⟩, ⟨(2597/12288), 1⟩, ⟨(34627/163840), 1⟩, ⟨(51941/245760), 1⟩, ⟨(103883/491520), 1⟩, ⟨(8657/40960), 1⟩, ⟨(20777/98304), 1⟩, ⟨(51943/245760), 1⟩, ⟨(34629/163840), 1⟩, ⟨(6493/30720), 1⟩, ⟨(103889/491520), 1⟩, ⟨(3463/16384), 1⟩]⟩
      ⟨s, 0, true, ⟨0, s⟩, 0, s / 2, scaleNP s ⟨(2597/12288), 1⟩, [scaleNP s ⟨(2597/12288), 1⟩], some ((bucketC 5).map (scaleNP s)), 6, 40, false⟩ ⟨(2597/12288), 1⟩ rfl
    by_cases hcv : (scaleNP s ⟨(10387/49152), 1⟩).is_equivalent_to (scaleNP s ⟨(2597/12288), 1⟩) = true
    · have hstep : get_highest_result_of_seq 35 (s * (10387/49152)) (s * (3463/16384))
          (s * (1/491520)) ⟨s, 0, true, ⟨0, s⟩, 0, s / 2, scaleNP s ⟨(2597/12288), 1⟩, [scaleNP s ⟨(2597/12288), 1⟩], some ((bucketC 5).map (scaleNP s)), 5, 40, false⟩ =
          ⟨s, 6, true, ⟨0, s⟩, 0, s / 2, scaleNP s ⟨(2597/12288), 1⟩, [scaleNP s ⟨(2597/12288), 1⟩], some ((bucketC 5).map (scaleNP s)), 6, 40, true⟩ :=
        ghrs_step_converge 34 (s * (10387/49152)) (s * (3463/16384)) (s * (1/491520)) _ _
          (by norm_num) hscan (by rw [hcond0, hle, Bool.false_or]; exact hcv)
      rw [hstep]
      exact ⟨5, le_rfl, by norm_num, rfl⟩
    · have hcond : condition_to_end_recursion
          (scaleSeq s ⟨⟨(10387/49152), 1⟩, [⟨(10387/49152), 1⟩], some [⟨(103871/491520), 1⟩, ⟨(541/2560), 1⟩, ⟨(103873/491520), 1⟩, ⟨(51937/245760), 1⟩, ⟨(6925/32768), 1⟩, ⟨(25969/122880), 1⟩, ⟨(103877/491520), 1⟩, ⟨(17313/81920), 1⟩, ⟨(103879/491520), 1⟩, ⟨(2597/12288), 1⟩, ⟨(34627/163840), 1⟩, ⟨(51941/245760), 1⟩, ⟨(103883/491520), 1⟩, ⟨(8657/40960), 1⟩, ⟨(20777/98304), 1⟩, ⟨(51943/245760), 1⟩, ⟨(34629/163840), 1⟩, ⟨(6493/30720), 1⟩, ⟨(103889/491520), 1⟩, ⟨(3463/16384), 1⟩]⟩)
          ⟨s, 0, true, ⟨0, s⟩, 0, s / 2, scaleNP s ⟨(2597/12288), 1⟩, [scaleNP s ⟨(2597/12288), 1⟩], some ((bucketC 5).map (scaleNP s)), 6, 40, false⟩ = false := by
        rw [hcond0, hle, Bool.false_or]
        exact Bool.eq_false_iff.mpr hcv
      have hfl : [(⟨(2597/12288), 1⟩ : NumberPairing)].filter
          (can_be_added_to_other ⟨0, 1⟩ (precision_flag true) true) =
          [⟨(2597/12288), 1⟩] := by
        norm_num [List.filter, can_be_added_to_other, precision_flag,
          NumberPairing.eq, NumberPairing.first, NumberPairing.second]
      have hbEq : bucketC 5 ++ ([⟨(103871/491520), 1⟩, ⟨(541/2560), 1⟩, ⟨(103873/491520), 1⟩, ⟨(51937/245760), 1⟩, ⟨(6925/32768), 1⟩, ⟨(25969/122880), 1⟩, ⟨(103877/491520), 1⟩, ⟨(17313/81920), 1⟩, ⟨(103879/491520), 1⟩, ⟨(2597/12288), 1⟩, ⟨(34627/163840), 1⟩, ⟨(51941/245760), 1⟩, ⟨(103883/491520), 1⟩, ⟨(8657/40960), 1⟩, ⟨(20777/98304), 1⟩, ⟨(51943/245760), 1⟩, ⟨(34629/163840), 1⟩, ⟨(6493/30720), 1⟩, ⟨(103889/491520), 1⟩, ⟨(3463/16384), 1⟩] ++ [(⟨(2597/12288), 1⟩ : NumberPairing)]) =
          bucketC 6 := rfl
      have hg2 : promote_round (s * (1/491520))
          (scaleSeq s ⟨⟨(10387/49152), 1⟩, [⟨(10387/49152), 1⟩], some [⟨(103871/491520), 1⟩, ⟨(541/2560), 1⟩, ⟨(103873/491520), 1⟩, ⟨(51937/245760), 1⟩, ⟨(6925/32768), 1⟩, ⟨(25969/122880), 1⟩, ⟨(103877/491520), 1⟩, ⟨(17313/81920), 1⟩, ⟨(103879/491520), 1⟩, ⟨(2597/12288), 1⟩, ⟨(34627/163840), 1⟩, ⟨(51941/245760), 1⟩, ⟨(103883/491520), 1⟩, ⟨(8657/40960), 1⟩, ⟨(20777/98304), 1⟩, ⟨(51943/245760), 1⟩, ⟨(34629/163840), 1⟩, ⟨(6493/30720), 1⟩, ⟨(103889/491520), 1⟩, ⟨(3463/16384), 1⟩]⟩) ⟨s, 0, true, ⟨0, s⟩, 0, s / 2, scaleNP s ⟨(2597/12288), 1⟩, [scaleNP s ⟨(2597/12288), 1⟩], some ((bucketC 5).map (scaleNP s)), 6, 40, false⟩ =
          ⟨s, 0, true, ⟨0, s⟩, 0, s / 2, scaleNP s ⟨(10387/49152), 1⟩, [scaleNP s ⟨(10387/49152), 1⟩], some ((bucketC 6).map (scaleNP s)), 6, 40, false⟩ := by
        rw [promote_round_scale s hs (s * (1/491520)) true hb' _ [⟨(103871/491520), 1⟩, ⟨(541/2560), 1⟩, ⟨(103873/491520), 1⟩, ⟨(51937/245760), 1⟩, ⟨(6925/32768), 1⟩, ⟨(25969/122880), 1⟩, ⟨(103877/491520), 1⟩, ⟨(17313/81920), 1⟩, ⟨(103879/491520), 1⟩, ⟨(2597/12288), 1⟩, ⟨(34627/163840), 1⟩, ⟨(51941/245760), 1⟩, ⟨(103883/491520), 1⟩, ⟨(8657/40960), 1⟩, ⟨(20777/98304), 1⟩, ⟨(51943/245760), 1⟩, ⟨(34629/163840), 1⟩, ⟨(6493/30720), 1⟩, ⟨(103889/491520), 1⟩, ⟨(3463/16384), 1⟩] rfl _
          [⟨(2597/12288), 1⟩] (bucketC 5) rfl rfl rfl rfl, hfl, hbEq]
        rfl
      have hstep : get_highest_result_of_seq 35 (s * (10387/49152)) (s * (3463/16384))
          (s * (1/491520)) ⟨s, 0, true, ⟨0, s⟩, 0, s / 2, scaleNP s ⟨(2597/12288), 1⟩, [scaleNP s ⟨(2597/12288), 1⟩], some ((bucketC 5).map (scaleNP s)), 5, 40, false⟩ =
          get_highest_result_of_seq 34 (s * (10387/49152)) (s * (69247/327680)) (s * (1/11796480))
            ⟨s, 0, true, ⟨0, s⟩, 0, s / 2, scaleNP s ⟨(10387/49152), 1⟩, [scaleNP s ⟨(10387/49152), 1⟩], some ((bucketC 6).map (scaleNP s)), 6, 40, false⟩ :=
        ghrs_step_continue 34 (s * (10387/49152)) (s * (3463/16384)) (s * (1/491520)) _ _ _
          (s * (10387/49152)) (s * (69247/327680)) (s * (1/11796480)) (by norm_num) hscan hcond hg2
          hnl hnh hnp
      rw [hstep]
      obtain ⟨J', h1, h2, h3⟩ := path_step7 s hs
        ((bucketC 6).map (scaleNP s)) 6 rfl le_rfl
        (fun j hj1 hj2 => absurd (Nat.lt_of_lt_of_le hj1 hj2) (lt_irrefl _))
      exact ⟨J', by omega, h2, h3⟩
  · have hb' : decide (s * (1/491520) ≥ 1 / 100) = false := decide_eq_false hbk
    have hscan := (scan_round_scale s hs false (10387/49152) (3463/16384) (1/491520)
      (by norm_num) hb').trans (congrArg (scaleSeq s) scanT6_f)
    have hcond0 := cond_scale s hs ⟨⟨(10387/49152), 1⟩, [⟨(10387/49152), 1⟩], some []⟩
      ⟨s, 0, true, ⟨0, s⟩, 0, s / 2, scaleNP s ⟨(2597/12288), 1⟩, [scaleNP s ⟨(2597/12288), 1⟩], some og, 6, 40, false⟩ ⟨(2597/12288), 1⟩ rfl
    by_cases hcv : (scaleNP s ⟨(10387/49152), 1⟩).is_equivalent_to (scaleNP s ⟨(2597/12288), 1⟩) = true
    · have hstep : get_highest_result_of_seq 35 (s * (10387/49152)) (s * (3463/16384))
          (s * (1/491520)) ⟨s, 0, true, ⟨0, s⟩, 0, s / 2, scaleNP s ⟨(2597/12288), 1⟩, [scaleNP s ⟨(2597/12288), 1⟩], some og, 5, 40, false⟩ =
          ⟨s, 6, true, ⟨0, s⟩, 0, s / 2, scaleNP s ⟨(2597/12288), 1⟩, [scaleNP s ⟨(2597/12288), 1⟩], some og, 6, 40, true⟩ :=
        ghrs_step_converge 34 (s * (10387/49152)) (s * (3463/16384)) (s * (1/491520)) _ _
          (by norm_num) hscan (by rw [hcond0, hle, Bool.false_or]; exact hcv)
      rw [hstep]
      exact ⟨J, le_rfl, by omega, by rw [hog]⟩
    · have hcond : condition_to_end_recursion
          (scaleSeq s ⟨⟨(10387/49152), 1⟩, [⟨(10387/49152), 1⟩], some []⟩)
          ⟨s, 0, true, ⟨0, s⟩, 0, s / 2, scaleNP s ⟨(2597/12288), 1⟩, [scaleNP s ⟨(2597/12288), 1⟩], some og, 6, 40, false⟩ = false := by
        rw [hcond0, hle, Bool.false_or]
        exact Bool.eq_false_iff.mpr hcv
      have hg2 : promote_round (s * (1/491520))
          (scaleSeq s ⟨⟨(10387/49152), 1⟩, [⟨(10387/49152), 1⟩], some []⟩) ⟨s, 0, true, ⟨0, s⟩, 0, s / 2, scaleNP s ⟨(2597/12288), 1⟩, [scaleNP s ⟨(2597/12288), 1⟩], some og, 6, 40, false⟩ =
          ⟨s, 0, true, ⟨0, s⟩, 0, s / 2, scaleNP s ⟨(10387/49152), 1⟩, [scaleNP s ⟨(10387/49152), 1⟩], some og, 6, 40, false⟩ := by
        rw [promote_round_scale s hs (s * (1/491520)) false hb' _ [] rfl _
          [⟨(2597/12288), 1⟩] (bucketC J) rfl rfl rfl (by rw [hog]), filter_can_false]
        simp only [List.append_nil]
        rw [← hog]
        rfl
      have hstep : get_highest_result_of_seq 35 (s * (10387/49152)) (s * (3463/16384))
          (s * (1/491520)) ⟨s, 0, true, ⟨0, s⟩, 0, s / 2, scaleNP s ⟨(2597/12288), 1⟩, [scaleNP s ⟨(2597/12288), 1⟩], some og, 5, 40, false⟩ =
          get_highest_result_of_seq 34 (s * (10387/49152)) (s * (69247/327680)) (s * (1/11796480))
            ⟨s, 0, true, ⟨0, s⟩, 0, s / 2, scaleNP s ⟨(10387/49152), 1⟩, [scaleNP s ⟨(10387/49152), 1⟩], some og, 6, 40, false⟩ :=
        ghrs_step_continue 34 (s * (10387/49152)) (s * (3463/16384)) (s * (1/491520)) _ _ _
          (s * (10387/49152)) (s * (69247/327680)) (s * (1/11796480)) (by norm_num) hscan hcond hg2
          hnl hnh hnp
      rw [hstep]
      obtain ⟨J', h1, h2, h3⟩ := path_step7 s hs og J hog (by omega)
        (fun j hj1 hj2 => by
          rcases Nat.lt_or_ge j 6 with hlt | hge
          · exact hflag j hj1 (by omega)
          · have hjk : j = 6 := by omega
            subst hjk
            exact hbk)
      exact ⟨J', h1, h2, h3⟩

/-- Round 5 of the search path: either the round converges here, or the
bucket grows by exactly the round-5 contribution (when eligible) and the
search continues into round 6. -/
theorem path_step5 (s : ℚ) (hs : 0 < s) (og : List NumberPairing) (J : ℕ)
    (hog : og = (bucketC J).map (scaleNP s))
    (hJ : J ≤ 4)
    (hflag : ∀ j, J < j → j ≤ 4 → ¬((1 : ℚ) / 100 ≤ s * pval j)) :
    ∃ J', J ≤ J' ∧ J' ≤ 10 ∧
      (get_highest_result_of_seq 36 (s * (649/3072)) (s * (217/1024)) (s * (1/24576))
          ⟨s, 0, true, ⟨0, s⟩, 0, s / 2, scaleNP s ⟨(325/1536), 1⟩, [scaleNP s ⟨(325/1536), 1⟩], some og, 4, 40, false⟩).other_results
        = some ((bucketC J').map (scaleNP s)) := by
  have hle : (NumberPairing.mk (2597/12288) 1).le ⟨(325/1536), 1⟩ = false := by
    norm_num [NumberPairing.le, NumberPairing.cmp, NumberPairing.result,
      NumberPairing.product, NumberPairing.difference, NumberPairing.second,
      NumberPairing.first, abs_of_nonneg, abs_of_nonpos,
      show (Ordering.gt == Ordering.gt) = true from rfl,
      show (Ordering.lt == Ordering.gt) = false from rfl,
      show (Ordering.eq == Ordering.gt) = false from rfl]
  have hnl : next_low_value (s * (649/3072)) (s * (1/24576)) (s * (2597/12288)) = s * (10387/49152) := by
    rw [next_low_value, if_neg (by rw [show s * (2597/12288) - s * (1/24576) / 2 = s * ((10387/49152) : ℚ) by ring]; exact not_lt.mpr (mul_le_mul_of_nonneg_left (by norm_num) hs.le))]; ring
  have hnh : next_high_value (s * (217/1024)) (s * (1/24576)) (s * (2597/12288)) = s * (3463/16384) := by
    rw [next_high_value, if_neg (by rw [show s * (2597/12288) + s * (1/24576) / 2 = s * ((3463/16384) : ℚ) by ring]; exact not_lt.mpr (mul_le_mul_of_nonneg_left (by norm_num) hs.le))]; ring
  have hnp : next_precision (s * (1/24576)) 5 = s * (1/491520) := by
    simp only [next_precision]
    push_cast
    ring
  by_cases hbk : (1 : ℚ) / 100 ≤ s * (1/24576)
  · have hJeq : J = 4 := by
      by_contra hne
      have hpm : ∀ j, 1 ≤ j → j ≤ 4 → pval 5 ≤ pval j := by
        intro j hj1 hj2
        interval_cases j
        all_goals norm_num [pval]
      refine hflag (J + 1) (Nat.lt_succ_self J) (by omega) ?_
      have h2 := hpm (J + 1) (by omega) (by omega)
      have h3 := mul_le_mul_of_nonneg_left h2 hs.le
      have h4 : pval 5 = (1/24576) := rfl
      rw [h4] at h3
      exact le_trans hbk h3
    subst hJeq
    subst hog
    have hb' : decide (s * (1/24576) ≥ 1 / 100) = true := decide_eq_true hbk
    have hscan := (scan_round_scale s hs true (649/3072) (217/1024) (1/24576)
      (by norm_num) hb').trans (congrArg (scaleSeq s) scanT5_t)
    have hcond0 := cond_scale s hs ⟨⟨(2597/12288), 1⟩, [⟨(2597/12288), 1⟩], some [⟨(649/3072), 1⟩, ⟨(1731/8192), 1⟩, ⟨(5195/24576), 1⟩, ⟨(433/2048), 1⟩, ⟨(5197/24576), 1⟩, ⟨(2599/12288), 1⟩, ⟨(1733/8192), 1⟩, ⟨(325/1536), 1⟩, ⟨(5201/24576), 1⟩, ⟨(867/4096), 1⟩, ⟨(5203/24576), 1⟩, ⟨(1301/6144), 1⟩, ⟨(1735/8192), 1⟩, ⟨(2603/12288), 1⟩, ⟨(5207/24576), 1⟩, ⟨(217/1024), 1⟩]⟩
      ⟨s, 0, true, ⟨0, s⟩, 0, s / 2, scaleNP s ⟨(325/1536), 1⟩, [scaleNP s ⟨(325/1536), 1⟩], some ((bucketC 4).map (scaleNP s)), 5, 40, false⟩ ⟨(325/1536), 1⟩ rfl
    by_cases hcv : (scaleNP s ⟨(2597/12288), 1⟩).is_equivalent_to (scaleNP s ⟨(325/1536), 1⟩) = true
    · have hstep : get_highest_result_of_seq 36 (s * (649/3072)) (s * (217/1024))
          (s * (1/24576)) ⟨s, 0, true, ⟨0, s⟩, 0, s / 2, scaleNP s ⟨(325/1536), 1⟩, [scaleNP s ⟨(325/1536), 1⟩], some ((bucketC 4).map (scaleNP s)), 4, 40, false⟩ =
          ⟨s, 5, true, ⟨0, s⟩, 0, s / 2, scaleNP s ⟨(325/1536), 1⟩, [scaleNP s ⟨(325/1536), 1⟩], some ((bucketC 4).map (scaleNP s)), 5, 40, true⟩ :=
        ghrs_step_converge 35 (s * (649/3072)) (s * (217/1024)) (s * (1/24576)) _ _
          (by norm_num) hscan (by rw [hcond0, hle, Bool.false_or]; exact hcv)
      rw [hstep]
      exact ⟨4, le_rfl, by norm_num, rfl⟩
    · have hcond : condition_to_end_recursion
          (scaleSeq s ⟨⟨(2597/12288), 1⟩, [⟨(2597/12288), 1⟩], some [⟨(649/3072), 1⟩, ⟨(1731/8192), 1⟩, ⟨(5195/24576), 1⟩, ⟨(433/2048), 1⟩, ⟨(5197/24576), 1⟩, ⟨(2599/12288), 1⟩, ⟨(1733/8192), 1⟩, ⟨(325/1536), 1⟩, ⟨(5201/24576), 1⟩, ⟨(867/4096), 1⟩, ⟨(5203/24576), 1⟩, ⟨(1301/6144), 1⟩, ⟨(1735/8192), 1⟩, ⟨(2603/12288), 1⟩, ⟨(5207/24576), 1⟩, ⟨(217/1024), 1⟩]⟩)
          ⟨s, 0, true, ⟨0, s⟩, 0, s / 2, scaleNP s ⟨(325/1536), 1⟩, [scaleNP s ⟨(325/1536), 1⟩], some ((bucketC 4).map (scaleNP s)), 5, 40, false⟩ = false := by
        rw [hcond0, hle, Bool.false_or]
        exact Bool.eq_false_iff.mpr hcv
      have hfl : [(⟨(325/1536), 1⟩ : NumberPairing)].filter
          (can_be_added_to_other ⟨0, 1⟩ (precision_flag true) true) =
          [⟨(325/1536), 1⟩] := by
        norm_num [List.filter, can_be_added_to_other, precision_flag,
          NumberPairing.eq, NumberPairing.first, NumberPairing.second]
      have hbEq : bucketC 4 ++ ([⟨(649/3072), 1⟩, ⟨(1731/8192), 1⟩, ⟨(5195/24576), 1⟩, ⟨(433/2048), 1⟩, ⟨(5197/24576), 1⟩, ⟨(2599/12288), 1⟩, ⟨(1733/8192), 1⟩, ⟨(325/1536), 1⟩, ⟨(5201/24576), 1⟩, ⟨(867/4096), 1⟩, ⟨(5203/24576), 1⟩, ⟨(1301/6144), 1⟩, ⟨(1735/8192), 1⟩, ⟨(2603/12288), 1⟩, ⟨(5207/24576), 1⟩, ⟨(217/1024), 1⟩] ++ [(⟨(325/1536), 1⟩ : NumberPairing)]) =
          bucketC 5 := rfl
      have hg2 : promote_round (s * (1/24576))
          (scaleSeq s ⟨⟨(2597/12288), 1⟩, [⟨(2597/12288), 1⟩], some [⟨(649/3072), 1⟩, ⟨(1731/8192), 1⟩, ⟨(5195/24576), 1⟩, ⟨(433/2048), 1⟩, ⟨(5197/24576), 1⟩, ⟨(2599/12288), 1⟩, ⟨(1733/8192), 1⟩, ⟨(325/1536), 1⟩, ⟨(5201/24576), 1⟩, ⟨(867/4096), 1⟩, ⟨(5203/24576), 1⟩, ⟨(1301/6144), 1⟩, ⟨(1735/8192), 1⟩, ⟨(2603/12288), 1⟩, ⟨(5207/24576), 1⟩, ⟨(217/1024), 1⟩]⟩) ⟨s, 0, true, ⟨0, s⟩, 0, s / 2, scaleNP s ⟨(325/1536), 1⟩, [scaleNP s ⟨(325/1536), 1⟩], some ((bucketC 4).map (scaleNP s)), 5, 40, false⟩ =
          ⟨s, 0, true, ⟨0, s⟩, 0, s / 2, scaleNP s ⟨(2597/12288), 1⟩, [scaleNP s ⟨(2597/12288), 1⟩], some ((bucketC 5).map (scaleNP s)), 5, 40, false⟩ := by
        rw [promote_round_scale s hs (s * (1/24576)) true hb' _ [⟨(649/3072), 1⟩, ⟨(1731/8192), 1⟩, ⟨(5195/24576), 1⟩, ⟨(433/2048), 1⟩, ⟨(5197/24576), 1⟩, ⟨(2599/12288), 1⟩, ⟨(1733/8192), 1⟩, ⟨(325/1536), 1⟩, ⟨(5201/24576), 1⟩, ⟨(867/4096), 1⟩, ⟨(5203/24576), 1⟩, ⟨(1301/6144), 1⟩, ⟨(1735/8192), 1⟩, ⟨(2603/12288), 1⟩, ⟨(5207/24576), 1⟩, ⟨(217/1024), 1⟩] rfl _
          [⟨(325/1536), 1⟩] (bucketC 4) rfl rfl rfl rfl, hfl, hbEq]
        rfl
      have hstep : get_highest_result_of_seq 36 (s * (649/3072)) (s * (217/1024))
          (s * (1/24576)) ⟨s, 0, true, ⟨0, s⟩, 0, s / 2, scaleNP s ⟨(325/1536), 1⟩, [scaleNP s ⟨(325/1536), 1⟩], some ((bucketC 4).map (scaleNP s)), 4, 40, false⟩ =
          get_highest_result_of_seq 35 (s * (10387/49152)) (s * (3463/16384)) (s * (1/491520))
            ⟨s, 0, true, ⟨0, s⟩, 0, s / 2, scaleNP s ⟨(2597/12288), 1⟩, [scaleNP s ⟨(2597/12288), 1⟩], some ((bucketC 5).map (scaleNP s)), 5, 40, false⟩ :=
        ghrs_step_continue 35 (s * (649/3072)) (s * (217/1024)) (s * (1/24576)) _ _ _
          (s * (10387/49152)) (s * (3463/16384)) (s * (1/491520)) (by norm_num) hscan hcond hg2
          hnl hnh hnp
      rw [hstep]
      obtain ⟨J', h1, h2, h3⟩ := path_step6 s hs
        ((bucketC 5).map (scaleNP s)) 5 rfl le_rfl
        (fun j hj1 hj2 => absurd (Nat.lt_of_lt_of_le hj1 hj2) (lt_irrefl _))
      exact ⟨J', by omega, h2, h3⟩
  · have hb' : decide (s * (1/24576) ≥ 1 / 100) = false := decide_eq_false hbk
    have hscan := (scan_round_scale s hs false (649/3072) (217/1024) (1/24576)
      (by norm_num) hb').trans (congrArg (scaleSeq s) scanT5_f)
    have hcond0 := cond_scale s hs ⟨⟨(2597/12288), 1⟩, [⟨(2597/12288), 1⟩], some []⟩
      ⟨s, 0, true, ⟨0, s⟩, 0, s / 2, scaleNP s ⟨(325/1536), 1⟩, [scaleNP s ⟨(325/1536), 1⟩], some og, 5, 40, false⟩ ⟨(325/1536), 1⟩ rfl
    by_cases hcv : (scaleNP s ⟨(2597/12288), 1⟩).is_equivalent_to (scaleNP s ⟨(325/1536), 1⟩) = true
    · have hstep : get_highest_result_of_seq 36 (s * (649/3072)) (s * (217/1024))
          (s * (1/24576)) ⟨s, 0, true, ⟨0, s⟩, 0, s / 2, scaleNP s ⟨(325/1536), 1⟩, [scaleNP s ⟨(325/1536), 1⟩], some og, 4, 40, false⟩ =
          ⟨s, 5, true, ⟨0, s⟩, 0, s / 2, scaleNP s ⟨(325/1536), 1⟩, [scaleNP s ⟨(325/1536), 1⟩], some og, 5, 40, true⟩ :=
        ghrs_step_converge 35 (s * (649/3072)) (s * (217/1024)) (s * (1/24576)) _ _
          (by norm_num) hscan (by rw [hcond0, hle, Bool.false_or]; exact hcv)
      rw [hstep]
      exact ⟨J, le_rfl, by omega, by rw [hog]⟩
    · have hcond : condition_to_end_recursion
          (scaleSeq s ⟨⟨(2597/12288), 1⟩, [⟨(2597/12288), 1⟩], some []⟩)
          ⟨s, 0, true, ⟨0, s⟩, 0, s / 2, scaleNP s ⟨(325/1536), 1⟩, [scaleNP s ⟨(325/1536), 1⟩], some og, 5, 40, false⟩ = false := by
        rw [hcond0, hle, Bool.false_or]
        exact Bool.eq_false_iff.mpr hcv
      have hg2 : promote_round (s * (1/24576))
          (scaleSeq s ⟨⟨(2597/12288), 1⟩, [⟨(2597/12288), 1⟩], some []⟩) ⟨s, 0, true, ⟨0, s⟩, 0, s / 2, scaleNP s ⟨(325/1536), 1⟩, [scaleNP s ⟨(325/1536), 1⟩], some og, 5, 40, false⟩ =
          ⟨s, 0, true, ⟨0, s⟩, 0, s / 2, scaleNP s ⟨(2597/12288), 1⟩, [scaleNP s ⟨(2597/12288), 1⟩], some og, 5, 40, false⟩ := by
        rw [promote_round_scale s hs (s * (1/24576)) false hb' _ [] rfl _
          [⟨(325/1536), 1⟩] (bucketC J) rfl rfl rfl (by rw [hog]), filter_can_false]
        simp only [List.append_nil]
        rw [← hog]
        rfl
      have hstep : get_highest_result_of_seq 36 (s * (649/3072)) (s * (217/1024))
          (s * (1/24576)) ⟨s, 0, true, ⟨0, s⟩, 0, s / 2, scaleNP s ⟨(325/1536), 1⟩, [scaleNP s ⟨(325/1536), 1⟩], some og, 4, 40, false⟩ =
          get_highest_result_of_seq 35 (s * (10387/49152)) (s * (3463/16384)) (s * (1/491520))
            ⟨s, 0, true, ⟨0, s⟩, 0, s / 2, scaleNP s ⟨(2597/12288), 1⟩, [scaleNP s ⟨(2597/12288), 1⟩], some og, 5, 40, false⟩ :=
        ghrs_step_continue 35 (s * (649/3072)) (s * (217/1024)) (s * (1/24576)) _ _ _
          (s * (10387/49152)) (s * (3463/16384)) (s * (1/491520)) (by norm_num) hscan hcond hg2
          hnl hnh hnp
      rw [hstep]
      obtain ⟨J', h1, h2, h3⟩ := path_step6 s hs og J hog (by omega)
        (fun j hj1 hj2 => by
          rcases Nat.lt_or_ge j 5 with hlt | hge
          · exact hflag j hj1 (by omega)
          · have hjk : j = 5 := by omega
            subst hjk
            exact hbk)
      exact ⟨J', h1, h2, h3⟩

/-- Round 4 of the search path: either the round converges here, or the
bucket grows by exactly the round-4 contribution (when eligible) and the
search continues into round 5. -/
theorem path_step4 (s : ℚ) (hs : 0 < s) (og : List NumberPairing) (J : ℕ)
    (hog : og = (bucketC J).map (scaleNP s))
    (hJ : J ≤ 3)
    (hflag : ∀ j, J < j → j ≤ 3 → ¬((1 : ℚ) / 100 ≤ s * pval j)) :
    ∃ J', J ≤ J' ∧ J' ≤ 10 ∧
      (get_highest_result_of_seq 37 (s * (53/256)) (s * (55/256)) (s * (1/1536))
          ⟨s, 0, true, ⟨0, s⟩, 0, s / 2, scaleNP s ⟨(27/128), 1⟩, [scaleNP s ⟨(27/128), 1⟩], some og, 3, 40, false⟩).other_results
        = some ((bucketC J').map (scaleNP s)) := by
  have hle : (NumberPairing.mk (325/1536) 1).le ⟨(27/128), 1⟩ = false := by
    norm_num [NumberPairing.le, NumberPairing.cmp, NumberPairing.result,
      NumberPairing.product, NumberPairing.difference, NumberPairing.second,
      NumberPairing.first, abs_of_nonneg, abs_of_nonpos,
      show (Ordering.gt == Ordering.gt) = true from rfl,
      show (Ordering.lt == Ordering.gt) = false from rfl,
      show (Ordering.eq == Ordering.gt) = false from rfl]
  have hnl : next_low_value (s * (53/256)) (s * (1/1536)) (s * (325/1536)) = s * (649/3072) := by
    rw [next_low_value, if_neg (by rw [show s * (325/1536) - s * (1/1536) / 2 = s * ((649/3072) : ℚ) by ring]; exact not_lt.mpr (mul_le_mul_of_nonneg_left (by norm_num) hs.le))]; ring
  have hnh : next_high_value (s * (55/256)) (s * (1/1536)) (s * (325/1536)) = s * (217/1024) := by
    rw [next_high_value, if_neg (by rw [show s * (325/1536) + s * (1/1536) / 2 = s * ((217/1024) : ℚ) by ring]; exact not_lt.mpr (mul_le_mul_of_nonneg_left (by norm_num) hs.le))]; ring
  have hnp : next_precision (s * (1/1536)) 4 = s * (1/24576) := by
    simp only [next_precision]
    push_cast
    ring
  by_cases hbk : (1 : ℚ) / 100 ≤ s * (1/1536)
  · have hJeq : J = 3 := by
      by_contra hne
      have hpm : ∀ j, 1 ≤ j → j ≤ 3 → pval 4 ≤ pval j := by
        intro j hj1 hj2
        interval_cases j
        all_goals norm_num [pval]
      refine hflag (J + 1) (Nat.lt_succ_self J) (by omega) ?_
      have h2 := hpm (J + 1) (by omega) (by omega)
      have h3 := mul_le_mul_of_nonneg_left h2 hs.le
      have h4 : pval 4 = (1/1536) := rfl
      rw [h4] at h3
      exact le_trans hbk h3
    subst hJeq
    subst hog
    have hb' : decide (s * (1/1536) ≥ 1 / 100) = true := decide_eq_true hbk
    have hscan := (scan_round_scale s hs true (53/256) (55/256) (1/1536)
      (by norm_num) hb').trans (congrArg (scaleSeq s) scanT4_t)
    have hcond0 := cond_scale s hs ⟨⟨(325/1536), 1⟩, [⟨(325/1536), 1⟩], some [⟨(53/256), 1⟩, ⟨(319/1536), 1⟩, ⟨(5/24), 1⟩, ⟨(107/512), 1⟩, ⟨(161/768), 1⟩, ⟨(323/1536), 1⟩, ⟨(27/128), 1⟩, ⟨(163/768), 1⟩, ⟨(109/512), 1⟩, ⟨(41/192), 1⟩, ⟨(329/1536), 1⟩, ⟨(55/256), 1⟩]⟩
      ⟨s, 0, true, ⟨0, s⟩, 0, s / 2, scaleNP s ⟨(27/128), 1⟩, [scaleNP s ⟨(27/128), 1⟩], some ((bucketC 3).map (scaleNP s)), 4, 40, false⟩ ⟨(27/128), 1⟩ rfl
    by_cases hcv : (scaleNP s ⟨(325/1536), 1⟩).is_equivalent_to (scaleNP s ⟨(27/128), 1⟩) = true
    · have hstep : get_highest_result_of_seq 37 (s * (53/256)) (s * (55/256))
          (s * (1/1536)) ⟨s, 0, true, ⟨0, s⟩, 0, s / 2, scaleNP s ⟨(27/128), 1⟩, [scaleNP s ⟨(27/128), 1⟩], some ((bucketC 3).map (scaleNP s)), 3, 40, false⟩ =
          ⟨s, 4, true, ⟨0, s⟩, 0, s / 2, scaleNP s ⟨(27/128), 1⟩, [scaleNP s ⟨(27/128), 1⟩], some ((bucketC 3).map (scaleNP s)), 4, 40, true⟩ :=
        ghrs_step_converge 36 (s * (53/256)) (s * (55/256)) (s * (1/1536)) _ _
          (by norm_num) hscan (by rw [hcond0, hle, Bool.false_or]; exact hcv)
      rw [hstep]
      exact ⟨3, le_rfl, by norm_num, rfl⟩
    · have hcond : condition_to_end_recursion
          (scaleSeq s ⟨⟨(325/1536), 1⟩, [⟨(325/1536), 1⟩], some [⟨(53/256), 1⟩, ⟨(319/1536), 1⟩, ⟨(5/24), 1⟩, ⟨(107/512), 1⟩, ⟨(161/768), 1⟩, ⟨(323/1536), 1⟩, ⟨(27/128), 1⟩, ⟨(163/768), 1⟩, ⟨(109/512), 1⟩, ⟨(41/192), 1⟩, ⟨(329/1536), 1⟩, ⟨(55/256), 1⟩]⟩)
          ⟨s, 0, true, ⟨0, s⟩, 0, s / 2, scaleNP s ⟨(27/128), 1⟩, [scaleNP s ⟨(27/128), 1⟩], some ((bucketC 3).map (scaleNP s)), 4, 40, false⟩ = false := by
        rw [hcond0, hle, Bool.false_or]
        exact Bool.eq_false_iff.mpr hcv
      have hfl : [(⟨(27/128), 1⟩ : NumberPairing)].filter
          (can_be_added_to_other ⟨0, 1⟩ (precision_flag true) true) =
          [⟨(27/128), 1⟩] := by
        norm_num [List.filter, can_be_added_to_other, precision_flag,
          NumberPairing.eq, NumberPairing.first, NumberPairing.second]
      have hbEq : bucketC 3 ++ ([⟨(53/256), 1⟩, ⟨(319/1536), 1⟩, ⟨(5/24), 1⟩, ⟨(107/512), 1⟩, ⟨(161/768), 1⟩, ⟨(323/1536), 1⟩, ⟨(27/128), 1⟩, ⟨(163/768), 1⟩, ⟨(109/512), 1⟩, ⟨(41/192), 1⟩, ⟨(329/1536), 1⟩, ⟨(55/256), 1⟩] ++ [(⟨(27/128), 1⟩ : NumberPairing)]) =
          bucketC 4 := rfl
      have hg2 : promote_round (s * (1/1536))
          (scaleSeq s ⟨⟨(325/1536), 1⟩, [⟨(325/1536), 1⟩], some [⟨(53/256), 1⟩, ⟨(319/1536), 1⟩, ⟨(5/24), 1⟩, ⟨(107/512), 1⟩, ⟨(161/768), 1⟩, ⟨(323/1536), 1⟩, ⟨(27/128), 1⟩, ⟨(163/768), 1⟩, ⟨(109/512), 1⟩, ⟨(41/192), 1⟩, ⟨(329/1536), 1⟩, ⟨(55/256), 1⟩]⟩) ⟨s, 0, true, ⟨0, s⟩, 0, s / 2, scaleNP s ⟨(27/128), 1⟩, [scaleNP s ⟨(27/128), 1⟩], some ((bucketC 3).map (scaleNP s)), 4, 40, false⟩ =
          ⟨s, 0, true, ⟨0, s⟩, 0, s / 2, scaleNP s ⟨(325/1536), 1⟩, [scaleNP s ⟨(325/1536), 1⟩], some ((bucketC 4).map (scaleNP s)), 4, 40, false⟩ := by
        rw [promote_round_scale s hs (s * (1/1536)) true hb' _ [⟨(53/256), 1⟩, ⟨(319/1536), 1⟩, ⟨(5/24), 1⟩, ⟨(107/512), 1⟩, ⟨(161/768), 1⟩, ⟨(323/1536), 1⟩, ⟨(27/128), 1⟩, ⟨(163/768), 1⟩, ⟨(109/512), 1⟩, ⟨(41/192), 1⟩, ⟨(329/1536), 1⟩, ⟨(55/256), 1⟩] rfl _
          [⟨(27/128), 1⟩] (bucketC 3) rfl rfl rfl rfl, hfl, hbEq]
        rfl
      have hstep : get_highest_result_of_seq 37 (s * (53/256)) (s * (55/256))
          (s * (1/1536)) ⟨s, 0, true, ⟨0, s⟩, 0, s / 2, scaleNP s ⟨(27/128), 1⟩, [scaleNP s ⟨(27/128), 1⟩], some ((bucketC 3).map (scaleNP s)), 3, 40, false⟩ =
          get_highest_result_of_seq 36 (s * (649/3072)) (s * (217/1024)) (s * (1/24576))
            ⟨s, 0, true, ⟨0, s⟩, 0, s / 2, scaleNP s ⟨(325/1536), 1⟩, [scaleNP s ⟨(325/1536), 1⟩], some ((bucketC 4).map (scaleNP s)), 4, 40, false⟩ :=
        ghrs_step_continue 36 (s * (53/256)) (s * (55/256)) (s * (1/1536)) _ _ _
          (s * (649/3072)) (s * (217/1024)) (s * (1/24576)) (by norm_num) hscan hcond hg2
          hnl hnh hnp
      rw [hstep]
      obtain ⟨J', h1, h2, h3⟩ := path_step5 s hs
        ((bucketC 4).map (scaleNP s)) 4 rfl le_rfl
        (fun j hj1 hj2 => absurd (Nat.lt_of_lt_of_le hj1 hj2) (lt_irrefl _))
      exact ⟨J', by omega, h2, h3⟩
  · have hb' : decide (s * (1/1536) ≥ 1 / 100) = false := decide_eq_false hbk
    have hscan := (scan_round_scale s hs false (53/256) (55/256) (1/1536)
      (by norm_num) hb').trans (congrArg (scaleSeq s) scanT4_f)
    have hcond0 := cond_scale s hs ⟨⟨(325/1536), 1⟩, [⟨(325/1536), 1⟩], some []⟩
      ⟨s, 0, true, ⟨0, s⟩, 0, s / 2, scaleNP s ⟨(27/128), 1⟩, [scaleNP s ⟨(27/128), 1⟩], some og, 4, 40, false⟩ ⟨(27/128), 1⟩ rfl
    by_cases hcv : (scaleNP s ⟨(325/1536), 1⟩).is_equivalent_to (scaleNP s ⟨(27/128), 1⟩) = true
    · have hstep : get_highest_result_of_seq 37 (s * (53/256)) (s * (55/256))
          (s * (1/1536)) ⟨s, 0, true, ⟨0, s⟩, 0, s / 2, scaleNP s ⟨(27/128), 1⟩, [scaleNP s ⟨(27/128), 1⟩], some og, 3, 40, false⟩ =
          ⟨s, 4, true, ⟨0, s⟩, 0, s / 2, scaleNP s ⟨(27/128), 1⟩, [scaleNP s ⟨(27/128), 1⟩], some og, 4, 40, true⟩ :=
        ghrs_step_converge 36 (s * (53/256)) (s * (55/256)) (s * (1/1536)) _ _
          (by norm_num) hscan (by rw [hcond0, hle, Bool.false_or]; exact hcv)
      rw [hstep]
      exact ⟨J, le_rfl, by omega, by rw [hog]⟩
    · have hcond : condition_to_end_recursion
          (scaleSeq s ⟨⟨(325/1536), 1⟩, [⟨(325/1536), 1⟩], some []⟩)
          ⟨s, 0, true, ⟨0, s⟩, 0, s / 2, scaleNP s ⟨(27/128), 1⟩, [scaleNP s ⟨(27/128), 1⟩], some og, 4, 40, false⟩ = false := by
        rw [hcond0, hle, Bool.false_or]
        exact Bool.eq_false_iff.mpr hcv
      have hg2 : promote_round (s * (1/1536))
          (scaleSeq s ⟨⟨(325/1536), 1⟩, [⟨(325/1536), 1⟩], some []⟩) ⟨s, 0, true, ⟨0, s⟩, 0, s / 2, scaleNP s ⟨(27/128), 1⟩, [scaleNP s ⟨(27/128), 1⟩], some og, 4, 40, false⟩ =
          ⟨s, 0, true, ⟨0, s⟩, 0, s / 2, scaleNP s ⟨(325/1536), 1⟩, [scaleNP s ⟨(325/1536), 1⟩], some og, 4, 40, false⟩ := by
        rw [promote_round_scale s hs (s * (1/1536)) false hb' _ [] rfl _
          [⟨(27/128), 1⟩] (bucketC J) rfl rfl rfl (by rw [hog]), filter_can_false]
        simp only [List.append_nil]
        rw [← hog]
        rfl
      have hstep : get_highest_result_of_seq 37 (s * (53/256)) (s * (55/256))
          (s * (1/1536)) ⟨s, 0, true, ⟨0, s⟩, 0, s / 2, scaleNP s ⟨(27/128), 1⟩, [scaleNP s ⟨(27/128), 1⟩], some og, 3, 40, false⟩ =
          get_highest_result_of_seq 36 (s * (649/3072)) (s * (217/1024)) (s * (1/24576))
            ⟨s, 0, true, ⟨0, s⟩, 0, s / 2, scaleNP s ⟨(325/1536), 1⟩, [scaleNP s ⟨(325/1536), 1⟩], some og, 4, 40, false⟩ :=
        ghrs_step_continue 36 (s * (53/256)) (s * (55/256)) (s * (1/1536)) _ _ _
          (s * (649/3072)) (s * (217/1024)) (s * (1/24576)) (by norm_num) hscan hcond hg2
          hnl hnh hnp
      rw [hstep]
      obtain ⟨J', h1, h2, h3⟩ := path_step5 s hs og J hog (by omega)
        (fun j hj1 hj2 => by
          rcases Nat.lt_or_ge j 4 with hlt | hge
          · exact hflag j hj1 (by omega)
          · have hjk : j = 4 := by omega
            subst hjk
            exact hbk)
      exact ⟨J', h1, h2, h3⟩

/-- Round 3 of the search path: either the round converges here, or the
bucket grows by exactly the round-3 contribution (when eligible) and the
search continues into round 4. -/
theorem path_step3 (s : ℚ) (hs : 0 < s) (og : List NumberPairing) (J : ℕ)
    (hog : og = (bucketC J).map (scaleNP s))
    (hJ : J ≤ 2)
    (hflag : ∀ j, J < j → j ≤ 2 → ¬((1 : ℚ) / 100 ≤ s * pval j)) :
    ∃ J', J ≤ J' ∧ J' ≤ 10 ∧
      (get_highest_result_of_seq 38 (s * (5/32)) (s * (7/32)) (s * (1/128))
          ⟨s, 0, true, ⟨0, s⟩, 0, s / 2, scaleNP s ⟨(3/16), 1⟩, [scaleNP s ⟨(3/16), 1⟩], some og, 2, 40, false⟩).other_results
        = some ((bucketC J').map (scaleNP s)) := by
  have hle : (NumberPairing.mk (27/128) 1).le ⟨(3/16), 1⟩ = false := by
    norm_num [NumberPairing.le, NumberPairing.cmp, NumberPairing.result,
      NumberPairing.product, NumberPairing.difference, NumberPairing.second,
      NumberPairing.first, abs_of_nonneg, abs_of_nonpos,
      show (Ordering.gt == Ordering.gt) = true from rfl,
      show (Ordering.lt == Ordering.gt) = false from rfl,
      show (Ordering.eq == Ordering.gt) = false from rfl]
  have hnl : next_low_value (s * (5/32)) (s * (1/128)) (s * (27/128)) = s * (53/256) := by
    rw [next_low_value, if_neg (by rw [show s * (27/128) - s * (1/128) / 2 = s * ((53/256) : ℚ) by ring]; exact not_lt.mpr (mul_le_mul_of_nonneg_left (by norm_num) hs.le))]; ring
  have hnh : next_high_value (s * (7/32)) (s * (1/128)) (s * (27/128)) = s * (55/256) := by
    rw [next_high_value, if_neg (by rw [show s * (27/128) + s * (1/128) / 2 = s * ((55/256) : ℚ) by ring]; exact not_lt.mpr (mul_le_mul_of_nonneg_left (by norm_num) hs.le))]; ring
  have hnp : next_precision (s * (1/128)) 3 = s * (1/1536) := by
    simp only [next_precision]
    push_cast
    ring
  by_cases hbk : (1 : ℚ) / 100 ≤ s * (1/128)
  · have hJeq : J = 2 := by
      by_contra hne
      have hpm : ∀ j, 1 ≤ j → j ≤ 2 → pval 3 ≤ pval j := by
        intro j hj1 hj2
        interval_cases j
        all_goals norm_num [pval]
      refine hflag (J + 1) (Nat.lt_succ_self J) (by omega) ?_
      have h2 := hpm (J + 1) (by omega) (by omega)
      have h3 := mul_le_mul_of_nonneg_left h2 hs.le
      have h4 : pval 3 = (1/128) := rfl
      rw [h4] at h3
      exact le_trans hbk h3
    subst hJeq
    subst hog
    have hb' : decide (s * (1/128) ≥ 1 / 100) = true := decide_eq_true hbk
    have hscan := (scan_round_scale s hs true (5/32) (7/32) (1/128)
      (by norm_num) hb').trans (congrArg (scaleSeq s) scanT3_t)
    have hcond0 := cond_scale s hs ⟨⟨(27/128), 1⟩, [⟨(27/128), 1⟩], some [⟨(5/32), 1⟩, ⟨(21/128), 1⟩, ⟨(11/64), 1⟩, ⟨(23/128), 1⟩, ⟨(3/16), 1⟩, ⟨(25/128), 1⟩, ⟨(13/64), 1⟩, ⟨(7/32), 1⟩]⟩
      ⟨s, 0, true, ⟨0, s⟩, 0, s / 2, scaleNP s ⟨(3/16), 1⟩, [scaleNP s ⟨(3/16), 1⟩], some ((bucketC 2).map (scaleNP s)), 3, 40, false⟩ ⟨(3/16), 1⟩ rfl
    by_cases hcv : (scaleNP s ⟨(27/128), 1⟩).is_equivalent_to (scaleNP s ⟨(3/16), 1⟩) = true
    · have hstep : get_highest_result_of_seq 38 (s * (5/32)) (s * (7/32))
          (s * (1/128)) ⟨s, 0, true, ⟨0, s⟩, 0, s / 2, scaleNP s ⟨(3/16), 1⟩, [scaleNP s ⟨(3/16), 1⟩], some ((bucketC 2).map (scaleNP s)), 2, 40, false⟩ =
          ⟨s, 3, true, ⟨0, s⟩, 0, s / 2, scaleNP s ⟨(3/16), 1⟩, [scaleNP s ⟨(3/16), 1⟩], some ((bucketC 2).map (scaleNP s)), 3, 40, true⟩ :=
        ghrs_step_converge 37 (s * (5/32)) (s * (7/32)) (s * (1/128)) _ _
          (by norm_num) hscan (by rw [hcond0, hle, Bool.false_or]; exact hcv)
      rw [hstep]
      exact ⟨2, le_rfl, by norm_num, rfl⟩
    · have hcond : condition_to_end_recursion
          (scaleSeq s ⟨⟨(27/128), 1⟩, [⟨(27/128), 1⟩], some [⟨(5/32), 1⟩, ⟨(21/128), 1⟩, ⟨(11/64), 1⟩, ⟨(23/128), 1⟩, ⟨(3/16), 1⟩, ⟨(25/128), 1⟩, ⟨(13/64), 1⟩, ⟨(7/32), 1⟩]⟩)
          ⟨s, 0, true, ⟨0, s⟩, 0, s / 2, scaleNP s ⟨(3/16), 1⟩, [scaleNP s ⟨(3/16), 1⟩], some ((bucketC 2).map (scaleNP s)), 3, 40, false⟩ = false := by
        rw [hcond0, hle, Bool.false_or]
        exact Bool.eq_false_iff.mpr hcv
      have hfl : [(⟨(3/16), 1⟩ : NumberPairing)].filter
          (can_be_added_to_other ⟨0, 1⟩ (precision_flag true) true) =
          [⟨(3/16), 1⟩] := by
        norm_num [List.filter, can_be_added_to_other, precision_flag,
          NumberPairing.eq, NumberPairing.first, NumberPairing.second]
      have hbEq : bucketC 2 ++ ([⟨(5/32), 1⟩, ⟨(21/128), 1⟩, ⟨(11/64), 1⟩, ⟨(23/128), 1⟩, ⟨(3/16), 1⟩, ⟨(25/128), 1⟩, ⟨(13/64), 1⟩, ⟨(7/32), 1⟩] ++ [(⟨(3/16), 1⟩ : NumberPairing)]) =
          bucketC 3 := rfl
      have hg2 : promote_round (s * (1/128))
          (scaleSeq s ⟨⟨(27/128), 1⟩, [⟨(27/128), 1⟩], some [⟨(5/32), 1⟩, ⟨(21/128), 1⟩, ⟨(11/64), 1⟩, ⟨(23/128), 1⟩, ⟨(3/16), 1⟩, ⟨(25/128), 1⟩, ⟨(13/64), 1⟩, ⟨(7/32), 1⟩]⟩) ⟨s, 0, true, ⟨0, s⟩, 0, s / 2, scaleNP s ⟨(3/16), 1⟩, [scaleNP s ⟨(3/16), 1⟩], some ((bucketC 2).map (scaleNP s)), 3, 40, false⟩ =
          ⟨s, 0, true, ⟨0, s⟩, 0, s / 2, scaleNP s ⟨(27/128), 1⟩, [scaleNP s ⟨(27/128), 1⟩], some ((bucketC 3).map (scaleNP s)), 3, 40, false⟩ := by
        rw [promote_round_scale s hs (s * (1/128)) true hb' _ [⟨(5/32), 1⟩, ⟨(21/128), 1⟩, ⟨(11/64), 1⟩, ⟨(23/128), 1⟩, ⟨(3/16), 1⟩, ⟨(25/128), 1⟩, ⟨(13/64), 1⟩, ⟨(7/32), 1⟩] rfl _
          [⟨(3/16), 1⟩] (bucketC 2) rfl rfl rfl rfl, hfl, hbEq]
        rfl
      have hstep : get_highest_result_of_seq 38 (s * (5/32)) (s * (7/32))
          (s * (1/128)) ⟨s, 0, true, ⟨0, s⟩, 0, s / 2, scaleNP s ⟨(3/16), 1⟩, [scaleNP s ⟨(3/16), 1⟩], some ((bucketC 2).map (scaleNP s)), 2, 40, false⟩ =
          get_highest_result_of_seq 37 (s * (53/256)) (s * (55/256)) (s * (1/1536))
            ⟨s, 0, true, ⟨0, s⟩, 0, s / 2, scaleNP s ⟨(27/128), 1⟩, [scaleNP s ⟨(27/128), 1⟩], some ((bucketC 3).map (scaleNP s)), 3, 40, false⟩ :=
        ghrs_step_continue 37 (s * (5/32)) (s * (7/32)) (s * (1/128)) _ _ _
          (s * (53/256)) (s * (55/256)) (s * (1/1536)) (by norm_num) hscan hcond hg2
          hnl hnh hnp
      rw [hstep]
      obtain ⟨J', h1, h2, h3⟩ := path_step4 s hs
        ((bucketC 3).map (scaleNP s)) 3 rfl le_rfl
        (fun j hj1 hj2 => absurd (Nat.lt_of_lt_of_le hj1 hj2) (lt_irrefl _))
      exact ⟨J', by omega, h2, h3⟩
  · have hb' : decide (s * (1/128) ≥ 1 / 100) = false := decide_eq_false hbk
    have hscan := (scan_round_scale s hs false (5/32) (7/32) (1/128)
      (by norm_num) hb').trans (congrArg (scaleSeq s) scanT3_f)
    have hcond0 := cond_scale s hs ⟨⟨(27/128), 1⟩, [⟨(27/128), 1⟩], some []⟩
      ⟨s, 0, true, ⟨0, s⟩, 0, s / 2, scaleNP s ⟨(3/16), 1⟩, [scaleNP s ⟨(3/16), 1⟩], some og, 3, 40, false⟩ ⟨(3/16), 1⟩ rfl
    by_cases hcv : (scaleNP s ⟨(27/128), 1⟩).is_equivalent_to (scaleNP s ⟨(3/16), 1⟩) = true
    · have hstep : get_highest_result_of_seq 38 (s * (5/32)) (s * (7/32))
          (s * (1/128)) ⟨s, 0, true, ⟨0, s⟩, 0, s / 2, scaleNP s ⟨(3/16), 1⟩, [scaleNP s ⟨(3/16), 1⟩], some og, 2, 40, false⟩ =
          ⟨s, 3, true, ⟨0, s⟩, 0, s / 2, scaleNP s ⟨(3/16), 1⟩, [scaleNP s ⟨(3/16), 1⟩], some og, 3, 40, true⟩ :=
        ghrs_step_converge 37 (s * (5/32)) (s * (7/32)) (s * (1/128)) _ _
          (by norm_num) hscan (by rw [hcond0, hle, Bool.false_or]; exact hcv)
      rw [hstep]
      exact ⟨J, le_rfl, by omega, by rw [hog]⟩
    · have hcond : condition_to_end_recursion
          (scaleSeq s ⟨⟨(27/128), 1⟩, [⟨(27/128), 1⟩], some []⟩)
          ⟨s, 0, true, ⟨0, s⟩, 0, s / 2, scaleNP s ⟨(3/16), 1⟩, [scaleNP s ⟨(3/16), 1⟩], some og, 3, 40, false⟩ = false := by
        rw [hcond0, hle, Bool.false_or]
        exact Bool.eq_false_iff.mpr hcv
      have hg2 : promote_round (s * (1/128))
          (scaleSeq s ⟨⟨(27/128), 1⟩, [⟨(27/128), 1⟩], some []⟩) ⟨s, 0, true, ⟨0, s⟩, 0, s / 2, scaleNP s ⟨(3/16), 1⟩, [scaleNP s ⟨(3/16), 1⟩], some og, 3, 40, false⟩ =
          ⟨s, 0, true, ⟨0, s⟩, 0, s / 2, scaleNP s ⟨(27/128), 1⟩, [scaleNP s ⟨(27/128), 1⟩], some og, 3, 40, false⟩ := by
        rw [promote_round_scale s hs (s * (1/128)) false hb' _ [] rfl _
          [⟨(3/16), 1⟩] (bucketC J) rfl rfl rfl (by rw [hog]), filter_can_false]
        simp only [List.append_nil]
        rw [← hog]
        rfl
      have hstep : get_highest_result_of_seq 38 (s * (5/32)) (s * (7/32))
          (s * (1/128)) ⟨s, 0, true, ⟨0, s⟩, 0, s / 2, scaleNP s ⟨(3/16), 1⟩, [scaleNP s ⟨(3/16), 1⟩], some og, 2, 40, false⟩ =
          get_highest_result_of_seq 37 (s * (53/256)) (s * (55/256)) (s * (1/1536))
            ⟨s, 0, true, ⟨0, s⟩, 0, s / 2, scaleNP s ⟨(27/128), 1⟩, [scaleNP s ⟨(27/128), 1⟩], some og, 3, 40, false⟩ :=
        ghrs_step_continue 37 (s * (5/32)) (s * (7/32)) (s * (1/128)) _ _ _
          (s * (53/256)) (s * (55/256)) (s * (1/1536)) (by norm_num) hscan hcond hg2
          hnl hnh hnp
      rw [hstep]
      obtain ⟨J', h1, h2, h3⟩ := path_step4 s hs og J hog (by omega)
        (fun j hj1 hj2 => by
          rcases Nat.lt_or_ge j 3 with hlt | hge
          · exact hflag j hj1 (by omega)
          · have hjk : j = 3 := by omega
            subst hjk
            exact hbk)
      exact ⟨J', h1, h2, h3⟩

/-- Round 2 of the search path: either the round converges here, or the
bucket grows by exactly the round-2 contribution (when eligible) and the
search continues into round 3. -/
theorem path_step2 (s : ℚ) (hs : 0 < s) (og : List NumberPairing) (J : ℕ)
    (hog : og = (bucketC J).map (scaleNP s))
    (hJ : J ≤ 1)
    (hflag : ∀ j, J < j → j ≤ 1 → ¬((1 : ℚ) / 100 ≤ s * pval j)) :
    ∃ J', J ≤ J' ∧ J' ≤ 10 ∧
      (get_highest_result_of_seq 39 (s * (1/8)) (s * (3/8)) (s * (1/16))
          ⟨s, 0, true, ⟨0, s⟩, 0, s / 2, scaleNP s ⟨(1/4), 1⟩, [scaleNP s ⟨(1/4), 1⟩], some og, 1, 40, false⟩).other_results
        = some ((bucketC J').map (scaleNP s)) := by
  have hle : (NumberPairing.mk (3/16) 1).le ⟨(1/4), 1⟩ = false := by
    norm_num [NumberPairing.le, NumberPairing.cmp, NumberPairing.result,
      NumberPairing.product, NumberPairing.difference, NumberPairing.second,
      NumberPairing.first, abs_of_nonneg, abs_of_nonpos,
      show (Ordering.gt == Ordering.gt) = true from rfl,
      show (Ordering.lt == Ordering.gt) = false from rfl,
      show (Ordering.eq == Ordering.gt) = false from rfl]
  have hnl : next_low_value (s * (1/8)) (s * (1/16)) (s * (3/16)) = s * (5/32) := by
    rw [next_low_value, if_neg (by rw [show s * (3/16) - s * (1/16) / 2 = s * ((5/32) : ℚ) by ring]; exact not_lt.mpr (mul_le_mul_of_nonneg_left (by norm_num) hs.le))]; ring
  have hnh : next_high_value (s * (3/8)) (s * (1/16)) (s * (3/16)) = s * (7/32) := by
    rw [next_high_value, if_neg (by rw [show s * (3/16) + s * (1/16) / 2 = s * ((7/32) : ℚ) by ring]; exact not_lt.mpr (mul_le_mul_of_nonneg_left (by norm_num) hs.le))]; ring
  have hnp : next_precision (s * (1/16)) 2 = s * (1/128) := by
    simp only [next_precision]
    push_cast
    ring
  by_cases hbk : (1 : ℚ) / 100 ≤ s * (1/16)
  · have hJeq : J = 1 := by
      by_contra hne
      have hpm : ∀ j, 1 ≤ j → j ≤ 1 → pval 2 ≤ pval j := by
        intro j hj1 hj2
        interval_cases j
        all_goals norm_num [pval]
      refine hflag (J + 1) (Nat.lt_succ_self J) (by omega) ?_
      have h2 := hpm (J + 1) (by omega) (by omega)
      have h3 := mul_le_mul_of_nonneg_left h2 hs.le
      have h4 : pval 2 = (1/16) := rfl
      rw [h4] at h3
      exact le_trans hbk h3
    subst hJeq
    subst hog
    have hb' : decide (s * (1/16) ≥ 1 / 100) = true := decide_eq_true hbk
    have hscan := (scan_round_scale s hs true (1/8) (3/8) (1/16)
      (by norm_num) hb').trans (congrArg (scaleSeq s) scanT2_t)
    have hcond0 := cond_scale s hs ⟨⟨(3/16), 1⟩, [⟨(3/16), 1⟩], some [⟨(1/8), 1⟩, ⟨(1/4), 1⟩, ⟨(5/16), 1⟩, ⟨(3/8), 1⟩]⟩
      ⟨s, 0, true, ⟨0, s⟩, 0, s / 2, scaleNP s ⟨(1/4), 1⟩, [scaleNP s ⟨(1/4), 1⟩], some ((bucketC 1).map (scaleNP s)), 2, 40, false⟩ ⟨(1/4), 1⟩ rfl
    by_cases hcv : (scaleNP s ⟨(3/16), 1⟩).is_equivalent_to (scaleNP s ⟨(1/4), 1⟩) = true
    · have hstep : get_highest_result_of_seq 39 (s * (1/8)) (s * (3/8))
          (s * (1/16)) ⟨s, 0, true, ⟨0, s⟩, 0, s / 2, scaleNP s ⟨(1/4), 1⟩, [scaleNP s ⟨(1/4), 1⟩], some ((bucketC 1).map (scaleNP s)), 1, 40, false⟩ =
          ⟨s, 2, true, ⟨0, s⟩, 0, s / 2, scaleNP s ⟨(1/4), 1⟩, [scaleNP s ⟨(1/4), 1⟩], some ((bucketC 1).map (scaleNP s)), 2, 40, true⟩ :=
        ghrs_step_converge 38 (s * (1/8)) (s * (3/8)) (s * (1/16)) _ _
          (by norm_num) hscan (by rw [hcond0, hle, Bool.false_or]; exact hcv)
      rw [hstep]
      exact ⟨1, le_rfl, by norm_num, rfl⟩
    · have hcond : condition_to_end_recursion
          (scaleSeq s ⟨⟨(3/16), 1⟩, [⟨(3/16), 1⟩], some [⟨(1/8), 1⟩, ⟨(1/4), 1⟩, ⟨(5/16), 1⟩, ⟨(3/8), 1⟩]⟩)
          ⟨s, 0, true, ⟨0, s⟩, 0, s / 2, scaleNP s ⟨(1/4), 1⟩, [scaleNP s ⟨(1/4), 1⟩], some ((bucketC 1).map (scaleNP s)), 2, 40, false⟩ = false := by
        rw [hcond0, hle, Bool.false_or]
        exact Bool.eq_false_iff.mpr hcv
      have hfl : [(⟨(1/4), 1⟩ : NumberPairing)].filter
          (can_be_added_to_other ⟨0, 1⟩ (precision_flag true) true) =
          [⟨(1/4), 1⟩] := by
        norm_num [List.filter, can_be_added_to_other, precision_flag,
          NumberPairing.eq, NumberPairing.first, NumberPairing.second]
      have hbEq : bucketC 1 ++ ([⟨(1/8), 1⟩, ⟨(1/4), 1⟩, ⟨(5/16), 1⟩, ⟨(3/8), 1⟩] ++ [(⟨(1/4), 1⟩ : NumberPairing)]) =
          bucketC 2 := rfl
      have hg2 : promote_round (s * (1/16))
          (scaleSeq s ⟨⟨(3/16), 1⟩, [⟨(3/16), 1⟩], some [⟨(1/8), 1⟩, ⟨(1/4), 1⟩, ⟨(5/16), 1⟩, ⟨(3/8), 1⟩]⟩) ⟨s, 0, true, ⟨0, s⟩, 0, s / 2, scaleNP s ⟨(1/4), 1⟩, [scaleNP s ⟨(1/4), 1⟩], some ((bucketC 1).map (scaleNP s)), 2, 40, false⟩ =
          ⟨s, 0, true, ⟨0, s⟩, 0, s / 2, scaleNP s ⟨(3/16), 1⟩, [scaleNP s ⟨(3/16), 1⟩], some ((bucketC 2).map (scaleNP s)), 2, 40, false⟩ := by
        rw [promote_round_scale s hs (s * (1/16)) true hb' _ [⟨(1/8), 1⟩, ⟨(1/4), 1⟩, ⟨(5/16), 1⟩, ⟨(3/8), 1⟩] rfl _
          [⟨(1/4), 1⟩] (bucketC 1) rfl rfl rfl rfl, hfl, hbEq]
        rfl
      have hstep : get_highest_result_of_seq 39 (s * (1/8)) (s * (3/8))
          (s * (1/16)) ⟨s, 0, true, ⟨0, s⟩, 0, s / 2, scaleNP s ⟨(1/4), 1⟩, [scaleNP s ⟨(1/4), 1⟩], some ((bucketC 1).map (scaleNP s)), 1, 40, false⟩ =
          get_highest_result_of_seq 38 (s * (5/32)) (s * (7/32)) (s * (1/128))
            ⟨s, 0, true, ⟨0, s⟩, 0, s / 2, scaleNP s ⟨(3/16), 1⟩, [scaleNP s ⟨(3/16), 1⟩], some ((bucketC 2).map (scaleNP s)), 2, 40, false⟩ :=
        ghrs_step_continue 38 (s * (1/8)) (s * (3/8)) (s * (1/16)) _ _ _
          (s * (5/32)) (s * (7/32)) (s * (1/128)) (by norm_num) hscan hcond hg2
          hnl hnh hnp
      rw [hstep]
      obtain ⟨J', h1, h2, h3⟩ := path_step3 s hs
        ((bucketC 2).map (scaleNP s)) 2 rfl le_rfl
        (fun j hj1 hj2 => absurd (Nat.lt_of_lt_of_le hj1 hj2) (lt_irrefl _))
      exact ⟨J', by omega, h2, h3⟩
  · have hb' : decide (s * (1/16) ≥ 1 / 100) = false := decide_eq_false hbk
    have hscan := (scan_round_scale s hs false (1/8) (3/8) (1/16)
      (by norm_num) hb').trans (congrArg (scaleSeq s) scanT2_f)
    have hcond0 := cond_scale s hs ⟨⟨(3/16), 1⟩, [⟨(3/16), 1⟩], some []⟩
      ⟨s, 0, true, ⟨0, s⟩, 0, s / 2, scaleNP s ⟨(1/4), 1⟩, [scaleNP s ⟨(1/4), 1⟩], some og, 2, 40, false⟩ ⟨(1/4), 1⟩ rfl
    by_cases hcv : (scaleNP s ⟨(3/16), 1⟩).is_equivalent_to (scaleNP s ⟨(1/4), 1⟩) = true
    · have hstep : get_highest_result_of_seq 39 (s * (1/8)) (s * (3/8))
          (s * (1/16)) ⟨s, 0, true, ⟨0, s⟩, 0, s / 2, scaleNP s ⟨(1/4), 1⟩, [scaleNP s ⟨(1/4), 1⟩], some og, 1, 40, false⟩ =
          ⟨s, 2, true, ⟨0, s⟩, 0, s / 2, scaleNP s ⟨(1/4), 1⟩, [scaleNP s ⟨(1/4), 1⟩], some og, 2, 40, true⟩ :=
        ghrs_step_converge 38 (s * (1/8)) (s * (3/8)) (s * (1/16)) _ _
          (by norm_num) hscan (by rw [hcond0, hle, Bool.false_or]; exact hcv)
      rw [hstep]
      exact ⟨J, le_rfl, by omega, by rw [hog]⟩
    · have hcond : condition_to_end_recursion
          (scaleSeq s ⟨⟨(3/16), 1⟩, [⟨(3/16), 1⟩], some []⟩)
          ⟨s, 0, true, ⟨0, s⟩, 0, s / 2, scaleNP s ⟨(1/4), 1⟩, [scaleNP s ⟨(1/4), 1⟩], some og, 2, 40, false⟩ = false := by
        rw [hcond0, hle, Bool.false_or]
        exact Bool.eq_false_iff.mpr hcv
      have hg2 : promote_round (s * (1/16))
          (scaleSeq s ⟨⟨(3/16), 1⟩, [⟨(3/16), 1⟩], some []⟩) ⟨s, 0, true, ⟨0, s⟩, 0, s / 2, scaleNP s ⟨(1/4), 1⟩, [scaleNP s ⟨(1/4), 1⟩], some og, 2, 40, false⟩ =
          ⟨s, 0, true, ⟨0, s⟩, 0, s / 2, scaleNP s ⟨(3/16), 1⟩, [scaleNP s ⟨(3/16), 1⟩], some og, 2, 40, false⟩ := by
        rw [promote_round_scale s hs (s * (1/16)) false hb' _ [] rfl _
          [⟨(1/4), 1⟩] (bucketC J) rfl rfl rfl (by rw [hog]), filter_can_false]
        simp only [List.append_nil]
        rw [← hog]
        rfl
      have hstep : get_highest_result_of_seq 39 (s * (1/8)) (s * (3/8))
          (s * (1/16)) ⟨s, 0, true, ⟨0, s⟩, 0, s / 2, scaleNP s ⟨(1/4), 1⟩, [scaleNP s ⟨(1/4), 1⟩], some og, 1, 40, false⟩ =
          get_highest_result_of_seq 38 (s * (5/32)) (s * (7/32)) (s * (1/128))
            ⟨s, 0, true, ⟨0, s⟩, 0, s / 2, scaleNP s ⟨(3/16), 1⟩, [scaleNP s ⟨(3/16), 1⟩], some og, 2, 40, false⟩ :=
        ghrs_step_continue 38 (s * (1/8)) (s * (3/8)) (s * (1/16)) _ _ _
          (s * (5/32)) (s * (7/32)) (s * (1/128)) (by norm_num) hscan hcond hg2
          hnl hnh hnp
      rw [hstep]
      obtain ⟨J', h1, h2, h3⟩ := path_step3 s hs og J hog (by omega)
        (fun j hj1 hj2 => by
          rcases Nat.lt_or_ge j 2 with hlt | hge
          · exact hflag j hj1 (by omega)
          · have hjk : j = 2 := by omega
            subst hjk
            exact hbk)
      exact ⟨J', h1, h2, h3⟩

/-- Round 1 of the search path, started the way `solve` starts it. -/
theorem path_step1 (s : ℚ) (hs : 0 < s) :
    ∃ J', J' ≤ 10 ∧
      (get_highest_result_of_seq 40 0 (s / 2) (s / 4)
          ⟨s, 0, true, ⟨0, s⟩, 0, s / 2, ⟨0, s⟩, [], some [], 0, 40,
            false⟩).other_results
        = some ((bucketC J').map (scaleNP s)) := by
  have hle : (NumberPairing.mk (1/4) 1).le ⟨0, 1⟩ = false := by
    norm_num [NumberPairing.le, NumberPairing.cmp, NumberPairing.result,
      NumberPairing.product, NumberPairing.difference, NumberPairing.second,
      NumberPairing.first, abs_of_nonneg, abs_of_nonpos,
      show (Ordering.gt == Ordering.gt) = true from rfl,
      show (Ordering.lt == Ordering.gt) = false from rfl,
      show (Ordering.eq == Ordering.gt) = false from rfl]
  have hnl : next_low_value 0 (s / 4) (s * (1/4)) = s * (1/8) := by
    rw [next_low_value, if_neg (by
      rw [show s * (1/4) - s / 4 / 2 = s * ((1/8) : ℚ) by ring,
        show (0 : ℚ) = s * 0 by ring]
      exact not_lt.mpr (mul_le_mul_of_nonneg_left (by norm_num) hs.le))]
    ring
  have hnh : next_high_value (s / 2) (s / 4) (s * (1/4)) = s * (3/8) := by
    rw [next_high_value, if_neg (by
      rw [show s * (1/4) + s / 4 / 2 = s * ((3/8) : ℚ) by ring,
        show s / 2 = s * (1 / 2 : ℚ) by ring]
      exact not_lt.mpr (mul_le_mul_of_nonneg_left (by norm_num) hs.le))]
    ring
  have hnp : next_precision (s / 4) 1 = s * (1/16) := by
    simp only [next_precision]
    push_cast
    ring
  by_cases hbk : (1 : ℚ) / 100 ≤ s * (1/4)
  · have hb' : decide (s * (1/4) ≥ 1 / 100) = true := decide_eq_true hbk
    have hscan0 := (scan_round_scale s hs true 0 (1/2) (1/4)
      (by norm_num) hb').trans (congrArg (scaleSeq s) scanT1_t)
    rw [show s * (0 : ℚ) = 0 by ring, show s * (1 / 2 : ℚ) = s / 2 by ring,
      show s * (1 / 4 : ℚ) = s / 4 by ring] at hscan0
    have hcond0 := cond_scale s hs ⟨⟨(1/4), 1⟩, [⟨(1/4), 1⟩], some [⟨(1/2), 1⟩]⟩
      ⟨s, 0, true, ⟨0, s⟩, 0, s / 2, ⟨0, s⟩, [], some [], 1, 40, false⟩ ⟨0, 1⟩ (scaleNP_zero s).symm
    by_cases hcv : (scaleNP s ⟨(1/4), 1⟩).is_equivalent_to (scaleNP s ⟨0, 1⟩) = true
    · have hstep : get_highest_result_of_seq 40 0 (s / 2) (s / 4)
          ⟨s, 0, true, ⟨0, s⟩, 0, s / 2, ⟨0, s⟩, [], some [], 0, 40, false⟩ =
          ⟨s, 1, true, ⟨0, s⟩, 0, s / 2, ⟨0, s⟩, [], some [], 1, 40, true⟩ :=
        ghrs_step_converge 39 0 (s / 2) (s / 4) _ _
          (by norm_num) hscan0 (by rw [hcond0, hle, Bool.false_or]; exact hcv)
      rw [hstep]
      exact ⟨0, by norm_num, rfl⟩
    · have hcond : condition_to_end_recursion
          (scaleSeq s ⟨⟨(1/4), 1⟩, [⟨(1/4), 1⟩], some [⟨(1/2), 1⟩]⟩)
          ⟨s, 0, true, ⟨0, s⟩, 0, s / 2, ⟨0, s⟩, [], some [], 1, 40, false⟩ = false := by
        rw [hcond0, hle, Bool.false_or]
        exact Bool.eq_false_iff.mpr hcv
      have hg2 : promote_round (s * (1/4))
          (scaleSeq s ⟨⟨(1/4), 1⟩, [⟨(1/4), 1⟩], some [⟨(1/2), 1⟩]⟩)
          ⟨s, 0, true, ⟨0, s⟩, 0, s / 2, ⟨0, s⟩, [], some [], 1, 40, false⟩ =
          ⟨s, 0, true, ⟨0, s⟩, 0, s / 2, scaleNP s ⟨(1/4), 1⟩, [scaleNP s ⟨(1/4), 1⟩], some ((bucketC 1).map (scaleNP s)), 1, 40, false⟩ := by
        rw [promote_round_scale s hs (s * (1/4)) true hb' _ [⟨(1/2), 1⟩] rfl _
          [] ([]) rfl rfl rfl rfl]
        rfl
      have hstep : get_highest_result_of_seq 40 0 (s / 2) (s / 4)
          ⟨s, 0, true, ⟨0, s⟩, 0, s / 2, ⟨0, s⟩, [], some [], 0, 40, false⟩ =
          get_highest_result_of_seq 39 (s * (1/8)) (s * (3/8)) (s * (1/16))
            ⟨s, 0, true, ⟨0, s⟩, 0, s / 2, scaleNP s ⟨(1/4), 1⟩, [scaleNP s ⟨(1/4), 1⟩], some ((bucketC 1).map (scaleNP s)), 1, 40, false⟩ :=
        ghrs_step_continue 39 0 (s / 2) (s / 4) _ _ _
          (s * (1/8)) (s * (3/8)) (s * (1/16)) (by norm_num) hscan0 hcond hg2
          hnl hnh hnp
      rw [hstep]
      obtain ⟨J', h1, h2, h3⟩ := path_step2 s hs
        ((bucketC 1).map (scaleNP s)) 1 rfl le_rfl
        (fun j hj1 hj2 => absurd (Nat.lt_of_lt_of_le hj1 hj2) (lt_irrefl _))
      exact ⟨J', h2, h3⟩
  · have hb' : decide (s * (1/4) ≥ 1 / 100) = false := decide_eq_false hbk
    have hscan0 := (scan_round_scale s hs false 0 (1/2) (1/4)
      (by norm_num) hb').trans (congrArg (scaleSeq s) scanT1_f)
    rw [show s * (0 : ℚ) = 0 by ring, show s * (1 / 2 : ℚ) = s / 2 by ring,
      show s * (1 / 4 : ℚ) = s / 4 by ring] at hscan0
    have hcond0 := cond_scale s hs ⟨⟨(1/4), 1⟩, [⟨(1/4), 1⟩], some []⟩
      ⟨s, 0, true, ⟨0, s⟩, 0, s / 2, ⟨0, s⟩, [], some [], 1, 40, false⟩ ⟨0, 1⟩ (scaleNP_zero s).symm
    by_cases hcv : (scaleNP s ⟨(1/4), 1⟩).is_equivalent_to (scaleNP s ⟨0, 1⟩) = true
    · have hstep : get_highest_result_of_seq 40 0 (s / 2) (s / 4)
          ⟨s, 0, true, ⟨0, s⟩, 0, s / 2, ⟨0, s⟩, [], some [], 0, 40, false⟩ =
          ⟨s, 1, true, ⟨0, s⟩, 0, s / 2, ⟨0, s⟩, [], some [], 1, 40, true⟩ :=
        ghrs_step_converge 39 0 (s / 2) (s / 4) _ _
          (by norm_num) hscan0 (by rw [hcond0, hle, Bool.false_or]; exact hcv)
      rw [hstep]
      exact ⟨0, by norm_num, rfl⟩
    · have hcond : condition_to_end_recursion
          (scaleSeq s ⟨⟨(1/4), 1⟩, [⟨(1/4), 1⟩], some []⟩)
          ⟨s, 0, true, ⟨0, s⟩, 0, s / 2, ⟨0, s⟩, [], some [], 1, 40, false⟩ = false := by
        rw [hcond0, hle, Bool.false_or]
        exact Bool.eq_false_iff.mpr hcv
      have hg2 : promote_round (s * (1/4))
          (scaleSeq s ⟨⟨(1/4), 1⟩, [⟨(1/4), 1⟩], some []⟩)
          ⟨s, 0, true, ⟨0, s⟩, 0, s / 2, ⟨0, s⟩, [], some [], 1, 40, false⟩ =
          ⟨s, 0, true, ⟨0, s⟩, 0, s / 2, scaleNP s ⟨(1/4), 1⟩, [scaleNP s ⟨(1/4), 1⟩], some [], 1, 40, false⟩ := by
        rw [promote_round_scale s hs (s * (1/4)) false hb' _ [] rfl _
          [] ([]) rfl rfl rfl rfl, filter_can_false]
        rfl
      have hstep : get_highest_result_of_seq 40 0 (s / 2) (s / 4)
          ⟨s, 0, true, ⟨0, s⟩, 0, s / 2, ⟨0, s⟩, [], some [], 0, 40, false⟩ =
          get_highest_result_of_seq 39 (s * (1/8)) (s * (3/8)) (s * (1/16))
            ⟨s, 0, true, ⟨0, s⟩, 0, s / 2, scaleNP s ⟨(1/4), 1⟩, [scaleNP s ⟨(1/4), 1⟩], some [], 1, 40, false⟩ :=
        ghrs_step_continue 39 0 (s / 2) (s / 4) _ _ _
          (s * (1/8)) (s * (3/8)) (s * (1/16)) (by norm_num) hscan0 hcond hg2
          hnl hnh hnp
      rw [hstep]
      obtain ⟨J', h1, h2, h3⟩ := path_step2 s hs ([]) 0 rfl (by omega)
        (fun j hj1 hj2 => by
          have hjk : j = 1 := by omega
          subst hjk
          exact hbk)
      exact ⟨J', h2, h3⟩

/-- For a positive sum, the final other bucket of a run is the scale image of
one of the eleven possible accumulated buckets. -/
theorem solveRun_other_pos (s : ℚ) (hs : 0 < s) :
    ∃ J', J' ≤ 10 ∧
      (NumberPairingProblem.solveRun ⟨s, 0, none⟩ true).other_results
        = some ((bucketC J').map (scaleNP s)) := by
  have h := path_step1 s hs
  simp only [NumberPairingProblem.solveRun, NumberPairingProblem.initialGlobals,
    new_zero s hs.le]
  exact h

theorem new_neg (s : ℚ) (hs : s < 0) (x : ℚ) :
    NumberPairing.new x s = ⟨s, s⟩ := by
  simp only [NumberPairing.new, NumberPairing.validate_and_correct_input]
  rw [if_pos (lt_of_lt_of_le hs (abs_nonneg x))]

theorem result_diag (s : ℚ) : (NumberPairing.mk s s).result = 0 := by
  simp [NumberPairing.result, NumberPairing.product, NumberPairing.second,
    sub_self]

theorem gt_diag (s : ℚ) : (NumberPairing.mk s s).gt ⟨s, s⟩ = false := by
  simp [NumberPairing.gt, NumberPairing.cmp, lt_irrefl,
    show (Ordering.eq == Ordering.gt) = false from rfl]

theorem eq_diag (s : ℚ) : (NumberPairing.mk s s).eq ⟨s, s⟩ = true := by
  simp [NumberPairing.eq, NumberPairing.first]

theorem le_diag (s : ℚ) : (NumberPairing.mk s s).le ⟨s, s⟩ = true := by
  simp [NumberPairing.le, NumberPairing.cmp, lt_irrefl,
    show (Ordering.eq == Ordering.gt) = false from rfl]

/-- The single round of a negative-sum run: every candidate clamps to the
degenerate pairing and the round converges with an empty bucket. -/
theorem scan_neg (s : ℚ) (hs : s < 0) :
    scan_round s ⟨s, s⟩ true 0 (s / 2) (s / 4) =
      ⟨⟨s, s⟩, [⟨s, s⟩, ⟨s, s⟩, ⟨s, s⟩], some []⟩ := by
  have h0 : rustCastUsize (round_half_away
      ((0 : ℚ) * ((1 / (s / 4)) * 100000000))) = 0 := by
    rw [show (0 : ℚ) * ((1 / (s / 4)) * 100000000) = 0 by ring]
    with_unfolding_all decide
  have hconv : rustCastUsize (round_half_away
      ((s / 2) * ((1 / (s / 4)) * 100000000))) = 200000000 := by
    rw [show (s / 2) * ((1 / (s / 4)) * 100000000) = (200000000 : ℚ) from by
      rw [one_div, inv_div]
      rw [show (s / 2) * ((4 : ℚ) / s * 100000000) = (s / s) * 200000000 by
        ring]
      rw [div_self (ne_of_lt hs), one_mul]]
    with_unfolding_all decide
  rw [scan_round_unfold s ⟨s, s⟩ true 0 (s / 2) (s / 4) 0 200000000
    [0, 100000000, 200000000] ⟨⟨s, s⟩, [], some []⟩ h0 hconv
    (by with_unfolding_all decide) rfl]
  simp only [new_neg s hs, List.foldl_cons, List.foldl_nil, scan_step,
    gt_diag, eq_diag, Bool.false_eq_true, if_false, if_true, List.nil_append,
    List.append_assoc, List.cons_append, List.singleton_append]

/-- A negative-sum run converges in its first round with an empty bucket. -/
theorem solveRun_neg (s : ℚ) (hs : s < 0) :
    (NumberPairingProblem.solveRun ⟨s, 0, none⟩ true).other_results =
      some [] := by
  have hstep : get_highest_result_of_seq 40 0 (s / 2) (s / 4)
      ⟨s, 0, true, ⟨s, s⟩, 0, s / 2, ⟨s, s⟩, [], some [], 0, 40, false⟩ =
      ⟨s, 1, true, ⟨s, s⟩, 0, s / 2, ⟨s, s⟩, [], some [], 1, 40, true⟩ :=
    ghrs_step_converge 39 0 (s / 2) (s / 4) _ _ (by norm_num) (scan_neg s hs)
      (by simp [condition_to_end_recursion, le_diag])
  simp only [NumberPairingProblem.solveRun, NumberPairingProblem.initialGlobals,
    new_neg s hs, if_true]
  rw [hstep]

/-- The degenerate sum-0 run also produces an empty other bucket. -/
theorem solve0_other :
    (NumberPairingProblem.solve_with 0 true).results.map Results.other =
      some (some []) := by
  with_unfolding_all decide

/-- C5: when collection of secondary results is requested, the `other` list of
the final results is strictly descending by score, and no two of its entries
are equal under the `PartialEq` pair equality. -/
theorem C5_other_results_strictly_descending (sum : ℚ) (l : List NumberPairing)
    (hl : (NumberPairingProblem.solve_with sum true).results.map Results.other =
      some (some l)) :
    l.Chain' (fun a b => b.result < a.result) ∧
      l.Pairwise (fun a b => a.eq b = false) := by
  rcases lt_trichotomy sum 0 with hneg | rfl | hpos
  · simp only [NumberPairingProblem.solve_with, NumberPairingProblem.solve,
      solveRun_neg sum hneg, Option.map_some', Option.some.injEq] at hl
    have hl2 : dedup_consec (sort_desc []) = l := hl
    have hl3 : dedup_consec (sort_desc ([] : List NumberPairing)) = [] := by
      simp [sort_desc, dedup_consec]
    rw [hl3] at hl2
    subst hl2
    exact ⟨List.chain'_nil, List.Pairwise.nil⟩
  · rw [solve0_other] at hl
    simp only [Option.some.injEq] at hl
    subst hl
    exact ⟨List.chain'_nil, List.Pairwise.nil⟩
  · obtain ⟨J, hJ10, hother⟩ := solveRun_other_pos sum hpos
    simp only [NumberPairingProblem.solve_with, NumberPairingProblem.solve,
      hother, Option.map_some', Option.some.injEq] at hl
    rw [sort_desc_scale sum hpos, dedup_consec_scale sum (ne_of_gt hpos)] at hl
    subst hl
    obtain ⟨h1, h2⟩ := bucket_props J
    exact ⟨chain_scale sum hpos _ h1,
      pairwise_ne_scale sum (ne_of_gt hpos) _ h2⟩


/-!
Concrete evaluation of the default run (sum 8): the refinement is evaluated
one round at a time, each round by one scan lemma and one step lemma, and the
final states are assembled into the solved problem.
-/

/-- Concrete evaluation of one scan round. -/
theorem sum8t_scan1 :
    scan_round 8 ⟨0, 8⟩ true 0 4 2 =
      ⟨⟨2, 8⟩, [⟨2, 8⟩], some [⟨4, 8⟩]⟩ := by
  rw [scan_round_unfold 8 ⟨0, 8⟩ true 0 4 2
    0 200000000
    [0, 100000000, 200000000]
    ⟨⟨0, 8⟩, [], some []⟩
    (by with_unfolding_all decide) (by with_unfolding_all decide)
    (by with_unfolding_all decide) rfl]
  norm_num [List.foldl_cons, List.foldl_nil,
    scan_step, NumberPairing.gt, NumberPairing.cmp, NumberPairing.eq,
    NumberPairing.result, NumberPairing.product, NumberPairing.difference,
    NumberPairing.second, NumberPairing.first, can_be_added_to_other, push_other,
    NumberPairing.new, NumberPairing.validate_and_correct_input,
    abs_of_nonneg, abs_of_nonpos,
    show (Ordering.gt == Ordering.gt) = true from rfl,
    show (Ordering.lt == Ordering.gt) = false from rfl,
    show (Ordering.eq == Ordering.gt) = false from rfl]

/-- This round improves the overall best and recurses. -/
theorem sum8t_step1 :
    get_highest_result_of_seq 40 0 4 2
      ⟨8, 0, true, ⟨0, 8⟩, 0, 4, ⟨0, 8⟩, [], some [], 0, 40, false⟩ =
    get_highest_result_of_seq 39 1 3 (1/2)
      ⟨8, 0, true, ⟨0, 8⟩, 0, 4, ⟨2, 8⟩, [⟨2, 8⟩], some [⟨4, 8⟩], 1, 40, false⟩ :=
  ghrs_step_continue 39 0 4 2 _ _ _ 1 3 (1/2) (by decide)
    sum8t_scan1 (by norm_num [condition_to_end_recursion, NumberPairing.le, NumberPairing.is_equivalent_to,
    NumberPairing.difference_from, NumberPairing.minimum_precision, NumberPairing.cmp,
    NumberPairing.result, NumberPairing.product, NumberPairing.difference,
    NumberPairing.second, NumberPairing.first, abs_of_nonneg, abs_of_nonpos,
    show (Ordering.gt == Ordering.gt) = true from rfl,
    show (Ordering.lt == Ordering.gt) = false from rfl,
    show (Ordering.eq == Ordering.gt) = false from rfl]) (by norm_num [promote_round, can_be_added_to_other, push_other, NumberPairing.eq,
    NumberPairing.first, NumberPairing.second, List.filter, abs_of_nonneg, abs_of_nonpos])
    (by norm_num [next_low_value, next_high_value, next_precision, NumberPairing.first]) (by norm_num [next_low_value, next_high_value, next_precision, NumberPairing.first])
    (by norm_num [next_low_value, next_high_value, next_precision, NumberPairing.first])

/-- Concrete evaluation of one scan round. -/
theorem sum8t_scan2 :
    scan_round 8 ⟨0, 8⟩ true 1 3 (1/2) =
      ⟨⟨(3/2), 8⟩, [⟨(3/2), 8⟩], some [⟨1, 8⟩, ⟨2, 8⟩, ⟨(5/2), 8⟩, ⟨3, 8⟩]⟩ := by
  rw [scan_round_unfold 8 ⟨0, 8⟩ true 1 3 (1/2)
    200000000 600000000
    [200000000, 300000000, 400000000, 500000000, 600000000]
    ⟨⟨0, 8⟩, [], some []⟩
    (by with_unfolding_all decide) (by with_unfolding_all decide)
    (by with_unfolding_all decide) rfl]
  norm_num [List.foldl_cons, List.foldl_nil,
    scan_step, NumberPairing.gt, NumberPairing.cmp, NumberPairing.eq,
    NumberPairing.result, NumberPairing.product, NumberPairing.difference,
    NumberPairing.second, NumberPairing.first, can_be_added_to_other, push_other,
    NumberPairing.new, NumberPairing.validate_and_correct_input,
    abs_of_nonneg, abs_of_nonpos,
    show (Ordering.gt == Ordering.gt) = true from rfl,
    show (Ordering.lt == Ordering.gt) = false from rfl,
    show (Ordering.eq == Ordering.gt) = false from rfl]

/-- This round improves the overall best and recurses. -/
theorem sum8t_step2 :
    get_highest_result_of_seq 39 1 3 (1/2)
      ⟨8, 0, true, ⟨0, 8⟩, 0, 4, ⟨2, 8⟩, [⟨2, 8⟩], some [⟨4, 8⟩], 1, 40, false⟩ =
    get_highest_result_of_seq 38 (5/4) (7/4) (1/16)
      ⟨8, 0, true, ⟨0, 8⟩, 0, 4, ⟨(3/2), 8⟩, [⟨(3/2), 8⟩], some [⟨4, 8⟩, ⟨1, 8⟩, ⟨2, 8⟩, ⟨(5/2), 8⟩, ⟨3, 8⟩, ⟨2, 8⟩], 2, 40, false⟩ :=
  ghrs_step_continue 38 1 3 (1/2) _ _ _ (5/4) (7/4) (1/16) (by decide)
    sum8t_scan2 (by norm_num [condition_to_end_recursion, NumberPairing.le, NumberPairing.is_equivalent_to,
    NumberPairing.difference_from, NumberPairing.minimum_precision, NumberPairing.cmp,
    NumberPairing.result, NumberPairing.product, NumberPairing.difference,
    NumberPairing.second, NumberPairing.first, abs_of_nonneg, abs_of_nonpos,
    show (Ordering.gt == Ordering.gt) = true from rfl,
    show (Ordering.lt == Ordering.gt) = false from rfl,
    show (Ordering.eq == Ordering.gt) = false from rfl]) (by norm_num [promote_round, can_be_added_to_other, push_other, NumberPairing.eq,
    NumberPairing.first, NumberPairing.second, List.filter, abs_of_nonneg, abs_of_nonpos])
    (by norm_num [next_low_value, next_high_value, next_precision, NumberPairing.first]) (by norm_num [next_low_value, next_high_value, next_precision, NumberPairing.first])
    (by norm_num [next_low_value, next_high_value, next_precision, NumberPairing.first])

/-- Concrete evaluation of one scan round. -/
theorem sum8t_scan3 :
    scan_round 8 ⟨0, 8⟩ true (5/4) (7/4) (1/16) =
      ⟨⟨(27/16), 8⟩, [⟨(27/16), 8⟩], some [⟨(5/4), 8⟩, ⟨(21/16), 8⟩, ⟨(11/8), 8⟩, ⟨(23/16), 8⟩, ⟨(3/2), 8⟩, ⟨(25/16), 8⟩, ⟨(13/8), 8⟩, ⟨(7/4), 8⟩]⟩ := by
  rw [scan_round_unfold 8 ⟨0, 8⟩ true (5/4) (7/4) (1/16)
    2000000000 2800000000
    [2000000000, 2100000000, 2200000000, 2300000000, 2400000000, 2500000000, 2600000000, 2700000000, 2800000000]
    ⟨⟨0, 8⟩, [], some []⟩
    (by with_unfolding_all decide) (by with_unfolding_all decide)
    (by with_unfolding_all decide) rfl]
  norm_num [List.foldl_cons, List.foldl_nil,
    scan_step, NumberPairing.gt, NumberPairing.cmp, NumberPairing.eq,
    NumberPairing.result, NumberPairing.product, NumberPairing.difference,
    NumberPairing.second, NumberPairing.first, can_be_added_to_other, push_other,
    NumberPairing.new, NumberPairing.validate_and_correct_input,
    abs_of_nonneg, abs_of_nonpos,
    show (Ordering.gt == Ordering.gt) = true from rfl,
    show (Ordering.lt == Ordering.gt) = false from rfl,
    show (Ordering.eq == Ordering.gt) = false from rfl]

/-- This round improves the overall best and recurses. -/
theorem sum8t_step3 :
    get_highest_result_of_seq 38 (5/4) (7/4) (1/16)
      ⟨8, 0, true, ⟨0, 8⟩, 0, 4, ⟨(3/2), 8⟩, [⟨(3/2), 8⟩], some [⟨4, 8⟩, ⟨1, 8⟩, ⟨2, 8⟩, ⟨(5/2), 8⟩, ⟨3, 8⟩, ⟨2, 8⟩], 2, 40, false⟩ =
    get_highest_result_of_seq 37 (53/32) (55/32) (1/192)
      ⟨8, 0, true, ⟨0, 8⟩, 0, 4, ⟨(27/16), 8⟩, [⟨(27/16), 8⟩], some [⟨4, 8⟩, ⟨1, 8⟩, ⟨2, 8⟩, ⟨(5/2), 8⟩, ⟨3, 8⟩, ⟨2, 8⟩, ⟨(5/4), 8⟩, ⟨(21/16), 8⟩, ⟨(11/8), 8⟩, ⟨(23/16), 8⟩, ⟨(3/2), 8⟩, ⟨(25/16), 8⟩, ⟨(13/8), 8⟩, ⟨(7/4), 8⟩, ⟨(3/2), 8⟩], 3, 40, false⟩ :=
  ghrs_step_continue 37 (5/4) (7/4) (1/16) _ _ _ (53/32) (55/32) (1/192) (by decide)
    sum8t_scan3 (by norm_num [condition_to_end_recursion, NumberPairing.le, NumberPairing.is_equivalent_to,
    NumberPairing.difference_from, NumberPairing.minimum_precision, NumberPairing.cmp,
    NumberPairing.result, NumberPairing.product, NumberPairing.difference,
    NumberPairing.second, NumberPairing.first, abs_of_nonneg, abs_of_nonpos,
    show (Ordering.gt == Ordering.gt) = true from rfl,
    show (Ordering.lt == Ordering.gt) = false from rfl,
    show (Ordering.eq == Ordering.gt) = false from rfl]) (by norm_num [promote_round, can_be_added_to_other, push_other, NumberPairing.eq,
    NumberPairing.first, NumberPairing.second, List.filter, abs_of_nonneg, abs_of_nonpos])
    (by norm_num [next_low_value, next_high_value, next_precision, NumberPairing.first]) (by norm_num [next_low_value, next_high_value, next_precision, NumberPairing.first])
    (by norm_num [next_low_value, next_high_value, next_precision, NumberPairing.first])

/-- Concrete evaluation of one scan round. -/
theorem sum8t_scan4 :
    scan_round 8 ⟨0, 8⟩ true (53/32) (55/32) (1/192) =
      ⟨⟨(325/192), 8⟩, [⟨(325/192), 8⟩], some []⟩ := by
  rw [scan_round_unfold 8 ⟨0, 8⟩ true (53/32) (55/32) (1/192)
    31800000000 33000000000
    [31800000000, 31900000000, 32000000000, 32100000000, 32200000000, 32300000000, 32400000000, 32500000000, 32600000000, 32700000000, 32800000000, 32900000000, 33000000000]
    ⟨⟨0, 8⟩, [], some []⟩
    (by with_unfolding_all decide) (by with_unfolding_all decide)
    (by with_unfolding_all decide) rfl]
  norm_num [List.foldl_cons, List.foldl_nil,
    scan_step, NumberPairing.gt, NumberPairing.cmp, NumberPairing.eq,
    NumberPairing.result, NumberPairing.product, NumberPairing.difference,
    NumberPairing.second, NumberPairing.first, can_be_added_to_other, push_other,
    NumberPairing.new, NumberPairing.validate_and_correct_input,
    abs_of_nonneg, abs_of_nonpos,
    show (Ordering.gt == Ordering.gt) = true from rfl,
    show (Ordering.lt == Ordering.gt) = false from rfl,
    show (Ordering.eq == Ordering.gt) = false from rfl]

/-- This round improves the overall best and recurses. -/
theorem sum8t_step4 :
    get_highest_result_of_seq 37 (53/32) (55/32) (1/192)
      ⟨8, 0, true, ⟨0, 8⟩, 0, 4, ⟨(27/16), 8⟩, [⟨(27/16), 8⟩], some [⟨4, 8⟩, ⟨1, 8⟩, ⟨2, 8⟩, ⟨(5/2), 8⟩, ⟨3, 8⟩, ⟨2, 8⟩, ⟨(5/4), 8⟩, ⟨(21/16), 8⟩, ⟨(11/8), 8⟩, ⟨(23/16), 8⟩, ⟨(3/2), 8⟩, ⟨(25/16), 8⟩, ⟨(13/8), 8⟩, ⟨(7/4), 8⟩, ⟨(3/2), 8⟩], 3, 40, false⟩ =
    get_highest_result_of_seq 36 (649/384) (217/128) (1/3072)
      ⟨8, 0, true, ⟨0, 8⟩, 0, 4, ⟨(325/192), 8⟩, [⟨(325/192), 8⟩], some [⟨4, 8⟩, ⟨1, 8⟩, ⟨2, 8⟩, ⟨(5/2), 8⟩, ⟨3, 8⟩, ⟨2, 8⟩, ⟨(5/4), 8⟩, ⟨(21/16), 8⟩, ⟨(11/8), 8⟩, ⟨(23/16), 8⟩, ⟨(3/2), 8⟩, ⟨(25/16), 8⟩, ⟨(13/8), 8⟩, ⟨(7/4), 8⟩, ⟨(3/2), 8⟩], 4, 40, false⟩ :=
  ghrs_step_continue 36 (53/32) (55/32) (1/192) _ _ _ (649/384) (217/128) (1/3072) (by decide)
    sum8t_scan4 (by norm_num [condition_to_end_recursion, NumberPairing.le, NumberPairing.is_equivalent_to,
    NumberPairing.difference_from, NumberPairing.minimum_precision, NumberPairing.cmp,
    NumberPairing.result, NumberPairing.product, NumberPairing.difference,
    NumberPairing.second, NumberPairing.first, abs_of_nonneg, abs_of_nonpos,
    show (Ordering.gt == Ordering.gt) = true from rfl,
    show (Ordering.lt == Ordering.gt) = false from rfl,
    show (Ordering.eq == Ordering.gt) = false from rfl]) (by norm_num [promote_round, can_be_added_to_other, push_other, NumberPairing.eq,
    NumberPairing.first, NumberPairing.second, List.filter, abs_of_nonneg, abs_of_nonpos])
    (by norm_num [next_low_value, next_high_value, next_precision, NumberPairing.first]) (by norm_num [next_low_value, next_high_value, next_precision, NumberPairing.first])
    (by norm_num [next_low_value, next_high_value, next_precision, NumberPairing.first])

/-- Concrete evaluation of one scan round. -/
theorem sum8t_scan5 :
    scan_round 8 ⟨0, 8⟩ true (649/384) (217/128) (1/3072) =
      ⟨⟨(2597/1536), 8⟩, [⟨(2597/1536), 8⟩], some []⟩ := by
  rw [scan_round_unfold 8 ⟨0, 8⟩ true (649/384) (217/128) (1/3072)
    519200000000 520800000000
    [519200000000, 519300000000, 519400000000, 519500000000, 519600000000, 519700000000, 519800000000, 519900000000, 520000000000, 520100000000, 520200000000, 520300000000, 520400000000, 520500000000, 520600000000, 520700000000, 520800000000]
    ⟨⟨0, 8⟩, [], some []⟩
    (by with_unfolding_all decide) (by with_unfolding_all decide)
    (by with_unfolding_all decide) rfl]
  norm_num [List.foldl_cons, List.foldl_nil,
    scan_step, NumberPairing.gt, NumberPairing.cmp, NumberPairing.eq,
    NumberPairing.result, NumberPairing.product, NumberPairing.difference,
    NumberPairing.second, NumberPairing.first, can_be_added_to_other, push_other,
    NumberPairing.new, NumberPairing.validate_and_correct_input,
    abs_of_nonneg, abs_of_nonpos,
    show (Ordering.gt == Ordering.gt) = true from rfl,
    show (Ordering.lt == Ordering.gt) = false from rfl,
    show (Ordering.eq == Ordering.gt) = false from rfl]

/-- This round improves the overall best and recurses. -/
theorem sum8t_step5 :
    get_highest_result_of_seq 36 (649/384) (217/128) (1/3072)
      ⟨8, 0, true, ⟨0, 8⟩, 0, 4, ⟨(325/192), 8⟩, [⟨(325/192), 8⟩], some [⟨4, 8⟩, ⟨1, 8⟩, ⟨2, 8⟩, ⟨(5/2), 8⟩, ⟨3, 8⟩, ⟨2, 8⟩, ⟨(5/4), 8⟩, ⟨(21/16), 8⟩, ⟨(11/8), 8⟩, ⟨(23/16), 8⟩, ⟨(3/2), 8⟩, ⟨(25/16), 8⟩, ⟨(13/8), 8⟩, ⟨(7/4), 8⟩, ⟨(3/2), 8⟩], 4, 40, false⟩ =
    get_highest_result_of_seq 35 (10387/6144) (3463/2048) (1/61440)
      ⟨8, 0, true, ⟨0, 8⟩, 0, 4, ⟨(2597/1536), 8⟩, [⟨(2597/1536), 8⟩], some [⟨4, 8⟩, ⟨1, 8⟩, ⟨2, 8⟩, ⟨(5/2), 8⟩, ⟨3, 8⟩, ⟨2, 8⟩, ⟨(5/4), 8⟩, ⟨(21/16), 8⟩, ⟨(11/8), 8⟩, ⟨(23/16), 8⟩, ⟨(3/2), 8⟩, ⟨(25/16), 8⟩, ⟨(13/8), 8⟩, ⟨(7/4), 8⟩, ⟨(3/2), 8⟩], 5, 40, false⟩ :=
  ghrs_step_continue 35 (649/384) (217/128) (1/3072) _ _ _ (10387/6144) (3463/2048) (1/61440) (by decide)
    sum8t_scan5 (by norm_num [condition_to_end_recursion, NumberPairing.le, NumberPairing.is_equivalent_to,
    NumberPairing.difference_from, NumberPairing.minimum_precision, NumberPairing.cmp,
    NumberPairing.result, NumberPairing.product, NumberPairing.difference,
    NumberPairing.second, NumberPairing.first, abs_of_nonneg, abs_of_nonpos,
    show (Ordering.gt == Ordering.gt) = true from rfl,
    show (Ordering.lt == Ordering.gt) = false from rfl,
    show (Ordering.eq == Ordering.gt) = false from rfl]) (by norm_num [promote_round, can_be_added_to_other, push_other, NumberPairing.eq,
    NumberPairing.first, NumberPairing.second, List.filter, abs_of_nonneg, abs_of_nonpos])
    (by norm_num [next_low_value, next_high_value, next_precision, NumberPairing.first]) (by norm_num [next_low_value, next_high_value, next_precision, NumberPairing.first])
    (by norm_num [next_low_value, next_high_value, next_precision, NumberPairing.first])

/-- Concrete evaluation of one scan round. -/
theorem sum8t_scan6 :
    scan_round 8 ⟨0, 8⟩ true (10387/6144) (3463/2048) (1/61440) =
      ⟨⟨(10387/6144), 8⟩, [⟨(10387/6144), 8⟩], some []⟩ := by
  rw [scan_round_unfold 8 ⟨0, 8⟩ true (10387/6144) (3463/2048) (1/61440)
    10387000000000 10389000000000
    [10387000000000, 10387100000000, 10387200000000, 10387300000000, 10387400000000, 10387500000000, 10387600000000, 10387700000000, 10387800000000, 10387900000000, 10388000000000, 10388100000000, 10388200000000, 10388300000000, 10388400000000, 10388500000000, 10388600000000, 10388700000000, 10388800000000, 10388900000000, 10389000000000]
    ⟨⟨0, 8⟩, [], some []⟩
    (by with_unfolding_all decide) (by with_unfolding_all decide)
    (by with_unfolding_all decide) rfl]
  norm_num [List.foldl_cons, List.foldl_nil,
    scan_step, NumberPairing.gt, NumberPairing.cmp, NumberPairing.eq,
    NumberPairing.result, NumberPairing.product, NumberPairing.difference,
    NumberPairing.second, NumberPairing.first, can_be_added_to_other, push_other,
    NumberPairing.new, NumberPairing.validate_and_correct_input,
    abs_of_nonneg, abs_of_nonpos,
    show (Ordering.gt == Ordering.gt) = true from rfl,
    show (Ordering.lt == Ordering.gt) = false from rfl,
    show (Ordering.eq == Ordering.gt) = false from rfl]

/-- This round improves the overall best and recurses. -/
theorem sum8t_step6 :
    get_highest_result_of_seq 35 (10387/6144) (3463/2048) (1/61440)
      ⟨8, 0, true, ⟨0, 8⟩, 0, 4, ⟨(2597/1536), 8⟩, [⟨(2597/1536), 8⟩], some [⟨4, 8⟩, ⟨1, 8⟩, ⟨2, 8⟩, ⟨(5/2), 8⟩, ⟨3, 8⟩, ⟨2, 8⟩, ⟨(5/4), 8⟩, ⟨(21/16), 8⟩, ⟨(11/8), 8⟩, ⟨(23/16), 8⟩, ⟨(3/2), 8⟩, ⟨(25/16), 8⟩, ⟨(13/8), 8⟩, ⟨(7/4), 8⟩, ⟨(3/2), 8⟩], 5, 40, false⟩ =
    get_highest_result_of_seq 34 (10387/6144) (69247/40960) (1/1474560)
      ⟨8, 0, true, ⟨0, 8⟩, 0, 4, ⟨(10387/6144), 8⟩, [⟨(10387/6144), 8⟩], some [⟨4, 8⟩, ⟨1, 8⟩, ⟨2, 8⟩, ⟨(5/2), 8⟩, ⟨3, 8⟩, ⟨2, 8⟩, ⟨(5/4), 8⟩, ⟨(21/16), 8⟩, ⟨(11/8), 8⟩, ⟨(23/16), 8⟩, ⟨(3/2), 8⟩, ⟨(25/16), 8⟩, ⟨(13/8), 8⟩, ⟨(7/4), 8⟩, ⟨(3/2), 8⟩], 6, 40, false⟩ :=
  ghrs_step_continue 34 (10387/6144) (3463/2048) (1/61440) _ _ _ (10387/6144) (69247/40960) (1/1474560) (by decide)
    sum8t_scan6 (by norm_num [condition_to_end_recursion, NumberPairing.le, NumberPairing.is_equivalent_to,
    NumberPairing.difference_from, NumberPairing.minimum_precision, NumberPairing.cmp,
    NumberPairing.result, NumberPairing.product, NumberPairing.difference,
    NumberPairing.second, NumberPairing.first, abs_of_nonneg, abs_of_nonpos,
    show (Ordering.gt == Ordering.gt) = true from rfl,
    show (Ordering.lt == Ordering.gt) = false from rfl,
    show (Ordering.eq == Ordering.gt) = false from rfl]) (by norm_num [promote_round, can_be_added_to_other, push_other, NumberPairing.eq,
    NumberPairing.first, NumberPairing.second, List.filter, abs_of_nonneg, abs_of_nonpos])
    (by norm_num [next_low_value, next_high_value, next_precision, NumberPairing.first]) (by norm_num [next_low_value, next_high_value, next_precision, NumberPairing.first])
    (by norm_num [next_low_value, next_high_value, next_precision, NumberPairing.first])

/-- Concrete evaluation of one scan round. -/
theorem sum8t_scan7 :
    scan_round 8 ⟨0, 8⟩ true (10387/6144) (69247/40960) (1/1474560) =
      ⟨⟨(249289/147456), 8⟩, [⟨(249289/147456), 8⟩], some []⟩ := by
  rw [scan_round_unfold 8 ⟨0, 8⟩ true (10387/6144) (69247/40960) (1/1474560)
    249288000000000 249289200000000
    [249288000000000, 249288100000000, 249288200000000, 249288300000000, 249288400000000, 249288500000000, 249288600000000, 249288700000000, 249288800000000, 249288900000000, 249289000000000, 249289100000000, 249289200000000]
    ⟨⟨0, 8⟩, [], some []⟩
    (by with_unfolding_all decide) (by with_unfolding_all decide)
    (by with_unfolding_all decide) rfl]
  norm_num [List.foldl_cons, List.foldl_nil,
    scan_step, NumberPairing.gt, NumberPairing.cmp, NumberPairing.eq,
    NumberPairing.result, NumberPairing.product, NumberPairing.difference,
    NumberPairing.second, NumberPairing.first, can_be_added_to_other, push_other,
    NumberPairing.new, NumberPairing.validate_and_correct_input,
    abs_of_nonneg, abs_of_nonpos,
    show (Ordering.gt == Ordering.gt) = true from rfl,
    show (Ordering.lt == Ordering.gt) = false from rfl,
    show (Ordering.eq == Ordering.gt) = false from rfl]

/-- This round improves the overall best and recurses. -/
theorem sum8t_step7 :
    get_highest_result_of_seq 34 (10387/6144) (69247/40960) (1/1474560)
      ⟨8, 0, true, ⟨0, 8⟩, 0, 4, ⟨(10387/6144), 8⟩, [⟨(10387/6144), 8⟩], some [⟨4, 8⟩, ⟨1, 8⟩, ⟨2, 8⟩, ⟨(5/2), 8⟩, ⟨3, 8⟩, ⟨2, 8⟩, ⟨(5/4), 8⟩, ⟨(21/16), 8⟩, ⟨(11/8), 8⟩, ⟨(23/16), 8⟩, ⟨(3/2), 8⟩, ⟨(25/16), 8⟩, ⟨(13/8), 8⟩, ⟨(7/4), 8⟩, ⟨(3/2), 8⟩], 6, 40, false⟩ =
    get_highest_result_of_seq 33 (4985779/2949120) (1661927/983040) (1/41287680)
      ⟨8, 0, true, ⟨0, 8⟩, 0, 4, ⟨(249289/147456), 8⟩, [⟨(249289/147456), 8⟩], some [⟨4, 8⟩, ⟨1, 8⟩, ⟨2, 8⟩, ⟨(5/2), 8⟩, ⟨3, 8⟩, ⟨2, 8⟩, ⟨(5/4), 8⟩, ⟨(21/16), 8⟩, ⟨(11/8), 8⟩, ⟨(23/16), 8⟩, ⟨(3/2), 8⟩, ⟨(25/16), 8⟩, ⟨(13/8), 8⟩, ⟨(7/4), 8⟩, ⟨(3/2), 8⟩], 7, 40, false⟩ :=
  ghrs_step_continue 33 (10387/6144) (69247/40960) (1/1474560) _ _ _ (4985779/2949120) (1661927/983040) (1/41287680) (by decide)
    sum8t_scan7 (by norm_num [condition_to_end_recursion, NumberPairing.le, NumberPairing.is_equivalent_to,
    NumberPairing.difference_from, NumberPairing.minimum_precision, NumberPairing.cmp,
    NumberPairing.result, NumberPairing.product, NumberPairing.difference,
    NumberPairing.second, NumberPairing.first, abs_of_nonneg, abs_of_nonpos,
    show (Ordering.gt == Ordering.gt) = true from rfl,
    show (Ordering.lt == Ordering.gt) = false from rfl,
    show (Ordering.eq == Ordering.gt) = false from rfl]) (by norm_num [promote_round, can_be_added_to_other, push_other, NumberPairing.eq,
    NumberPairing.first, NumberPairing.second, List.filter, abs_of_nonneg, abs_of_nonpos])
    (by norm_num [next_low_value, next_high_value, next_precision, NumberPairing.first]) (by norm_num [next_low_value, next_high_value, next_precision, NumberPairing.first])
    (by norm_num [next_low_value, next_high_value, next_precision, NumberPairing.first])

/-- Concrete evaluation of one scan round. -/
theorem sum8t_scan8 :
    scan_round 8 ⟨0, 8⟩ true (4985779/2949120) (1661927/983040) (1/41287680) =
      ⟨⟨(23266969/13762560), 8⟩, [⟨(23266969/13762560), 8⟩], some []⟩ := by
  rw [scan_round_unfold 8 ⟨0, 8⟩ true (4985779/2949120) (1661927/983040) (1/41287680)
    6980090600000000 6980093400000000
    [6980090600000000, 6980090700000000, 6980090800000000, 6980090900000000, 6980091000000000, 6980091100000000, 6980091200000000, 6980091300000000, 6980091400000000, 6980091500000000, 6980091600000000, 6980091700000000, 6980091800000000, 6980091900000000, 6980092000000000, 6980092100000000, 6980092200000000, 6980092300000000, 6980092400000000, 6980092500000000, 6980092600000000, 6980092700000000, 6980092800000000, 6980092900000000, 6980093000000000, 6980093100000000, 6980093200000000, 6980093300000000, 6980093400000000]
    ⟨⟨0, 8⟩, [], some []⟩
    (by with_unfolding_all decide) (by with_unfolding_all decide)
    (by with_unfolding_all decide) rfl]
  norm_num [List.foldl_cons, List.foldl_nil,
    scan_step, NumberPairing.gt, NumberPairing.cmp, NumberPairing.eq,
    NumberPairing.result, NumberPairing.product, NumberPairing.difference,
    NumberPairing.second, NumberPairing.first, can_be_added_to_other, push_other,
    NumberPairing.new, NumberPairing.validate_and_correct_input,
    abs_of_nonneg, abs_of_nonpos,
    show (Ordering.gt == Ordering.gt) = true from rfl,
    show (Ordering.lt == Ordering.gt) = false from rfl,
    show (Ordering.eq == Ordering.gt) = false from rfl]

/-- This round converges and records the run count. -/
theorem sum8t_step8 :
    get_highest_result_of_seq 33 (4985779/2949120) (1661927/983040) (1/41287680)
      ⟨8, 0, true, ⟨0, 8⟩, 0, 4, ⟨(249289/147456), 8⟩, [⟨(249289/147456), 8⟩], some [⟨4, 8⟩, ⟨1, 8⟩, ⟨2, 8⟩, ⟨(5/2), 8⟩, ⟨3, 8⟩, ⟨2, 8⟩, ⟨(5/4), 8⟩, ⟨(21/16), 8⟩, ⟨(11/8), 8⟩, ⟨(23/16), 8⟩, ⟨(3/2), 8⟩, ⟨(25/16), 8⟩, ⟨(13/8), 8⟩, ⟨(7/4), 8⟩, ⟨(3/2), 8⟩], 7, 40, false⟩ =
    ⟨8, 8, true, ⟨0, 8⟩, 0, 4, ⟨(249289/147456), 8⟩, [⟨(249289/147456), 8⟩], some [⟨4, 8⟩, ⟨1, 8⟩, ⟨2, 8⟩, ⟨(5/2), 8⟩, ⟨3, 8⟩, ⟨2, 8⟩, ⟨(5/4), 8⟩, ⟨(21/16), 8⟩, ⟨(11/8), 8⟩, ⟨(23/16), 8⟩, ⟨(3/2), 8⟩, ⟨(25/16), 8⟩, ⟨(13/8), 8⟩, ⟨(7/4), 8⟩, ⟨(3/2), 8⟩], 8, 40, true⟩ :=
  ghrs_step_converge 32 (4985779/2949120) (1661927/983040) (1/41287680) _ _ (by decide)
    sum8t_scan8 (by norm_num [condition_to_end_recursion, NumberPairing.le, NumberPairing.is_equivalent_to,
    NumberPairing.difference_from, NumberPairing.minimum_precision, NumberPairing.cmp,
    NumberPairing.result, NumberPairing.product, NumberPairing.difference,
    NumberPairing.second, NumberPairing.first, abs_of_nonneg, abs_of_nonpos,
    show (Ordering.gt == Ordering.gt) = true from rfl,
    show (Ordering.lt == Ordering.gt) = false from rfl,
    show (Ordering.eq == Ordering.gt) = false from rfl])

/-- Concrete evaluation of one scan round. -/
theorem sum8f_scan1 :
    scan_round 8 ⟨0, 8⟩ false 0 4 2 =
      ⟨⟨2, 8⟩, [⟨2, 8⟩], none⟩ := by
  rw [scan_round_unfold 8 ⟨0, 8⟩ false 0 4 2
    0 200000000
    [0, 100000000, 200000000]
    ⟨⟨0, 8⟩, [], none⟩
    (by with_unfolding_all decide) (by with_unfolding_all decide)
    (by with_unfolding_all decide) rfl]
  norm_num [List.foldl_cons, List.foldl_nil,
    scan_step, NumberPairing.gt, NumberPairing.cmp, NumberPairing.eq,
    NumberPairing.result, NumberPairing.product, NumberPairing.difference,
    NumberPairing.second, NumberPairing.first, can_be_added_to_other, push_other,
    NumberPairing.new, NumberPairing.validate_and_correct_input,
    abs_of_nonneg, abs_of_nonpos,
    show (Ordering.gt == Ordering.gt) = true from rfl,
    show (Ordering.lt == Ordering.gt) = false from rfl,
    show (Ordering.eq == Ordering.gt) = false from rfl]

/-- This round improves the overall best and recurses. -/
theorem sum8f_step1 :
    get_highest_result_of_seq 40 0 4 2
      ⟨8, 0, false, ⟨0, 8⟩, 0, 4, ⟨0, 8⟩, [], none, 0, 40, false⟩ =
    get_highest_result_of_seq 39 1 3 (1/2)
      ⟨8, 0, false, ⟨0, 8⟩, 0, 4, ⟨2, 8⟩, [⟨2, 8⟩], none, 1, 40, false⟩ :=
  ghrs_step_continue 39 0 4 2 _ _ _ 1 3 (1/2) (by decide)
    sum8f_scan1 (by norm_num [condition_to_end_recursion, NumberPairing.le, NumberPairing.is_equivalent_to,
    NumberPairing.difference_from, NumberPairing.minimum_precision, NumberPairing.cmp,
    NumberPairing.result, NumberPairing.product, NumberPairing.difference,
    NumberPairing.second, NumberPairing.first, abs_of_nonneg, abs_of_nonpos,
    show (Ordering.gt == Ordering.gt) = true from rfl,
    show (Ordering.lt == Ordering.gt) = false from rfl,
    show (Ordering.eq == Ordering.gt) = false from rfl]) (by norm_num [promote_round, can_be_added_to_other, push_other, NumberPairing.eq,
    NumberPairing.first, NumberPairing.second, List.filter, abs_of_nonneg, abs_of_nonpos])
    (by norm_num [next_low_value, next_high_value, next_precision, NumberPairing.first]) (by norm_num [next_low_value, next_high_value, next_precision, NumberPairing.first])
    (by norm_num [next_low_value, next_high_value, next_precision, NumberPairing.first])

/-- Concrete evaluation of one scan round. -/
theorem sum8f_scan2 :
    scan_round 8 ⟨0, 8⟩ false 1 3 (1/2) =
      ⟨⟨(3/2), 8⟩, [⟨(3/2), 8⟩], none⟩ := by
  rw [scan_round_unfold 8 ⟨0, 8⟩ false 1 3 (1/2)
    200000000 600000000
    [200000000, 300000000, 400000000, 500000000, 600000000]
    ⟨⟨0, 8⟩, [], none⟩
    (by with_unfolding_all decide) (by with_unfolding_all decide)
    (by with_unfolding_all decide) rfl]
  norm_num [List.foldl_cons, List.foldl_nil,
    scan_step, NumberPairing.gt, NumberPairing.cmp, NumberPairing.eq,
    NumberPairing.result, NumberPairing.product, NumberPairing.difference,
    NumberPairing.second, NumberPairing.first, can_be_added_to_other, push_other,
    NumberPairing.new, NumberPairing.validate_and_correct_input,
    abs_of_nonneg, abs_of_nonpos,
    show (Ordering.gt == Ordering.gt) = true from rfl,
    show (Ordering.lt == Ordering.gt) = false from rfl,
    show (Ordering.eq == Ordering.gt) = false from rfl]

/-- This round improves the overall best and recurses. -/
theorem sum8f_step2 :
    get_highest_result_of_seq 39 1 3 (1/2)
      ⟨8, 0, false, ⟨0, 8⟩, 0, 4, ⟨2, 8⟩, [⟨2, 8⟩], none, 1, 40, false⟩ =
    get_highest_result_of_seq 38 (5/4) (7/4) (1/16)
      ⟨8, 0, false, ⟨0, 8⟩, 0, 4, ⟨(3/2), 8⟩, [⟨(3/2), 8⟩], none, 2, 40, false⟩ :=
  ghrs_step_continue 38 1 3 (1/2) _ _ _ (5/4) (7/4) (1/16) (by decide)
    sum8f_scan2 (by norm_num [condition_to_end_recursion, NumberPairing.le, NumberPairing.is_equivalent_to,
    NumberPairing.difference_from, NumberPairing.minimum_precision, NumberPairing.cmp,
    NumberPairing.result, NumberPairing.product, NumberPairing.difference,
    NumberPairing.second, NumberPairing.first, abs_of_nonneg, abs_of_nonpos,
    show (Ordering.gt == Ordering.gt) = true from rfl,
    show (Ordering.lt == Ordering.gt) = false from rfl,
    show (Ordering.eq == Ordering.gt) = false from rfl]) (by norm_num [promote_round, can_be_added_to_other, push_other, NumberPairing.eq,
    NumberPairing.first, NumberPairing.second, List.filter, abs_of_nonneg, abs_of_nonpos])
    (by norm_num [next_low_value, next_high_value, next_precision, NumberPairing.first]) (by norm_num [next_low_value, next_high_value, next_precision, NumberPairing.first])
    (by norm_num [next_low_value, next_high_value, next_precision, NumberPairing.first])

/-- Concrete evaluation of one scan round. -/
theorem sum8f_scan3 :
    scan_round 8 ⟨0, 8⟩ false (5/4) (7/4) (1/16) =
      ⟨⟨(27/16), 8⟩, [⟨(27/16), 8⟩], none⟩ := by
  rw [scan_round_unfold 8 ⟨0, 8⟩ false (5/4) (7/4) (1/16)
    2000000000 2800000000
    [2000000000, 2100000000, 2200000000, 2300000000, 2400000000, 2500000000, 2600000000, 2700000000, 2800000000]
    ⟨⟨0, 8⟩, [], none⟩
    (by with_unfolding_all decide) (by with_unfolding_all decide)
    (by with_unfolding_all decide) rfl]
  norm_num [List.foldl_cons, List.foldl_nil,
    scan_step, NumberPairing.gt, NumberPairing.cmp, NumberPairing.eq,
    NumberPairing.result, NumberPairing.product, NumberPairing.difference,
    NumberPairing.second, NumberPairing.first, can_be_added_to_other, push_other,
    NumberPairing.new, NumberPairing.validate_and_correct_input,
    abs_of_nonneg, abs_of_nonpos,
    show (Ordering.gt == Ordering.gt) = true from rfl,
    show (Ordering.lt == Ordering.gt) = false from rfl,
    show (Ordering.eq == Ordering.gt) = false from rfl]

/-- This round improves the overall best and recurses. -/
theorem sum8f_step3 :
    get_highest_result_of_seq 38 (5/4) (7/4) (1/16)
      ⟨8, 0, false, ⟨0, 8⟩, 0, 4, ⟨(3/2), 8⟩, [⟨(3/2), 8⟩], none, 2, 40, false⟩ =
    get_highest_result_of_seq 37 (53/32) (55/32) (1/192)
      ⟨8, 0, false, ⟨0, 8⟩, 0, 4, ⟨(27/16), 8⟩, [⟨(27/16), 8⟩], none, 3, 40, false⟩ :=
  ghrs_step_continue 37 (5/4) (7/4) (1/16) _ _ _ (53/32) (55/32) (1/192) (by decide)
    sum8f_scan3 (by norm_num [condition_to_end_recursion, NumberPairing.le, NumberPairing.is_equivalent_to,
    NumberPairing.difference_from, NumberPairing.minimum_precision, NumberPairing.cmp,
    NumberPairing.result, NumberPairing.product, NumberPairing.difference,
    NumberPairing.second, NumberPairing.first, abs_of_nonneg, abs_of_nonpos,
    show (Ordering.gt == Ordering.gt) = true from rfl,
    show (Ordering.lt == Ordering.gt) = false from rfl,
    show (Ordering.eq == Ordering.gt) = false from rfl]) (by norm_num [promote_round, can_be_added_to_other, push_other, NumberPairing.eq,
    NumberPairing.first, NumberPairing.second, List.filter, abs_of_nonneg, abs_of_nonpos])
    (by norm_num [next_low_value, next_high_value, next_precision, NumberPairing.first]) (by norm_num [next_low_value, next_high_value, next_precision, NumberPairing.first])
    (by norm_num [next_low_value, next_high_value, next_precision, NumberPairing.first])

/-- Concrete evaluation of one scan round. -/
theorem sum8f_scan4 :
    scan_round 8 ⟨0, 8⟩ false (53/32) (55/32) (1/192) =
      ⟨⟨(325/192), 8⟩, [⟨(325/192), 8⟩], none⟩ := by
  rw [scan_round_unfold 8 ⟨0, 8⟩ false (53/32) (55/32) (1/192)
    31800000000 33000000000
    [31800000000, 31900000000, 32000000000, 32100000000, 32200000000, 32300000000, 32400000000, 32500000000, 32600000000, 32700000000, 32800000000, 32900000000, 33000000000]
    ⟨⟨0, 8⟩, [], none⟩
    (by with_unfolding_all decide) (by with_unfolding_all decide)
    (by with_unfolding_all decide) rfl]
  norm_num [List.foldl_cons, List.foldl_nil,
    scan_step, NumberPairing.gt, NumberPairing.cmp, NumberPairing.eq,
    NumberPairing.result, NumberPairing.product, NumberPairing.difference,
    NumberPairing.second, NumberPairing.first, can_be_added_to_other, push_other,
    NumberPairing.new, NumberPairing.validate_and_correct_input,
    abs_of_nonneg, abs_of_nonpos,
    show (Ordering.gt == Ordering.gt) = true from rfl,
    show (Ordering.lt == Ordering.gt) = false from rfl,
    show (Ordering.eq == Ordering.gt) = false from rfl]

/-- This round improves the overall best and recurses. -/
theorem sum8f_step4 :
    get_highest_result_of_seq 37 (53/32) (55/32) (1/192)
      ⟨8, 0, false, ⟨0, 8⟩, 0, 4, ⟨(27/16), 8⟩, [⟨(27/16), 8⟩], none, 3, 40, false⟩ =
    get_highest_result_of_seq 36 (649/384) (217/128) (1/3072)
      ⟨8, 0, false, ⟨0, 8⟩, 0, 4, ⟨(325/192), 8⟩, [⟨(325/192), 8⟩], none, 4, 40, false⟩ :=
  ghrs_step_continue 36 (53/32) (55/32) (1/192) _ _ _ (649/384) (217/128) (1/3072) (by decide)
    sum8f_scan4 (by norm_num [condition_to_end_recursion, NumberPairing.le, NumberPairing.is_equivalent_to,
    NumberPairing.difference_from, NumberPairing.minimum_precision, NumberPairing.cmp,
    NumberPairing.result, NumberPairing.product, NumberPairing.difference,
    NumberPairing.second, NumberPairing.first, abs_of_nonneg, abs_of_nonpos,
    show (Ordering.gt == Ordering.gt) = true from rfl,
    show (Ordering.lt == Ordering.gt) = false from rfl,
    show (Ordering.eq == Ordering.gt) = false from rfl]) (by norm_num [promote_round, can_be_added_to_other, push_other, NumberPairing.eq,
    NumberPairing.first, NumberPairing.second, List.filter, abs_of_nonneg, abs_of_nonpos])
    (by norm_num [next_low_value, next_high_value, next_precision, NumberPairing.first]) (by norm_num [next_low_value, next_high_value, next_precision, NumberPairing.first])
    (by norm_num [next_low_value, next_high_value, next_precision, NumberPairing.first])

/-- Concrete evaluation of one scan round. -/
theorem sum8f_scan5 :
    scan_round 8 ⟨0, 8⟩ false (649/384) (217/128) (1/3072) =
      ⟨⟨(2597/1536), 8⟩, [⟨(2597/1536), 8⟩], none⟩ := by
  rw [scan_round_unfold 8 ⟨0, 8⟩ false (649/384) (217/128) (1/3072)
    519200000000 520800000000
    [519200000000, 519300000000, 519400000000, 519500000000, 519600000000, 519700000000, 519800000000, 519900000000, 520000000000, 520100000000, 520200000000, 520300000000, 520400000000, 520500000000, 520600000000, 520700000000, 520800000000]
    ⟨⟨0, 8⟩, [], none⟩
    (by with_unfolding_all decide) (by with_unfolding_all decide)
    (by with_unfolding_all decide) rfl]
  norm_num [List.foldl_cons, List.foldl_nil,
    scan_step, NumberPairing.gt, NumberPairing.cmp, NumberPairing.eq,
    NumberPairing.result, NumberPairing.product, NumberPairing.difference,
    NumberPairing.second, NumberPairing.first, can_be_added_to_other, push_other,
    NumberPairing.new, NumberPairing.validate_and_correct_input,
    abs_of_nonneg, abs_of_nonpos,
    show (Ordering.gt == Ordering.gt) = true from rfl,
    show (Ordering.lt == Ordering.gt) = false from rfl,
    show (Ordering.eq == Ordering.gt) = false from rfl]

/-- This round improves the overall best and recurses. -/
theorem sum8f_step5 :
    get_highest_result_of_seq 36 (649/384) (217/128) (1/3072)
      ⟨8, 0, false, ⟨0, 8⟩, 0, 4, ⟨(325/192), 8⟩, [⟨(325/192), 8⟩], none, 4, 40, false⟩ =
    get_highest_result_of_seq 35 (10387/6144) (3463/2048) (1/61440)
      ⟨8, 0, false, ⟨0, 8⟩, 0, 4, ⟨(2597/1536), 8⟩, [⟨(2597/1536), 8⟩], none, 5, 40, false⟩ :=
  ghrs_step_continue 35 (649/384) (217/128) (1/3072) _ _ _ (10387/6144) (3463/2048) (1/61440) (by decide)
    sum8f_scan5 (by norm_num [condition_to_end_recursion, NumberPairing.le, NumberPairing.is_equivalent_to,
    NumberPairing.difference_from, NumberPairing.minimum_precision, NumberPairing.cmp,
    NumberPairing.result, NumberPairing.product, NumberPairing.difference,
    NumberPairing.second, NumberPairing.first, abs_of_nonneg, abs_of_nonpos,
    show (Ordering.gt == Ordering.gt) = true from rfl,
    show (Ordering.lt == Ordering.gt) = false from rfl,
    show (Ordering.eq == Ordering.gt) = false from rfl]) (by norm_num [promote_round, can_be_added_to_other, push_other, NumberPairing.eq,
    NumberPairing.first, NumberPairing.second, List.filter, abs_of_nonneg, abs_of_nonpos])
    (by norm_num [next_low_value, next_high_value, next_precision, NumberPairing.first]) (by norm_num [next_low_value, next_high_value, next_precision, NumberPairing.first])
    (by norm_num [next_low_value, next_high_value, next_precision, NumberPairing.first])

/-- Concrete evaluation of one scan round. -/
theorem sum8f_scan6 :
    scan_round 8 ⟨0, 8⟩ false (10387/6144) (3463/2048) (1/61440) =
      ⟨⟨(10387/6144), 8⟩, [⟨(10387/6144), 8⟩], none⟩ := by
  rw [scan_round_unfold 8 ⟨0, 8⟩ false (10387/6144) (3463/2048) (1/61440)
    10387000000000 10389000000000
    [10387000000000, 10387100000000, 10387200000000, 10387300000000, 10387400000000, 10387500000000, 10387600000000, 10387700000000, 10387800000000, 10387900000000, 10388000000000, 10388100000000, 10388200000000, 10388300000000, 10388400000000, 10388500000000, 10388600000000, 10388700000000, 10388800000000, 10388900000000, 10389000000000]
    ⟨⟨0, 8⟩, [], none⟩
    (by with_unfolding_all decide) (by with_unfolding_all decide)
    (by with_unfolding_all decide) rfl]
  norm_num [List.foldl_cons, List.foldl_nil,
    scan_step, NumberPairing.gt, NumberPairing.cmp, NumberPairing.eq,
    NumberPairing.result, NumberPairing.product, NumberPairing.difference,
    NumberPairing.second, NumberPairing.first, can_be_added_to_other, push_other,
    NumberPairing.new, NumberPairing.validate_and_correct_input,
    abs_of_nonneg, abs_of_nonpos,
    show (Ordering.gt == Ordering.gt) = true from rfl,
    show (Ordering.lt == Ordering.gt) = false from rfl,
    show (Ordering.eq == Ordering.gt) = false from rfl]

/-- This round improves the overall best and recurses. -/
theorem sum8f_step6 :
    get_highest_result_of_seq 35 (10387/6144) (3463/2048) (1/61440)
      ⟨8, 0, false, ⟨0, 8⟩, 0, 4, ⟨(2597/1536), 8⟩, [⟨(2597/1536), 8⟩], none, 5, 40, false⟩ =
    get_highest_result_of_seq 34 (10387/6144) (69247/40960) (1/1474560)
      ⟨8, 0, false, ⟨0, 8⟩, 0, 4, ⟨(10387/6144), 8⟩, [⟨(10387/6144), 8⟩], none, 6, 40, false⟩ :=
  ghrs_step_continue 34 (10387/6144) (3463/2048) (1/61440) _ _ _ (10387/6144) (69247/40960) (1/1474560) (by decide)
    sum8f_scan6 (by norm_num [condition_to_end_recursion, NumberPairing.le, NumberPairing.is_equivalent_to,
    NumberPairing.difference_from, NumberPairing.minimum_precision, NumberPairing.cmp,
    NumberPairing.result, NumberPairing.product, NumberPairing.difference,
    NumberPairing.second, NumberPairing.first, abs_of_nonneg, abs_of_nonpos,
    show (Ordering.gt == Ordering.gt) = true from rfl,
    show (Ordering.lt == Ordering.gt) = false from rfl,
    show (Ordering.eq == Ordering.gt) = false from rfl]) (by norm_num [promote_round, can_be_added_to_other, push_other, NumberPairing.eq,
    NumberPairing.first, NumberPairing.second, List.filter, abs_of_nonneg, abs_of_nonpos])
    (by norm_num [next_low_value, next_high_value, next_precision, NumberPairing.first]) (by norm_num [next_low_value, next_high_value, next_precision, NumberPairing.first])
    (by norm_num [next_low_value, next_high_value, next_precision, NumberPairing.first])

/-- Concrete evaluation of one scan round. -/
theorem sum8f_scan7 :
    scan_round 8 ⟨0, 8⟩ false (10387/6144) (69247/40960) (1/1474560) =
      ⟨⟨(249289/147456), 8⟩, [⟨(249289/147456), 8⟩], none⟩ := by
  rw [scan_round_unfold 8 ⟨0, 8⟩ false (10387/6144) (69247/40960) (1/1474560)
    249288000000000 249289200000000
    [249288000000000, 249288100000000, 249288200000000, 249288300000000, 249288400000000, 249288500000000, 249288600000000, 249288700000000, 249288800000000, 249288900000000, 249289000000000, 249289100000000, 249289200000000]
    ⟨⟨0, 8⟩, [], none⟩
    (by with_unfolding_all decide) (by with_unfolding_all decide)
    (by with_unfolding_all decide) rfl]
  norm_num [List.foldl_cons, List.foldl_nil,
    scan_step, NumberPairing.gt, NumberPairing.cmp, NumberPairing.eq,
    NumberPairing.result, NumberPairing.product, NumberPairing.difference,
    NumberPairing.second, NumberPairing.first, can_be_added_to_other, push_other,
    NumberPairing.new, NumberPairing.validate_and_correct_input,
    abs_of_nonneg, abs_of_nonpos,
    show (Ordering.gt == Ordering.gt) = true from rfl,
    show (Ordering.lt == Ordering.gt) = false from rfl,
    show (Ordering.eq == Ordering.gt) = false from rfl]

/-- This round improves the overall best and recurses. -/
theorem sum8f_step7 :
    get_highest_result_of_seq 34 (10387/6144) (69247/40960) (1/1474560)
      ⟨8, 0, false, ⟨0, 8⟩, 0, 4, ⟨(10387/6144), 8⟩, [⟨(10387/6144), 8⟩], none, 6, 40, false⟩ =
    get_highest_result_of_seq 33 (4985779/2949120) (1661927/983040) (1/41287680)
      ⟨8, 0, false, ⟨0, 8⟩, 0, 4, ⟨(249289/147456), 8⟩, [⟨(249289/147456), 8⟩], none, 7, 40, false⟩ :=
  ghrs_step_continue 33 (10387/6144) (69247/40960) (1/1474560) _ _ _ (4985779/2949120) (1661927/983040) (1/41287680) (by decide)
    sum8f_scan7 (by norm_num [condition_to_end_recursion, NumberPairing.le, NumberPairing.is_equivalent_to,
    NumberPairing.difference_from, NumberPairing.minimum_precision, NumberPairing.cmp,
    NumberPairing.result, NumberPairing.product, NumberPairing.difference,
    NumberPairing.second, NumberPairing.first, abs_of_nonneg, abs_of_nonpos,
    show (Ordering.gt == Ordering.gt) = true from rfl,
    show (Ordering.lt == Ordering.gt) = false from rfl,
    show (Ordering.eq == Ordering.gt) = false from rfl]) (by norm_num [promote_round, can_be_added_to_other, push_other, NumberPairing.eq,
    NumberPairing.first, NumberPairing.second, List.filter, abs_of_nonneg, abs_of_nonpos])
    (by norm_num [next_low_value, next_high_value, next_precision, NumberPairing.first]) (by norm_num [next_low_value, next_high_value, next_precision, NumberPairing.first])
    (by norm_num [next_low_value, next_high_value, next_precision, NumberPairing.first])

/-- Concrete evaluation of one scan round. -/
theorem sum8f_scan8 :
    scan_round 8 ⟨0, 8⟩ false (4985779/2949120) (1661927/983040) (1/41287680) =
      ⟨⟨(23266969/13762560), 8⟩, [⟨(23266969/13762560), 8⟩], none⟩ := by
  rw [scan_round_unfold 8 ⟨0, 8⟩ false (4985779/2949120) (1661927/983040) (1/41287680)
    6980090600000000 6980093400000000
    [6980090600000000, 6980090700000000, 6980090800000000, 6980090900000000, 6980091000000000, 6980091100000000, 6980091200000000, 6980091300000000, 6980091400000000, 6980091500000000, 6980091600000000, 6980091700000000, 6980091800000000, 6980091900000000, 6980092000000000, 6980092100000000, 6980092200000000, 6980092300000000, 6980092400000000, 6980092500000000, 6980092600000000, 6980092700000000, 6980092800000000, 6980092900000000, 6980093000000000, 6980093100000000, 6980093200000000, 6980093300000000, 6980093400000000]
    ⟨⟨0, 8⟩, [], none⟩
    (by with_unfolding_all decide) (by with_unfolding_all decide)
    (by with_unfolding_all decide) rfl]
  norm_num [List.foldl_cons, List.foldl_nil,
    scan_step, NumberPairing.gt, NumberPairing.cmp, NumberPairing.eq,
    NumberPairing.result, NumberPairing.product, NumberPairing.difference,
    NumberPairing.second, NumberPairing.first, can_be_added_to_other, push_other,
    NumberPairing.new, NumberPairing.validate_and_correct_input,
    abs_of_nonneg, abs_of_nonpos,
    show (Ordering.gt == Ordering.gt) = true from rfl,
    show (Ordering.lt == Ordering.gt) = false from rfl,
    show (Ordering.eq == Ordering.gt) = false from rfl]

/-- This round converges and records the run count. -/
theorem sum8f_step8 :
    get_highest_result_of_seq 33 (4985779/2949120) (1661927/983040) (1/41287680)
      ⟨8, 0, false, ⟨0, 8⟩, 0, 4, ⟨(249289/147456), 8⟩, [⟨(249289/147456), 8⟩], none, 7, 40, false⟩ =
    ⟨8, 8, false, ⟨0, 8⟩, 0, 4, ⟨(249289/147456), 8⟩, [⟨(249289/147456), 8⟩], none, 8, 40, true⟩ :=
  ghrs_step_converge 32 (4985779/2949120) (1661927/983040) (1/41287680) _ _ (by decide)
    sum8f_scan8 (by norm_num [condition_to_end_recursion, NumberPairing.le, NumberPairing.is_equivalent_to,
    NumberPairing.difference_from, NumberPairing.minimum_precision, NumberPairing.cmp,
    NumberPairing.result, NumberPairing.product, NumberPairing.difference,
    NumberPairing.second, NumberPairing.first, abs_of_nonneg, abs_of_nonpos,
    show (Ordering.gt == Ordering.gt) = true from rfl,
    show (Ordering.lt == Ordering.gt) = false from rfl,
    show (Ordering.eq == Ordering.gt) = false from rfl])
/-- The initial call of the refinement for sum 8 with collection. -/
theorem sum8t_start :
    NumberPairingProblem.solveRun ⟨8, 0, none⟩ true =
      get_highest_result_of_seq 40 0 4 2 ⟨8, 0, true, ⟨0, 8⟩, 0, 4, ⟨0, 8⟩, [], some [], 0, 40, false⟩ := by
  simp only [NumberPairingProblem.solveRun, NumberPairingProblem.initialGlobals]
  norm_num [NumberPairing.new, NumberPairing.validate_and_correct_input]

/-- The initial call of the refinement for sum 8 without collection. -/
theorem sum8f_start :
    NumberPairingProblem.solveRun ⟨8, 0, none⟩ false =
      get_highest_result_of_seq 40 0 4 2 ⟨8, 0, false, ⟨0, 8⟩, 0, 4, ⟨0, 8⟩, [], none, 0, 40, false⟩ := by
  simp only [NumberPairingProblem.solveRun, NumberPairingProblem.initialGlobals]
  norm_num [NumberPairing.new, NumberPairing.validate_and_correct_input]

/-- The complete refinement run for the default sum 8 with collection. -/
theorem sum8t_run :
    NumberPairingProblem.solveRun ⟨8, 0, none⟩ true = ⟨8, 8, true, ⟨0, 8⟩, 0, 4, ⟨(249289/147456), 8⟩, [⟨(249289/147456), 8⟩], some [⟨4, 8⟩, ⟨1, 8⟩, ⟨2, 8⟩, ⟨(5/2), 8⟩, ⟨3, 8⟩, ⟨2, 8⟩, ⟨(5/4), 8⟩, ⟨(21/16), 8⟩, ⟨(11/8), 8⟩, ⟨(23/16), 8⟩, ⟨(3/2), 8⟩, ⟨(25/16), 8⟩, ⟨(13/8), 8⟩, ⟨(7/4), 8⟩, ⟨(3/2), 8⟩], 8, 40, true⟩ :=
  sum8t_start.trans (sum8t_step1.trans (sum8t_step2.trans (sum8t_step3.trans (sum8t_step4.trans (sum8t_step5.trans (sum8t_step6.trans (sum8t_step7.trans sum8t_step8)))))))

/-- The complete refinement run for sum 8 without collection. -/
theorem sum8f_run :
    NumberPairingProblem.solveRun ⟨8, 0, none⟩ false = ⟨8, 8, false, ⟨0, 8⟩, 0, 4, ⟨(249289/147456), 8⟩, [⟨(249289/147456), 8⟩], none, 8, 40, true⟩ :=
  sum8f_start.trans (sum8f_step1.trans (sum8f_step2.trans (sum8f_step3.trans (sum8f_step4.trans (sum8f_step5.trans (sum8f_step6.trans (sum8f_step7.trans sum8f_step8)))))))

/-- The assembled problem for `solve_with(8.0, true)`. -/
theorem solve8t :
    NumberPairingProblem.solve_with 8 true =
      ⟨8, 8, some ⟨(78979691636981785/1603087953297408), [⟨(249289/147456), 8⟩],
        some [⟨(7/4), 8⟩, ⟨(13/8), 8⟩, ⟨(25/16), 8⟩, ⟨(3/2), 8⟩, ⟨(23/16), 8⟩, ⟨2, 8⟩, ⟨(11/8), 8⟩, ⟨(21/16), 8⟩, ⟨(5/4), 8⟩, ⟨1, 8⟩, ⟨(5/2), 8⟩, ⟨3, 8⟩, ⟨4, 8⟩]⟩⟩ := by
  show NumberPairingProblem.solve ⟨8, 0, none⟩ true = _
  simp only [NumberPairingProblem.solve]
  rw [sum8t_run]
  norm_num [sort_desc, dedup_consec, List.insertionSort, List.orderedInsert,
    NumberPairing.cmp, NumberPairing.result, NumberPairing.product,
    NumberPairing.difference, NumberPairing.second, NumberPairing.first,
    NumberPairing.eq, abs_of_nonneg, abs_of_nonpos, Option.map]

/-- The assembled problem for `solve_with(8.0, false)`. -/
theorem solve8f :
    NumberPairingProblem.solve_with 8 false =
      ⟨8, 8, some ⟨(78979691636981785/1603087953297408), [⟨(249289/147456), 8⟩], none⟩⟩ := by
  show NumberPairingProblem.solve ⟨8, 0, none⟩ false = _
  simp only [NumberPairingProblem.solve]
  rw [sum8f_run]
  norm_num [sort_desc, dedup_consec, List.insertionSort, List.orderedInsert,
    NumberPairing.cmp, NumberPairing.result, NumberPairing.product,
    NumberPairing.difference, NumberPairing.second, NumberPairing.first,
    NumberPairing.eq, abs_of_nonneg, abs_of_nonpos, Option.map]

/-- Evaluation of the `Ordering` equality test used by the derived
comparison operators. -/
theorem ordering_beq_eval (o₁ o₂ : Ordering) : (o₁ == o₂) = decide (o₁ = o₂) := by
  cases o₁ <;> cases o₂ <;> rfl

/-- The derived strict order coincides with the strict score order. -/
theorem np_lt_iff (A B : NumberPairing) : A.lt B = true ↔ A.result < B.result := by
  rcases lt_trichotomy A.result B.result with h | h | h
  · simp [NumberPairing.lt, NumberPairing.cmp, h, lt_asymm h, ordering_beq_eval]
  · simp [NumberPairing.lt, NumberPairing.cmp, h, lt_irrefl, ordering_beq_eval]
  · simp [NumberPairing.lt, NumberPairing.cmp, h, lt_asymm h, ordering_beq_eval]

/-- The derived non-strict order coincides with the score order. -/
theorem np_le_iff (A B : NumberPairing) : A.le B = true ↔ A.result ≤ B.result := by
  rcases lt_trichotomy A.result B.result with h | h | h
  · simp [NumberPairing.le, NumberPairing.cmp, h, lt_asymm h, ordering_beq_eval, le_of_lt h]
  · simp [NumberPairing.le, NumberPairing.cmp, h, lt_irrefl, ordering_beq_eval, le_of_eq h]
  · simp [NumberPairing.le, NumberPairing.cmp, h, lt_asymm h, ordering_beq_eval, not_le.mpr h]

/-- Bounds of the clamping helper. -/
theorem validate_and_correct_input_bounds (x sum : ℚ) (h : 0 ≤ sum) :
    0 ≤ NumberPairing.validate_and_correct_input x sum
    ∧ NumberPairing.validate_and_correct_input x sum ≤ sum := by
  simp only [NumberPairing.validate_and_correct_input]
  split
  · exact ⟨h, le_refl sum⟩
  · exact ⟨abs_nonneg x, le_of_not_gt (by assumption)⟩

/-- C4: for every `sum ≥ 0` and every requested `x`, the constructed pair
satisfies `0 ≤ first ≤ sum` and `second = sum - first`, and both mutators
restore the same clamping invariant. -/
theorem C4_clamping_invariant (sum x : ℚ) (p : NumberPairing)
    (hsum : 0 ≤ sum) (hp : p.sum = sum) :
    (0 ≤ (NumberPairing.new x sum).first
      ∧ (NumberPairing.new x sum).first ≤ sum
      ∧ (NumberPairing.new x sum).second = sum - (NumberPairing.new x sum).first)
    ∧ (0 ≤ (p.set_first x).first ∧ (p.set_first x).first ≤ sum
      ∧ (p.set_first x).sum = sum)
    ∧ (0 ≤ (p.set_second x).first ∧ (p.set_second x).first ≤ sum
      ∧ (p.set_second x).sum = sum) := by
  obtain ⟨hv0, hv1⟩ := validate_and_correct_input_bounds x sum hsum
  subst hp
  refine ⟨⟨hv0, hv1, rfl⟩, ⟨hv0, hv1, rfl⟩, ⟨?_, ?_, rfl⟩⟩
  · simp only [NumberPairing.set_second, NumberPairing.first,
      NumberPairing.validate_and_correct]
    linarith
  · simp only [NumberPairing.set_second, NumberPairing.first,
      NumberPairing.validate_and_correct]
    linarith

/-- C4 witness at a concrete negative out-of-range input. -/
theorem C4_clamping_invariant_witness :
    (0 ≤ (NumberPairing.new (-3) 8).first
      ∧ (NumberPairing.new (-3) 8).first ≤ 8
      ∧ (NumberPairing.new (-3) 8).second = 8 - (NumberPairing.new (-3) 8).first)
    ∧ (0 ≤ ((⟨5, 8⟩ : NumberPairing).set_first (-3)).first
      ∧ ((⟨5, 8⟩ : NumberPairing).set_first (-3)).first ≤ 8
      ∧ ((⟨5, 8⟩ : NumberPairing).set_first (-3)).sum = 8)
    ∧ (0 ≤ ((⟨5, 8⟩ : NumberPairing).set_second (-3)).first
      ∧ ((⟨5, 8⟩ : NumberPairing).set_second (-3)).first ≤ 8
      ∧ ((⟨5, 8⟩ : NumberPairing).set_second (-3)).sum = 8) :=
  C4_clamping_invariant 8 (-3) ⟨5, 8⟩ (by norm_num) rfl

/-- C7: pair equality is symmetric under swapping the two numbers of the
split, and in general two pairs are equal exactly when their sums agree and
either their stored numbers agree or one's stored number equals the other's
derived second. -/
theorem C7_eq_swap (a b : ℚ) (ha : 0 ≤ a) (hb : 0 ≤ b) :
    (NumberPairing.new a (a + b)).eq (NumberPairing.new b (a + b)) = true
    ∧ ∀ A B : NumberPairing,
        (A.eq B = true ↔
          A.sum = B.sum ∧
            (A.first = B.first ∨ A.first = B.second ∨ B.first = A.second)) := by
  constructor
  · have hva : NumberPairing.validate_and_correct_input a (a + b) = a := by
      simp only [NumberPairing.validate_and_correct_input, abs_of_nonneg ha]
      rw [if_neg (by linarith)]
    have hvb : NumberPairing.validate_and_correct_input b (a + b) = b := by
      simp only [NumberPairing.validate_and_correct_input, abs_of_nonneg hb]
      rw [if_neg (by linarith)]
    simp only [NumberPairing.eq, NumberPairing.new, NumberPairing.first,
      NumberPairing.second, hva, hvb, Bool.or_eq_true, Bool.and_eq_true,
      decide_eq_true_eq]
    right
    exact ⟨trivial, by ring⟩
  · intro A B
    simp only [NumberPairing.eq, NumberPairing.first, NumberPairing.second,
      Bool.or_eq_true, Bool.and_eq_true, decide_eq_true_eq]
    constructor
    · rintro (⟨hs, hf⟩ | ⟨hs, hf⟩)
      · exact ⟨hs, Or.inl hf⟩
      · exact ⟨hs, Or.inr (Or.inl hf)⟩
    · rintro ⟨hs, hf | hf | hf⟩
      · exact Or.inl ⟨hs, hf⟩
      · exact Or.inr ⟨hs, hf⟩
      · exact Or.inr ⟨hs, by rw [hs] at hf; linarith⟩

/-- C7 witness at the concrete split 3 + 5. -/
theorem C7_eq_swap_witness :
    (NumberPairing.new 3 (3 + 5)).eq (NumberPairing.new 5 (3 + 5)) = true
    ∧ ∀ A B : NumberPairing,
        (A.eq B = true ↔
          A.sum = B.sum ∧
            (A.first = B.first ∨ A.first = B.second ∨ B.first = A.second)) :=
  C7_eq_swap 3 5 (by norm_num) (by norm_num)

/-- C9: for pairs of equal sum the derived strict order agrees with the
score order, equal scores compare as equal, and the comparison is total and
transitive (a total order determined solely by the score). -/
theorem C9_order_by_score (A B C : NumberPairing)
    (hAB : A.sum = B.sum) (hBC : B.sum = C.sum) :
    (A.lt B = true ↔ A.result < B.result)
    ∧ (A.result = B.result → A.cmp B = Ordering.eq)
    ∧ (A.le B = true ∨ B.le A = true)
    ∧ (A.le B = true → B.le C = true → A.le C = true) := by
  refine ⟨np_lt_iff A B, ?_, ?_, ?_⟩
  · intro h
    simp [NumberPairing.cmp, h, lt_irrefl]
  · rcases le_total A.result B.result with h | h
    · exact Or.inl ((np_le_iff A B).mpr h)
    · exact Or.inr ((np_le_iff B A).mpr h)
  · intro h1 h2
    exact (np_le_iff A C).mpr
      (le_trans ((np_le_iff A B).mp h1) ((np_le_iff B C).mp h2))

/-- C9 witness at three concrete pairs of sum 8. -/
theorem C9_order_by_score_witness :
    (((⟨1, 8⟩ : NumberPairing)).lt ⟨2, 8⟩ = true ↔
      (⟨1, 8⟩ : NumberPairing).result < (⟨2, 8⟩ : NumberPairing).result)
    ∧ ((⟨1, 8⟩ : NumberPairing).result = (⟨2, 8⟩ : NumberPairing).result →
      (⟨1, 8⟩ : NumberPairing).cmp ⟨2, 8⟩ = Ordering.eq)
    ∧ ((⟨1, 8⟩ : NumberPairing).le ⟨2, 8⟩ = true ∨
      (⟨2, 8⟩ : NumberPairing).le ⟨1, 8⟩ = true)
    ∧ ((⟨1, 8⟩ : NumberPairing).le ⟨2, 8⟩ = true →
      (⟨2, 8⟩ : NumberPairing).le ⟨3, 8⟩ = true →
      (⟨1, 8⟩ : NumberPairing).le ⟨3, 8⟩ = true) :=
  C9_order_by_score ⟨1, 8⟩ ⟨2, 8⟩ ⟨3, 8⟩ rfl rfl

/-- C8: the hash data stream is inconsistent with pair equality — the pairs
(2, 8) and (6, 8) are equal under the swap case of `PartialEq`, yet their
hash streams differ, because hashing decomposes the stored number `first`
directly and the two equal pairs store different numbers. -/
theorem C8_hash_eq_inconsistent :
    (NumberPairing.new 2 8).eq (NumberPairing.new 6 8) = true
    ∧ NumberPairing.hashData (NumberPairing.new 2 8) ≠
        NumberPairing.hashData (NumberPairing.new 6 8) := by
  constructor
  · with_unfolding_all decide
  · with_unfolding_all decide

/-- C2 counterexample: for `sum = 0` the solved problem's best-pairing list
is empty, not a one-element list — the zero pair found in the first round is
discarded because that round already meets the stop condition, before the
round's best list is ever promoted into the globals. -/
theorem C2_counterexample :
    ¬ ∃ p : NumberPairing,
        (NumberPairingProblem.solve_with 0 true).results.map Results.best_pairing =
          some [p] := by
  rintro ⟨p, hp⟩
  have h0 : (NumberPairingProblem.solve_with 0 true).results.map Results.best_pairing =
      some [] := by with_unfolding_all decide
  rw [h0] at hp
  simp at hp

/-- C2 amended: the degenerate run `sum = 0` terminates after one round with
best score 0, an empty best-pairing list, and an empty (or absent) other
list. -/
theorem C2_amended :
    (NumberPairingProblem.solve_with 0 true).results = some ⟨0, [], some []⟩
    ∧ (NumberPairingProblem.solve_with 0 false).results = some ⟨0, [], none⟩
    ∧ (NumberPairingProblem.solve_with 0 true).runs_to_solve = 1
    ∧ (NumberPairingProblem.solve_with 0 false).runs_to_solve = 1 := by
  refine ⟨?_, ?_, ?_, ?_⟩ <;> with_unfolding_all decide

/-- The promotion step preserves the bookkeeping fields of the globals. -/
theorem promote_round_fields (precision : ℚ) (st : SeqState) (g : SolveGlobals) :
    (promote_round precision st g).run_count = g.run_count
    ∧ (promote_round precision st g).max_runs = g.max_runs
    ∧ (promote_round precision st g).problem_runs_to_solve = g.problem_runs_to_solve
    ∧ (promote_round precision st g).converged = g.converged :=
  ⟨rfl, rfl, rfl, rfl⟩

/-- The recursion never changes the round cap. -/
theorem ghrs_max_runs (fuel : ℕ) : ∀ (low high precision : ℚ) (g : SolveGlobals),
    (get_highest_result_of_seq fuel low high precision g).max_runs = g.max_runs := by
  induction fuel with
  | zero => intro _ _ _ _; rfl
  | succ n ih =>
    intro low high precision g
    simp only [get_highest_result_of_seq]
    split
    · rfl
    · split
      · rfl
      · rw [ih]
        rfl

/-- The recursion never pushes the run count beyond the cap. -/
theorem ghrs_run_count_le (fuel : ℕ) : ∀ (low high precision : ℚ) (g : SolveGlobals),
    g.run_count ≤ g.max_runs →
    (get_highest_result_of_seq fuel low high precision g).run_count ≤ g.max_runs := by
  induction fuel with
  | zero => intro _ _ _ _ h; exact h
  | succ n ih =>
    intro low high precision g hle
    simp only [get_highest_result_of_seq]
    split
    · exact hle
    · rename_i hguard
      have h1 : g.run_count + 1 ≤ g.max_runs :=
        Nat.succ_le_of_lt (Nat.lt_of_not_le hguard)
      split
      · exact h1
      · exact ih _ _ _ _ h1

/-- C3: for every sum in the stated range and either flag, the search uses at
most 40 rounds, the solved problem always carries a `Results` record, and the
record is assembled from the best state the capped run reached. -/
theorem C3_termination (sum : ℚ) (collect : Bool) (h0 : 0 ≤ sum) (h1 : sum ≤ 10000) :
    (NumberPairingProblem.solveRun ⟨sum, 0, none⟩ collect).run_count ≤ 40
    ∧ (NumberPairingProblem.solve_with sum collect).results =
        some ⟨(NumberPairingProblem.solveRun ⟨sum, 0, none⟩ collect).overall_best_result.result,
          (NumberPairingProblem.solveRun ⟨sum, 0, none⟩ collect).best_results,
          ((NumberPairingProblem.solveRun ⟨sum, 0, none⟩ collect).other_results).map
            (fun l => dedup_consec (sort_desc l))⟩
    ∧ (NumberPairingProblem.solve_with sum collect).results.isSome = true := by
  refine ⟨?_, rfl, rfl⟩
  exact ghrs_run_count_le _ _ _ _ _ (Nat.zero_le _)

/-- C3 witness at the default sum 8. -/
theorem C3_termination_witness :
    (0:ℚ) ≤ 8 ∧ (8:ℚ) ≤ 10000
    ∧ ((NumberPairingProblem.solveRun ⟨8, 0, none⟩ true).run_count ≤ 40
      ∧ (NumberPairingProblem.solve_with 8 true).results =
          some ⟨(NumberPairingProblem.solveRun ⟨8, 0, none⟩ true).overall_best_result.result,
            (NumberPairingProblem.solveRun ⟨8, 0, none⟩ true).best_results,
            ((NumberPairingProblem.solveRun ⟨8, 0, none⟩ true).other_results).map
              (fun l => dedup_consec (sort_desc l))⟩
      ∧ (NumberPairingProblem.solve_with 8 true).results.isSome = true) :=
  ⟨by norm_num, by norm_num, C3_termination 8 true (by norm_num) (by norm_num)⟩

/-- If a run ends without the convergence branch ever firing, the recorded
`runs_to_solve` is untouched. -/
theorem ghrs_prts_of_not_converged (fuel : ℕ) :
    ∀ (low high precision : ℚ) (g : SolveGlobals),
    (get_highest_result_of_seq fuel low high precision g).converged = false →
    (get_highest_result_of_seq fuel low high precision g).problem_runs_to_solve =
      g.problem_runs_to_solve := by
  induction fuel with
  | zero => intro _ _ _ _ _; rfl
  | succ n ih =>
    intro low high precision g hc
    simp only [get_highest_result_of_seq] at hc ⊢
    by_cases hg : g.max_runs ≤ g.run_count
    · rw [if_pos hg]
    · rw [if_neg hg] at hc ⊢
      by_cases hcond :
          condition_to_end_recursion
            (scan_round g.problem_sum g.initial_high_value g.collect_other_results
              low high precision)
            { g with run_count := g.run_count + 1 } = true
      · rw [if_pos hcond] at hc
        simp at hc
      · rw [if_neg hcond] at hc ⊢
        rw [ih _ _ _ _ hc]
        rfl

/-- C10: when the search exhausts its rounds without the convergence
condition ever holding (the ghost `converged` flag stays false), the
recorded `runs_to_solve` keeps its initial value; for a problem solved
through `solve_with` that initial value is 0. -/
theorem C10_runs_to_solve (fuel : ℕ) (low high precision : ℚ) (g : SolveGlobals)
    (hconv : (get_highest_result_of_seq fuel low high precision g).converged = false) :
    (get_highest_result_of_seq fuel low high precision g).problem_runs_to_solve =
      g.problem_runs_to_solve
    ∧ ∀ (sum : ℚ) (collect : Bool),
        (NumberPairingProblem.solveRun ⟨sum, 0, none⟩ collect).converged = false →
        (NumberPairingProblem.solve_with sum collect).runs_to_solve = 0 := by
  refine ⟨ghrs_prts_of_not_converged fuel low high precision g hconv, ?_⟩
  intro sum collect hc
  exact ghrs_prts_of_not_converged _ _ _ _ _ hc

/-- C6: after a round, the refinement stops exactly when the round's best is
less than or equal to the overall best under the total order, or equivalent
to it within the minimum precision; stopping records the current round count
in `runs_to_solve` and leaves the accumulated results untouched, and
otherwise the search recurses on the snapped narrower interval with the
strictly finer precision. -/
theorem C6_convergence_step (fuel : ℕ) (low high precision : ℚ) (g : SolveGlobals)
    (hguard : g.run_count < g.max_runs) (hprec : 0 < precision) :
    (condition_to_end_recursion
        (scan_round g.problem_sum g.initial_high_value g.collect_other_results
          low high precision)
        { g with run_count := g.run_count + 1 } = true →
      get_highest_result_of_seq (fuel + 1) low high precision g =
          { g with
            run_count := g.run_count + 1
            problem_runs_to_solve := g.run_count + 1
            converged := true }
        ∧ (get_highest_result_of_seq (fuel + 1) low high precision g).problem_runs_to_solve
            = g.run_count + 1
        ∧ (get_highest_result_of_seq (fuel + 1) low high precision g).overall_best_result
            = g.overall_best_result
        ∧ (get_highest_result_of_seq (fuel + 1) low high precision g).best_results
            = g.best_results
        ∧ (get_highest_result_of_seq (fuel + 1) low high precision g).other_results
            = g.other_results)
    ∧ (condition_to_end_recursion
        (scan_round g.problem_sum g.initial_high_value g.collect_other_results
          low high precision)
        { g with run_count := g.run_count + 1 } = false →
      get_highest_result_of_seq (fuel + 1) low high precision g =
          get_highest_result_of_seq fuel
            (next_low_value low precision
              (promote_round precision
                (scan_round g.problem_sum g.initial_high_value g.collect_other_results
                  low high precision)
                { g with run_count := g.run_count + 1 }).overall_best_result.first)
            (next_high_value high precision
              (promote_round precision
                (scan_round g.problem_sum g.initial_high_value g.collect_other_results
                  low high precision)
                { g with run_count := g.run_count + 1 }).overall_best_result.first)
            (next_precision precision (g.run_count + 1))
            (promote_round precision
              (scan_round g.problem_sum g.initial_high_value g.collect_other_results
                low high precision)
              { g with run_count := g.run_count + 1 })
        ∧ low ≤ next_low_value low precision
            (promote_round precision
              (scan_round g.problem_sum g.initial_high_value g.collect_other_results
                low high precision)
              { g with run_count := g.run_count + 1 }).overall_best_result.first
        ∧ next_high_value high precision
            (promote_round precision
              (scan_round g.problem_sum g.initial_high_value g.collect_other_results
                low high precision)
              { g with run_count := g.run_count + 1 }).overall_best_result.first ≤ high
        ∧ next_precision precision (g.run_count + 1) < precision) := by
  constructor
  · intro hc
    have h := ghrs_step_converge fuel low high precision g _ hguard rfl hc
    exact ⟨h, by rw [h], by rw [h], by rw [h], by rw [h]⟩
  · intro hc
    have h := ghrs_step_continue fuel low high precision g _ _ _ _ _ hguard rfl hc
      rfl rfl rfl rfl
    refine ⟨h, ?_, ?_, ?_⟩
    · simp only [next_low_value]
      split
      · exact le_refl low
      · linarith [le_of_not_lt (by assumption :
          ¬ (promote_round precision
              (scan_round g.problem_sum g.initial_high_value g.collect_other_results
                low high precision)
              { g with run_count := g.run_count + 1 }).overall_best_result.first -
            precision / 2 < low)]
    · simp only [next_high_value]
      split
      · exact le_refl high
      · linarith [le_of_not_lt (by assumption :
          ¬ high < (promote_round precision
              (scan_round g.problem_sum g.initial_high_value g.collect_other_results
                low high precision)
              { g with run_count := g.run_count + 1 }).overall_best_result.first +
            precision / 2)]
    · have h4 : (1:ℚ) < (((g.run_count + 1) * 4 : ℕ) : ℚ) := by
        have : (4:ℕ) ≤ (g.run_count + 1) * 4 :=
          Nat.le_mul_of_pos_left 4 (Nat.succ_pos _)
        exact_mod_cast lt_of_lt_of_le (by norm_num : (1:ℕ) < 4) this
      exact div_lt_self hprec h4

/-- C6 witness at a concrete one-round state. -/
theorem C6_convergence_step_witness :

    (condition_to_end_recursion
        (scan_round (⟨1, 0, false, ⟨0, 1⟩, 0, 0, ⟨0, 1⟩, [], none, 0, 1, false⟩ : SolveGlobals).problem_sum (⟨1, 0, false, ⟨0, 1⟩, 0, 0, ⟨0, 1⟩, [], none, 0, 1, false⟩ : SolveGlobals).initial_high_value (⟨1, 0, false, ⟨0, 1⟩, 0, 0, ⟨0, 1⟩, [], none, 0, 1, false⟩ : SolveGlobals).collect_other_results
          0 0 1)
        { (⟨1, 0, false, ⟨0, 1⟩, 0, 0, ⟨0, 1⟩, [], none, 0, 1, false⟩ : SolveGlobals) with run_count := (⟨1, 0, false, ⟨0, 1⟩, 0, 0, ⟨0, 1⟩, [], none, 0, 1, false⟩ : SolveGlobals).run_count + 1 } = true →
      get_highest_result_of_seq (0 + 1) 0 0 1 (⟨1, 0, false, ⟨0, 1⟩, 0, 0, ⟨0, 1⟩, [], none, 0, 1, false⟩ : SolveGlobals) =
          { (⟨1, 0, false, ⟨0, 1⟩, 0, 0, ⟨0, 1⟩, [], none, 0, 1, false⟩ : SolveGlobals) with
            run_count := (⟨1, 0, false, ⟨0, 1⟩, 0, 0, ⟨0, 1⟩, [], none, 0, 1, false⟩ : SolveGlobals).run_count + 1
            problem_runs_to_solve := (⟨1, 0, false, ⟨0, 1⟩, 0, 0, ⟨0, 1⟩, [], none, 0, 1, false⟩ : SolveGlobals).run_count + 1
            converged := true }
        ∧ (get_highest_result_of_seq (0 + 1) 0 0 1 (⟨1, 0, false, ⟨0, 1⟩, 0, 0, ⟨0, 1⟩, [], none, 0, 1, false⟩ : SolveGlobals)).problem_runs_to_solve
            = (⟨1, 0, false, ⟨0, 1⟩, 0, 0, ⟨0, 1⟩, [], none, 0, 1, false⟩ : SolveGlobals).run_count + 1
        ∧ (get_highest_result_of_seq (0 + 1) 0 0 1 (⟨1, 0, false, ⟨0, 1⟩, 0, 0, ⟨0, 1⟩, [], none, 0, 1, false⟩ : SolveGlobals)).overall_best_result
            = (⟨1, 0, false, ⟨0, 1⟩, 0, 0, ⟨0, 1⟩, [], none, 0, 1, false⟩ : SolveGlobals).overall_best_result
        ∧ (get_highest_result_of_seq (0 + 1) 0 0 1 (⟨1, 0, false, ⟨0, 1⟩, 0, 0, ⟨0, 1⟩, [], none, 0, 1, false⟩ : SolveGlobals)).best_results
            = (⟨1, 0, false, ⟨0, 1⟩, 0, 0, ⟨0, 1⟩, [], none, 0, 1, false⟩ : SolveGlobals).best_results
        ∧ (get_highest_result_of_seq (0 + 1) 0 0 1 (⟨1, 0, false, ⟨0, 1⟩, 0, 0, ⟨0, 1⟩, [], none, 0, 1, false⟩ : SolveGlobals)).other_results
            = (⟨1, 0, false, ⟨0, 1⟩, 0, 0, ⟨0, 1⟩, [], none, 0, 1, false⟩ : SolveGlobals).other_results)
    ∧ (condition_to_end_recursion
        (scan_round (⟨1, 0, false, ⟨0, 1⟩, 0, 0, ⟨0, 1⟩, [], none, 0, 1, false⟩ : SolveGlobals).problem_sum (⟨1, 0, false, ⟨0, 1⟩, 0, 0, ⟨0, 1⟩, [], none, 0, 1, false⟩ : SolveGlobals).initial_high_value (⟨1, 0, false, ⟨0, 1⟩, 0, 0, ⟨0, 1⟩, [], none, 0, 1, false⟩ : SolveGlobals).collect_other_results
          0 0 1)
        { (⟨1, 0, false, ⟨0, 1⟩, 0, 0, ⟨0, 1⟩, [], none, 0, 1, false⟩ : SolveGlobals) with run_count := (⟨1, 0, false, ⟨0, 1⟩, 0, 0, ⟨0, 1⟩, [], none, 0, 1, false⟩ : SolveGlobals).run_count + 1 } = false →
      get_highest_result_of_seq (0 + 1) 0 0 1 (⟨1, 0, false, ⟨0, 1⟩, 0, 0, ⟨0, 1⟩, [], none, 0, 1, false⟩ : SolveGlobals) =
          get_highest_result_of_seq 0
            (next_low_value 0 1
              (promote_round 1
                (scan_round (⟨1, 0, false, ⟨0, 1⟩, 0, 0, ⟨0, 1⟩, [], none, 0, 1, false⟩ : SolveGlobals).problem_sum (⟨1, 0, false, ⟨0, 1⟩, 0, 0, ⟨0, 1⟩, [], none, 0, 1, false⟩ : SolveGlobals).initial_high_value (⟨1, 0, false, ⟨0, 1⟩, 0, 0, ⟨0, 1⟩, [], none, 0, 1, false⟩ : SolveGlobals).collect_other_results
                  0 0 1)
                { (⟨1, 0, false, ⟨0, 1⟩, 0, 0, ⟨0, 1⟩, [], none, 0, 1, false⟩ : SolveGlobals) with run_count := (⟨1, 0, false, ⟨0, 1⟩, 0, 0, ⟨0, 1⟩, [], none, 0, 1, false⟩ : SolveGlobals).run_count + 1 }).overall_best_result.first)
            (next_high_value 0 1
              (promote_round 1
                (scan_round (⟨1, 0, false, ⟨0, 1⟩, 0, 0, ⟨0, 1⟩, [], none, 0, 1, false⟩ : SolveGlobals).problem_sum (⟨1, 0, false, ⟨0, 1⟩, 0, 0, ⟨0, 1⟩, [], none, 0, 1, false⟩ : SolveGlobals).initial_high_value (⟨1, 0, false, ⟨0, 1⟩, 0, 0, ⟨0, 1⟩, [], none, 0, 1, false⟩ : SolveGlobals).collect_other_results
                  0 0 1)
                { (⟨1, 0, false, ⟨0, 1⟩, 0, 0, ⟨0, 1⟩, [], none, 0, 1, false⟩ : SolveGlobals) with run_count := (⟨1, 0, false, ⟨0, 1⟩, 0, 0, ⟨0, 1⟩, [], none, 0, 1, false⟩ : SolveGlobals).run_count + 1 }).overall_best_result.first)
            (next_precision 1 ((⟨1, 0, false, ⟨0, 1⟩, 0, 0, ⟨0, 1⟩, [], none, 0, 1, false⟩ : SolveGlobals).run_count + 1))
            (promote_round 1
              (scan_round (⟨1, 0, false, ⟨0, 1⟩, 0, 0, ⟨0, 1⟩, [], none, 0, 1, false⟩ : SolveGlobals).problem_sum (⟨1, 0, false, ⟨0, 1⟩, 0, 0, ⟨0, 1⟩, [], none, 0, 1, false⟩ : SolveGlobals).initial_high_value (⟨1, 0, false, ⟨0, 1⟩, 0, 0, ⟨0, 1⟩, [], none, 0, 1, false⟩ : SolveGlobals).collect_other_results
                0 0 1)
              { (⟨1, 0, false, ⟨0, 1⟩, 0, 0, ⟨0, 1⟩, [], none, 0, 1, false⟩ : SolveGlobals) with run_count := (⟨1, 0, false, ⟨0, 1⟩, 0, 0, ⟨0, 1⟩, [], none, 0, 1, false⟩ : SolveGlobals).run_count + 1 })
        ∧ 0 ≤ next_low_value 0 1
            (promote_round 1
              (scan_round (⟨1, 0, false, ⟨0, 1⟩, 0, 0, ⟨0, 1⟩, [], none, 0, 1, false⟩ : SolveGlobals).problem_sum (⟨1, 0, false, ⟨0, 1⟩, 0, 0, ⟨0, 1⟩, [], none, 0, 1, false⟩ : SolveGlobals).initial_high_value (⟨1, 0, false, ⟨0, 1⟩, 0, 0, ⟨0, 1⟩, [], none, 0, 1, false⟩ : SolveGlobals).collect_other_results
                0 0 1)
              { (⟨1, 0, false, ⟨0, 1⟩, 0, 0, ⟨0, 1⟩, [], none, 0, 1, false⟩ : SolveGlobals) with run_count := (⟨1, 0, false, ⟨0, 1⟩, 0, 0, ⟨0, 1⟩, [], none, 0, 1, false⟩ : SolveGlobals).run_count + 1 }).overall_best_result.first
        ∧ next_high_value 0 1
            (promote_round 1
              (scan_round (⟨1, 0, false, ⟨0, 1⟩, 0, 0, ⟨0, 1⟩, [], none, 0, 1, false⟩ : SolveGlobals).problem_sum (⟨1, 0, false, ⟨0, 1⟩, 0, 0, ⟨0, 1⟩, [], none, 0, 1, false⟩ : SolveGlobals).initial_high_value (⟨1, 0, false, ⟨0, 1⟩, 0, 0, ⟨0, 1⟩, [], none, 0, 1, false⟩ : SolveGlobals).collect_other_results
                0 0 1)
              { (⟨1, 0, false, ⟨0, 1⟩, 0, 0, ⟨0, 1⟩, [], none, 0, 1, false⟩ : SolveGlobals) with run_count := (⟨1, 0, false, ⟨0, 1⟩, 0, 0, ⟨0, 1⟩, [], none, 0, 1, false⟩ : SolveGlobals).run_count + 1 }).overall_best_result.first ≤ 0
        ∧ next_precision 1 ((⟨1, 0, false, ⟨0, 1⟩, 0, 0, ⟨0, 1⟩, [], none, 0, 1, false⟩ : SolveGlobals).run_count + 1) < 1) :=
  C6_convergence_step 0 0 0 1 ⟨1, 0, false, ⟨0, 1⟩, 0, 0, ⟨0, 1⟩, [], none, 0, 1, false⟩
    (by decide) (by norm_num)

/-- The square root of 3 is at most 2. -/
theorem sqrt3_le_two : Real.sqrt 3 ≤ 2 := by
  nlinarith [Real.sq_sqrt (show (0:ℝ) ≤ 3 by norm_num), Real.sqrt_nonneg 3]

/-- Lower decimal bound for the square root of 3. -/
theorem sqrt3_lb : (17320508075688772/10000000000000000 : ℝ) ≤ Real.sqrt 3 := by
  nlinarith [Real.sq_sqrt (show (0:ℝ) ≤ 3 by norm_num), Real.sqrt_nonneg 3]

/-- Upper decimal bound for the square root of 3. -/
theorem sqrt3_ub : Real.sqrt 3 ≤ (17320508075688774/10000000000000000 : ℝ) := by
  nlinarith [Real.sq_sqrt (show (0:ℝ) ≤ 3 by norm_num), Real.sqrt_nonneg 3]

/-- The true maximum of the objective `|a - b| * (a * b)` over the splits of
8 into two non-negative parts is `256 * sqrt 3 / 9`, attained at
`a = 4 - 4 * sqrt 3 / 3`. -/
theorem objective_isGreatest :
    IsGreatest {y : ℝ | ∃ a b : ℝ, a + b = 8 ∧ 0 ≤ a ∧ 0 ≤ b ∧ y = |a - b| * (a * b)}
      (256 * Real.sqrt 3 / 9) := by
  have hs : Real.sqrt 3 ^ 2 = 3 := Real.sq_sqrt (by norm_num)
  have h0 : (0:ℝ) ≤ Real.sqrt 3 := Real.sqrt_nonneg 3
  have h2 : Real.sqrt 3 ≤ 2 := sqrt3_le_two
  constructor
  · refine ⟨4 - 4 * Real.sqrt 3 / 3, 4 + 4 * Real.sqrt 3 / 3, by ring, by linarith,
      by linarith, ?_⟩
    rw [show (4 - 4 * Real.sqrt 3 / 3) - (4 + 4 * Real.sqrt 3 / 3)
        = -(8 * Real.sqrt 3 / 3) by ring, abs_neg,
      abs_of_nonneg (by positivity : (0:ℝ) ≤ 8 * Real.sqrt 3 / 3)]
    linear_combination (128 * Real.sqrt 3 / 27) * hs
  · rintro y ⟨a, b, hab, ha, hb, rfl⟩
    have hb8 : b = 8 - a := by linarith
    subst hb8
    have ha8 : a ≤ 8 := by linarith
    rcases le_total a 4 with h4 | h4
    · rw [show a - (8 - a) = 2*a - 8 by ring, abs_of_nonpos (by linarith)]
      have hu : (0:ℝ) ≤ 4 + 8 * Real.sqrt 3 / 3 - a := by nlinarith
      have E : 256 * Real.sqrt 3 / 9 - (-(2*a - 8)) * (a * (8 - a))
          = 2 * ((a - (4 - 4 * Real.sqrt 3 / 3))^2 * ((4 + 8 * Real.sqrt 3 / 3) - a)) := by
        linear_combination (-(32*a/3) + 128/3 - 256 * Real.sqrt 3 / 27) * hs
      nlinarith [E, mul_nonneg (sq_nonneg (a - (4 - 4 * Real.sqrt 3 / 3))) hu]
    · rw [show a - (8 - a) = 2*a - 8 by ring, abs_of_nonneg (by linarith)]
      have hu : (0:ℝ) ≤ a - (4 - 8 * Real.sqrt 3 / 3) := by nlinarith
      have E : 256 * Real.sqrt 3 / 9 - (2*a - 8) * (a * (8 - a))
          = 2 * ((a - (4 + 4 * Real.sqrt 3 / 3))^2 * (a - (4 - 8 * Real.sqrt 3 / 3))) := by
        linear_combination (32*a/3 - 128/3 - 256 * Real.sqrt 3 / 27) * hs
      nlinarith [E, mul_nonneg (sq_nonneg (a - (4 + 4 * Real.sqrt 3 / 3))) hu]

/-- The exact best score the model search reaches for sum 8 lies within
`1e-6` of the true maximum. -/
theorem best8_close :
    |((78979691636981785/1603087953297408 : ℚ) : ℝ) - 256 * Real.sqrt 3 / 9| ≤
      1/1000000 := by
  have hlb := sqrt3_lb
  have hub := sqrt3_ub
  rw [abs_le]
  constructor
  · push_cast
    have hc : 256 * (17320508075688774/10000000000000000 : ℝ) / 9 ≤
        78979691636981785/1603087953297408 + 1/1000000 := by norm_num
    linarith
  · push_cast
    have hc : (78979691636981785/1603087953297408 : ℝ) - 1/1000000 ≤
        256 * (17320508075688772/10000000000000000 : ℝ) / 9 := by norm_num
    linarith
/-- This round improves the overall best and recurses. -/
theorem cap8_step1 :
    get_highest_result_of_seq 3 0 4 2
      ⟨8, 0, true, ⟨0, 8⟩, 0, 4, ⟨0, 8⟩, [], some [], 0, 2, false⟩ =
    get_highest_result_of_seq 2 1 3 (1/2)
      ⟨8, 0, true, ⟨0, 8⟩, 0, 4, ⟨2, 8⟩, [⟨2, 8⟩], some [⟨4, 8⟩], 1, 2, false⟩ :=
  ghrs_step_continue 2 0 4 2 _ _ _ 1 3 (1/2) (by decide)
    sum8t_scan1 (by norm_num [condition_to_end_recursion, NumberPairing.le, NumberPairing.is_equivalent_to,
    NumberPairing.difference_from, NumberPairing.minimum_precision, NumberPairing.cmp,
    NumberPairing.result, NumberPairing.product, NumberPairing.difference,
    NumberPairing.second, NumberPairing.first, abs_of_nonneg, abs_of_nonpos,
    show (Ordering.gt == Ordering.gt) = true from rfl,
    show (Ordering.lt == Ordering.gt) = false from rfl,
    show (Ordering.eq == Ordering.gt) = false from rfl]) (by norm_num [promote_round, can_be_added_to_other, push_other, NumberPairing.eq,
    NumberPairing.first, NumberPairing.second, List.filter, abs_of_nonneg, abs_of_nonpos])
    (by norm_num [next_low_value, next_high_value, next_precision, NumberPairing.first]) (by norm_num [next_low_value, next_high_value, next_precision, NumberPairing.first])
    (by norm_num [next_low_value, next_high_value, next_precision, NumberPairing.first])

/-- This round improves the overall best and recurses. -/
theorem cap8_step2 :
    get_highest_result_of_seq 2 1 3 (1/2)
      ⟨8, 0, true, ⟨0, 8⟩, 0, 4, ⟨2, 8⟩, [⟨2, 8⟩], some [⟨4, 8⟩], 1, 2, false⟩ =
    get_highest_result_of_seq 1 (5/4) (7/4) (1/16)
      ⟨8, 0, true, ⟨0, 8⟩, 0, 4, ⟨(3/2), 8⟩, [⟨(3/2), 8⟩], some [⟨4, 8⟩, ⟨1, 8⟩, ⟨2, 8⟩, ⟨(5/2), 8⟩, ⟨3, 8⟩, ⟨2, 8⟩], 2, 2, false⟩ :=
  ghrs_step_continue 1 1 3 (1/2) _ _ _ (5/4) (7/4) (1/16) (by decide)
    sum8t_scan2 (by norm_num [condition_to_end_recursion, NumberPairing.le, NumberPairing.is_equivalent_to,
    NumberPairing.difference_from, NumberPairing.minimum_precision, NumberPairing.cmp,
    NumberPairing.result, NumberPairing.product, NumberPairing.difference,
    NumberPairing.second, NumberPairing.first, abs_of_nonneg, abs_of_nonpos,
    show (Ordering.gt == Ordering.gt) = true from rfl,
    show (Ordering.lt == Ordering.gt) = false from rfl,
    show (Ordering.eq == Ordering.gt) = false from rfl]) (by norm_num [promote_round, can_be_added_to_other, push_other, NumberPairing.eq,
    NumberPairing.first, NumberPairing.second, List.filter, abs_of_nonneg, abs_of_nonpos])
    (by norm_num [next_low_value, next_high_value, next_precision, NumberPairing.first]) (by norm_num [next_low_value, next_high_value, next_precision, NumberPairing.first])
    (by norm_num [next_low_value, next_high_value, next_precision, NumberPairing.first])

/-- The round cap ends this search unchanged. -/
theorem cap8_step3 :
    get_highest_result_of_seq 1 (5/4) (7/4) (1/16)
      ⟨8, 0, true, ⟨0, 8⟩, 0, 4, ⟨(3/2), 8⟩, [⟨(3/2), 8⟩], some [⟨4, 8⟩, ⟨1, 8⟩, ⟨2, 8⟩, ⟨(5/2), 8⟩, ⟨3, 8⟩, ⟨2, 8⟩], 2, 2, false⟩ =
    ⟨8, 0, true, ⟨0, 8⟩, 0, 4, ⟨(3/2), 8⟩, [⟨(3/2), 8⟩], some [⟨4, 8⟩, ⟨1, 8⟩, ⟨2, 8⟩, ⟨(5/2), 8⟩, ⟨3, 8⟩, ⟨2, 8⟩], 2, 2, false⟩ :=
  ghrs_step_return 0 (5/4) (7/4) (1/16) _ (by decide)

/-- A capped run (max 2 rounds) for the witness of the round-cap behaviour:
the cap ends the search with `converged` still false. -/
theorem cap8_run :
    get_highest_result_of_seq 3 0 4 2
      ⟨8, 0, true, ⟨0, 8⟩, 0, 4, ⟨0, 8⟩, [], some [], 0, 2, false⟩ =
    ⟨8, 0, true, ⟨0, 8⟩, 0, 4, ⟨(3/2), 8⟩, [⟨(3/2), 8⟩], some [⟨4, 8⟩, ⟨1, 8⟩, ⟨2, 8⟩, ⟨(5/2), 8⟩, ⟨3, 8⟩, ⟨2, 8⟩], 2, 2, false⟩ :=
  (cap8_step1.trans (cap8_step2.trans cap8_step3))

/-- C10 witness: a capped two-round search ends unconverged and leaves the
recorded `runs_to_solve` at its initial value. -/
theorem C10_runs_to_solve_witness :
    (get_highest_result_of_seq 3 0 4 2
        ⟨8, 0, true, ⟨0, 8⟩, 0, 4, ⟨0, 8⟩, [], some [], 0, 2, false⟩).problem_runs_to_solve =
      (⟨8, 0, true, ⟨0, 8⟩, 0, 4, ⟨0, 8⟩, [], some [], 0, 2, false⟩ : SolveGlobals).problem_runs_to_solve
    ∧ ∀ (sum : ℚ) (collect : Bool),
        (NumberPairingProblem.solveRun ⟨sum, 0, none⟩ collect).converged = false →
        (NumberPairingProblem.solve_with sum collect).runs_to_solve = 0 :=
  C10_runs_to_solve 3 0 4 2 _ (by rw [cap8_run])

/-- C1 counterexample: the best score the search reaches for sum 8 is the
exact rational near 49.267, which is nowhere near the claimed reference value
34.07; moreover the split 2 + 6 already scores 48, so the true maximum of the
objective cannot be approximately 34.07. -/
theorem C1_counterexample :
    (NumberPairingProblem.solve_with 8 true).results.map Results.best =
        some (78979691636981785/1603087953297408)
    ∧ ¬ (|((78979691636981785/1603087953297408 : ℚ) : ℝ) - 34.07| ≤ 1/1000000)
    ∧ ((2:ℝ) + 6 = 8 ∧ (0:ℝ) ≤ 2 ∧ (0:ℝ) ≤ 6 ∧ |(2:ℝ) - 6| * (2 * 6) = 48
      ∧ ¬ (|(48:ℝ) - 34.07| ≤ 1)) := by
  refine ⟨?_, ?_, by norm_num, by norm_num, by norm_num, ?_, ?_⟩
  · rw [solve8t]
    rfl
  · intro h
    rw [abs_le] at h
    push_cast at h
    have h2 := h.2
    norm_num at h2
  · rw [show (2:ℝ) - 6 = -4 by norm_num, abs_neg,
      abs_of_nonneg (by norm_num : (0:ℝ) ≤ 4)]
    norm_num
  · intro h
    rw [abs_le] at h
    have h2 := h.2
    norm_num at h2

/-- C1 amended: for sum 8 (with either flag) the search's best score is the
exact rational 78979691636981785/1603087953297408 which lies within `1e-6`
of the true maximum `256 * sqrt 3 / 9` of `|a - b| * (a * b)` over
`a + b = 8`, `a, b ≥ 0` (approximately 49.2672, attained near
`a = 4 - 4 * sqrt 3 / 3 ≈ 1.6906`). -/
theorem C1_best_score_converges :
    IsGreatest {y : ℝ | ∃ a b : ℝ, a + b = 8 ∧ 0 ≤ a ∧ 0 ≤ b ∧ y = |a - b| * (a * b)}
      (256 * Real.sqrt 3 / 9)
    ∧ (NumberPairingProblem.solve_with 8 true).results.map Results.best =
        some (78979691636981785/1603087953297408)
    ∧ (NumberPairingProblem.solve_with 8 false).results.map Results.best =
        some (78979691636981785/1603087953297408)
    ∧ |((78979691636981785/1603087953297408 : ℚ) : ℝ) - 256 * Real.sqrt 3 / 9| ≤
        1/1000000 :=
  ⟨objective_isGreatest, by rw [solve8t]; rfl, by rw [solve8f]; rfl, best8_close⟩

/-- The fuel argument is immaterial once it covers the remaining rounds: any
two sufficient fuels give the same result, so driving the recursion by
`max_runs - run_count` models the unbounded Rust recursion faithfully. -/
theorem get_highest_result_of_seq_fuel (fuel₁ : ℕ) :
    ∀ (fuel₂ : ℕ) (low high precision : ℚ) (g : SolveGlobals),
    g.max_runs ≤ g.run_count + fuel₁ → g.max_runs ≤ g.run_count + fuel₂ →
    get_highest_result_of_seq fuel₁ low high precision g =
      get_highest_result_of_seq fuel₂ low high precision g := by
  induction fuel₁ with
  | zero =>
    intro fuel₂ low high precision g h1 h2
    cases fuel₂ with
    | zero => rfl
    | succ n =>
      simp only [get_highest_result_of_seq]
      rw [if_pos (by omega : g.max_runs ≤ g.run_count)]
  | succ m ih =>
    intro fuel₂ low high precision g h1 h2
    cases fuel₂ with
    | zero =>
      simp only [get_highest_result_of_seq]
      rw [if_pos (by omega : g.max_runs ≤ g.run_count)]
    | succ n =>
      simp only [get_highest_result_of_seq]
      by_cases hg : g.max_runs ≤ g.run_count
      · rw [if_pos hg, if_pos hg]
      · rw [if_neg hg, if_neg hg]
        by_cases hc :
            condition_to_end_recursion
              (scan_round g.problem_sum g.initial_high_value g.collect_other_results
                low high precision)
              { g with run_count := g.run_count + 1 } = true
        · rw [if_pos hc, if_pos hc]
        · rw [if_neg hc, if_neg hc]
          exact ih n _ _ _ _
            (show g.max_runs ≤ g.run_count + 1 + m by omega)
            (show g.max_runs ≤ g.run_count + 1 + n by omega)

/-- Witness for C5: the default sum-8 run, with its concrete sorted and
deduplicated other list. -/
theorem C5_other_results_strictly_descending_witness :
    (NumberPairingProblem.solve_with 8 true).results.map Results.other =
        some (some [⟨(7/4), 8⟩, ⟨(13/8), 8⟩, ⟨(25/16), 8⟩, ⟨(3/2), 8⟩,
          ⟨(23/16), 8⟩, ⟨2, 8⟩, ⟨(11/8), 8⟩, ⟨(21/16), 8⟩, ⟨(5/4), 8⟩, ⟨1, 8⟩,
          ⟨(5/2), 8⟩, ⟨3, 8⟩, ⟨4, 8⟩]) ∧
      ([⟨(7/4), 8⟩, ⟨(13/8), 8⟩, ⟨(25/16), 8⟩, ⟨(3/2), 8⟩, ⟨(23/16), 8⟩,
          ⟨2, 8⟩, ⟨(11/8), 8⟩, ⟨(21/16), 8⟩, ⟨(5/4), 8⟩, ⟨1, 8⟩, ⟨(5/2), 8⟩,
          ⟨3, 8⟩, ⟨4, 8⟩] : List NumberPairing).Chain'
          (fun a b => b.result < a.result) ∧
        ([⟨(7/4), 8⟩, ⟨(13/8), 8⟩, ⟨(25/16), 8⟩, ⟨(3/2), 8⟩, ⟨(23/16), 8⟩,
          ⟨2, 8⟩, ⟨(11/8), 8⟩, ⟨(21/16), 8⟩, ⟨(5/4), 8⟩, ⟨1, 8⟩, ⟨(5/2), 8⟩,
          ⟨3, 8⟩, ⟨4, 8⟩] : List NumberPairing).Pairwise
          (fun a b => a.eq b = false) :=
  ⟨by rw [solve8t]; rfl, C5_other_results_strictly_descending 8 _ (by rw [solve8t]; rfl)⟩
